import Mathlib

/-!
Verification of the grain-boundary crystal-structure builder.

This file gives a shallow embedding, over exact rational arithmetic, of the
parts of `structure.py` and `collision_removal.py` that the checked claims
are about:

* the dual-representation `Structure` entity and its `reconcile` operation;
* `grow_to_supercell`, the breadth-first supercell growth;
* `combine_structures`;
* the minimum-distance safety predicate `apart_by_safe_distance` and the
  three collision-removal passes `remove_collision_within_region`,
  `remove_collision_between_regions` and `remove_collision_at_corners`.

Machine floats of the original are embedded as exact rationals; the
comparison `‖a - b‖ ≥ d` on Euclidean norms is embedded square-free as
`d ≤ 0 ∨ d · d ≤ ‖a - b‖²`, which is equivalent over the reals and avoids
irrational square roots.  The helper functions `valid_direct_vec` and
`cartesian_product` live in `geometry.py`, which is not part of the
sources; they are modelled from the spec where indicated.

The viewing-angle metadata of a `Structure` (`view_agls`, built with
`numpy.argsort` over floating-point norms) is advisory only: it is neither
read nor written by any of the operations above, and is omitted from the
embedded record.
-/

set_option allowUnsafeReducibility true in
attribute [semireducible] Rat.mul Rat.add Rat.sub Rat.inv

/-- A 3-vector of exact rationals, standing for a numpy length-3 float row. -/
structure Vec3 where
  x : ℚ
  y : ℚ
  z : ℚ
deriving DecidableEq, Repr

/-- Componentwise vector sum, `u + v` on numpy rows. -/
def Vec3.add (u v : Vec3) : Vec3 := ⟨u.x + v.x, u.y + v.y, u.z + v.z⟩

/-- Componentwise vector difference, `u - v` on numpy rows. -/
def Vec3.sub (u v : Vec3) : Vec3 := ⟨u.x - v.x, u.y - v.y, u.z - v.z⟩

/-- A 3×3 matrix as three rows; in `structure.py` each row of
`self.coordinates` is one lattice basis vector. -/
structure Mat3 where
  r0 : Vec3
  r1 : Vec3
  r2 : Vec3
deriving DecidableEq, Repr

/-- Row vector times matrix: `np.dot(v, m)` for a length-3 `v` and 3×3 `m`. -/
def vecMulMat (v : Vec3) (m : Mat3) : Vec3 :=
  ⟨v.x * m.r0.x + v.y * m.r1.x + v.z * m.r2.x,
   v.x * m.r0.y + v.y * m.r1.y + v.z * m.r2.y,
   v.x * m.r0.z + v.y * m.r1.z + v.z * m.r2.z⟩

/-- Determinant of a 3×3 matrix, `np.linalg.det`. -/
def Mat3.det (m : Mat3) : ℚ :=
  m.r0.x * (m.r1.y * m.r2.z - m.r1.z * m.r2.y)
    - m.r0.y * (m.r1.x * m.r2.z - m.r1.z * m.r2.x)
    + m.r0.z * (m.r1.x * m.r2.y - m.r1.y * m.r2.x)

/-- Matrix inverse by the adjugate formula, `np.linalg.inv`.  Total: on a
singular matrix (where numpy raises `LinAlgError`) the entries divide by
zero and are junk; every theorem that needs the inverse carries a
`det ≠ 0` hypothesis. -/
def Mat3.inv (m : Mat3) : Mat3 :=
  ⟨⟨(m.r1.y * m.r2.z - m.r1.z * m.r2.y) / m.det,
    (m.r0.z * m.r2.y - m.r0.y * m.r2.z) / m.det,
    (m.r0.y * m.r1.z - m.r0.z * m.r1.y) / m.det⟩,
   ⟨(m.r1.z * m.r2.x - m.r1.x * m.r2.z) / m.det,
    (m.r0.x * m.r2.z - m.r0.z * m.r2.x) / m.det,
    (m.r0.z * m.r1.x - m.r0.x * m.r1.z) / m.det⟩,
   ⟨(m.r1.x * m.r2.y - m.r1.y * m.r2.x) / m.det,
    (m.r0.y * m.r2.x - m.r0.x * m.r2.y) / m.det,
    (m.r0.x * m.r1.y - m.r0.y * m.r1.x) / m.det⟩⟩

/-- Componentwise matrix sum. -/
def Mat3.add (m n : Mat3) : Mat3 :=
  ⟨m.r0.add n.r0, m.r1.add n.r1, m.r2.add n.r2⟩

/-- Scalar multiple of a matrix. -/
def Mat3.smul (c : ℚ) (m : Mat3) : Mat3 :=
  ⟨⟨c * m.r0.x, c * m.r0.y, c * m.r0.z⟩,
   ⟨c * m.r1.x, c * m.r1.y, c * m.r1.z⟩,
   ⟨c * m.r2.x, c * m.r2.y, c * m.r2.z⟩⟩

/-- The identity matrix, `np.identity(3)`. -/
def mat3Id : Mat3 := ⟨⟨1, 0, 0⟩, ⟨0, 1, 0⟩, ⟨0, 0, 1⟩⟩

/-- One atom record of the structured numpy arrays `direct` / `cartesian`:
a `position` row and an `element` symbol. -/
structure Atom where
  position : Vec3
  element : String
deriving DecidableEq, Repr

/-- The per-element-pair minimum-distance table `min_dist_dict`: a Python
dict keyed by ordered pairs of element symbols; `none` models a missing
key (`KeyError`). -/
def MinDistTable : Type := String × String → Option ℚ

/-- Squared Euclidean distance between two positions. -/
def distSq (u v : Vec3) : ℚ :=
  (u.x - v.x) * (u.x - v.x) + (u.y - v.y) * (u.y - v.y) + (u.z - v.z) * (u.z - v.z)

/-- Exact embedding of the float comparison `dist >= min_dist` where
`dist = sqrt s` with `s` the squared distance: since `dist ≥ 0`, it holds
iff `min_dist ≤ 0` or `min_dist² ≤ s`. -/
def distGe (s : ℚ) (minDist : ℚ) : Bool :=
  decide (minDist ≤ 0 ∨ minDist * minDist ≤ s)

/-- `apart_by_safe_distance(min_dist_dict, atom_1, atom_2)` from
`collision_removal.py`: look up `(e₁, e₂)`; on `KeyError` fall back to
`(e₂, e₁)`; if both are missing the pair is unconstrained and safe;
otherwise compare the distance against the threshold found. -/
def apartBySafeDistance (tbl : MinDistTable) (atom1 atom2 : Atom) : Bool :=
  match tbl (atom1.element, atom2.element) with
  | some minDist => distGe (distSq atom1.position atom2.position) minDist
  | none =>
    match tbl (atom2.element, atom1.element) with
    | some minDist => distGe (distSq atom1.position atom2.position) minDist
    | none => true

/-- A table never holding contradictory entries for the two orderings of
one element pair: whenever both `(A,B)` and `(B,A)` are present they carry
the same threshold.  (A table that lists each unordered pair once, as the
spec's data model intends, satisfies this vacuously.) -/
def SymmetricTable (tbl : MinDistTable) : Prop :=
  ∀ e1 e2 d1 d2, tbl (e1, e2) = some d1 → tbl (e2, e1) = some d2 → d1 = d2

theorem distSq_comm (u v : Vec3) : distSq u v = distSq v u := by
  unfold distSq; ring

/-- Lexicographic comparison of character lists by code point; the order
numpy uses on the byte-string `element` field.  (Defined from scratch
because the library's `String.ltb` does not reduce definitionally.) -/
def charListLE : List Char → List Char → Bool
  | [], _ => true
  | _ :: _, [] => false
  | c :: cs, d :: ds =>
    if c.val < d.val then true
    else if d.val < c.val then false
    else charListLE cs ds

/-- Lexicographic order on element symbols. -/
def strLE (a b : String) : Bool := charListLE a.data b.data

/-- Insertion step for the element-keyed in-place sorts (`.sort(order=...)`
of numpy): insert `a` before the first entry `b` with `le a b`. -/
def insertAtomBy (le : Atom → Atom → Bool) (a : Atom) : List Atom → List Atom
  | [] => [a]
  | b :: l => if le a b then a :: b :: l else b :: insertAtomBy le a l

/-- Insertion sort on atom records; a permutation-faithful stand-in for
numpy's in-place record sort (no claim depends on how equal keys are
tie-broken). -/
def sortAtomsBy (le : Atom → Atom → Bool) : List Atom → List Atom
  | [] => []
  | a :: l => insertAtomBy le a (sortAtomsBy le l)

/-- `self.direct.sort(order='element')` / `self.cartesian.sort(order='element')`:
sort the atom records by element symbol. -/
def sortByElement (l : List Atom) : List Atom :=
  sortAtomsBy (fun a b => strLE a.element b.element) l

/-- Full-record lexicographic comparison (position fields first, then
element), the dtype order `[('position', ...), ('element', ...)]` that
`np.unique` sorts a structured array by. -/
def atomRecLE (a b : Atom) : Bool :=
  if a.position.x = b.position.x then
    if a.position.y = b.position.y then
      if a.position.z = b.position.z then strLE a.element b.element
      else decide (a.position.z < b.position.z)
    else decide (a.position.y < b.position.y)
  else decide (a.position.x < b.position.x)

/-- Collapse adjacent equal records of a sorted list. -/
def dedupAdjacent : List Atom → List Atom
  | [] => []
  | [a] => [a]
  | a :: b :: l => if a = b then dedupAdjacent (b :: l) else a :: dedupAdjacent (b :: l)

/-- `np.unique` on a record array: sort by the full record, drop exact
duplicates. -/
def npUnique (l : List Atom) : List Atom :=
  dedupAdjacent (sortAtomsBy atomRecLE l)

/-- The central entity of `structure.py`.  `coordinates` rows are the
lattice basis vectors; `direct` holds fractional positions, `cartesian`
absolute ones.  (`elements` is derived data and `view_agls` advisory
viewing-angle data; neither is touched by the embedded operations.) -/
structure Structure where
  comment : String
  coordinates : Mat3
  direct : List Atom
  cartesian : List Atom
deriving DecidableEq, Repr

/-- The `according_to='C'` branch of `Structure.reconcile`: sort
`cartesian` by element, then re-derive `direct` as
`cartesian · coordinates⁻¹`. -/
def reconcileC (s : Structure) : Structure :=
  { s with
    cartesian := sortByElement s.cartesian
    direct := (sortByElement s.cartesian).map
      (fun a => { a with position := vecMulMat a.position (Mat3.inv s.coordinates) }) }

/-- The `according_to='D'` branch of `Structure.reconcile`: sort `direct`
by element, then re-derive `cartesian` as `direct · coordinates`. -/
def reconcileD (s : Structure) : Structure :=
  { s with
    direct := sortByElement s.direct
    cartesian := (sortByElement s.direct).map
      (fun a => { a with position := vecMulMat a.position s.coordinates }) }

/-- `Structure.reconcile(according_to)`: dispatch on the source of truth,
raising `ValueError` on any other argument. -/
def reconcile (s : Structure) (accordingTo : String) : Except String Structure :=
  if accordingTo = "C" then Except.ok (reconcileC s)
  else if accordingTo = "D" then Except.ok (reconcileD s)
  else Except.error "Argument according_to should either be \"C\" or \"D\"."

theorem vecMulMat_inv_cancel (m : Mat3) (hdet : Mat3.det m ≠ 0) (v : Vec3) :
    vecMulMat (vecMulMat v (Mat3.inv m)) m = v := by
  obtain ⟨⟨a, b, c⟩, ⟨d, e, f⟩, ⟨g, h, i⟩⟩ := m
  obtain ⟨vx, vy, vz⟩ := v
  simp only [Mat3.det] at hdet
  simp only [vecMulMat, Mat3.inv, Mat3.det, Vec3.mk.injEq]
  refine ⟨?_, ?_, ?_⟩ <;> (field_simp; ring)

/-- The `while` loop of `remove_collision_within_region(reg, min_dist_dict)`:
at index `i`, keep `reg[0:i+1]`, and drop from `reg[i+1:]` every atom not at
a safe distance from `reg[i]`; then advance `i`. -/
def removeCollisionWithinRegionLoop (tbl : MinDistTable) (i : ℕ) (reg : List Atom) :
    List Atom :=
  if h : i < reg.length - 1 then
    removeCollisionWithinRegionLoop tbl (i + 1)
      (reg.take (i + 1) ++ (reg.drop (i + 1)).filter
        (fun x => apartBySafeDistance tbl x (reg.get ⟨i, by omega⟩)))
  else reg
termination_by reg.length - i
decreasing_by
  have h1 : (reg.take (i + 1)).length = i + 1 := by
    rw [List.length_take]; omega
  have h2 : ((reg.drop (i + 1)).filter
      (fun x => apartBySafeDistance tbl x (reg.get ⟨i, by omega⟩))).length ≤
      reg.length - (i + 1) := by
    calc _ ≤ (reg.drop (i + 1)).length := List.length_filter_le _ _
    _ = reg.length - (i + 1) := List.length_drop _ _
  simp only [List.length_append, h1]
  omega

/-- `remove_collision_within_region(reg, min_dist_dict)`: run the scan loop
from index 0. -/
def removeCollisionWithinRegion (tbl : MinDistTable) (reg : List Atom) : List Atom :=
  removeCollisionWithinRegionLoop tbl 0 reg

/-- Head-recursive reformulation of the within-region scan: keep the head,
filter the tail by safety against it, recurse.  Proved equal to the
indexed loop in `removeCollisionWithinRegionLoop_eq`. -/
def removeCollisionScan (tbl : MinDistTable) : List Atom → List Atom
  | [] => []
  | atm :: rest =>
    atm :: removeCollisionScan tbl (rest.filter (fun x => apartBySafeDistance tbl x atm))
termination_by l => l.length
decreasing_by
  simpa using Nat.lt_succ_of_le (List.length_filter_le _ _)

/-- Modelled from the spec: the greedy left-to-right survivor filter of
§4.4 — an atom is kept iff it is at a safe distance from every
earlier-indexed atom already kept (`kept` accumulates the survivors so
far). -/
def greedySurvivors (tbl : MinDistTable) : List Atom → List Atom → List Atom
  | _, [] => []
  | kept, atm :: rest =>
    if kept.all (fun k => apartBySafeDistance tbl atm k) then
      atm :: greedySurvivors tbl (kept ++ [atm]) rest
    else greedySurvivors tbl kept rest

/-- `remove_collision_between_regions(reg_1, reg_2, min_dist_dict)`: for
each atom of `reg_1` (stopping early once `reg_2` is empty), drop from
`reg_2` every atom not at a safe distance from it; `reg_1` itself is
untouched. -/
def removeCollisionBetweenRegions (tbl : MinDistTable) :
    List Atom → List Atom → List Atom
  | [], reg2 => reg2
  | atm :: rest, reg2 =>
    if reg2.length ≤ 0 then reg2
    else removeCollisionBetweenRegions tbl rest
      (reg2.filter (fun x => apartBySafeDistance tbl x atm))

/-- Structural induction principle following the call tree of
`removeCollisionScan`. -/
theorem removeCollisionScan_induction (tbl : MinDistTable) (motive : List Atom → Prop)
    (base : motive [])
    (step : ∀ atm rest,
      motive (rest.filter (fun x => apartBySafeDistance tbl x atm)) →
      motive (atm :: rest)) :
    ∀ l, motive l := by
  have key : ∀ n (l : List Atom), l.length ≤ n → motive l := by
    intro n
    induction n with
    | zero =>
      intro l hl
      cases l with
      | nil => exact base
      | cons a rest => simp at hl
    | succ n ih =>
      intro l hl
      cases l with
      | nil => exact base
      | cons atm rest =>
        refine step atm rest (ih _ ?_)
        calc (rest.filter _).length ≤ rest.length := List.length_filter_le _ _
        _ ≤ n := by simpa using hl
  exact fun l => key l.length l le_rfl

theorem removeCollisionScan_nil (tbl : MinDistTable) : removeCollisionScan tbl [] = [] := by
  simp [removeCollisionScan]

theorem removeCollisionScan_cons (tbl : MinDistTable) (atm : Atom) (rest : List Atom) :
    removeCollisionScan tbl (atm :: rest) =
      atm :: removeCollisionScan tbl
        (rest.filter (fun x => apartBySafeDistance tbl x atm)) := by
  simp [removeCollisionScan]

theorem removeCollisionScan_subset (tbl : MinDistTable) :
    ∀ l, ∀ x ∈ removeCollisionScan tbl l, x ∈ l := by
  refine removeCollisionScan_induction tbl _ ?_ ?_
  · simp [removeCollisionScan_nil]
  · intro atm rest ih x hx
    rw [removeCollisionScan_cons] at hx
    rcases List.mem_cons.mp hx with hx2 | hx2
    · simp [hx2]
    · exact List.mem_cons_of_mem _ (List.mem_of_mem_filter (ih x hx2))

theorem removeCollisionScan_short (tbl : MinDistTable) (l : List Atom)
    (hl : l.length ≤ 1) : removeCollisionScan tbl l = l := by
  match l, hl with
  | [], _ => simp [removeCollisionScan_nil]
  | [a], _ => simp [removeCollisionScan_cons, removeCollisionScan_nil]

theorem removeCollisionWithinRegionLoop_eq_aux (tbl : MinDistTable) :
    ∀ n i (reg : List Atom), reg.length - i ≤ n →
      removeCollisionWithinRegionLoop tbl i reg =
        reg.take i ++ removeCollisionScan tbl (reg.drop i) := by
  intro n
  induction n with
  | zero =>
    intro i reg hn
    rw [removeCollisionWithinRegionLoop]
    rw [dif_neg (by omega)]
    rw [removeCollisionScan_short tbl _ (by rw [List.length_drop]; omega)]
    exact (List.take_append_drop i reg).symm
  | succ n ih =>
    intro i reg hn
    by_cases h : i < reg.length - 1
    · have hi : i < reg.length := by omega
      rw [removeCollisionWithinRegionLoop]
      rw [dif_pos h]
      set atm := reg.get ⟨i, by omega⟩ with hatm
      set prev := reg.take (i + 1) with hprev
      set filtered := (reg.drop (i + 1)).filter
        (fun x => apartBySafeDistance tbl x atm) with hfiltered
      have hprevlen : prev.length = i + 1 := by
        rw [hprev, List.length_take]; omega
      have hlen2 : (prev ++ filtered).length ≤ reg.length := by
        have : filtered.length ≤ (reg.drop (i + 1)).length := List.length_filter_le _ _
        simp only [List.length_append, hprevlen]
        have hd : (reg.drop (i + 1)).length = reg.length - (i + 1) := List.length_drop _ _
        omega
      rw [ih (i + 1) (prev ++ filtered) (by omega)]
      have htake : (prev ++ filtered).take (i + 1) = prev := by
        rw [← hprevlen]; exact List.take_left prev filtered
      have hdrop : (prev ++ filtered).drop (i + 1) = filtered := by
        rw [← hprevlen]; exact List.drop_left prev filtered
      rw [htake, hdrop]
      have hdropi : reg.drop i = atm :: reg.drop (i + 1) := by
        rw [hatm]
        exact List.drop_eq_getElem_cons hi
      rw [hdropi, removeCollisionScan_cons]
      have htakesucc : prev = reg.take i ++ [atm] := by
        rw [hprev, hatm, ← List.concat_eq_append]
        exact (List.take_concat_get reg i hi).symm
      rw [htakesucc]
      simp [hfiltered]
    · rw [removeCollisionWithinRegionLoop]
      rw [dif_neg h]
      have hle : (reg.drop i).length ≤ 1 := by
        rw [List.length_drop]; omega
      rw [removeCollisionScan_short tbl _ hle]
      exact (List.take_append_drop i reg).symm

/-- The indexed `while` loop of the source equals the head-recursive scan. -/
theorem removeCollisionWithinRegion_eq_scan (tbl : MinDistTable) (reg : List Atom) :
    removeCollisionWithinRegion tbl reg = removeCollisionScan tbl reg := by
  unfold removeCollisionWithinRegion
  rw [removeCollisionWithinRegionLoop_eq_aux tbl reg.length 0 reg (by omega)]
  simp

theorem greedySurvivors_filter_mem (tbl : MinDistTable) :
    ∀ (l kept : List Atom) (k : Atom), k ∈ kept →
      greedySurvivors tbl kept (l.filter (fun x => apartBySafeDistance tbl x k)) =
        greedySurvivors tbl kept l := by
  intro l
  induction l with
  | nil => intro kept k _; simp
  | cons a rest ih =>
    intro kept k hk
    by_cases ha : apartBySafeDistance tbl a k = true
    · simp only [List.filter_cons, ha, if_true]
      by_cases hall : kept.all (fun c => apartBySafeDistance tbl a c)
      · simp only [greedySurvivors, hall, if_true]
        rw [ih (kept ++ [a]) k (List.mem_append_left _ hk)]
      · simp only [greedySurvivors, hall, if_false]
        exact ih kept k hk
    · simp only [List.filter_cons, ha, if_false]
      have hall : kept.all (fun c => apartBySafeDistance tbl a c) = false := by
        rw [List.all_eq_false]
        exact ⟨k, hk, by simpa using ha⟩
      simp only [greedySurvivors, hall]
      simp only [Bool.false_eq_true, if_false]
      exact ih kept k hk

theorem greedySurvivors_eq_scan_aux (tbl : MinDistTable) :
    ∀ l kept, (∀ x ∈ l, ∀ k ∈ kept, apartBySafeDistance tbl x k) →
      greedySurvivors tbl kept l = removeCollisionScan tbl l := by
  refine removeCollisionScan_induction tbl _ ?_ ?_
  · intro kept _
    simp [greedySurvivors, removeCollisionScan_nil]
  · intro atm rest ih kept hsafe
    have hall : kept.all (fun c => apartBySafeDistance tbl atm c) := by
      rw [List.all_eq_true]
      intro k hk
      exact hsafe atm (by simp) k hk
    rw [removeCollisionScan_cons]
    simp only [greedySurvivors, hall, if_true]
    rw [← greedySurvivors_filter_mem tbl rest (kept ++ [atm]) atm
      (List.mem_append_right _ (by simp))]
    congr 1
    refine ih (kept ++ [atm]) ?_
    intro x hx k hk
    rcases List.mem_append.mp hk with hk2 | hk2
    · exact hsafe x (List.mem_cons_of_mem _ (List.mem_of_mem_filter hx)) k hk2
    · have hkeq : k = atm := by simpa using hk2
      subst hkeq
      simpa using (List.mem_filter.mp hx).2

/-- The within-region pass computes exactly the spec's greedy survivor
filter (started with an empty survivor pool). -/
theorem scan_eq_greedySurvivors (tbl : MinDistTable) (reg : List Atom) :
    removeCollisionScan tbl reg = greedySurvivors tbl [] reg := by
  exact (greedySurvivors_eq_scan_aux tbl reg [] (by simp)).symm

theorem removeCollisionScan_idem (tbl : MinDistTable) :
    ∀ l, removeCollisionScan tbl (removeCollisionScan tbl l) =
      removeCollisionScan tbl l := by
  refine removeCollisionScan_induction tbl _ ?_ ?_
  · simp [removeCollisionScan_nil]
  · intro atm rest ih
    rw [removeCollisionScan_cons, removeCollisionScan_cons]
    have hfix : (removeCollisionScan tbl
        (rest.filter (fun x => apartBySafeDistance tbl x atm))).filter
        (fun x => apartBySafeDistance tbl x atm) =
        removeCollisionScan tbl (rest.filter (fun x => apartBySafeDistance tbl x atm)) := by
      refine List.filter_eq_self.mpr ?_
      intro x hx
      have hmem := removeCollisionScan_subset tbl _ x hx
      simpa using (List.mem_filter.mp hmem).2
    rw [hfix, ih]

/-- Claim C6: `remove_collision_within_region` returns the greedy
left-to-right survivor filter — an atom survives iff it is at a safe
distance from every earlier-indexed surviving atom (so the earlier atom of
an unsafe pair always wins, and an atom can never be removed by a later
atom it has already eliminated) — and in particular the head of a
non-empty region always survives. -/
theorem removeCollisionWithinRegion_greedy (tbl : MinDistTable) (reg : List Atom) :
    removeCollisionWithinRegion tbl reg = greedySurvivors tbl [] reg ∧
      (removeCollisionWithinRegion tbl reg).head? = reg.head? := by
  constructor
  · rw [removeCollisionWithinRegion_eq_scan, scan_eq_greedySurvivors]
  · rw [removeCollisionWithinRegion_eq_scan]
    cases reg with
    | nil => rw [removeCollisionScan_nil]
    | cons atm rest => rw [removeCollisionScan_cons]; rfl

/-- Claim C7: `remove_collision_within_region` is idempotent — running it a
second time on its own output removes nothing further. -/
theorem removeCollisionWithinRegion_idem (tbl : MinDistTable) (reg : List Atom) :
    removeCollisionWithinRegion tbl (removeCollisionWithinRegion tbl reg) =
      removeCollisionWithinRegion tbl reg := by
  rw [removeCollisionWithinRegion_eq_scan, removeCollisionWithinRegion_eq_scan]
  exact removeCollisionScan_idem tbl reg

theorem removeCollisionBetweenRegions_filter (tbl : MinDistTable) :
    ∀ (reg1 reg2 : List Atom),
      removeCollisionBetweenRegions tbl reg1 reg2 =
        reg2.filter (fun x => reg1.all (fun atm => apartBySafeDistance tbl x atm)) := by
  intro reg1
  induction reg1 with
  | nil =>
    intro reg2
    simp [removeCollisionBetweenRegions]
  | cons atm rest ih =>
    intro reg2
    by_cases h2 : reg2.length ≤ 0
    · have : reg2 = [] := List.eq_nil_of_length_eq_zero (by omega)
      subst this
      simp [removeCollisionBetweenRegions]
    · simp only [removeCollisionBetweenRegions, h2, if_false]
      rw [ih]
      rw [List.filter_filter]
      apply List.filter_congr
      intro x _
      simp [Bool.and_comm]

/-- Claim C8: `remove_collision_between_regions` returns the subsequence of
the second region consisting of exactly the atoms at a safe distance from
every atom of the first region; it never grows the second region (and the
first region, passed by value, is returned nowhere and so never altered). -/
theorem removeCollisionBetweenRegions_spec (tbl : MinDistTable) (reg1 reg2 : List Atom) :
    removeCollisionBetweenRegions tbl reg1 reg2 =
        reg2.filter (fun x => reg1.all (fun atm => apartBySafeDistance tbl x atm)) ∧
      (removeCollisionBetweenRegions tbl reg1 reg2).Sublist reg2 ∧
      (removeCollisionBetweenRegions tbl reg1 reg2).length ≤ reg2.length := by
  have h := removeCollisionBetweenRegions_filter tbl reg1 reg2
  refine ⟨h, ?_, ?_⟩
  · rw [h]; exact List.filter_sublist reg2
  · rw [h]; exact List.length_filter_le _ _

/-- Claim C4 (amended): on any table free of contradictory dual entries,
the safety predicate is symmetric in its two atoms. -/
theorem apartBySafeDistance_symm (tbl : MinDistTable) (hsym : SymmetricTable tbl)
    (a1 a2 : Atom) :
    apartBySafeDistance tbl a1 a2 = apartBySafeDistance tbl a2 a1 := by
  unfold apartBySafeDistance
  rw [distSq_comm a2.position a1.position]
  cases h12 : tbl (a1.element, a2.element) with
  | some d1 =>
    cases h21 : tbl (a2.element, a1.element) with
    | some d2 => rw [hsym a1.element a2.element d1 d2 h12 h21]
    | none => rfl
  | none =>
    cases h21 : tbl (a2.element, a1.element) with
    | some d2 => rfl
    | none => rfl

/-- A concrete table holding contradictory entries for the two orderings of
the pair (A, B). -/
def asymTable : MinDistTable := fun p =>
  if p = ("A", "B") then some 1 else if p = ("B", "A") then some 3 else none

/-- A concrete table with entries only on the diagonal, hence symmetric. -/
def diagTable : MinDistTable := fun p =>
  if p.1 = p.2 then some 1 else none

/-- Two concrete atoms of elements A and B at distance 2. -/
def atomA : Atom := ⟨⟨0, 0, 0⟩, "A"⟩

/-- Second concrete atom, see `atomA`. -/
def atomB : Atom := ⟨⟨2, 0, 0⟩, "B"⟩

/-- Claim C4 (counterexample): with both orderings of (A, B) present at
different thresholds, the safety predicate of the source is NOT symmetric:
at distance 2 the (A,B) threshold 1 passes while the (B,A) threshold 3
fails, so the two argument orders disagree. -/
theorem apartBySafeDistance_not_symm :
    apartBySafeDistance asymTable atomA atomB = true ∧
      apartBySafeDistance asymTable atomB atomA = false := by
  constructor <;> decide

/-- Witness for `apartBySafeDistance_symm` at the concrete table
`diagTable` and atoms `atomA`, `atomB`. -/
theorem apartBySafeDistance_symm_witness :
    SymmetricTable diagTable ∧
      apartBySafeDistance diagTable atomA atomB = apartBySafeDistance diagTable atomB atomA := by
  have hs : SymmetricTable diagTable := by
    intro e1 e2 d1 d2 h1 h2
    unfold diagTable at h1 h2
    by_cases h : e1 = e2
    · subst h
      rw [if_pos rfl] at h1 h2
      rw [(Option.some.inj h1).symm, (Option.some.inj h2).symm]
    · rw [if_neg h] at h1
      exact absurd h1 (by simp)
  exact ⟨hs, apartBySafeDistance_symm diagTable hs atomA atomB⟩

theorem insertAtomBy_perm (le : Atom → Atom → Bool) (a : Atom) :
    ∀ l : List Atom, (insertAtomBy le a l).Perm (a :: l) := by
  intro l
  induction l with
  | nil => simp [insertAtomBy]
  | cons b rest ih =>
    unfold insertAtomBy
    by_cases h : le a b
    · rw [if_pos h]
    · rw [if_neg h]
      exact (List.Perm.cons b ih).trans (List.Perm.swap a b rest)

theorem sortAtomsBy_perm (le : Atom → Atom → Bool) :
    ∀ l : List Atom, (sortAtomsBy le l).Perm l := by
  intro l
  induction l with
  | nil => simp [sortAtomsBy]
  | cons a rest ih =>
    unfold sortAtomsBy
    exact (insertAtomBy_perm le a (sortAtomsBy le rest)).trans (List.Perm.cons a ih)

theorem forall₂_map_self {P : Atom → Atom → Prop} (f : Atom → Atom) :
    ∀ l : List Atom, (∀ a ∈ l, P a (f a)) → List.Forall₂ P l (l.map f) := by
  intro l
  induction l with
  | nil => intro _; simp
  | cons a rest ih =>
    intro h
    exact List.Forall₂.cons (h a (by simp))
      (ih (fun b hb => h b (List.mem_cons_of_mem _ hb)))

theorem forall₂_map_self_left {P : Atom → Atom → Prop} (f : Atom → Atom) :
    ∀ l : List Atom, (∀ a ∈ l, P (f a) a) → List.Forall₂ P (l.map f) l := by
  intro l
  induction l with
  | nil => intro _; simp
  | cons a rest ih =>
    intro h
    exact List.Forall₂.cons (h a (by simp))
      (ih (fun b hb => h b (List.mem_cons_of_mem _ hb)))

/-- Claim C1: immediately after a successful `reconcile` (source of truth
'C' or 'D') on a Structure with invertible lattice basis, the two atom
collections are aligned record by record, and every cartesian position is
the matching direct position times the lattice basis. -/
theorem reconcile_consistency (s : Structure) (accordingTo : String) (s2 : Structure)
    (hdet : Mat3.det s.coordinates ≠ 0)
    (hrec : reconcile s accordingTo = Except.ok s2) :
    List.Forall₂
      (fun c d => c.position = vecMulMat d.position s2.coordinates ∧ c.element = d.element)
      s2.cartesian s2.direct := by
  unfold reconcile at hrec
  by_cases hC : accordingTo = "C"
  · rw [if_pos hC] at hrec
    have hs2 : s2 = reconcileC s := (Except.ok.inj hrec).symm
    subst hs2
    unfold reconcileC
    refine forall₂_map_self _ _ ?_
    intro a _
    refine ⟨?_, rfl⟩
    exact (vecMulMat_inv_cancel s.coordinates hdet a.position).symm
  · rw [if_neg hC] at hrec
    by_cases hD : accordingTo = "D"
    · rw [if_pos hD] at hrec
      have hs2 : s2 = reconcileD s := (Except.ok.inj hrec).symm
      subst hs2
      unfold reconcileD
      refine forall₂_map_self_left _ _ ?_
      intro a _
      exact ⟨rfl, rfl⟩
    · rw [if_neg hD] at hrec
      exact absurd hrec (by simp)

/-- A small concrete Structure with an invertible, non-trivial basis. -/
def witnessStruct : Structure :=
  { comment := "w"
    coordinates := ⟨⟨1, 0, 0⟩, ⟨0, 2, 0⟩, ⟨1, 0, 1⟩⟩
    direct := [⟨⟨1, 2, 3⟩, "X"⟩]
    cartesian := [⟨⟨3, 4, 1⟩, "X"⟩] }

/-- Witness for `reconcile_consistency`: both hypotheses hold at
`witnessStruct` with source of truth 'C', and the conclusion follows by the
theorem itself. -/
theorem reconcile_consistency_witness :
    Mat3.det witnessStruct.coordinates ≠ 0 ∧
      reconcile witnessStruct "C" = Except.ok (reconcileC witnessStruct) ∧
      List.Forall₂
        (fun c d => c.position = vecMulMat d.position (reconcileC witnessStruct).coordinates ∧
          c.element = d.element)
        (reconcileC witnessStruct).cartesian (reconcileC witnessStruct).direct :=
  ⟨by decide, rfl, reconcile_consistency witnessStruct "C" (reconcileC witnessStruct)
    (by decide) rfl⟩

/-- `Structure.combine_structures(struct_1, struct_2)`: halve both
structures' fractional z, shift `struct_2` up by 1/2, concatenate the
direct collections into `struct_1`, double the third lattice vector,
join the comments, and reconcile from the direct representation.  (The
Python mutates `struct_1` in place and returns it; the embedding returns
that final value.) -/
def combineStructures (s1 s2 : Structure) : Structure :=
  reconcileD
    { s1 with
      direct :=
        s1.direct.map (fun a => { a with position := ⟨a.position.x, a.position.y, a.position.z / 2⟩ }) ++
        s2.direct.map (fun a => { a with position := ⟨a.position.x, a.position.y, a.position.z / 2 + 1/2⟩ })
      coordinates := { s1.coordinates with r2 := ⟨2 * s1.coordinates.r2.x, 2 * s1.coordinates.r2.y, 2 * s1.coordinates.r2.z⟩ }
      comment := s1.comment ++ "_" ++ s2.comment }

/-- Claim C10: combining leaves the absolute position of every atom of the
first structure unchanged — the halved fractional z and the doubled third
lattice vector cancel exactly, so (as a multiset, reconciliation re-sorts)
the images of `struct_1`'s atoms under the old basis all appear in the
combined structure's cartesian collection. -/
theorem combineStructures_preserves_first (s1 s2 : Structure) :
    ((s1.direct.map (fun a => Atom.mk (vecMulMat a.position s1.coordinates) a.element) : List Atom) : Multiset Atom) ≤
      ((combineStructures s1 s2).cartesian : Multiset Atom) := by
  unfold combineStructures reconcileD
  set d1 := s1.direct.map (fun a => { a with position := ⟨a.position.x, a.position.y, a.position.z / 2⟩ }) with hd1
  set d2 := s2.direct.map (fun a => { a with position := ⟨a.position.x, a.position.y, a.position.z / 2 + 1/2⟩ }) with hd2
  set newCoords : Mat3 := { s1.coordinates with r2 := ⟨2 * s1.coordinates.r2.x, 2 * s1.coordinates.r2.y, 2 * s1.coordinates.r2.z⟩ } with hnc
  set g : Atom → Atom := fun a => { a with position := vecMulMat a.position newCoords } with hg
  have hperm : ((sortByElement (d1 ++ d2)).map g).Perm ((d1 ++ d2).map g) := by
    unfold sortByElement
    exact (sortAtomsBy_perm _ (d1 ++ d2)).map g
  have hcoe : (((sortByElement (d1 ++ d2)).map g : List Atom) : Multiset Atom) =
      (((d1 ++ d2).map g : List Atom) : Multiset Atom) :=
    Quot.sound hperm
  show _ ≤ (((sortByElement (d1 ++ d2)).map g : List Atom) : Multiset Atom)
  rw [hcoe, List.map_append]
  rw [← Multiset.coe_add]
  have hfirst : d1.map g =
      s1.direct.map (fun a => Atom.mk (vecMulMat a.position s1.coordinates) a.element) := by
    rw [hd1, List.map_map]
    refine List.map_congr_left ?_
    intro a _
    show Atom.mk (vecMulMat ⟨a.position.x, a.position.y, a.position.z / 2⟩ newCoords) a.element =
      Atom.mk (vecMulMat a.position s1.coordinates) a.element
    have hv : vecMulMat ⟨a.position.x, a.position.y, a.position.z / 2⟩ newCoords =
        vecMulMat a.position s1.coordinates := by
      rw [hnc]
      unfold vecMulMat
      rw [Vec3.mk.injEq]
      refine ⟨?_, ?_, ?_⟩ <;> (simp only []; ring)
    rw [hv]
  rw [hfirst]
  exact Multiset.le_add_right _ _

/-- An integer lattice-translation vector of the supercell search. -/
structure Vec3i where
  x : ℤ
  y : ℤ
  z : ℤ
deriving DecidableEq, Repr

/-- Componentwise sum of integer translation vectors. -/
def Vec3i.add (u v : Vec3i) : Vec3i := ⟨u.x + v.x, u.y + v.y, u.z + v.z⟩

/-- The rational row vector of an integer translation vector. -/
def Vec3i.toVec3 (u : Vec3i) : Vec3 := ⟨(u.x : ℚ), (u.y : ℚ), (u.z : ℚ)⟩

/-- The 7 initial "supercell position" seeds of `grow_to_supercell`
(origin and the six ± axis unit steps), in source order. -/
def supercellPos : List Vec3i :=
  [⟨0, 0, 0⟩, ⟨1, 0, 0⟩, ⟨0, 1, 0⟩, ⟨0, 0, 1⟩, ⟨-1, 0, 0⟩, ⟨0, -1, 0⟩, ⟨0, 0, -1⟩]

/-- The 20 search directions of `grow_to_supercell`, in source order. -/
def searchDirs : List Vec3i :=
  [⟨1, 0, 0⟩, ⟨0, 1, 0⟩, ⟨0, 0, 1⟩, ⟨-1, 0, 0⟩, ⟨0, -1, 0⟩,
   ⟨0, 0, -1⟩, ⟨1, 1, 0⟩, ⟨1, -1, 0⟩, ⟨-1, 1, 0⟩, ⟨0, 1, 1⟩,
   ⟨0, 1, -1⟩, ⟨0, -1, 1⟩, ⟨1, 0, 1⟩, ⟨1, 0, -1⟩, ⟨-1, 0, 1⟩,
   ⟨1, 1, 1⟩, ⟨-1, -1, -1⟩, ⟨-1, -1, 1⟩, ⟨-1, 1, -1⟩, ⟨1, -1, -1⟩]

/-- Modelled from the spec: `geometry.valid_direct_vec` /
`inside_unit_cell(point)` of §4.1 — true iff every fractional coordinate
lies in `[0, 1)`.  (`geometry.py` is not among the sources.) -/
def validDirectVec (v : Vec3) : Bool :=
  decide (0 ≤ v.x ∧ v.x < 1 ∧ 0 ≤ v.y ∧ v.y < 1 ∧ 0 ≤ v.z ∧ v.z < 1)

/-- The loop state of the breadth-first supercell search: the work queue
`supercell_pos`, the visited set `searched_pos` (kept as a list), and the
accumulated surviving atoms `enlarged_struct`. -/
structure GrowState where
  queue : List Vec3i
  searched : List Vec3i
  acc : List Atom
deriving DecidableEq, Repr

/-- One shell of the search at translation `p`: shift a copy of the source
cartesian atoms by `p · coords`, re-express them in the target basis via
`inv`, and keep those inside the unit cell. -/
def shellSurvivors (src : List Atom) (coords inv : Mat3) (p : Vec3i) : List Atom :=
  (src.map (fun a =>
    { a with position := vecMulMat (Vec3.add a.position (vecMulMat p.toVec3 coords)) inv })).filter
    (fun a => validDirectVec a.position)

/-- The `while` loop of `grow_to_supercell`, run on explicit fuel so that
it stays structurally recursive (the returned `none` marks fuel
exhaustion; `growFuel` below always suffices, see `growLoopF_exits`).
Loop guard, skip-if-searched, shell shift/filter, and frontier expansion
follow the source line by line. -/
def growLoopF (src : List Atom) (coords inv : Mat3) (maxAtoms : ℕ) :
    ℕ → GrowState → Option GrowState
  | fuel, st =>
    if st.acc.length ≤ maxAtoms then
      match st.queue with
      | [] => some st
      | p :: rest =>
        match fuel with
        | 0 => none
        | fuel + 1 =>
          if p ∈ st.searched then
            growLoopF src coords inv maxAtoms fuel ⟨rest, st.searched, st.acc⟩
          else
            if 0 < (shellSurvivors src coords inv p).length then
              growLoopF src coords inv maxAtoms fuel
                ⟨rest ++ (searchDirs.map (fun d => d.add p)).filter
                    (fun q => decide (q ∉ p :: st.searched)),
                  p :: st.searched, st.acc ++ shellSurvivors src coords inv p⟩
            else
              growLoopF src coords inv maxAtoms fuel ⟨rest, p :: st.searched, st.acc⟩
    else some st

/-- Fuel amply covering the loop's termination measure
`21·(max_atoms + 1 − |acc|) + |queue|`. -/
def growFuel (maxAtoms : ℕ) (st : GrowState) : ℕ :=
  21 * (maxAtoms + 1) + st.queue.length

/-- `Structure.grow_to_supercell(lattice_vecs, max_atoms)`: strengthen the
target's diagonal by 1e-5 and invert it, run the breadth-first search from
the 7 seeds, deduplicate the accumulated atoms; if nothing survived, set
`direct` to the empty collection and raise (`ValueError`, the error
component) — the assignment happens before the emptiness check, as in the
source; otherwise sort by element, install the new lattice vectors, and
reconcile from direct. -/
def growToSupercell (s : Structure) (latticeVecs : Mat3) (maxAtoms : ℕ) :
    Structure × Option String :=
  let newCoordInv := Mat3.inv (Mat3.add latticeVecs (Mat3.smul (1/100000) mat3Id))
  let st0 : GrowState := ⟨supercellPos, [], []⟩
  let stF := (growLoopF s.cartesian s.coordinates newCoordInv maxAtoms
    (growFuel maxAtoms st0) st0).getD st0
  let newDirect := npUnique stF.acc
  if newDirect.length = 0 then
    ({ s with direct := newDirect }, some "Grown super-cell is empty")
  else
    (reconcileD { s with direct := sortByElement newDirect, coordinates := latticeVecs }, none)

/-- Termination measure of the search loop: once the accumulated count
passes `max_atoms` the loop stops, and a productive shell adds at least
one atom while enqueuing at most 20 positions. -/
def growMeasure (maxAtoms : ℕ) (st : GrowState) : ℕ :=
  21 * (maxAtoms + 1 - st.acc.length) + st.queue.length

theorem growLoopF_exits (src : List Atom) (coords inv : Mat3) (maxAtoms : ℕ) :
    ∀ (fuel : ℕ) (st : GrowState), growMeasure maxAtoms st ≤ fuel →
      ∃ st2, growLoopF src coords inv maxAtoms fuel st = some st2 ∧
        (maxAtoms < st2.acc.length ∨ st2.queue = []) := by
  intro fuel
  induction fuel with
  | zero =>
    intro st hm
    rw [growLoopF]
    by_cases hacc : st.acc.length ≤ maxAtoms
    · rw [if_pos hacc]
      cases hq : st.queue with
      | nil => exact ⟨st, rfl, Or.inr hq⟩
      | cons p rest =>
        exfalso
        unfold growMeasure at hm
        rw [hq] at hm
        simp [List.length_cons] at hm
    · rw [if_neg hacc]
      exact ⟨st, rfl, Or.inl (by omega)⟩
  | succ fuel ih =>
    intro st hm
    rw [growLoopF]
    by_cases hacc : st.acc.length ≤ maxAtoms
    · rw [if_pos hacc]
      cases hq : st.queue with
      | nil => exact ⟨st, rfl, Or.inr hq⟩
      | cons p rest =>
        unfold growMeasure at hm
        rw [hq, List.length_cons] at hm
        dsimp only
        by_cases hmem : p ∈ st.searched
        · rw [if_pos hmem]
          refine ih ⟨rest, st.searched, st.acc⟩ ?_
          unfold growMeasure
          dsimp only
          omega
        · rw [if_neg hmem]
          by_cases hsurv : 0 < (shellSurvivors src coords inv p).length
          · rw [if_pos hsurv]
            refine ih _ ?_
            unfold growMeasure
            dsimp only
            simp only [List.length_append]
            have hnext : ((searchDirs.map (fun d => d.add p)).filter
                (fun q => decide (q ∉ p :: st.searched))).length ≤ 20 := by
              calc ((searchDirs.map (fun d => d.add p)).filter
                  (fun q => decide (q ∉ p :: st.searched))).length
                  ≤ (searchDirs.map (fun d => d.add p)).length :=
                    List.length_filter_le _ _
              _ = searchDirs.length := List.length_map _ _
              _ = 20 := rfl
            omega
          · rw [if_neg hsurv]
            refine ih ⟨rest, p :: st.searched, st.acc⟩ ?_
            unfold growMeasure
            dsimp only
            omega
    · rw [if_neg hacc]
      exact ⟨st, rfl, Or.inl (by omega)⟩

/-- A cubic side-1 source cell holding one atom of element X at fractional
(and cartesian) position `p`. -/
def unitCubeStruct (p : Vec3) : Structure :=
  { comment := "c", coordinates := mat3Id, direct := [⟨p, "X"⟩], cartesian := [⟨p, "X"⟩] }

/-- A cubic target cell of side 2. -/
def targetCube2 : Mat3 := Mat3.smul 2 mat3Id

/-- A cubic side-1 cell with two interior atoms, used to exhibit the soft
`max_atoms` cap. -/
def twoAtomStruct : Structure :=
  { comment := "o", coordinates := mat3Id,
    direct := [⟨⟨1/4, 1/4, 1/4⟩, "X"⟩, ⟨⟨3/4, 3/4, 3/4⟩, "X"⟩],
    cartesian := [⟨⟨1/4, 1/4, 1/4⟩, "X"⟩, ⟨⟨3/4, 3/4, 3/4⟩, "X"⟩] }

/-- Claim C5: for every source, target and `max_atoms`, the supercell
search loop terminates without exhausting its fuel bound, and it ends
exactly when the accumulated count exceeds `max_atoms` or the work queue
is empty; and because the cap is only checked between shells the returned
atom count can exceed `max_atoms` — concretely, growing the two-atom cell
into its own lattice with `max_atoms = 0` returns 2 atoms and no error. -/
theorem growToSupercell_terminates_soft_cap :
    (∀ (src : List Atom) (coords inv : Mat3) (maxAtoms : ℕ) (st : GrowState),
      ∃ st2, growLoopF src coords inv maxAtoms (growFuel maxAtoms st) st = some st2 ∧
        (maxAtoms < st2.acc.length ∨ st2.queue = [])) ∧
      (growToSupercell twoAtomStruct mat3Id 0).1.direct.length = 2 ∧
      (growToSupercell twoAtomStruct mat3Id 0).2 = none := by
  refine ⟨?_, by decide, by decide⟩
  intro src coords inv maxAtoms st
  refine growLoopF_exits src coords inv maxAtoms (growFuel maxAtoms st) st ?_
  unfold growMeasure growFuel
  have : maxAtoms + 1 - st.acc.length ≤ maxAtoms + 1 := by omega
  omega

/-- The structure and undersized target lattice on which supercell growth
finds no surviving atom: a side-1/10 target cannot contain the atom at
cartesian (1/2, 1/2, 1/2) under any of the seed translations. -/
def tinyTarget : Mat3 := Mat3.smul (1/10) mat3Id

/-- Claim C2 is violated by the code (code bug): when growth fails with
the empty-result error, `self.direct` has already been overwritten with
the empty deduplicated array before the `ValueError` is raised, so the
failed call does NOT leave the Structure unchanged — `direct` is emptied
(and now disagrees with the untouched `cartesian` and lattice vectors). -/
theorem growToSupercell_failure_mutates_direct :
    growToSupercell (unitCubeStruct ⟨1/2, 1/2, 1/2⟩) tinyTarget 100 =
      ({ unitCubeStruct ⟨1/2, 1/2, 1/2⟩ with direct := [] }, some "Grown super-cell is empty") ∧
      (unitCubeStruct ⟨1/2, 1/2, 1/2⟩).direct ≠ [] := by
  constructor <;> decide

/-- One iteration of the search loop as a step function: `none` when the
loop would stop (count cap exceeded or queue empty), else the next state.
The three branches mirror `growLoopF` exactly. -/
def growStepFn (src : List Atom) (coords inv : Mat3) (maxAtoms : ℕ) (st : GrowState) :
    Option GrowState :=
  if st.acc.length ≤ maxAtoms then
    match st.queue with
    | [] => none
    | p :: rest =>
      if p ∈ st.searched then some ⟨rest, st.searched, st.acc⟩
      else
        if 0 < (shellSurvivors src coords inv p).length then
          some ⟨rest ++ (searchDirs.map (fun d => d.add p)).filter
              (fun q => decide (q ∉ p :: st.searched)),
            p :: st.searched, st.acc ++ shellSurvivors src coords inv p⟩
        else some ⟨rest, p :: st.searched, st.acc⟩
  else none

theorem growLoopF_step (src : List Atom) (coords inv : Mat3) (maxAtoms fuel : ℕ)
    (st st2 : GrowState) (h : growStepFn src coords inv maxAtoms st = some st2) :
    growLoopF src coords inv maxAtoms (fuel + 1) st =
      growLoopF src coords inv maxAtoms fuel st2 := by
  unfold growStepFn at h
  rw [growLoopF]
  by_cases hacc : st.acc.length ≤ maxAtoms
  · rw [if_pos hacc] at h
    rw [if_pos hacc]
    cases hq : st.queue with
    | nil => rw [hq] at h; exact absurd h (by simp)
    | cons p rest =>
      rw [hq] at h
      dsimp only at h
      dsimp only
      by_cases hmem : p ∈ st.searched
      · rw [if_pos hmem] at h
        rw [if_pos hmem]
        rw [Option.some.inj h]
      · rw [if_neg hmem] at h
        rw [if_neg hmem]
        by_cases hsurv : 0 < (shellSurvivors src coords inv p).length
        · rw [if_pos hsurv] at h
          rw [if_pos hsurv]
          rw [Option.some.inj h]
        · rw [if_neg hsurv] at h
          rw [if_neg hsurv]
          rw [Option.some.inj h]
  · rw [if_neg hacc] at h
    exact absurd h (by simp)

theorem growLoopF_exit (src : List Atom) (coords inv : Mat3) (maxAtoms fuel : ℕ)
    (st : GrowState) (h : growStepFn src coords inv maxAtoms st = none) :
    growLoopF src coords inv maxAtoms fuel st = some st := by
  unfold growStepFn at h
  rw [growLoopF]
  by_cases hacc : st.acc.length ≤ maxAtoms
  · rw [if_pos hacc] at h
    rw [if_pos hacc]
    cases hq : st.queue with
    | nil => rfl
    | cons p rest =>
      exfalso
      rw [hq] at h
      dsimp only at h
      by_cases hmem : p ∈ st.searched
      · rw [if_pos hmem] at h; exact absurd h (by simp)
      · rw [if_neg hmem] at h
        by_cases hsurv : 0 < (shellSurvivors src coords inv p).length
        · rw [if_pos hsurv] at h; exact absurd h (by simp)
        · rw [if_neg hsurv] at h; exact absurd h (by simp)
  · rw [if_neg hacc]

/-- The inverse of the diagonally strengthened side-2 target cube, as a
literal: `(2 + 1e-5)⁻¹ = 100000/200001` on the diagonal. -/
def invLit2 : Mat3 := ⟨⟨100000/200001, 0, 0⟩, ⟨0, 100000/200001, 0⟩, ⟨0, 0, 100000/200001⟩⟩

/-- Claim C3 (counterexample): a 1-atom cubic side-1 source grown into the
side-2 target cube with `max_atoms = 100` does NOT always produce 8 atoms.
Fractional coordinates need not lie in [0,1) before reconciliation; with
the atom at fractional (10, 10, 10) no seed translation lands inside the
target cell, so growth raises the empty-supercell error instead. -/
theorem growToSupercell_one_atom_not_eight :
    (growToSupercell (unitCubeStruct ⟨10, 10, 10⟩) targetCube2 100).2 =
      some "Grown super-cell is empty" ∧
      (growToSupercell (unitCubeStruct ⟨10, 10, 10⟩) targetCube2 100).1.direct.length ≠ 8 := by
  constructor <;> decide

/-- The 8 integer-offset translations of the 2×2×2 tiling, in the order
the grown atoms come out (full-record sorted). -/
def offsets2x2x2 : List Vec3i :=
  [⟨0, 0, 0⟩, ⟨0, 0, 1⟩, ⟨0, 1, 0⟩, ⟨0, 1, 1⟩, ⟨1, 0, 0⟩, ⟨1, 0, 1⟩, ⟨1, 1, 0⟩, ⟨1, 1, 1⟩]


/-- Bool certificate that a list of states is the exact step-by-step trace
of the search loop from `st` (each list entry is the `growStepFn` image of
its predecessor). -/
def growChainOk (src : List Atom) (coords inv : Mat3) (maxAtoms : ℕ) :
    GrowState → List GrowState → Bool
  | _, [] => true
  | st, st2 :: rest =>
    decide (growStepFn src coords inv maxAtoms st = some st2) &&
      growChainOk src coords inv maxAtoms st2 rest

theorem growLoopF_chain_seg (src : List Atom) (coords inv : Mat3) (maxAtoms : ℕ) :
    ∀ (ts : List GrowState) (st : GrowState) (fuel : ℕ),
      growChainOk src coords inv maxAtoms st ts = true →
      growLoopF src coords inv maxAtoms (ts.length + fuel) st =
        growLoopF src coords inv maxAtoms fuel (ts.getLastD st) := by
  intro ts
  induction ts with
  | nil => intro st fuel _; rw [List.length_nil, Nat.zero_add]; rfl
  | cons st2 rest ih =>
    intro st fuel hchain
    unfold growChainOk at hchain
    rw [Bool.and_eq_true] at hchain
    have hstep : growStepFn src coords inv maxAtoms st = some st2 :=
      of_decide_eq_true hchain.1
    have harith : (st2 :: rest).length + fuel = (rest.length + fuel) + 1 := by
      rw [List.length_cons]; omega
    rw [harith, growLoopF_step src coords inv maxAtoms (rest.length + fuel) st st2 hstep]
    rw [List.getLastD_cons]
    exact ih st2 fuel hchain.2

set_option maxHeartbeats 8000000 in
/-- The full step-by-step trace of the supercell search for the 1-atom
side-1 cube with its atom at fractional (1/2, 1/2, 1/2), grown into the
side-2 target: 142 loop iterations ending with an exhausted queue and 8
accumulated atoms.  Certified link by link against `growStepFn` in
`growChain8_ok`. -/
def growTrace8 : List GrowState := [
  GrowState.mk [Vec3i.mk 1 0 0, Vec3i.mk 0 1 0, Vec3i.mk 0 0 1, Vec3i.mk (-1) 0 0, Vec3i.mk 0 (-1) 0, Vec3i.mk 0 0 (-1), Vec3i.mk 1 0 0, Vec3i.mk 0 1 0, Vec3i.mk 0 0 1, Vec3i.mk (-1) 0 0, Vec3i.mk 0 (-1) 0, Vec3i.mk 0 0 (-1), Vec3i.mk 1 1 0, Vec3i.mk 1 (-1) 0, Vec3i.mk (-1) 1 0, Vec3i.mk 0 1 1, Vec3i.mk 0 1 (-1), Vec3i.mk 0 (-1) 1, Vec3i.mk 1 0 1, Vec3i.mk 1 0 (-1), Vec3i.mk (-1) 0 1, Vec3i.mk 1 1 1, Vec3i.mk (-1) (-1) (-1), Vec3i.mk (-1) (-1) 1, Vec3i.mk (-1) 1 (-1), Vec3i.mk 1 (-1) (-1)] [Vec3i.mk 0 0 0] [Atom.mk (Vec3.mk (50000/200001) (50000/200001) (50000/200001)) "X"],
  GrowState.mk [Vec3i.mk 0 1 0, Vec3i.mk 0 0 1, Vec3i.mk (-1) 0 0, Vec3i.mk 0 (-1) 0, Vec3i.mk 0 0 (-1), Vec3i.mk 1 0 0, Vec3i.mk 0 1 0, Vec3i.mk 0 0 1, Vec3i.mk (-1) 0 0, Vec3i.mk 0 (-1) 0, Vec3i.mk 0 0 (-1), Vec3i.mk 1 1 0, Vec3i.mk 1 (-1) 0, Vec3i.mk (-1) 1 0, Vec3i.mk 0 1 1, Vec3i.mk 0 1 (-1), Vec3i.mk 0 (-1) 1, Vec3i.mk 1 0 1, Vec3i.mk 1 0 (-1), Vec3i.mk (-1) 0 1, Vec3i.mk 1 1 1, Vec3i.mk (-1) (-1) (-1), Vec3i.mk (-1) (-1) 1, Vec3i.mk (-1) 1 (-1), Vec3i.mk 1 (-1) (-1), Vec3i.mk 2 0 0, Vec3i.mk 1 1 0, Vec3i.mk 1 0 1, Vec3i.mk 1 (-1) 0, Vec3i.mk 1 0 (-1), Vec3i.mk 2 1 0, Vec3i.mk 2 (-1) 0, Vec3i.mk 0 1 0, Vec3i.mk 1 1 1, Vec3i.mk 1 1 (-1), Vec3i.mk 1 (-1) 1, Vec3i.mk 2 0 1, Vec3i.mk 2 0 (-1), Vec3i.mk 0 0 1, Vec3i.mk 2 1 1, Vec3i.mk 0 (-1) (-1), Vec3i.mk 0 (-1) 1, Vec3i.mk 0 1 (-1), Vec3i.mk 2 (-1) (-1)] [Vec3i.mk 1 0 0, Vec3i.mk 0 0 0] [Atom.mk (Vec3.mk (50000/200001) (50000/200001) (50000/200001)) "X", Atom.mk (Vec3.mk (50000/66667) (50000/200001) (50000/200001)) "X"],
  GrowState.mk [Vec3i.mk 0 0 1, Vec3i.mk (-1) 0 0, Vec3i.mk 0 (-1) 0, Vec3i.mk 0 0 (-1), Vec3i.mk 1 0 0, Vec3i.mk 0 1 0, Vec3i.mk 0 0 1, Vec3i.mk (-1) 0 0, Vec3i.mk 0 (-1) 0, Vec3i.mk 0 0 (-1), Vec3i.mk 1 1 0, Vec3i.mk 1 (-1) 0, Vec3i.mk (-1) 1 0, Vec3i.mk 0 1 1, Vec3i.mk 0 1 (-1), Vec3i.mk 0 (-1) 1, Vec3i.mk 1 0 1, Vec3i.mk 1 0 (-1), Vec3i.mk (-1) 0 1, Vec3i.mk 1 1 1, Vec3i.mk (-1) (-1) (-1), Vec3i.mk (-1) (-1) 1, Vec3i.mk (-1) 1 (-1), Vec3i.mk 1 (-1) (-1), Vec3i.mk 2 0 0, Vec3i.mk 1 1 0, Vec3i.mk 1 0 1, Vec3i.mk 1 (-1) 0, Vec3i.mk 1 0 (-1), Vec3i.mk 2 1 0, Vec3i.mk 2 (-1) 0, Vec3i.mk 0 1 0, Vec3i.mk 1 1 1, Vec3i.mk 1 1 (-1), Vec3i.mk 1 (-1) 1, Vec3i.mk 2 0 1, Vec3i.mk 2 0 (-1), Vec3i.mk 0 0 1, Vec3i.mk 2 1 1, Vec3i.mk 0 (-1) (-1), Vec3i.mk 0 (-1) 1, Vec3i.mk 0 1 (-1), Vec3i.mk 2 (-1) (-1), Vec3i.mk 1 1 0, Vec3i.mk 0 2 0, Vec3i.mk 0 1 1, Vec3i.mk (-1) 1 0, Vec3i.mk 0 1 (-1), Vec3i.mk 1 2 0, Vec3i.mk (-1) 2 0, Vec3i.mk 0 2 1, Vec3i.mk 0 2 (-1), Vec3i.mk 0 0 1, Vec3i.mk 1 1 1, Vec3i.mk 1 1 (-1), Vec3i.mk (-1) 1 1, Vec3i.mk 1 2 1, Vec3i.mk (-1) 0 (-1), Vec3i.mk (-1) 0 1, Vec3i.mk (-1) 2 (-1), Vec3i.mk 1 0 (-1)] [Vec3i.mk 0 1 0, Vec3i.mk 1 0 0, Vec3i.mk 0 0 0] [Atom.mk (Vec3.mk (50000/200001) (50000/200001) (50000/200001)) "X", Atom.mk (Vec3.mk (50000/66667) (50000/200001) (50000/200001)) "X", Atom.mk (Vec3.mk (50000/200001) (50000/66667) (50000/200001)) "X"],
  GrowState.mk [Vec3i.mk (-1) 0 0, Vec3i.mk 0 (-1) 0, Vec3i.mk 0 0 (-1), Vec3i.mk 1 0 0, Vec3i.mk 0 1 0, Vec3i.mk 0 0 1, Vec3i.mk (-1) 0 0, Vec3i.mk 0 (-1) 0, Vec3i.mk 0 0 (-1), Vec3i.mk 1 1 0, Vec3i.mk 1 (-1) 0, Vec3i.mk (-1) 1 0, Vec3i.mk 0 1 1, Vec3i.mk 0 1 (-1), Vec3i.mk 0 (-1) 1, Vec3i.mk 1 0 1, Vec3i.mk 1 0 (-1), Vec3i.mk (-1) 0 1, Vec3i.mk 1 1 1, Vec3i.mk (-1) (-1) (-1), Vec3i.mk (-1) (-1) 1, Vec3i.mk (-1) 1 (-1), Vec3i.mk 1 (-1) (-1), Vec3i.mk 2 0 0, Vec3i.mk 1 1 0, Vec3i.mk 1 0 1, Vec3i.mk 1 (-1) 0, Vec3i.mk 1 0 (-1), Vec3i.mk 2 1 0, Vec3i.mk 2 (-1) 0, Vec3i.mk 0 1 0, Vec3i.mk 1 1 1, Vec3i.mk 1 1 (-1), Vec3i.mk 1 (-1) 1, Vec3i.mk 2 0 1, Vec3i.mk 2 0 (-1), Vec3i.mk 0 0 1, Vec3i.mk 2 1 1, Vec3i.mk 0 (-1) (-1), Vec3i.mk 0 (-1) 1, Vec3i.mk 0 1 (-1), Vec3i.mk 2 (-1) (-1), Vec3i.mk 1 1 0, Vec3i.mk 0 2 0, Vec3i.mk 0 1 1, Vec3i.mk (-1) 1 0, Vec3i.mk 0 1 (-1), Vec3i.mk 1 2 0, Vec3i.mk (-1) 2 0, Vec3i.mk 0 2 1, Vec3i.mk 0 2 (-1), Vec3i.mk 0 0 1, Vec3i.mk 1 1 1, Vec3i.mk 1 1 (-1), Vec3i.mk (-1) 1 1, Vec3i.mk 1 2 1, Vec3i.mk (-1) 0 (-1), Vec3i.mk (-1) 0 1, Vec3i.mk (-1) 2 (-1), Vec3i.mk 1 0 (-1), Vec3i.mk 1 0 1, Vec3i.mk 0 1 1, Vec3i.mk 0 0 2, Vec3i.mk (-1) 0 1, Vec3i.mk 0 (-1) 1, Vec3i.mk 1 1 1, Vec3i.mk 1 (-1) 1, Vec3i.mk (-1) 1 1, Vec3i.mk 0 1 2, Vec3i.mk 0 (-1) 2, Vec3i.mk 1 0 2, Vec3i.mk (-1) 0 2, Vec3i.mk 1 1 2, Vec3i.mk (-1) (-1) 0, Vec3i.mk (-1) (-1) 2, Vec3i.mk (-1) 1 0, Vec3i.mk 1 (-1) 0] [Vec3i.mk 0 0 1, Vec3i.mk 0 1 0, Vec3i.mk 1 0 0, Vec3i.mk 0 0 0] [Atom.mk (Vec3.mk (50000/200001) (50000/200001) (50000/200001)) "X", Atom.mk (Vec3.mk (50000/66667) (50000/200001) (50000/200001)) "X", Atom.mk (Vec3.mk (50000/200001) (50000/66667) (50000/200001)) "X", Atom.mk (Vec3.mk (50000/200001) (50000/200001) (50000/66667)) "X"],
  GrowState.mk [Vec3i.mk 0 (-1) 0, Vec3i.mk 0 0 (-1), Vec3i.mk 1 0 0, Vec3i.mk 0 1 0, Vec3i.mk 0 0 1, Vec3i.mk (-1) 0 0, Vec3i.mk 0 (-1) 0, Vec3i.mk 0 0 (-1), Vec3i.mk 1 1 0, Vec3i.mk 1 (-1) 0, Vec3i.mk (-1) 1 0, Vec3i.mk 0 1 1, Vec3i.mk 0 1 (-1), Vec3i.mk 0 (-1) 1, Vec3i.mk 1 0 1, Vec3i.mk 1 0 (-1), Vec3i.mk (-1) 0 1, Vec3i.mk 1 1 1, Vec3i.mk (-1) (-1) (-1), Vec3i.mk (-1) (-1) 1, Vec3i.mk (-1) 1 (-1), Vec3i.mk 1 (-1) (-1), Vec3i.mk 2 0 0, Vec3i.mk 1 1 0, Vec3i.mk 1 0 1, Vec3i.mk 1 (-1) 0, Vec3i.mk 1 0 (-1), Vec3i.mk 2 1 0, Vec3i.mk 2 (-1) 0, Vec3i.mk 0 1 0, Vec3i.mk 1 1 1, Vec3i.mk 1 1 (-1), Vec3i.mk 1 (-1) 1, Vec3i.mk 2 0 1, Vec3i.mk 2 0 (-1), Vec3i.mk 0 0 1, Vec3i.mk 2 1 1, Vec3i.mk 0 (-1) (-1), Vec3i.mk 0 (-1) 1, Vec3i.mk 0 1 (-1), Vec3i.mk 2 (-1) (-1), Vec3i.mk 1 1 0, Vec3i.mk 0 2 0, Vec3i.mk 0 1 1, Vec3i.mk (-1) 1 0, Vec3i.mk 0 1 (-1), Vec3i.mk 1 2 0, Vec3i.mk (-1) 2 0, Vec3i.mk 0 2 1, Vec3i.mk 0 2 (-1), Vec3i.mk 0 0 1, Vec3i.mk 1 1 1, Vec3i.mk 1 1 (-1), Vec3i.mk (-1) 1 1, Vec3i.mk 1 2 1, Vec3i.mk (-1) 0 (-1), Vec3i.mk (-1) 0 1, Vec3i.mk (-1) 2 (-1), Vec3i.mk 1 0 (-1), Vec3i.mk 1 0 1, Vec3i.mk 0 1 1, Vec3i.mk 0 0 2, Vec3i.mk (-1) 0 1, Vec3i.mk 0 (-1) 1, Vec3i.mk 1 1 1, Vec3i.mk 1 (-1) 1, Vec3i.mk (-1) 1 1, Vec3i.mk 0 1 2, Vec3i.mk 0 (-1) 2, Vec3i.mk 1 0 2, Vec3i.mk (-1) 0 2, Vec3i.mk 1 1 2, Vec3i.mk (-1) (-1) 0, Vec3i.mk (-1) (-1) 2, Vec3i.mk (-1) 1 0, Vec3i.mk 1 (-1) 0] [Vec3i.mk (-1) 0 0, Vec3i.mk 0 0 1, Vec3i.mk 0 1 0, Vec3i.mk 1 0 0, Vec3i.mk 0 0 0] [Atom.mk (Vec3.mk (50000/200001) (50000/200001) (50000/200001)) "X", Atom.mk (Vec3.mk (50000/66667) (50000/200001) (50000/200001)) "X", Atom.mk (Vec3.mk (50000/200001) (50000/66667) (50000/200001)) "X", Atom.mk (Vec3.mk (50000/200001) (50000/200001) (50000/66667)) "X"],
  GrowState.mk [Vec3i.mk 0 0 (-1), Vec3i.mk 1 0 0, Vec3i.mk 0 1 0, Vec3i.mk 0 0 1, Vec3i.mk (-1) 0 0, Vec3i.mk 0 (-1) 0, Vec3i.mk 0 0 (-1), Vec3i.mk 1 1 0, Vec3i.mk 1 (-1) 0, Vec3i.mk (-1) 1 0, Vec3i.mk 0 1 1, Vec3i.mk 0 1 (-1), Vec3i.mk 0 (-1) 1, Vec3i.mk 1 0 1, Vec3i.mk 1 0 (-1), Vec3i.mk (-1) 0 1, Vec3i.mk 1 1 1, Vec3i.mk (-1) (-1) (-1), Vec3i.mk (-1) (-1) 1, Vec3i.mk (-1) 1 (-1), Vec3i.mk 1 (-1) (-1), Vec3i.mk 2 0 0, Vec3i.mk 1 1 0, Vec3i.mk 1 0 1, Vec3i.mk 1 (-1) 0, Vec3i.mk 1 0 (-1), Vec3i.mk 2 1 0, Vec3i.mk 2 (-1) 0, Vec3i.mk 0 1 0, Vec3i.mk 1 1 1, Vec3i.mk 1 1 (-1), Vec3i.mk 1 (-1) 1, Vec3i.mk 2 0 1, Vec3i.mk 2 0 (-1), Vec3i.mk 0 0 1, Vec3i.mk 2 1 1, Vec3i.mk 0 (-1) (-1), Vec3i.mk 0 (-1) 1, Vec3i.mk 0 1 (-1), Vec3i.mk 2 (-1) (-1), Vec3i.mk 1 1 0, Vec3i.mk 0 2 0, Vec3i.mk 0 1 1, Vec3i.mk (-1) 1 0, Vec3i.mk 0 1 (-1), Vec3i.mk 1 2 0, Vec3i.mk (-1) 2 0, Vec3i.mk 0 2 1, Vec3i.mk 0 2 (-1), Vec3i.mk 0 0 1, Vec3i.mk 1 1 1, Vec3i.mk 1 1 (-1), Vec3i.mk (-1) 1 1, Vec3i.mk 1 2 1, Vec3i.mk (-1) 0 (-1), Vec3i.mk (-1) 0 1, Vec3i.mk (-1) 2 (-1), Vec3i.mk 1 0 (-1), Vec3i.mk 1 0 1, Vec3i.mk 0 1 1, Vec3i.mk 0 0 2, Vec3i.mk (-1) 0 1, Vec3i.mk 0 (-1) 1, Vec3i.mk 1 1 1, Vec3i.mk 1 (-1) 1, Vec3i.mk (-1) 1 1, Vec3i.mk 0 1 2, Vec3i.mk 0 (-1) 2, Vec3i.mk 1 0 2, Vec3i.mk (-1) 0 2, Vec3i.mk 1 1 2, Vec3i.mk (-1) (-1) 0, Vec3i.mk (-1) (-1) 2, Vec3i.mk (-1) 1 0, Vec3i.mk 1 (-1) 0] [Vec3i.mk 0 (-1) 0, Vec3i.mk (-1) 0 0, Vec3i.mk 0 0 1, Vec3i.mk 0 1 0, Vec3i.mk 1 0 0, Vec3i.mk 0 0 0] [Atom.mk (Vec3.mk (50000/200001) (50000/200001) (50000/200001)) "X", Atom.mk (Vec3.mk (50000/66667) (50000/200001) (50000/200001)) "X", Atom.mk (Vec3.mk (50000/200001) (50000/66667) (50000/200001)) "X", Atom.mk (Vec3.mk (50000/200001) (50000/200001) (50000/66667)) "X"],
  GrowState.mk [Vec3i.mk 1 0 0, Vec3i.mk 0 1 0, Vec3i.mk 0 0 1, Vec3i.mk (-1) 0 0, Vec3i.mk 0 (-1) 0, Vec3i.mk 0 0 (-1), Vec3i.mk 1 1 0, Vec3i.mk 1 (-1) 0, Vec3i.mk (-1) 1 0, Vec3i.mk 0 1 1, Vec3i.mk 0 1 (-1), Vec3i.mk 0 (-1) 1, Vec3i.mk 1 0 1, Vec3i.mk 1 0 (-1), Vec3i.mk (-1) 0 1, Vec3i.mk 1 1 1, Vec3i.mk (-1) (-1) (-1), Vec3i.mk (-1) (-1) 1, Vec3i.mk (-1) 1 (-1), Vec3i.mk 1 (-1) (-1), Vec3i.mk 2 0 0, Vec3i.mk 1 1 0, Vec3i.mk 1 0 1, Vec3i.mk 1 (-1) 0, Vec3i.mk 1 0 (-1), Vec3i.mk 2 1 0, Vec3i.mk 2 (-1) 0, Vec3i.mk 0 1 0, Vec3i.mk 1 1 1, Vec3i.mk 1 1 (-1), Vec3i.mk 1 (-1) 1, Vec3i.mk 2 0 1, Vec3i.mk 2 0 (-1), Vec3i.mk 0 0 1, Vec3i.mk 2 1 1, Vec3i.mk 0 (-1) (-1), Vec3i.mk 0 (-1) 1, Vec3i.mk 0 1 (-1), Vec3i.mk 2 (-1) (-1), Vec3i.mk 1 1 0, Vec3i.mk 0 2 0, Vec3i.mk 0 1 1, Vec3i.mk (-1) 1 0, Vec3i.mk 0 1 (-1), Vec3i.mk 1 2 0, Vec3i.mk (-1) 2 0, Vec3i.mk 0 2 1, Vec3i.mk 0 2 (-1), Vec3i.mk 0 0 1, Vec3i.mk 1 1 1, Vec3i.mk 1 1 (-1), Vec3i.mk (-1) 1 1, Vec3i.mk 1 2 1, Vec3i.mk (-1) 0 (-1), Vec3i.mk (-1) 0 1, Vec3i.mk (-1) 2 (-1), Vec3i.mk 1 0 (-1), Vec3i.mk 1 0 1, Vec3i.mk 0 1 1, Vec3i.mk 0 0 2, Vec3i.mk (-1) 0 1, Vec3i.mk 0 (-1) 1, Vec3i.mk 1 1 1, Vec3i.mk 1 (-1) 1, Vec3i.mk (-1) 1 1, Vec3i.mk 0 1 2, Vec3i.mk 0 (-1) 2, Vec3i.mk 1 0 2, Vec3i.mk (-1) 0 2, Vec3i.mk 1 1 2, Vec3i.mk (-1) (-1) 0, Vec3i.mk (-1) (-1) 2, Vec3i.mk (-1) 1 0, Vec3i.mk 1 (-1) 0] [Vec3i.mk 0 0 (-1), Vec3i.mk 0 (-1) 0, Vec3i.mk (-1) 0 0, Vec3i.mk 0 0 1, Vec3i.mk 0 1 0, Vec3i.mk 1 0 0, Vec3i.mk 0 0 0] [Atom.mk (Vec3.mk (50000/200001) (50000/200001) (50000/200001)) "X", Atom.mk (Vec3.mk (50000/66667) (50000/200001) (50000/200001)) "X", Atom.mk (Vec3.mk (50000/200001) (50000/66667) (50000/200001)) "X", Atom.mk (Vec3.mk (50000/200001) (50000/200001) (50000/66667)) "X"],
  GrowState.mk [Vec3i.mk 0 1 0, Vec3i.mk 0 0 1, Vec3i.mk (-1) 0 0, Vec3i.mk 0 (-1) 0, Vec3i.mk 0 0 (-1), Vec3i.mk 1 1 0, Vec3i.mk 1 (-1) 0, Vec3i.mk (-1) 1 0, Vec3i.mk 0 1 1, Vec3i.mk 0 1 (-1), Vec3i.mk 0 (-1) 1, Vec3i.mk 1 0 1, Vec3i.mk 1 0 (-1), Vec3i.mk (-1) 0 1, Vec3i.mk 1 1 1, Vec3i.mk (-1) (-1) (-1), Vec3i.mk (-1) (-1) 1, Vec3i.mk (-1) 1 (-1), Vec3i.mk 1 (-1) (-1), Vec3i.mk 2 0 0, Vec3i.mk 1 1 0, Vec3i.mk 1 0 1, Vec3i.mk 1 (-1) 0, Vec3i.mk 1 0 (-1), Vec3i.mk 2 1 0, Vec3i.mk 2 (-1) 0, Vec3i.mk 0 1 0, Vec3i.mk 1 1 1, Vec3i.mk 1 1 (-1), Vec3i.mk 1 (-1) 1, Vec3i.mk 2 0 1, Vec3i.mk 2 0 (-1), Vec3i.mk 0 0 1, Vec3i.mk 2 1 1, Vec3i.mk 0 (-1) (-1), Vec3i.mk 0 (-1) 1, Vec3i.mk 0 1 (-1), Vec3i.mk 2 (-1) (-1), Vec3i.mk 1 1 0, Vec3i.mk 0 2 0, Vec3i.mk 0 1 1, Vec3i.mk (-1) 1 0, Vec3i.mk 0 1 (-1), Vec3i.mk 1 2 0, Vec3i.mk (-1) 2 0, Vec3i.mk 0 2 1, Vec3i.mk 0 2 (-1), Vec3i.mk 0 0 1, Vec3i.mk 1 1 1, Vec3i.mk 1 1 (-1), Vec3i.mk (-1) 1 1, Vec3i.mk 1 2 1, Vec3i.mk (-1) 0 (-1), Vec3i.mk (-1) 0 1, Vec3i.mk (-1) 2 (-1), Vec3i.mk 1 0 (-1), Vec3i.mk 1 0 1, Vec3i.mk 0 1 1, Vec3i.mk 0 0 2, Vec3i.mk (-1) 0 1, Vec3i.mk 0 (-1) 1, Vec3i.mk 1 1 1, Vec3i.mk 1 (-1) 1, Vec3i.mk (-1) 1 1, Vec3i.mk 0 1 2, Vec3i.mk 0 (-1) 2, Vec3i.mk 1 0 2, Vec3i.mk (-1) 0 2, Vec3i.mk 1 1 2, Vec3i.mk (-1) (-1) 0, Vec3i.mk (-1) (-1) 2, Vec3i.mk (-1) 1 0, Vec3i.mk 1 (-1) 0] [Vec3i.mk 0 0 (-1), Vec3i.mk 0 (-1) 0, Vec3i.mk (-1) 0 0, Vec3i.mk 0 0 1, Vec3i.mk 0 1 0, Vec3i.mk 1 0 0, Vec3i.mk 0 0 0] [Atom.mk (Vec3.mk (50000/200001) (50000/200001) (50000/200001)) "X", Atom.mk (Vec3.mk (50000/66667) (50000/200001) (50000/200001)) "X", Atom.mk (Vec3.mk (50000/200001) (50000/66667) (50000/200001)) "X", Atom.mk (Vec3.mk (50000/200001) (50000/200001) (50000/66667)) "X"],
  GrowState.mk [Vec3i.mk 0 0 1, Vec3i.mk (-1) 0 0, Vec3i.mk 0 (-1) 0, Vec3i.mk 0 0 (-1), Vec3i.mk 1 1 0, Vec3i.mk 1 (-1) 0, Vec3i.mk (-1) 1 0, Vec3i.mk 0 1 1, Vec3i.mk 0 1 (-1), Vec3i.mk 0 (-1) 1, Vec3i.mk 1 0 1, Vec3i.mk 1 0 (-1), Vec3i.mk (-1) 0 1, Vec3i.mk 1 1 1, Vec3i.mk (-1) (-1) (-1), Vec3i.mk (-1) (-1) 1, Vec3i.mk (-1) 1 (-1), Vec3i.mk 1 (-1) (-1), Vec3i.mk 2 0 0, Vec3i.mk 1 1 0, Vec3i.mk 1 0 1, Vec3i.mk 1 (-1) 0, Vec3i.mk 1 0 (-1), Vec3i.mk 2 1 0, Vec3i.mk 2 (-1) 0, Vec3i.mk 0 1 0, Vec3i.mk 1 1 1, Vec3i.mk 1 1 (-1), Vec3i.mk 1 (-1) 1, Vec3i.mk 2 0 1, Vec3i.mk 2 0 (-1), Vec3i.mk 0 0 1, Vec3i.mk 2 1 1, Vec3i.mk 0 (-1) (-1), Vec3i.mk 0 (-1) 1, Vec3i.mk 0 1 (-1), Vec3i.mk 2 (-1) (-1), Vec3i.mk 1 1 0, Vec3i.mk 0 2 0, Vec3i.mk 0 1 1, Vec3i.mk (-1) 1 0, Vec3i.mk 0 1 (-1), Vec3i.mk 1 2 0, Vec3i.mk (-1) 2 0, Vec3i.mk 0 2 1, Vec3i.mk 0 2 (-1), Vec3i.mk 0 0 1, Vec3i.mk 1 1 1, Vec3i.mk 1 1 (-1), Vec3i.mk (-1) 1 1, Vec3i.mk 1 2 1, Vec3i.mk (-1) 0 (-1), Vec3i.mk (-1) 0 1, Vec3i.mk (-1) 2 (-1), Vec3i.mk 1 0 (-1), Vec3i.mk 1 0 1, Vec3i.mk 0 1 1, Vec3i.mk 0 0 2, Vec3i.mk (-1) 0 1, Vec3i.mk 0 (-1) 1, Vec3i.mk 1 1 1, Vec3i.mk 1 (-1) 1, Vec3i.mk (-1) 1 1, Vec3i.mk 0 1 2, Vec3i.mk 0 (-1) 2, Vec3i.mk 1 0 2, Vec3i.mk (-1) 0 2, Vec3i.mk 1 1 2, Vec3i.mk (-1) (-1) 0, Vec3i.mk (-1) (-1) 2, Vec3i.mk (-1) 1 0, Vec3i.mk 1 (-1) 0] [Vec3i.mk 0 0 (-1), Vec3i.mk 0 (-1) 0, Vec3i.mk (-1) 0 0, Vec3i.mk 0 0 1, Vec3i.mk 0 1 0, Vec3i.mk 1 0 0, Vec3i.mk 0 0 0] [Atom.mk (Vec3.mk (50000/200001) (50000/200001) (50000/200001)) "X", Atom.mk (Vec3.mk (50000/66667) (50000/200001) (50000/200001)) "X", Atom.mk (Vec3.mk (50000/200001) (50000/66667) (50000/200001)) "X", Atom.mk (Vec3.mk (50000/200001) (50000/200001) (50000/66667)) "X"],
  GrowState.mk [Vec3i.mk (-1) 0 0, Vec3i.mk 0 (-1) 0, Vec3i.mk 0 0 (-1), Vec3i.mk 1 1 0, Vec3i.mk 1 (-1) 0, Vec3i.mk (-1) 1 0, Vec3i.mk 0 1 1, Vec3i.mk 0 1 (-1), Vec3i.mk 0 (-1) 1, Vec3i.mk 1 0 1, Vec3i.mk 1 0 (-1), Vec3i.mk (-1) 0 1, Vec3i.mk 1 1 1, Vec3i.mk (-1) (-1) (-1), Vec3i.mk (-1) (-1) 1, Vec3i.mk (-1) 1 (-1), Vec3i.mk 1 (-1) (-1), Vec3i.mk 2 0 0, Vec3i.mk 1 1 0, Vec3i.mk 1 0 1, Vec3i.mk 1 (-1) 0, Vec3i.mk 1 0 (-1), Vec3i.mk 2 1 0, Vec3i.mk 2 (-1) 0, Vec3i.mk 0 1 0, Vec3i.mk 1 1 1, Vec3i.mk 1 1 (-1), Vec3i.mk 1 (-1) 1, Vec3i.mk 2 0 1, Vec3i.mk 2 0 (-1), Vec3i.mk 0 0 1, Vec3i.mk 2 1 1, Vec3i.mk 0 (-1) (-1), Vec3i.mk 0 (-1) 1, Vec3i.mk 0 1 (-1), Vec3i.mk 2 (-1) (-1), Vec3i.mk 1 1 0, Vec3i.mk 0 2 0, Vec3i.mk 0 1 1, Vec3i.mk (-1) 1 0, Vec3i.mk 0 1 (-1), Vec3i.mk 1 2 0, Vec3i.mk (-1) 2 0, Vec3i.mk 0 2 1, Vec3i.mk 0 2 (-1), Vec3i.mk 0 0 1, Vec3i.mk 1 1 1, Vec3i.mk 1 1 (-1), Vec3i.mk (-1) 1 1, Vec3i.mk 1 2 1, Vec3i.mk (-1) 0 (-1), Vec3i.mk (-1) 0 1, Vec3i.mk (-1) 2 (-1), Vec3i.mk 1 0 (-1), Vec3i.mk 1 0 1, Vec3i.mk 0 1 1, Vec3i.mk 0 0 2, Vec3i.mk (-1) 0 1, Vec3i.mk 0 (-1) 1, Vec3i.mk 1 1 1, Vec3i.mk 1 (-1) 1, Vec3i.mk (-1) 1 1, Vec3i.mk 0 1 2, Vec3i.mk 0 (-1) 2, Vec3i.mk 1 0 2, Vec3i.mk (-1) 0 2, Vec3i.mk 1 1 2, Vec3i.mk (-1) (-1) 0, Vec3i.mk (-1) (-1) 2, Vec3i.mk (-1) 1 0, Vec3i.mk 1 (-1) 0] [Vec3i.mk 0 0 (-1), Vec3i.mk 0 (-1) 0, Vec3i.mk (-1) 0 0, Vec3i.mk 0 0 1, Vec3i.mk 0 1 0, Vec3i.mk 1 0 0, Vec3i.mk 0 0 0] [Atom.mk (Vec3.mk (50000/200001) (50000/200001) (50000/200001)) "X", Atom.mk (Vec3.mk (50000/66667) (50000/200001) (50000/200001)) "X", Atom.mk (Vec3.mk (50000/200001) (50000/66667) (50000/200001)) "X", Atom.mk (Vec3.mk (50000/200001) (50000/200001) (50000/66667)) "X"],
  GrowState.mk [Vec3i.mk 0 (-1) 0, Vec3i.mk 0 0 (-1), Vec3i.mk 1 1 0, Vec3i.mk 1 (-1) 0, Vec3i.mk (-1) 1 0, Vec3i.mk 0 1 1, Vec3i.mk 0 1 (-1), Vec3i.mk 0 (-1) 1, Vec3i.mk 1 0 1, Vec3i.mk 1 0 (-1), Vec3i.mk (-1) 0 1, Vec3i.mk 1 1 1, Vec3i.mk (-1) (-1) (-1), Vec3i.mk (-1) (-1) 1, Vec3i.mk (-1) 1 (-1), Vec3i.mk 1 (-1) (-1), Vec3i.mk 2 0 0, Vec3i.mk 1 1 0, Vec3i.mk 1 0 1, Vec3i.mk 1 (-1) 0, Vec3i.mk 1 0 (-1), Vec3i.mk 2 1 0, Vec3i.mk 2 (-1) 0, Vec3i.mk 0 1 0, Vec3i.mk 1 1 1, Vec3i.mk 1 1 (-1), Vec3i.mk 1 (-1) 1, Vec3i.mk 2 0 1, Vec3i.mk 2 0 (-1), Vec3i.mk 0 0 1, Vec3i.mk 2 1 1, Vec3i.mk 0 (-1) (-1), Vec3i.mk 0 (-1) 1, Vec3i.mk 0 1 (-1), Vec3i.mk 2 (-1) (-1), Vec3i.mk 1 1 0, Vec3i.mk 0 2 0, Vec3i.mk 0 1 1, Vec3i.mk (-1) 1 0, Vec3i.mk 0 1 (-1), Vec3i.mk 1 2 0, Vec3i.mk (-1) 2 0, Vec3i.mk 0 2 1, Vec3i.mk 0 2 (-1), Vec3i.mk 0 0 1, Vec3i.mk 1 1 1, Vec3i.mk 1 1 (-1), Vec3i.mk (-1) 1 1, Vec3i.mk 1 2 1, Vec3i.mk (-1) 0 (-1), Vec3i.mk (-1) 0 1, Vec3i.mk (-1) 2 (-1), Vec3i.mk 1 0 (-1), Vec3i.mk 1 0 1, Vec3i.mk 0 1 1, Vec3i.mk 0 0 2, Vec3i.mk (-1) 0 1, Vec3i.mk 0 (-1) 1, Vec3i.mk 1 1 1, Vec3i.mk 1 (-1) 1, Vec3i.mk (-1) 1 1, Vec3i.mk 0 1 2, Vec3i.mk 0 (-1) 2, Vec3i.mk 1 0 2, Vec3i.mk (-1) 0 2, Vec3i.mk 1 1 2, Vec3i.mk (-1) (-1) 0, Vec3i.mk (-1) (-1) 2, Vec3i.mk (-1) 1 0, Vec3i.mk 1 (-1) 0] [Vec3i.mk 0 0 (-1), Vec3i.mk 0 (-1) 0, Vec3i.mk (-1) 0 0, Vec3i.mk 0 0 1, Vec3i.mk 0 1 0, Vec3i.mk 1 0 0, Vec3i.mk 0 0 0] [Atom.mk (Vec3.mk (50000/200001) (50000/200001) (50000/200001)) "X", Atom.mk (Vec3.mk (50000/66667) (50000/200001) (50000/200001)) "X", Atom.mk (Vec3.mk (50000/200001) (50000/66667) (50000/200001)) "X", Atom.mk (Vec3.mk (50000/200001) (50000/200001) (50000/66667)) "X"],
  GrowState.mk [Vec3i.mk 0 0 (-1), Vec3i.mk 1 1 0, Vec3i.mk 1 (-1) 0, Vec3i.mk (-1) 1 0, Vec3i.mk 0 1 1, Vec3i.mk 0 1 (-1), Vec3i.mk 0 (-1) 1, Vec3i.mk 1 0 1, Vec3i.mk 1 0 (-1), Vec3i.mk (-1) 0 1, Vec3i.mk 1 1 1, Vec3i.mk (-1) (-1) (-1), Vec3i.mk (-1) (-1) 1, Vec3i.mk (-1) 1 (-1), Vec3i.mk 1 (-1) (-1), Vec3i.mk 2 0 0, Vec3i.mk 1 1 0, Vec3i.mk 1 0 1, Vec3i.mk 1 (-1) 0, Vec3i.mk 1 0 (-1), Vec3i.mk 2 1 0, Vec3i.mk 2 (-1) 0, Vec3i.mk 0 1 0, Vec3i.mk 1 1 1, Vec3i.mk 1 1 (-1), Vec3i.mk 1 (-1) 1, Vec3i.mk 2 0 1, Vec3i.mk 2 0 (-1), Vec3i.mk 0 0 1, Vec3i.mk 2 1 1, Vec3i.mk 0 (-1) (-1), Vec3i.mk 0 (-1) 1, Vec3i.mk 0 1 (-1), Vec3i.mk 2 (-1) (-1), Vec3i.mk 1 1 0, Vec3i.mk 0 2 0, Vec3i.mk 0 1 1, Vec3i.mk (-1) 1 0, Vec3i.mk 0 1 (-1), Vec3i.mk 1 2 0, Vec3i.mk (-1) 2 0, Vec3i.mk 0 2 1, Vec3i.mk 0 2 (-1), Vec3i.mk 0 0 1, Vec3i.mk 1 1 1, Vec3i.mk 1 1 (-1), Vec3i.mk (-1) 1 1, Vec3i.mk 1 2 1, Vec3i.mk (-1) 0 (-1), Vec3i.mk (-1) 0 1, Vec3i.mk (-1) 2 (-1), Vec3i.mk 1 0 (-1), Vec3i.mk 1 0 1, Vec3i.mk 0 1 1, Vec3i.mk 0 0 2, Vec3i.mk (-1) 0 1, Vec3i.mk 0 (-1) 1, Vec3i.mk 1 1 1, Vec3i.mk 1 (-1) 1, Vec3i.mk (-1) 1 1, Vec3i.mk 0 1 2, Vec3i.mk 0 (-1) 2, Vec3i.mk 1 0 2, Vec3i.mk (-1) 0 2, Vec3i.mk 1 1 2, Vec3i.mk (-1) (-1) 0, Vec3i.mk (-1) (-1) 2, Vec3i.mk (-1) 1 0, Vec3i.mk 1 (-1) 0] [Vec3i.mk 0 0 (-1), Vec3i.mk 0 (-1) 0, Vec3i.mk (-1) 0 0, Vec3i.mk 0 0 1, Vec3i.mk 0 1 0, Vec3i.mk 1 0 0, Vec3i.mk 0 0 0] [Atom.mk (Vec3.mk (50000/200001) (50000/200001) (50000/200001)) "X", Atom.mk (Vec3.mk (50000/66667) (50000/200001) (50000/200001)) "X", Atom.mk (Vec3.mk (50000/200001) (50000/66667) (50000/200001)) "X", Atom.mk (Vec3.mk (50000/200001) (50000/200001) (50000/66667)) "X"],
  GrowState.mk [Vec3i.mk 1 1 0, Vec3i.mk 1 (-1) 0, Vec3i.mk (-1) 1 0, Vec3i.mk 0 1 1, Vec3i.mk 0 1 (-1), Vec3i.mk 0 (-1) 1, Vec3i.mk 1 0 1, Vec3i.mk 1 0 (-1), Vec3i.mk (-1) 0 1, Vec3i.mk 1 1 1, Vec3i.mk (-1) (-1) (-1), Vec3i.mk (-1) (-1) 1, Vec3i.mk (-1) 1 (-1), Vec3i.mk 1 (-1) (-1), Vec3i.mk 2 0 0, Vec3i.mk 1 1 0, Vec3i.mk 1 0 1, Vec3i.mk 1 (-1) 0, Vec3i.mk 1 0 (-1), Vec3i.mk 2 1 0, Vec3i.mk 2 (-1) 0, Vec3i.mk 0 1 0, Vec3i.mk 1 1 1, Vec3i.mk 1 1 (-1), Vec3i.mk 1 (-1) 1, Vec3i.mk 2 0 1, Vec3i.mk 2 0 (-1), Vec3i.mk 0 0 1, Vec3i.mk 2 1 1, Vec3i.mk 0 (-1) (-1), Vec3i.mk 0 (-1) 1, Vec3i.mk 0 1 (-1), Vec3i.mk 2 (-1) (-1), Vec3i.mk 1 1 0, Vec3i.mk 0 2 0, Vec3i.mk 0 1 1, Vec3i.mk (-1) 1 0, Vec3i.mk 0 1 (-1), Vec3i.mk 1 2 0, Vec3i.mk (-1) 2 0, Vec3i.mk 0 2 1, Vec3i.mk 0 2 (-1), Vec3i.mk 0 0 1, Vec3i.mk 1 1 1, Vec3i.mk 1 1 (-1), Vec3i.mk (-1) 1 1, Vec3i.mk 1 2 1, Vec3i.mk (-1) 0 (-1), Vec3i.mk (-1) 0 1, Vec3i.mk (-1) 2 (-1), Vec3i.mk 1 0 (-1), Vec3i.mk 1 0 1, Vec3i.mk 0 1 1, Vec3i.mk 0 0 2, Vec3i.mk (-1) 0 1, Vec3i.mk 0 (-1) 1, Vec3i.mk 1 1 1, Vec3i.mk 1 (-1) 1, Vec3i.mk (-1) 1 1, Vec3i.mk 0 1 2, Vec3i.mk 0 (-1) 2, Vec3i.mk 1 0 2, Vec3i.mk (-1) 0 2, Vec3i.mk 1 1 2, Vec3i.mk (-1) (-1) 0, Vec3i.mk (-1) (-1) 2, Vec3i.mk (-1) 1 0, Vec3i.mk 1 (-1) 0] [Vec3i.mk 0 0 (-1), Vec3i.mk 0 (-1) 0, Vec3i.mk (-1) 0 0, Vec3i.mk 0 0 1, Vec3i.mk 0 1 0, Vec3i.mk 1 0 0, Vec3i.mk 0 0 0] [Atom.mk (Vec3.mk (50000/200001) (50000/200001) (50000/200001)) "X", Atom.mk (Vec3.mk (50000/66667) (50000/200001) (50000/200001)) "X", Atom.mk (Vec3.mk (50000/200001) (50000/66667) (50000/200001)) "X", Atom.mk (Vec3.mk (50000/200001) (50000/200001) (50000/66667)) "X"],
  GrowState.mk [Vec3i.mk 1 (-1) 0, Vec3i.mk (-1) 1 0, Vec3i.mk 0 1 1, Vec3i.mk 0 1 (-1), Vec3i.mk 0 (-1) 1, Vec3i.mk 1 0 1, Vec3i.mk 1 0 (-1), Vec3i.mk (-1) 0 1, Vec3i.mk 1 1 1, Vec3i.mk (-1) (-1) (-1), Vec3i.mk (-1) (-1) 1, Vec3i.mk (-1) 1 (-1), Vec3i.mk 1 (-1) (-1), Vec3i.mk 2 0 0, Vec3i.mk 1 1 0, Vec3i.mk 1 0 1, Vec3i.mk 1 (-1) 0, Vec3i.mk 1 0 (-1), Vec3i.mk 2 1 0, Vec3i.mk 2 (-1) 0, Vec3i.mk 0 1 0, Vec3i.mk 1 1 1, Vec3i.mk 1 1 (-1), Vec3i.mk 1 (-1) 1, Vec3i.mk 2 0 1, Vec3i.mk 2 0 (-1), Vec3i.mk 0 0 1, Vec3i.mk 2 1 1, Vec3i.mk 0 (-1) (-1), Vec3i.mk 0 (-1) 1, Vec3i.mk 0 1 (-1), Vec3i.mk 2 (-1) (-1), Vec3i.mk 1 1 0, Vec3i.mk 0 2 0, Vec3i.mk 0 1 1, Vec3i.mk (-1) 1 0, Vec3i.mk 0 1 (-1), Vec3i.mk 1 2 0, Vec3i.mk (-1) 2 0, Vec3i.mk 0 2 1, Vec3i.mk 0 2 (-1), Vec3i.mk 0 0 1, Vec3i.mk 1 1 1, Vec3i.mk 1 1 (-1), Vec3i.mk (-1) 1 1, Vec3i.mk 1 2 1, Vec3i.mk (-1) 0 (-1), Vec3i.mk (-1) 0 1, Vec3i.mk (-1) 2 (-1), Vec3i.mk 1 0 (-1), Vec3i.mk 1 0 1, Vec3i.mk 0 1 1, Vec3i.mk 0 0 2, Vec3i.mk (-1) 0 1, Vec3i.mk 0 (-1) 1, Vec3i.mk 1 1 1, Vec3i.mk 1 (-1) 1, Vec3i.mk (-1) 1 1, Vec3i.mk 0 1 2, Vec3i.mk 0 (-1) 2, Vec3i.mk 1 0 2, Vec3i.mk (-1) 0 2, Vec3i.mk 1 1 2, Vec3i.mk (-1) (-1) 0, Vec3i.mk (-1) (-1) 2, Vec3i.mk (-1) 1 0, Vec3i.mk 1 (-1) 0, Vec3i.mk 2 1 0, Vec3i.mk 1 2 0, Vec3i.mk 1 1 1, Vec3i.mk 1 1 (-1), Vec3i.mk 2 2 0, Vec3i.mk 2 0 0, Vec3i.mk 0 2 0, Vec3i.mk 1 2 1, Vec3i.mk 1 2 (-1), Vec3i.mk 1 0 1, Vec3i.mk 2 1 1, Vec3i.mk 2 1 (-1), Vec3i.mk 0 1 1, Vec3i.mk 2 2 1, Vec3i.mk 0 2 (-1), Vec3i.mk 2 0 (-1)] [Vec3i.mk 1 1 0, Vec3i.mk 0 0 (-1), Vec3i.mk 0 (-1) 0, Vec3i.mk (-1) 0 0, Vec3i.mk 0 0 1, Vec3i.mk 0 1 0, Vec3i.mk 1 0 0, Vec3i.mk 0 0 0] [Atom.mk (Vec3.mk (50000/200001) (50000/200001) (50000/200001)) "X", Atom.mk (Vec3.mk (50000/66667) (50000/200001) (50000/200001)) "X", Atom.mk (Vec3.mk (50000/200001) (50000/66667) (50000/200001)) "X", Atom.mk (Vec3.mk (50000/200001) (50000/200001) (50000/66667)) "X", Atom.mk (Vec3.mk (50000/66667) (50000/66667) (50000/200001)) "X"],
  GrowState.mk [Vec3i.mk (-1) 1 0, Vec3i.mk 0 1 1, Vec3i.mk 0 1 (-1), Vec3i.mk 0 (-1) 1, Vec3i.mk 1 0 1, Vec3i.mk 1 0 (-1), Vec3i.mk (-1) 0 1, Vec3i.mk 1 1 1, Vec3i.mk (-1) (-1) (-1), Vec3i.mk (-1) (-1) 1, Vec3i.mk (-1) 1 (-1), Vec3i.mk 1 (-1) (-1), Vec3i.mk 2 0 0, Vec3i.mk 1 1 0, Vec3i.mk 1 0 1, Vec3i.mk 1 (-1) 0, Vec3i.mk 1 0 (-1), Vec3i.mk 2 1 0, Vec3i.mk 2 (-1) 0, Vec3i.mk 0 1 0, Vec3i.mk 1 1 1, Vec3i.mk 1 1 (-1), Vec3i.mk 1 (-1) 1, Vec3i.mk 2 0 1, Vec3i.mk 2 0 (-1), Vec3i.mk 0 0 1, Vec3i.mk 2 1 1, Vec3i.mk 0 (-1) (-1), Vec3i.mk 0 (-1) 1, Vec3i.mk 0 1 (-1), Vec3i.mk 2 (-1) (-1), Vec3i.mk 1 1 0, Vec3i.mk 0 2 0, Vec3i.mk 0 1 1, Vec3i.mk (-1) 1 0, Vec3i.mk 0 1 (-1), Vec3i.mk 1 2 0, Vec3i.mk (-1) 2 0, Vec3i.mk 0 2 1, Vec3i.mk 0 2 (-1), Vec3i.mk 0 0 1, Vec3i.mk 1 1 1, Vec3i.mk 1 1 (-1), Vec3i.mk (-1) 1 1, Vec3i.mk 1 2 1, Vec3i.mk (-1) 0 (-1), Vec3i.mk (-1) 0 1, Vec3i.mk (-1) 2 (-1), Vec3i.mk 1 0 (-1), Vec3i.mk 1 0 1, Vec3i.mk 0 1 1, Vec3i.mk 0 0 2, Vec3i.mk (-1) 0 1, Vec3i.mk 0 (-1) 1, Vec3i.mk 1 1 1, Vec3i.mk 1 (-1) 1, Vec3i.mk (-1) 1 1, Vec3i.mk 0 1 2, Vec3i.mk 0 (-1) 2, Vec3i.mk 1 0 2, Vec3i.mk (-1) 0 2, Vec3i.mk 1 1 2, Vec3i.mk (-1) (-1) 0, Vec3i.mk (-1) (-1) 2, Vec3i.mk (-1) 1 0, Vec3i.mk 1 (-1) 0, Vec3i.mk 2 1 0, Vec3i.mk 1 2 0, Vec3i.mk 1 1 1, Vec3i.mk 1 1 (-1), Vec3i.mk 2 2 0, Vec3i.mk 2 0 0, Vec3i.mk 0 2 0, Vec3i.mk 1 2 1, Vec3i.mk 1 2 (-1), Vec3i.mk 1 0 1, Vec3i.mk 2 1 1, Vec3i.mk 2 1 (-1), Vec3i.mk 0 1 1, Vec3i.mk 2 2 1, Vec3i.mk 0 2 (-1), Vec3i.mk 2 0 (-1)] [Vec3i.mk 1 (-1) 0, Vec3i.mk 1 1 0, Vec3i.mk 0 0 (-1), Vec3i.mk 0 (-1) 0, Vec3i.mk (-1) 0 0, Vec3i.mk 0 0 1, Vec3i.mk 0 1 0, Vec3i.mk 1 0 0, Vec3i.mk 0 0 0] [Atom.mk (Vec3.mk (50000/200001) (50000/200001) (50000/200001)) "X", Atom.mk (Vec3.mk (50000/66667) (50000/200001) (50000/200001)) "X", Atom.mk (Vec3.mk (50000/200001) (50000/66667) (50000/200001)) "X", Atom.mk (Vec3.mk (50000/200001) (50000/200001) (50000/66667)) "X", Atom.mk (Vec3.mk (50000/66667) (50000/66667) (50000/200001)) "X"],
  GrowState.mk [Vec3i.mk 0 1 1, Vec3i.mk 0 1 (-1), Vec3i.mk 0 (-1) 1, Vec3i.mk 1 0 1, Vec3i.mk 1 0 (-1), Vec3i.mk (-1) 0 1, Vec3i.mk 1 1 1, Vec3i.mk (-1) (-1) (-1), Vec3i.mk (-1) (-1) 1, Vec3i.mk (-1) 1 (-1), Vec3i.mk 1 (-1) (-1), Vec3i.mk 2 0 0, Vec3i.mk 1 1 0, Vec3i.mk 1 0 1, Vec3i.mk 1 (-1) 0, Vec3i.mk 1 0 (-1), Vec3i.mk 2 1 0, Vec3i.mk 2 (-1) 0, Vec3i.mk 0 1 0, Vec3i.mk 1 1 1, Vec3i.mk 1 1 (-1), Vec3i.mk 1 (-1) 1, Vec3i.mk 2 0 1, Vec3i.mk 2 0 (-1), Vec3i.mk 0 0 1, Vec3i.mk 2 1 1, Vec3i.mk 0 (-1) (-1), Vec3i.mk 0 (-1) 1, Vec3i.mk 0 1 (-1), Vec3i.mk 2 (-1) (-1), Vec3i.mk 1 1 0, Vec3i.mk 0 2 0, Vec3i.mk 0 1 1, Vec3i.mk (-1) 1 0, Vec3i.mk 0 1 (-1), Vec3i.mk 1 2 0, Vec3i.mk (-1) 2 0, Vec3i.mk 0 2 1, Vec3i.mk 0 2 (-1), Vec3i.mk 0 0 1, Vec3i.mk 1 1 1, Vec3i.mk 1 1 (-1), Vec3i.mk (-1) 1 1, Vec3i.mk 1 2 1, Vec3i.mk (-1) 0 (-1), Vec3i.mk (-1) 0 1, Vec3i.mk (-1) 2 (-1), Vec3i.mk 1 0 (-1), Vec3i.mk 1 0 1, Vec3i.mk 0 1 1, Vec3i.mk 0 0 2, Vec3i.mk (-1) 0 1, Vec3i.mk 0 (-1) 1, Vec3i.mk 1 1 1, Vec3i.mk 1 (-1) 1, Vec3i.mk (-1) 1 1, Vec3i.mk 0 1 2, Vec3i.mk 0 (-1) 2, Vec3i.mk 1 0 2, Vec3i.mk (-1) 0 2, Vec3i.mk 1 1 2, Vec3i.mk (-1) (-1) 0, Vec3i.mk (-1) (-1) 2, Vec3i.mk (-1) 1 0, Vec3i.mk 1 (-1) 0, Vec3i.mk 2 1 0, Vec3i.mk 1 2 0, Vec3i.mk 1 1 1, Vec3i.mk 1 1 (-1), Vec3i.mk 2 2 0, Vec3i.mk 2 0 0, Vec3i.mk 0 2 0, Vec3i.mk 1 2 1, Vec3i.mk 1 2 (-1), Vec3i.mk 1 0 1, Vec3i.mk 2 1 1, Vec3i.mk 2 1 (-1), Vec3i.mk 0 1 1, Vec3i.mk 2 2 1, Vec3i.mk 0 2 (-1), Vec3i.mk 2 0 (-1)] [Vec3i.mk (-1) 1 0, Vec3i.mk 1 (-1) 0, Vec3i.mk 1 1 0, Vec3i.mk 0 0 (-1), Vec3i.mk 0 (-1) 0, Vec3i.mk (-1) 0 0, Vec3i.mk 0 0 1, Vec3i.mk 0 1 0, Vec3i.mk 1 0 0, Vec3i.mk 0 0 0] [Atom.mk (Vec3.mk (50000/200001) (50000/200001) (50000/200001)) "X", Atom.mk (Vec3.mk (50000/66667) (50000/200001) (50000/200001)) "X", Atom.mk (Vec3.mk (50000/200001) (50000/66667) (50000/200001)) "X", Atom.mk (Vec3.mk (50000/200001) (50000/200001) (50000/66667)) "X", Atom.mk (Vec3.mk (50000/66667) (50000/66667) (50000/200001)) "X"],
  GrowState.mk [Vec3i.mk 0 1 (-1), Vec3i.mk 0 (-1) 1, Vec3i.mk 1 0 1, Vec3i.mk 1 0 (-1), Vec3i.mk (-1) 0 1, Vec3i.mk 1 1 1, Vec3i.mk (-1) (-1) (-1), Vec3i.mk (-1) (-1) 1, Vec3i.mk (-1) 1 (-1), Vec3i.mk 1 (-1) (-1), Vec3i.mk 2 0 0, Vec3i.mk 1 1 0, Vec3i.mk 1 0 1, Vec3i.mk 1 (-1) 0, Vec3i.mk 1 0 (-1), Vec3i.mk 2 1 0, Vec3i.mk 2 (-1) 0, Vec3i.mk 0 1 0, Vec3i.mk 1 1 1, Vec3i.mk 1 1 (-1), Vec3i.mk 1 (-1) 1, Vec3i.mk 2 0 1, Vec3i.mk 2 0 (-1), Vec3i.mk 0 0 1, Vec3i.mk 2 1 1, Vec3i.mk 0 (-1) (-1), Vec3i.mk 0 (-1) 1, Vec3i.mk 0 1 (-1), Vec3i.mk 2 (-1) (-1), Vec3i.mk 1 1 0, Vec3i.mk 0 2 0, Vec3i.mk 0 1 1, Vec3i.mk (-1) 1 0, Vec3i.mk 0 1 (-1), Vec3i.mk 1 2 0, Vec3i.mk (-1) 2 0, Vec3i.mk 0 2 1, Vec3i.mk 0 2 (-1), Vec3i.mk 0 0 1, Vec3i.mk 1 1 1, Vec3i.mk 1 1 (-1), Vec3i.mk (-1) 1 1, Vec3i.mk 1 2 1, Vec3i.mk (-1) 0 (-1), Vec3i.mk (-1) 0 1, Vec3i.mk (-1) 2 (-1), Vec3i.mk 1 0 (-1), Vec3i.mk 1 0 1, Vec3i.mk 0 1 1, Vec3i.mk 0 0 2, Vec3i.mk (-1) 0 1, Vec3i.mk 0 (-1) 1, Vec3i.mk 1 1 1, Vec3i.mk 1 (-1) 1, Vec3i.mk (-1) 1 1, Vec3i.mk 0 1 2, Vec3i.mk 0 (-1) 2, Vec3i.mk 1 0 2, Vec3i.mk (-1) 0 2, Vec3i.mk 1 1 2, Vec3i.mk (-1) (-1) 0, Vec3i.mk (-1) (-1) 2, Vec3i.mk (-1) 1 0, Vec3i.mk 1 (-1) 0, Vec3i.mk 2 1 0, Vec3i.mk 1 2 0, Vec3i.mk 1 1 1, Vec3i.mk 1 1 (-1), Vec3i.mk 2 2 0, Vec3i.mk 2 0 0, Vec3i.mk 0 2 0, Vec3i.mk 1 2 1, Vec3i.mk 1 2 (-1), Vec3i.mk 1 0 1, Vec3i.mk 2 1 1, Vec3i.mk 2 1 (-1), Vec3i.mk 0 1 1, Vec3i.mk 2 2 1, Vec3i.mk 0 2 (-1), Vec3i.mk 2 0 (-1), Vec3i.mk 1 1 1, Vec3i.mk 0 2 1, Vec3i.mk 0 1 2, Vec3i.mk (-1) 1 1, Vec3i.mk 1 2 1, Vec3i.mk 1 0 1, Vec3i.mk (-1) 2 1, Vec3i.mk 0 2 2, Vec3i.mk 0 2 0, Vec3i.mk 0 0 2, Vec3i.mk 1 1 2, Vec3i.mk (-1) 1 2, Vec3i.mk 1 2 2, Vec3i.mk (-1) 0 2, Vec3i.mk (-1) 2 0] [Vec3i.mk 0 1 1, Vec3i.mk (-1) 1 0, Vec3i.mk 1 (-1) 0, Vec3i.mk 1 1 0, Vec3i.mk 0 0 (-1), Vec3i.mk 0 (-1) 0, Vec3i.mk (-1) 0 0, Vec3i.mk 0 0 1, Vec3i.mk 0 1 0, Vec3i.mk 1 0 0, Vec3i.mk 0 0 0] [Atom.mk (Vec3.mk (50000/200001) (50000/200001) (50000/200001)) "X", Atom.mk (Vec3.mk (50000/66667) (50000/200001) (50000/200001)) "X", Atom.mk (Vec3.mk (50000/200001) (50000/66667) (50000/200001)) "X", Atom.mk (Vec3.mk (50000/200001) (50000/200001) (50000/66667)) "X", Atom.mk (Vec3.mk (50000/66667) (50000/66667) (50000/200001)) "X", Atom.mk (Vec3.mk (50000/200001) (50000/66667) (50000/66667)) "X"],
  GrowState.mk [Vec3i.mk 0 (-1) 1, Vec3i.mk 1 0 1, Vec3i.mk 1 0 (-1), Vec3i.mk (-1) 0 1, Vec3i.mk 1 1 1, Vec3i.mk (-1) (-1) (-1), Vec3i.mk (-1) (-1) 1, Vec3i.mk (-1) 1 (-1), Vec3i.mk 1 (-1) (-1), Vec3i.mk 2 0 0, Vec3i.mk 1 1 0, Vec3i.mk 1 0 1, Vec3i.mk 1 (-1) 0, Vec3i.mk 1 0 (-1), Vec3i.mk 2 1 0, Vec3i.mk 2 (-1) 0, Vec3i.mk 0 1 0, Vec3i.mk 1 1 1, Vec3i.mk 1 1 (-1), Vec3i.mk 1 (-1) 1, Vec3i.mk 2 0 1, Vec3i.mk 2 0 (-1), Vec3i.mk 0 0 1, Vec3i.mk 2 1 1, Vec3i.mk 0 (-1) (-1), Vec3i.mk 0 (-1) 1, Vec3i.mk 0 1 (-1), Vec3i.mk 2 (-1) (-1), Vec3i.mk 1 1 0, Vec3i.mk 0 2 0, Vec3i.mk 0 1 1, Vec3i.mk (-1) 1 0, Vec3i.mk 0 1 (-1), Vec3i.mk 1 2 0, Vec3i.mk (-1) 2 0, Vec3i.mk 0 2 1, Vec3i.mk 0 2 (-1), Vec3i.mk 0 0 1, Vec3i.mk 1 1 1, Vec3i.mk 1 1 (-1), Vec3i.mk (-1) 1 1, Vec3i.mk 1 2 1, Vec3i.mk (-1) 0 (-1), Vec3i.mk (-1) 0 1, Vec3i.mk (-1) 2 (-1), Vec3i.mk 1 0 (-1), Vec3i.mk 1 0 1, Vec3i.mk 0 1 1, Vec3i.mk 0 0 2, Vec3i.mk (-1) 0 1, Vec3i.mk 0 (-1) 1, Vec3i.mk 1 1 1, Vec3i.mk 1 (-1) 1, Vec3i.mk (-1) 1 1, Vec3i.mk 0 1 2, Vec3i.mk 0 (-1) 2, Vec3i.mk 1 0 2, Vec3i.mk (-1) 0 2, Vec3i.mk 1 1 2, Vec3i.mk (-1) (-1) 0, Vec3i.mk (-1) (-1) 2, Vec3i.mk (-1) 1 0, Vec3i.mk 1 (-1) 0, Vec3i.mk 2 1 0, Vec3i.mk 1 2 0, Vec3i.mk 1 1 1, Vec3i.mk 1 1 (-1), Vec3i.mk 2 2 0, Vec3i.mk 2 0 0, Vec3i.mk 0 2 0, Vec3i.mk 1 2 1, Vec3i.mk 1 2 (-1), Vec3i.mk 1 0 1, Vec3i.mk 2 1 1, Vec3i.mk 2 1 (-1), Vec3i.mk 0 1 1, Vec3i.mk 2 2 1, Vec3i.mk 0 2 (-1), Vec3i.mk 2 0 (-1), Vec3i.mk 1 1 1, Vec3i.mk 0 2 1, Vec3i.mk 0 1 2, Vec3i.mk (-1) 1 1, Vec3i.mk 1 2 1, Vec3i.mk 1 0 1, Vec3i.mk (-1) 2 1, Vec3i.mk 0 2 2, Vec3i.mk 0 2 0, Vec3i.mk 0 0 2, Vec3i.mk 1 1 2, Vec3i.mk (-1) 1 2, Vec3i.mk 1 2 2, Vec3i.mk (-1) 0 2, Vec3i.mk (-1) 2 0] [Vec3i.mk 0 1 (-1), Vec3i.mk 0 1 1, Vec3i.mk (-1) 1 0, Vec3i.mk 1 (-1) 0, Vec3i.mk 1 1 0, Vec3i.mk 0 0 (-1), Vec3i.mk 0 (-1) 0, Vec3i.mk (-1) 0 0, Vec3i.mk 0 0 1, Vec3i.mk 0 1 0, Vec3i.mk 1 0 0, Vec3i.mk 0 0 0] [Atom.mk (Vec3.mk (50000/200001) (50000/200001) (50000/200001)) "X", Atom.mk (Vec3.mk (50000/66667) (50000/200001) (50000/200001)) "X", Atom.mk (Vec3.mk (50000/200001) (50000/66667) (50000/200001)) "X", Atom.mk (Vec3.mk (50000/200001) (50000/200001) (50000/66667)) "X", Atom.mk (Vec3.mk (50000/66667) (50000/66667) (50000/200001)) "X", Atom.mk (Vec3.mk (50000/200001) (50000/66667) (50000/66667)) "X"],
  GrowState.mk [Vec3i.mk 1 0 1, Vec3i.mk 1 0 (-1), Vec3i.mk (-1) 0 1, Vec3i.mk 1 1 1, Vec3i.mk (-1) (-1) (-1), Vec3i.mk (-1) (-1) 1, Vec3i.mk (-1) 1 (-1), Vec3i.mk 1 (-1) (-1), Vec3i.mk 2 0 0, Vec3i.mk 1 1 0, Vec3i.mk 1 0 1, Vec3i.mk 1 (-1) 0, Vec3i.mk 1 0 (-1), Vec3i.mk 2 1 0, Vec3i.mk 2 (-1) 0, Vec3i.mk 0 1 0, Vec3i.mk 1 1 1, Vec3i.mk 1 1 (-1), Vec3i.mk 1 (-1) 1, Vec3i.mk 2 0 1, Vec3i.mk 2 0 (-1), Vec3i.mk 0 0 1, Vec3i.mk 2 1 1, Vec3i.mk 0 (-1) (-1), Vec3i.mk 0 (-1) 1, Vec3i.mk 0 1 (-1), Vec3i.mk 2 (-1) (-1), Vec3i.mk 1 1 0, Vec3i.mk 0 2 0, Vec3i.mk 0 1 1, Vec3i.mk (-1) 1 0, Vec3i.mk 0 1 (-1), Vec3i.mk 1 2 0, Vec3i.mk (-1) 2 0, Vec3i.mk 0 2 1, Vec3i.mk 0 2 (-1), Vec3i.mk 0 0 1, Vec3i.mk 1 1 1, Vec3i.mk 1 1 (-1), Vec3i.mk (-1) 1 1, Vec3i.mk 1 2 1, Vec3i.mk (-1) 0 (-1), Vec3i.mk (-1) 0 1, Vec3i.mk (-1) 2 (-1), Vec3i.mk 1 0 (-1), Vec3i.mk 1 0 1, Vec3i.mk 0 1 1, Vec3i.mk 0 0 2, Vec3i.mk (-1) 0 1, Vec3i.mk 0 (-1) 1, Vec3i.mk 1 1 1, Vec3i.mk 1 (-1) 1, Vec3i.mk (-1) 1 1, Vec3i.mk 0 1 2, Vec3i.mk 0 (-1) 2, Vec3i.mk 1 0 2, Vec3i.mk (-1) 0 2, Vec3i.mk 1 1 2, Vec3i.mk (-1) (-1) 0, Vec3i.mk (-1) (-1) 2, Vec3i.mk (-1) 1 0, Vec3i.mk 1 (-1) 0, Vec3i.mk 2 1 0, Vec3i.mk 1 2 0, Vec3i.mk 1 1 1, Vec3i.mk 1 1 (-1), Vec3i.mk 2 2 0, Vec3i.mk 2 0 0, Vec3i.mk 0 2 0, Vec3i.mk 1 2 1, Vec3i.mk 1 2 (-1), Vec3i.mk 1 0 1, Vec3i.mk 2 1 1, Vec3i.mk 2 1 (-1), Vec3i.mk 0 1 1, Vec3i.mk 2 2 1, Vec3i.mk 0 2 (-1), Vec3i.mk 2 0 (-1), Vec3i.mk 1 1 1, Vec3i.mk 0 2 1, Vec3i.mk 0 1 2, Vec3i.mk (-1) 1 1, Vec3i.mk 1 2 1, Vec3i.mk 1 0 1, Vec3i.mk (-1) 2 1, Vec3i.mk 0 2 2, Vec3i.mk 0 2 0, Vec3i.mk 0 0 2, Vec3i.mk 1 1 2, Vec3i.mk (-1) 1 2, Vec3i.mk 1 2 2, Vec3i.mk (-1) 0 2, Vec3i.mk (-1) 2 0] [Vec3i.mk 0 (-1) 1, Vec3i.mk 0 1 (-1), Vec3i.mk 0 1 1, Vec3i.mk (-1) 1 0, Vec3i.mk 1 (-1) 0, Vec3i.mk 1 1 0, Vec3i.mk 0 0 (-1), Vec3i.mk 0 (-1) 0, Vec3i.mk (-1) 0 0, Vec3i.mk 0 0 1, Vec3i.mk 0 1 0, Vec3i.mk 1 0 0, Vec3i.mk 0 0 0] [Atom.mk (Vec3.mk (50000/200001) (50000/200001) (50000/200001)) "X", Atom.mk (Vec3.mk (50000/66667) (50000/200001) (50000/200001)) "X", Atom.mk (Vec3.mk (50000/200001) (50000/66667) (50000/200001)) "X", Atom.mk (Vec3.mk (50000/200001) (50000/200001) (50000/66667)) "X", Atom.mk (Vec3.mk (50000/66667) (50000/66667) (50000/200001)) "X", Atom.mk (Vec3.mk (50000/200001) (50000/66667) (50000/66667)) "X"],
  GrowState.mk [Vec3i.mk 1 0 (-1), Vec3i.mk (-1) 0 1, Vec3i.mk 1 1 1, Vec3i.mk (-1) (-1) (-1), Vec3i.mk (-1) (-1) 1, Vec3i.mk (-1) 1 (-1), Vec3i.mk 1 (-1) (-1), Vec3i.mk 2 0 0, Vec3i.mk 1 1 0, Vec3i.mk 1 0 1, Vec3i.mk 1 (-1) 0, Vec3i.mk 1 0 (-1), Vec3i.mk 2 1 0, Vec3i.mk 2 (-1) 0, Vec3i.mk 0 1 0, Vec3i.mk 1 1 1, Vec3i.mk 1 1 (-1), Vec3i.mk 1 (-1) 1, Vec3i.mk 2 0 1, Vec3i.mk 2 0 (-1), Vec3i.mk 0 0 1, Vec3i.mk 2 1 1, Vec3i.mk 0 (-1) (-1), Vec3i.mk 0 (-1) 1, Vec3i.mk 0 1 (-1), Vec3i.mk 2 (-1) (-1), Vec3i.mk 1 1 0, Vec3i.mk 0 2 0, Vec3i.mk 0 1 1, Vec3i.mk (-1) 1 0, Vec3i.mk 0 1 (-1), Vec3i.mk 1 2 0, Vec3i.mk (-1) 2 0, Vec3i.mk 0 2 1, Vec3i.mk 0 2 (-1), Vec3i.mk 0 0 1, Vec3i.mk 1 1 1, Vec3i.mk 1 1 (-1), Vec3i.mk (-1) 1 1, Vec3i.mk 1 2 1, Vec3i.mk (-1) 0 (-1), Vec3i.mk (-1) 0 1, Vec3i.mk (-1) 2 (-1), Vec3i.mk 1 0 (-1), Vec3i.mk 1 0 1, Vec3i.mk 0 1 1, Vec3i.mk 0 0 2, Vec3i.mk (-1) 0 1, Vec3i.mk 0 (-1) 1, Vec3i.mk 1 1 1, Vec3i.mk 1 (-1) 1, Vec3i.mk (-1) 1 1, Vec3i.mk 0 1 2, Vec3i.mk 0 (-1) 2, Vec3i.mk 1 0 2, Vec3i.mk (-1) 0 2, Vec3i.mk 1 1 2, Vec3i.mk (-1) (-1) 0, Vec3i.mk (-1) (-1) 2, Vec3i.mk (-1) 1 0, Vec3i.mk 1 (-1) 0, Vec3i.mk 2 1 0, Vec3i.mk 1 2 0, Vec3i.mk 1 1 1, Vec3i.mk 1 1 (-1), Vec3i.mk 2 2 0, Vec3i.mk 2 0 0, Vec3i.mk 0 2 0, Vec3i.mk 1 2 1, Vec3i.mk 1 2 (-1), Vec3i.mk 1 0 1, Vec3i.mk 2 1 1, Vec3i.mk 2 1 (-1), Vec3i.mk 0 1 1, Vec3i.mk 2 2 1, Vec3i.mk 0 2 (-1), Vec3i.mk 2 0 (-1), Vec3i.mk 1 1 1, Vec3i.mk 0 2 1, Vec3i.mk 0 1 2, Vec3i.mk (-1) 1 1, Vec3i.mk 1 2 1, Vec3i.mk 1 0 1, Vec3i.mk (-1) 2 1, Vec3i.mk 0 2 2, Vec3i.mk 0 2 0, Vec3i.mk 0 0 2, Vec3i.mk 1 1 2, Vec3i.mk (-1) 1 2, Vec3i.mk 1 2 2, Vec3i.mk (-1) 0 2, Vec3i.mk (-1) 2 0, Vec3i.mk 2 0 1, Vec3i.mk 1 1 1, Vec3i.mk 1 0 2, Vec3i.mk 1 (-1) 1, Vec3i.mk 2 1 1, Vec3i.mk 2 (-1) 1, Vec3i.mk 1 1 2, Vec3i.mk 1 (-1) 2, Vec3i.mk 2 0 2, Vec3i.mk 2 0 0, Vec3i.mk 0 0 2, Vec3i.mk 2 1 2, Vec3i.mk 0 (-1) 2, Vec3i.mk 2 (-1) 0] [Vec3i.mk 1 0 1, Vec3i.mk 0 (-1) 1, Vec3i.mk 0 1 (-1), Vec3i.mk 0 1 1, Vec3i.mk (-1) 1 0, Vec3i.mk 1 (-1) 0, Vec3i.mk 1 1 0, Vec3i.mk 0 0 (-1), Vec3i.mk 0 (-1) 0, Vec3i.mk (-1) 0 0, Vec3i.mk 0 0 1, Vec3i.mk 0 1 0, Vec3i.mk 1 0 0, Vec3i.mk 0 0 0] [Atom.mk (Vec3.mk (50000/200001) (50000/200001) (50000/200001)) "X", Atom.mk (Vec3.mk (50000/66667) (50000/200001) (50000/200001)) "X", Atom.mk (Vec3.mk (50000/200001) (50000/66667) (50000/200001)) "X", Atom.mk (Vec3.mk (50000/200001) (50000/200001) (50000/66667)) "X", Atom.mk (Vec3.mk (50000/66667) (50000/66667) (50000/200001)) "X", Atom.mk (Vec3.mk (50000/200001) (50000/66667) (50000/66667)) "X", Atom.mk (Vec3.mk (50000/66667) (50000/200001) (50000/66667)) "X"],
  GrowState.mk [Vec3i.mk (-1) 0 1, Vec3i.mk 1 1 1, Vec3i.mk (-1) (-1) (-1), Vec3i.mk (-1) (-1) 1, Vec3i.mk (-1) 1 (-1), Vec3i.mk 1 (-1) (-1), Vec3i.mk 2 0 0, Vec3i.mk 1 1 0, Vec3i.mk 1 0 1, Vec3i.mk 1 (-1) 0, Vec3i.mk 1 0 (-1), Vec3i.mk 2 1 0, Vec3i.mk 2 (-1) 0, Vec3i.mk 0 1 0, Vec3i.mk 1 1 1, Vec3i.mk 1 1 (-1), Vec3i.mk 1 (-1) 1, Vec3i.mk 2 0 1, Vec3i.mk 2 0 (-1), Vec3i.mk 0 0 1, Vec3i.mk 2 1 1, Vec3i.mk 0 (-1) (-1), Vec3i.mk 0 (-1) 1, Vec3i.mk 0 1 (-1), Vec3i.mk 2 (-1) (-1), Vec3i.mk 1 1 0, Vec3i.mk 0 2 0, Vec3i.mk 0 1 1, Vec3i.mk (-1) 1 0, Vec3i.mk 0 1 (-1), Vec3i.mk 1 2 0, Vec3i.mk (-1) 2 0, Vec3i.mk 0 2 1, Vec3i.mk 0 2 (-1), Vec3i.mk 0 0 1, Vec3i.mk 1 1 1, Vec3i.mk 1 1 (-1), Vec3i.mk (-1) 1 1, Vec3i.mk 1 2 1, Vec3i.mk (-1) 0 (-1), Vec3i.mk (-1) 0 1, Vec3i.mk (-1) 2 (-1), Vec3i.mk 1 0 (-1), Vec3i.mk 1 0 1, Vec3i.mk 0 1 1, Vec3i.mk 0 0 2, Vec3i.mk (-1) 0 1, Vec3i.mk 0 (-1) 1, Vec3i.mk 1 1 1, Vec3i.mk 1 (-1) 1, Vec3i.mk (-1) 1 1, Vec3i.mk 0 1 2, Vec3i.mk 0 (-1) 2, Vec3i.mk 1 0 2, Vec3i.mk (-1) 0 2, Vec3i.mk 1 1 2, Vec3i.mk (-1) (-1) 0, Vec3i.mk (-1) (-1) 2, Vec3i.mk (-1) 1 0, Vec3i.mk 1 (-1) 0, Vec3i.mk 2 1 0, Vec3i.mk 1 2 0, Vec3i.mk 1 1 1, Vec3i.mk 1 1 (-1), Vec3i.mk 2 2 0, Vec3i.mk 2 0 0, Vec3i.mk 0 2 0, Vec3i.mk 1 2 1, Vec3i.mk 1 2 (-1), Vec3i.mk 1 0 1, Vec3i.mk 2 1 1, Vec3i.mk 2 1 (-1), Vec3i.mk 0 1 1, Vec3i.mk 2 2 1, Vec3i.mk 0 2 (-1), Vec3i.mk 2 0 (-1), Vec3i.mk 1 1 1, Vec3i.mk 0 2 1, Vec3i.mk 0 1 2, Vec3i.mk (-1) 1 1, Vec3i.mk 1 2 1, Vec3i.mk 1 0 1, Vec3i.mk (-1) 2 1, Vec3i.mk 0 2 2, Vec3i.mk 0 2 0, Vec3i.mk 0 0 2, Vec3i.mk 1 1 2, Vec3i.mk (-1) 1 2, Vec3i.mk 1 2 2, Vec3i.mk (-1) 0 2, Vec3i.mk (-1) 2 0, Vec3i.mk 2 0 1, Vec3i.mk 1 1 1, Vec3i.mk 1 0 2, Vec3i.mk 1 (-1) 1, Vec3i.mk 2 1 1, Vec3i.mk 2 (-1) 1, Vec3i.mk 1 1 2, Vec3i.mk 1 (-1) 2, Vec3i.mk 2 0 2, Vec3i.mk 2 0 0, Vec3i.mk 0 0 2, Vec3i.mk 2 1 2, Vec3i.mk 0 (-1) 2, Vec3i.mk 2 (-1) 0] [Vec3i.mk 1 0 (-1), Vec3i.mk 1 0 1, Vec3i.mk 0 (-1) 1, Vec3i.mk 0 1 (-1), Vec3i.mk 0 1 1, Vec3i.mk (-1) 1 0, Vec3i.mk 1 (-1) 0, Vec3i.mk 1 1 0, Vec3i.mk 0 0 (-1), Vec3i.mk 0 (-1) 0, Vec3i.mk (-1) 0 0, Vec3i.mk 0 0 1, Vec3i.mk 0 1 0, Vec3i.mk 1 0 0, Vec3i.mk 0 0 0] [Atom.mk (Vec3.mk (50000/200001) (50000/200001) (50000/200001)) "X", Atom.mk (Vec3.mk (50000/66667) (50000/200001) (50000/200001)) "X", Atom.mk (Vec3.mk (50000/200001) (50000/66667) (50000/200001)) "X", Atom.mk (Vec3.mk (50000/200001) (50000/200001) (50000/66667)) "X", Atom.mk (Vec3.mk (50000/66667) (50000/66667) (50000/200001)) "X", Atom.mk (Vec3.mk (50000/200001) (50000/66667) (50000/66667)) "X", Atom.mk (Vec3.mk (50000/66667) (50000/200001) (50000/66667)) "X"],
  GrowState.mk [Vec3i.mk 1 1 1, Vec3i.mk (-1) (-1) (-1), Vec3i.mk (-1) (-1) 1, Vec3i.mk (-1) 1 (-1), Vec3i.mk 1 (-1) (-1), Vec3i.mk 2 0 0, Vec3i.mk 1 1 0, Vec3i.mk 1 0 1, Vec3i.mk 1 (-1) 0, Vec3i.mk 1 0 (-1), Vec3i.mk 2 1 0, Vec3i.mk 2 (-1) 0, Vec3i.mk 0 1 0, Vec3i.mk 1 1 1, Vec3i.mk 1 1 (-1), Vec3i.mk 1 (-1) 1, Vec3i.mk 2 0 1, Vec3i.mk 2 0 (-1), Vec3i.mk 0 0 1, Vec3i.mk 2 1 1, Vec3i.mk 0 (-1) (-1), Vec3i.mk 0 (-1) 1, Vec3i.mk 0 1 (-1), Vec3i.mk 2 (-1) (-1), Vec3i.mk 1 1 0, Vec3i.mk 0 2 0, Vec3i.mk 0 1 1, Vec3i.mk (-1) 1 0, Vec3i.mk 0 1 (-1), Vec3i.mk 1 2 0, Vec3i.mk (-1) 2 0, Vec3i.mk 0 2 1, Vec3i.mk 0 2 (-1), Vec3i.mk 0 0 1, Vec3i.mk 1 1 1, Vec3i.mk 1 1 (-1), Vec3i.mk (-1) 1 1, Vec3i.mk 1 2 1, Vec3i.mk (-1) 0 (-1), Vec3i.mk (-1) 0 1, Vec3i.mk (-1) 2 (-1), Vec3i.mk 1 0 (-1), Vec3i.mk 1 0 1, Vec3i.mk 0 1 1, Vec3i.mk 0 0 2, Vec3i.mk (-1) 0 1, Vec3i.mk 0 (-1) 1, Vec3i.mk 1 1 1, Vec3i.mk 1 (-1) 1, Vec3i.mk (-1) 1 1, Vec3i.mk 0 1 2, Vec3i.mk 0 (-1) 2, Vec3i.mk 1 0 2, Vec3i.mk (-1) 0 2, Vec3i.mk 1 1 2, Vec3i.mk (-1) (-1) 0, Vec3i.mk (-1) (-1) 2, Vec3i.mk (-1) 1 0, Vec3i.mk 1 (-1) 0, Vec3i.mk 2 1 0, Vec3i.mk 1 2 0, Vec3i.mk 1 1 1, Vec3i.mk 1 1 (-1), Vec3i.mk 2 2 0, Vec3i.mk 2 0 0, Vec3i.mk 0 2 0, Vec3i.mk 1 2 1, Vec3i.mk 1 2 (-1), Vec3i.mk 1 0 1, Vec3i.mk 2 1 1, Vec3i.mk 2 1 (-1), Vec3i.mk 0 1 1, Vec3i.mk 2 2 1, Vec3i.mk 0 2 (-1), Vec3i.mk 2 0 (-1), Vec3i.mk 1 1 1, Vec3i.mk 0 2 1, Vec3i.mk 0 1 2, Vec3i.mk (-1) 1 1, Vec3i.mk 1 2 1, Vec3i.mk 1 0 1, Vec3i.mk (-1) 2 1, Vec3i.mk 0 2 2, Vec3i.mk 0 2 0, Vec3i.mk 0 0 2, Vec3i.mk 1 1 2, Vec3i.mk (-1) 1 2, Vec3i.mk 1 2 2, Vec3i.mk (-1) 0 2, Vec3i.mk (-1) 2 0, Vec3i.mk 2 0 1, Vec3i.mk 1 1 1, Vec3i.mk 1 0 2, Vec3i.mk 1 (-1) 1, Vec3i.mk 2 1 1, Vec3i.mk 2 (-1) 1, Vec3i.mk 1 1 2, Vec3i.mk 1 (-1) 2, Vec3i.mk 2 0 2, Vec3i.mk 2 0 0, Vec3i.mk 0 0 2, Vec3i.mk 2 1 2, Vec3i.mk 0 (-1) 2, Vec3i.mk 2 (-1) 0] [Vec3i.mk (-1) 0 1, Vec3i.mk 1 0 (-1), Vec3i.mk 1 0 1, Vec3i.mk 0 (-1) 1, Vec3i.mk 0 1 (-1), Vec3i.mk 0 1 1, Vec3i.mk (-1) 1 0, Vec3i.mk 1 (-1) 0, Vec3i.mk 1 1 0, Vec3i.mk 0 0 (-1), Vec3i.mk 0 (-1) 0, Vec3i.mk (-1) 0 0, Vec3i.mk 0 0 1, Vec3i.mk 0 1 0, Vec3i.mk 1 0 0, Vec3i.mk 0 0 0] [Atom.mk (Vec3.mk (50000/200001) (50000/200001) (50000/200001)) "X", Atom.mk (Vec3.mk (50000/66667) (50000/200001) (50000/200001)) "X", Atom.mk (Vec3.mk (50000/200001) (50000/66667) (50000/200001)) "X", Atom.mk (Vec3.mk (50000/200001) (50000/200001) (50000/66667)) "X", Atom.mk (Vec3.mk (50000/66667) (50000/66667) (50000/200001)) "X", Atom.mk (Vec3.mk (50000/200001) (50000/66667) (50000/66667)) "X", Atom.mk (Vec3.mk (50000/66667) (50000/200001) (50000/66667)) "X"],
  GrowState.mk [Vec3i.mk (-1) (-1) (-1), Vec3i.mk (-1) (-1) 1, Vec3i.mk (-1) 1 (-1), Vec3i.mk 1 (-1) (-1), Vec3i.mk 2 0 0, Vec3i.mk 1 1 0, Vec3i.mk 1 0 1, Vec3i.mk 1 (-1) 0, Vec3i.mk 1 0 (-1), Vec3i.mk 2 1 0, Vec3i.mk 2 (-1) 0, Vec3i.mk 0 1 0, Vec3i.mk 1 1 1, Vec3i.mk 1 1 (-1), Vec3i.mk 1 (-1) 1, Vec3i.mk 2 0 1, Vec3i.mk 2 0 (-1), Vec3i.mk 0 0 1, Vec3i.mk 2 1 1, Vec3i.mk 0 (-1) (-1), Vec3i.mk 0 (-1) 1, Vec3i.mk 0 1 (-1), Vec3i.mk 2 (-1) (-1), Vec3i.mk 1 1 0, Vec3i.mk 0 2 0, Vec3i.mk 0 1 1, Vec3i.mk (-1) 1 0, Vec3i.mk 0 1 (-1), Vec3i.mk 1 2 0, Vec3i.mk (-1) 2 0, Vec3i.mk 0 2 1, Vec3i.mk 0 2 (-1), Vec3i.mk 0 0 1, Vec3i.mk 1 1 1, Vec3i.mk 1 1 (-1), Vec3i.mk (-1) 1 1, Vec3i.mk 1 2 1, Vec3i.mk (-1) 0 (-1), Vec3i.mk (-1) 0 1, Vec3i.mk (-1) 2 (-1), Vec3i.mk 1 0 (-1), Vec3i.mk 1 0 1, Vec3i.mk 0 1 1, Vec3i.mk 0 0 2, Vec3i.mk (-1) 0 1, Vec3i.mk 0 (-1) 1, Vec3i.mk 1 1 1, Vec3i.mk 1 (-1) 1, Vec3i.mk (-1) 1 1, Vec3i.mk 0 1 2, Vec3i.mk 0 (-1) 2, Vec3i.mk 1 0 2, Vec3i.mk (-1) 0 2, Vec3i.mk 1 1 2, Vec3i.mk (-1) (-1) 0, Vec3i.mk (-1) (-1) 2, Vec3i.mk (-1) 1 0, Vec3i.mk 1 (-1) 0, Vec3i.mk 2 1 0, Vec3i.mk 1 2 0, Vec3i.mk 1 1 1, Vec3i.mk 1 1 (-1), Vec3i.mk 2 2 0, Vec3i.mk 2 0 0, Vec3i.mk 0 2 0, Vec3i.mk 1 2 1, Vec3i.mk 1 2 (-1), Vec3i.mk 1 0 1, Vec3i.mk 2 1 1, Vec3i.mk 2 1 (-1), Vec3i.mk 0 1 1, Vec3i.mk 2 2 1, Vec3i.mk 0 2 (-1), Vec3i.mk 2 0 (-1), Vec3i.mk 1 1 1, Vec3i.mk 0 2 1, Vec3i.mk 0 1 2, Vec3i.mk (-1) 1 1, Vec3i.mk 1 2 1, Vec3i.mk 1 0 1, Vec3i.mk (-1) 2 1, Vec3i.mk 0 2 2, Vec3i.mk 0 2 0, Vec3i.mk 0 0 2, Vec3i.mk 1 1 2, Vec3i.mk (-1) 1 2, Vec3i.mk 1 2 2, Vec3i.mk (-1) 0 2, Vec3i.mk (-1) 2 0, Vec3i.mk 2 0 1, Vec3i.mk 1 1 1, Vec3i.mk 1 0 2, Vec3i.mk 1 (-1) 1, Vec3i.mk 2 1 1, Vec3i.mk 2 (-1) 1, Vec3i.mk 1 1 2, Vec3i.mk 1 (-1) 2, Vec3i.mk 2 0 2, Vec3i.mk 2 0 0, Vec3i.mk 0 0 2, Vec3i.mk 2 1 2, Vec3i.mk 0 (-1) 2, Vec3i.mk 2 (-1) 0, Vec3i.mk 2 1 1, Vec3i.mk 1 2 1, Vec3i.mk 1 1 2, Vec3i.mk 2 2 1, Vec3i.mk 2 0 1, Vec3i.mk 0 2 1, Vec3i.mk 1 2 2, Vec3i.mk 1 2 0, Vec3i.mk 1 0 2, Vec3i.mk 2 1 2, Vec3i.mk 2 1 0, Vec3i.mk 0 1 2, Vec3i.mk 2 2 2, Vec3i.mk 0 0 2, Vec3i.mk 0 2 0, Vec3i.mk 2 0 0] [Vec3i.mk 1 1 1, Vec3i.mk (-1) 0 1, Vec3i.mk 1 0 (-1), Vec3i.mk 1 0 1, Vec3i.mk 0 (-1) 1, Vec3i.mk 0 1 (-1), Vec3i.mk 0 1 1, Vec3i.mk (-1) 1 0, Vec3i.mk 1 (-1) 0, Vec3i.mk 1 1 0, Vec3i.mk 0 0 (-1), Vec3i.mk 0 (-1) 0, Vec3i.mk (-1) 0 0, Vec3i.mk 0 0 1, Vec3i.mk 0 1 0, Vec3i.mk 1 0 0, Vec3i.mk 0 0 0] [Atom.mk (Vec3.mk (50000/200001) (50000/200001) (50000/200001)) "X", Atom.mk (Vec3.mk (50000/66667) (50000/200001) (50000/200001)) "X", Atom.mk (Vec3.mk (50000/200001) (50000/66667) (50000/200001)) "X", Atom.mk (Vec3.mk (50000/200001) (50000/200001) (50000/66667)) "X", Atom.mk (Vec3.mk (50000/66667) (50000/66667) (50000/200001)) "X", Atom.mk (Vec3.mk (50000/200001) (50000/66667) (50000/66667)) "X", Atom.mk (Vec3.mk (50000/66667) (50000/200001) (50000/66667)) "X", Atom.mk (Vec3.mk (50000/66667) (50000/66667) (50000/66667)) "X"],
  GrowState.mk [Vec3i.mk (-1) (-1) 1, Vec3i.mk (-1) 1 (-1), Vec3i.mk 1 (-1) (-1), Vec3i.mk 2 0 0, Vec3i.mk 1 1 0, Vec3i.mk 1 0 1, Vec3i.mk 1 (-1) 0, Vec3i.mk 1 0 (-1), Vec3i.mk 2 1 0, Vec3i.mk 2 (-1) 0, Vec3i.mk 0 1 0, Vec3i.mk 1 1 1, Vec3i.mk 1 1 (-1), Vec3i.mk 1 (-1) 1, Vec3i.mk 2 0 1, Vec3i.mk 2 0 (-1), Vec3i.mk 0 0 1, Vec3i.mk 2 1 1, Vec3i.mk 0 (-1) (-1), Vec3i.mk 0 (-1) 1, Vec3i.mk 0 1 (-1), Vec3i.mk 2 (-1) (-1), Vec3i.mk 1 1 0, Vec3i.mk 0 2 0, Vec3i.mk 0 1 1, Vec3i.mk (-1) 1 0, Vec3i.mk 0 1 (-1), Vec3i.mk 1 2 0, Vec3i.mk (-1) 2 0, Vec3i.mk 0 2 1, Vec3i.mk 0 2 (-1), Vec3i.mk 0 0 1, Vec3i.mk 1 1 1, Vec3i.mk 1 1 (-1), Vec3i.mk (-1) 1 1, Vec3i.mk 1 2 1, Vec3i.mk (-1) 0 (-1), Vec3i.mk (-1) 0 1, Vec3i.mk (-1) 2 (-1), Vec3i.mk 1 0 (-1), Vec3i.mk 1 0 1, Vec3i.mk 0 1 1, Vec3i.mk 0 0 2, Vec3i.mk (-1) 0 1, Vec3i.mk 0 (-1) 1, Vec3i.mk 1 1 1, Vec3i.mk 1 (-1) 1, Vec3i.mk (-1) 1 1, Vec3i.mk 0 1 2, Vec3i.mk 0 (-1) 2, Vec3i.mk 1 0 2, Vec3i.mk (-1) 0 2, Vec3i.mk 1 1 2, Vec3i.mk (-1) (-1) 0, Vec3i.mk (-1) (-1) 2, Vec3i.mk (-1) 1 0, Vec3i.mk 1 (-1) 0, Vec3i.mk 2 1 0, Vec3i.mk 1 2 0, Vec3i.mk 1 1 1, Vec3i.mk 1 1 (-1), Vec3i.mk 2 2 0, Vec3i.mk 2 0 0, Vec3i.mk 0 2 0, Vec3i.mk 1 2 1, Vec3i.mk 1 2 (-1), Vec3i.mk 1 0 1, Vec3i.mk 2 1 1, Vec3i.mk 2 1 (-1), Vec3i.mk 0 1 1, Vec3i.mk 2 2 1, Vec3i.mk 0 2 (-1), Vec3i.mk 2 0 (-1), Vec3i.mk 1 1 1, Vec3i.mk 0 2 1, Vec3i.mk 0 1 2, Vec3i.mk (-1) 1 1, Vec3i.mk 1 2 1, Vec3i.mk 1 0 1, Vec3i.mk (-1) 2 1, Vec3i.mk 0 2 2, Vec3i.mk 0 2 0, Vec3i.mk 0 0 2, Vec3i.mk 1 1 2, Vec3i.mk (-1) 1 2, Vec3i.mk 1 2 2, Vec3i.mk (-1) 0 2, Vec3i.mk (-1) 2 0, Vec3i.mk 2 0 1, Vec3i.mk 1 1 1, Vec3i.mk 1 0 2, Vec3i.mk 1 (-1) 1, Vec3i.mk 2 1 1, Vec3i.mk 2 (-1) 1, Vec3i.mk 1 1 2, Vec3i.mk 1 (-1) 2, Vec3i.mk 2 0 2, Vec3i.mk 2 0 0, Vec3i.mk 0 0 2, Vec3i.mk 2 1 2, Vec3i.mk 0 (-1) 2, Vec3i.mk 2 (-1) 0, Vec3i.mk 2 1 1, Vec3i.mk 1 2 1, Vec3i.mk 1 1 2, Vec3i.mk 2 2 1, Vec3i.mk 2 0 1, Vec3i.mk 0 2 1, Vec3i.mk 1 2 2, Vec3i.mk 1 2 0, Vec3i.mk 1 0 2, Vec3i.mk 2 1 2, Vec3i.mk 2 1 0, Vec3i.mk 0 1 2, Vec3i.mk 2 2 2, Vec3i.mk 0 0 2, Vec3i.mk 0 2 0, Vec3i.mk 2 0 0] [Vec3i.mk (-1) (-1) (-1), Vec3i.mk 1 1 1, Vec3i.mk (-1) 0 1, Vec3i.mk 1 0 (-1), Vec3i.mk 1 0 1, Vec3i.mk 0 (-1) 1, Vec3i.mk 0 1 (-1), Vec3i.mk 0 1 1, Vec3i.mk (-1) 1 0, Vec3i.mk 1 (-1) 0, Vec3i.mk 1 1 0, Vec3i.mk 0 0 (-1), Vec3i.mk 0 (-1) 0, Vec3i.mk (-1) 0 0, Vec3i.mk 0 0 1, Vec3i.mk 0 1 0, Vec3i.mk 1 0 0, Vec3i.mk 0 0 0] [Atom.mk (Vec3.mk (50000/200001) (50000/200001) (50000/200001)) "X", Atom.mk (Vec3.mk (50000/66667) (50000/200001) (50000/200001)) "X", Atom.mk (Vec3.mk (50000/200001) (50000/66667) (50000/200001)) "X", Atom.mk (Vec3.mk (50000/200001) (50000/200001) (50000/66667)) "X", Atom.mk (Vec3.mk (50000/66667) (50000/66667) (50000/200001)) "X", Atom.mk (Vec3.mk (50000/200001) (50000/66667) (50000/66667)) "X", Atom.mk (Vec3.mk (50000/66667) (50000/200001) (50000/66667)) "X", Atom.mk (Vec3.mk (50000/66667) (50000/66667) (50000/66667)) "X"],
  GrowState.mk [Vec3i.mk (-1) 1 (-1), Vec3i.mk 1 (-1) (-1), Vec3i.mk 2 0 0, Vec3i.mk 1 1 0, Vec3i.mk 1 0 1, Vec3i.mk 1 (-1) 0, Vec3i.mk 1 0 (-1), Vec3i.mk 2 1 0, Vec3i.mk 2 (-1) 0, Vec3i.mk 0 1 0, Vec3i.mk 1 1 1, Vec3i.mk 1 1 (-1), Vec3i.mk 1 (-1) 1, Vec3i.mk 2 0 1, Vec3i.mk 2 0 (-1), Vec3i.mk 0 0 1, Vec3i.mk 2 1 1, Vec3i.mk 0 (-1) (-1), Vec3i.mk 0 (-1) 1, Vec3i.mk 0 1 (-1), Vec3i.mk 2 (-1) (-1), Vec3i.mk 1 1 0, Vec3i.mk 0 2 0, Vec3i.mk 0 1 1, Vec3i.mk (-1) 1 0, Vec3i.mk 0 1 (-1), Vec3i.mk 1 2 0, Vec3i.mk (-1) 2 0, Vec3i.mk 0 2 1, Vec3i.mk 0 2 (-1), Vec3i.mk 0 0 1, Vec3i.mk 1 1 1, Vec3i.mk 1 1 (-1), Vec3i.mk (-1) 1 1, Vec3i.mk 1 2 1, Vec3i.mk (-1) 0 (-1), Vec3i.mk (-1) 0 1, Vec3i.mk (-1) 2 (-1), Vec3i.mk 1 0 (-1), Vec3i.mk 1 0 1, Vec3i.mk 0 1 1, Vec3i.mk 0 0 2, Vec3i.mk (-1) 0 1, Vec3i.mk 0 (-1) 1, Vec3i.mk 1 1 1, Vec3i.mk 1 (-1) 1, Vec3i.mk (-1) 1 1, Vec3i.mk 0 1 2, Vec3i.mk 0 (-1) 2, Vec3i.mk 1 0 2, Vec3i.mk (-1) 0 2, Vec3i.mk 1 1 2, Vec3i.mk (-1) (-1) 0, Vec3i.mk (-1) (-1) 2, Vec3i.mk (-1) 1 0, Vec3i.mk 1 (-1) 0, Vec3i.mk 2 1 0, Vec3i.mk 1 2 0, Vec3i.mk 1 1 1, Vec3i.mk 1 1 (-1), Vec3i.mk 2 2 0, Vec3i.mk 2 0 0, Vec3i.mk 0 2 0, Vec3i.mk 1 2 1, Vec3i.mk 1 2 (-1), Vec3i.mk 1 0 1, Vec3i.mk 2 1 1, Vec3i.mk 2 1 (-1), Vec3i.mk 0 1 1, Vec3i.mk 2 2 1, Vec3i.mk 0 2 (-1), Vec3i.mk 2 0 (-1), Vec3i.mk 1 1 1, Vec3i.mk 0 2 1, Vec3i.mk 0 1 2, Vec3i.mk (-1) 1 1, Vec3i.mk 1 2 1, Vec3i.mk 1 0 1, Vec3i.mk (-1) 2 1, Vec3i.mk 0 2 2, Vec3i.mk 0 2 0, Vec3i.mk 0 0 2, Vec3i.mk 1 1 2, Vec3i.mk (-1) 1 2, Vec3i.mk 1 2 2, Vec3i.mk (-1) 0 2, Vec3i.mk (-1) 2 0, Vec3i.mk 2 0 1, Vec3i.mk 1 1 1, Vec3i.mk 1 0 2, Vec3i.mk 1 (-1) 1, Vec3i.mk 2 1 1, Vec3i.mk 2 (-1) 1, Vec3i.mk 1 1 2, Vec3i.mk 1 (-1) 2, Vec3i.mk 2 0 2, Vec3i.mk 2 0 0, Vec3i.mk 0 0 2, Vec3i.mk 2 1 2, Vec3i.mk 0 (-1) 2, Vec3i.mk 2 (-1) 0, Vec3i.mk 2 1 1, Vec3i.mk 1 2 1, Vec3i.mk 1 1 2, Vec3i.mk 2 2 1, Vec3i.mk 2 0 1, Vec3i.mk 0 2 1, Vec3i.mk 1 2 2, Vec3i.mk 1 2 0, Vec3i.mk 1 0 2, Vec3i.mk 2 1 2, Vec3i.mk 2 1 0, Vec3i.mk 0 1 2, Vec3i.mk 2 2 2, Vec3i.mk 0 0 2, Vec3i.mk 0 2 0, Vec3i.mk 2 0 0] [Vec3i.mk (-1) (-1) 1, Vec3i.mk (-1) (-1) (-1), Vec3i.mk 1 1 1, Vec3i.mk (-1) 0 1, Vec3i.mk 1 0 (-1), Vec3i.mk 1 0 1, Vec3i.mk 0 (-1) 1, Vec3i.mk 0 1 (-1), Vec3i.mk 0 1 1, Vec3i.mk (-1) 1 0, Vec3i.mk 1 (-1) 0, Vec3i.mk 1 1 0, Vec3i.mk 0 0 (-1), Vec3i.mk 0 (-1) 0, Vec3i.mk (-1) 0 0, Vec3i.mk 0 0 1, Vec3i.mk 0 1 0, Vec3i.mk 1 0 0, Vec3i.mk 0 0 0] [Atom.mk (Vec3.mk (50000/200001) (50000/200001) (50000/200001)) "X", Atom.mk (Vec3.mk (50000/66667) (50000/200001) (50000/200001)) "X", Atom.mk (Vec3.mk (50000/200001) (50000/66667) (50000/200001)) "X", Atom.mk (Vec3.mk (50000/200001) (50000/200001) (50000/66667)) "X", Atom.mk (Vec3.mk (50000/66667) (50000/66667) (50000/200001)) "X", Atom.mk (Vec3.mk (50000/200001) (50000/66667) (50000/66667)) "X", Atom.mk (Vec3.mk (50000/66667) (50000/200001) (50000/66667)) "X", Atom.mk (Vec3.mk (50000/66667) (50000/66667) (50000/66667)) "X"],
  GrowState.mk [Vec3i.mk 1 (-1) (-1), Vec3i.mk 2 0 0, Vec3i.mk 1 1 0, Vec3i.mk 1 0 1, Vec3i.mk 1 (-1) 0, Vec3i.mk 1 0 (-1), Vec3i.mk 2 1 0, Vec3i.mk 2 (-1) 0, Vec3i.mk 0 1 0, Vec3i.mk 1 1 1, Vec3i.mk 1 1 (-1), Vec3i.mk 1 (-1) 1, Vec3i.mk 2 0 1, Vec3i.mk 2 0 (-1), Vec3i.mk 0 0 1, Vec3i.mk 2 1 1, Vec3i.mk 0 (-1) (-1), Vec3i.mk 0 (-1) 1, Vec3i.mk 0 1 (-1), Vec3i.mk 2 (-1) (-1), Vec3i.mk 1 1 0, Vec3i.mk 0 2 0, Vec3i.mk 0 1 1, Vec3i.mk (-1) 1 0, Vec3i.mk 0 1 (-1), Vec3i.mk 1 2 0, Vec3i.mk (-1) 2 0, Vec3i.mk 0 2 1, Vec3i.mk 0 2 (-1), Vec3i.mk 0 0 1, Vec3i.mk 1 1 1, Vec3i.mk 1 1 (-1), Vec3i.mk (-1) 1 1, Vec3i.mk 1 2 1, Vec3i.mk (-1) 0 (-1), Vec3i.mk (-1) 0 1, Vec3i.mk (-1) 2 (-1), Vec3i.mk 1 0 (-1), Vec3i.mk 1 0 1, Vec3i.mk 0 1 1, Vec3i.mk 0 0 2, Vec3i.mk (-1) 0 1, Vec3i.mk 0 (-1) 1, Vec3i.mk 1 1 1, Vec3i.mk 1 (-1) 1, Vec3i.mk (-1) 1 1, Vec3i.mk 0 1 2, Vec3i.mk 0 (-1) 2, Vec3i.mk 1 0 2, Vec3i.mk (-1) 0 2, Vec3i.mk 1 1 2, Vec3i.mk (-1) (-1) 0, Vec3i.mk (-1) (-1) 2, Vec3i.mk (-1) 1 0, Vec3i.mk 1 (-1) 0, Vec3i.mk 2 1 0, Vec3i.mk 1 2 0, Vec3i.mk 1 1 1, Vec3i.mk 1 1 (-1), Vec3i.mk 2 2 0, Vec3i.mk 2 0 0, Vec3i.mk 0 2 0, Vec3i.mk 1 2 1, Vec3i.mk 1 2 (-1), Vec3i.mk 1 0 1, Vec3i.mk 2 1 1, Vec3i.mk 2 1 (-1), Vec3i.mk 0 1 1, Vec3i.mk 2 2 1, Vec3i.mk 0 2 (-1), Vec3i.mk 2 0 (-1), Vec3i.mk 1 1 1, Vec3i.mk 0 2 1, Vec3i.mk 0 1 2, Vec3i.mk (-1) 1 1, Vec3i.mk 1 2 1, Vec3i.mk 1 0 1, Vec3i.mk (-1) 2 1, Vec3i.mk 0 2 2, Vec3i.mk 0 2 0, Vec3i.mk 0 0 2, Vec3i.mk 1 1 2, Vec3i.mk (-1) 1 2, Vec3i.mk 1 2 2, Vec3i.mk (-1) 0 2, Vec3i.mk (-1) 2 0, Vec3i.mk 2 0 1, Vec3i.mk 1 1 1, Vec3i.mk 1 0 2, Vec3i.mk 1 (-1) 1, Vec3i.mk 2 1 1, Vec3i.mk 2 (-1) 1, Vec3i.mk 1 1 2, Vec3i.mk 1 (-1) 2, Vec3i.mk 2 0 2, Vec3i.mk 2 0 0, Vec3i.mk 0 0 2, Vec3i.mk 2 1 2, Vec3i.mk 0 (-1) 2, Vec3i.mk 2 (-1) 0, Vec3i.mk 2 1 1, Vec3i.mk 1 2 1, Vec3i.mk 1 1 2, Vec3i.mk 2 2 1, Vec3i.mk 2 0 1, Vec3i.mk 0 2 1, Vec3i.mk 1 2 2, Vec3i.mk 1 2 0, Vec3i.mk 1 0 2, Vec3i.mk 2 1 2, Vec3i.mk 2 1 0, Vec3i.mk 0 1 2, Vec3i.mk 2 2 2, Vec3i.mk 0 0 2, Vec3i.mk 0 2 0, Vec3i.mk 2 0 0] [Vec3i.mk (-1) 1 (-1), Vec3i.mk (-1) (-1) 1, Vec3i.mk (-1) (-1) (-1), Vec3i.mk 1 1 1, Vec3i.mk (-1) 0 1, Vec3i.mk 1 0 (-1), Vec3i.mk 1 0 1, Vec3i.mk 0 (-1) 1, Vec3i.mk 0 1 (-1), Vec3i.mk 0 1 1, Vec3i.mk (-1) 1 0, Vec3i.mk 1 (-1) 0, Vec3i.mk 1 1 0, Vec3i.mk 0 0 (-1), Vec3i.mk 0 (-1) 0, Vec3i.mk (-1) 0 0, Vec3i.mk 0 0 1, Vec3i.mk 0 1 0, Vec3i.mk 1 0 0, Vec3i.mk 0 0 0] [Atom.mk (Vec3.mk (50000/200001) (50000/200001) (50000/200001)) "X", Atom.mk (Vec3.mk (50000/66667) (50000/200001) (50000/200001)) "X", Atom.mk (Vec3.mk (50000/200001) (50000/66667) (50000/200001)) "X", Atom.mk (Vec3.mk (50000/200001) (50000/200001) (50000/66667)) "X", Atom.mk (Vec3.mk (50000/66667) (50000/66667) (50000/200001)) "X", Atom.mk (Vec3.mk (50000/200001) (50000/66667) (50000/66667)) "X", Atom.mk (Vec3.mk (50000/66667) (50000/200001) (50000/66667)) "X", Atom.mk (Vec3.mk (50000/66667) (50000/66667) (50000/66667)) "X"],
  GrowState.mk [Vec3i.mk 2 0 0, Vec3i.mk 1 1 0, Vec3i.mk 1 0 1, Vec3i.mk 1 (-1) 0, Vec3i.mk 1 0 (-1), Vec3i.mk 2 1 0, Vec3i.mk 2 (-1) 0, Vec3i.mk 0 1 0, Vec3i.mk 1 1 1, Vec3i.mk 1 1 (-1), Vec3i.mk 1 (-1) 1, Vec3i.mk 2 0 1, Vec3i.mk 2 0 (-1), Vec3i.mk 0 0 1, Vec3i.mk 2 1 1, Vec3i.mk 0 (-1) (-1), Vec3i.mk 0 (-1) 1, Vec3i.mk 0 1 (-1), Vec3i.mk 2 (-1) (-1), Vec3i.mk 1 1 0, Vec3i.mk 0 2 0, Vec3i.mk 0 1 1, Vec3i.mk (-1) 1 0, Vec3i.mk 0 1 (-1), Vec3i.mk 1 2 0, Vec3i.mk (-1) 2 0, Vec3i.mk 0 2 1, Vec3i.mk 0 2 (-1), Vec3i.mk 0 0 1, Vec3i.mk 1 1 1, Vec3i.mk 1 1 (-1), Vec3i.mk (-1) 1 1, Vec3i.mk 1 2 1, Vec3i.mk (-1) 0 (-1), Vec3i.mk (-1) 0 1, Vec3i.mk (-1) 2 (-1), Vec3i.mk 1 0 (-1), Vec3i.mk 1 0 1, Vec3i.mk 0 1 1, Vec3i.mk 0 0 2, Vec3i.mk (-1) 0 1, Vec3i.mk 0 (-1) 1, Vec3i.mk 1 1 1, Vec3i.mk 1 (-1) 1, Vec3i.mk (-1) 1 1, Vec3i.mk 0 1 2, Vec3i.mk 0 (-1) 2, Vec3i.mk 1 0 2, Vec3i.mk (-1) 0 2, Vec3i.mk 1 1 2, Vec3i.mk (-1) (-1) 0, Vec3i.mk (-1) (-1) 2, Vec3i.mk (-1) 1 0, Vec3i.mk 1 (-1) 0, Vec3i.mk 2 1 0, Vec3i.mk 1 2 0, Vec3i.mk 1 1 1, Vec3i.mk 1 1 (-1), Vec3i.mk 2 2 0, Vec3i.mk 2 0 0, Vec3i.mk 0 2 0, Vec3i.mk 1 2 1, Vec3i.mk 1 2 (-1), Vec3i.mk 1 0 1, Vec3i.mk 2 1 1, Vec3i.mk 2 1 (-1), Vec3i.mk 0 1 1, Vec3i.mk 2 2 1, Vec3i.mk 0 2 (-1), Vec3i.mk 2 0 (-1), Vec3i.mk 1 1 1, Vec3i.mk 0 2 1, Vec3i.mk 0 1 2, Vec3i.mk (-1) 1 1, Vec3i.mk 1 2 1, Vec3i.mk 1 0 1, Vec3i.mk (-1) 2 1, Vec3i.mk 0 2 2, Vec3i.mk 0 2 0, Vec3i.mk 0 0 2, Vec3i.mk 1 1 2, Vec3i.mk (-1) 1 2, Vec3i.mk 1 2 2, Vec3i.mk (-1) 0 2, Vec3i.mk (-1) 2 0, Vec3i.mk 2 0 1, Vec3i.mk 1 1 1, Vec3i.mk 1 0 2, Vec3i.mk 1 (-1) 1, Vec3i.mk 2 1 1, Vec3i.mk 2 (-1) 1, Vec3i.mk 1 1 2, Vec3i.mk 1 (-1) 2, Vec3i.mk 2 0 2, Vec3i.mk 2 0 0, Vec3i.mk 0 0 2, Vec3i.mk 2 1 2, Vec3i.mk 0 (-1) 2, Vec3i.mk 2 (-1) 0, Vec3i.mk 2 1 1, Vec3i.mk 1 2 1, Vec3i.mk 1 1 2, Vec3i.mk 2 2 1, Vec3i.mk 2 0 1, Vec3i.mk 0 2 1, Vec3i.mk 1 2 2, Vec3i.mk 1 2 0, Vec3i.mk 1 0 2, Vec3i.mk 2 1 2, Vec3i.mk 2 1 0, Vec3i.mk 0 1 2, Vec3i.mk 2 2 2, Vec3i.mk 0 0 2, Vec3i.mk 0 2 0, Vec3i.mk 2 0 0] [Vec3i.mk 1 (-1) (-1), Vec3i.mk (-1) 1 (-1), Vec3i.mk (-1) (-1) 1, Vec3i.mk (-1) (-1) (-1), Vec3i.mk 1 1 1, Vec3i.mk (-1) 0 1, Vec3i.mk 1 0 (-1), Vec3i.mk 1 0 1, Vec3i.mk 0 (-1) 1, Vec3i.mk 0 1 (-1), Vec3i.mk 0 1 1, Vec3i.mk (-1) 1 0, Vec3i.mk 1 (-1) 0, Vec3i.mk 1 1 0, Vec3i.mk 0 0 (-1), Vec3i.mk 0 (-1) 0, Vec3i.mk (-1) 0 0, Vec3i.mk 0 0 1, Vec3i.mk 0 1 0, Vec3i.mk 1 0 0, Vec3i.mk 0 0 0] [Atom.mk (Vec3.mk (50000/200001) (50000/200001) (50000/200001)) "X", Atom.mk (Vec3.mk (50000/66667) (50000/200001) (50000/200001)) "X", Atom.mk (Vec3.mk (50000/200001) (50000/66667) (50000/200001)) "X", Atom.mk (Vec3.mk (50000/200001) (50000/200001) (50000/66667)) "X", Atom.mk (Vec3.mk (50000/66667) (50000/66667) (50000/200001)) "X", Atom.mk (Vec3.mk (50000/200001) (50000/66667) (50000/66667)) "X", Atom.mk (Vec3.mk (50000/66667) (50000/200001) (50000/66667)) "X", Atom.mk (Vec3.mk (50000/66667) (50000/66667) (50000/66667)) "X"],
  GrowState.mk [Vec3i.mk 1 1 0, Vec3i.mk 1 0 1, Vec3i.mk 1 (-1) 0, Vec3i.mk 1 0 (-1), Vec3i.mk 2 1 0, Vec3i.mk 2 (-1) 0, Vec3i.mk 0 1 0, Vec3i.mk 1 1 1, Vec3i.mk 1 1 (-1), Vec3i.mk 1 (-1) 1, Vec3i.mk 2 0 1, Vec3i.mk 2 0 (-1), Vec3i.mk 0 0 1, Vec3i.mk 2 1 1, Vec3i.mk 0 (-1) (-1), Vec3i.mk 0 (-1) 1, Vec3i.mk 0 1 (-1), Vec3i.mk 2 (-1) (-1), Vec3i.mk 1 1 0, Vec3i.mk 0 2 0, Vec3i.mk 0 1 1, Vec3i.mk (-1) 1 0, Vec3i.mk 0 1 (-1), Vec3i.mk 1 2 0, Vec3i.mk (-1) 2 0, Vec3i.mk 0 2 1, Vec3i.mk 0 2 (-1), Vec3i.mk 0 0 1, Vec3i.mk 1 1 1, Vec3i.mk 1 1 (-1), Vec3i.mk (-1) 1 1, Vec3i.mk 1 2 1, Vec3i.mk (-1) 0 (-1), Vec3i.mk (-1) 0 1, Vec3i.mk (-1) 2 (-1), Vec3i.mk 1 0 (-1), Vec3i.mk 1 0 1, Vec3i.mk 0 1 1, Vec3i.mk 0 0 2, Vec3i.mk (-1) 0 1, Vec3i.mk 0 (-1) 1, Vec3i.mk 1 1 1, Vec3i.mk 1 (-1) 1, Vec3i.mk (-1) 1 1, Vec3i.mk 0 1 2, Vec3i.mk 0 (-1) 2, Vec3i.mk 1 0 2, Vec3i.mk (-1) 0 2, Vec3i.mk 1 1 2, Vec3i.mk (-1) (-1) 0, Vec3i.mk (-1) (-1) 2, Vec3i.mk (-1) 1 0, Vec3i.mk 1 (-1) 0, Vec3i.mk 2 1 0, Vec3i.mk 1 2 0, Vec3i.mk 1 1 1, Vec3i.mk 1 1 (-1), Vec3i.mk 2 2 0, Vec3i.mk 2 0 0, Vec3i.mk 0 2 0, Vec3i.mk 1 2 1, Vec3i.mk 1 2 (-1), Vec3i.mk 1 0 1, Vec3i.mk 2 1 1, Vec3i.mk 2 1 (-1), Vec3i.mk 0 1 1, Vec3i.mk 2 2 1, Vec3i.mk 0 2 (-1), Vec3i.mk 2 0 (-1), Vec3i.mk 1 1 1, Vec3i.mk 0 2 1, Vec3i.mk 0 1 2, Vec3i.mk (-1) 1 1, Vec3i.mk 1 2 1, Vec3i.mk 1 0 1, Vec3i.mk (-1) 2 1, Vec3i.mk 0 2 2, Vec3i.mk 0 2 0, Vec3i.mk 0 0 2, Vec3i.mk 1 1 2, Vec3i.mk (-1) 1 2, Vec3i.mk 1 2 2, Vec3i.mk (-1) 0 2, Vec3i.mk (-1) 2 0, Vec3i.mk 2 0 1, Vec3i.mk 1 1 1, Vec3i.mk 1 0 2, Vec3i.mk 1 (-1) 1, Vec3i.mk 2 1 1, Vec3i.mk 2 (-1) 1, Vec3i.mk 1 1 2, Vec3i.mk 1 (-1) 2, Vec3i.mk 2 0 2, Vec3i.mk 2 0 0, Vec3i.mk 0 0 2, Vec3i.mk 2 1 2, Vec3i.mk 0 (-1) 2, Vec3i.mk 2 (-1) 0, Vec3i.mk 2 1 1, Vec3i.mk 1 2 1, Vec3i.mk 1 1 2, Vec3i.mk 2 2 1, Vec3i.mk 2 0 1, Vec3i.mk 0 2 1, Vec3i.mk 1 2 2, Vec3i.mk 1 2 0, Vec3i.mk 1 0 2, Vec3i.mk 2 1 2, Vec3i.mk 2 1 0, Vec3i.mk 0 1 2, Vec3i.mk 2 2 2, Vec3i.mk 0 0 2, Vec3i.mk 0 2 0, Vec3i.mk 2 0 0] [Vec3i.mk 2 0 0, Vec3i.mk 1 (-1) (-1), Vec3i.mk (-1) 1 (-1), Vec3i.mk (-1) (-1) 1, Vec3i.mk (-1) (-1) (-1), Vec3i.mk 1 1 1, Vec3i.mk (-1) 0 1, Vec3i.mk 1 0 (-1), Vec3i.mk 1 0 1, Vec3i.mk 0 (-1) 1, Vec3i.mk 0 1 (-1), Vec3i.mk 0 1 1, Vec3i.mk (-1) 1 0, Vec3i.mk 1 (-1) 0, Vec3i.mk 1 1 0, Vec3i.mk 0 0 (-1), Vec3i.mk 0 (-1) 0, Vec3i.mk (-1) 0 0, Vec3i.mk 0 0 1, Vec3i.mk 0 1 0, Vec3i.mk 1 0 0, Vec3i.mk 0 0 0] [Atom.mk (Vec3.mk (50000/200001) (50000/200001) (50000/200001)) "X", Atom.mk (Vec3.mk (50000/66667) (50000/200001) (50000/200001)) "X", Atom.mk (Vec3.mk (50000/200001) (50000/66667) (50000/200001)) "X", Atom.mk (Vec3.mk (50000/200001) (50000/200001) (50000/66667)) "X", Atom.mk (Vec3.mk (50000/66667) (50000/66667) (50000/200001)) "X", Atom.mk (Vec3.mk (50000/200001) (50000/66667) (50000/66667)) "X", Atom.mk (Vec3.mk (50000/66667) (50000/200001) (50000/66667)) "X", Atom.mk (Vec3.mk (50000/66667) (50000/66667) (50000/66667)) "X"],
  GrowState.mk [Vec3i.mk 1 0 1, Vec3i.mk 1 (-1) 0, Vec3i.mk 1 0 (-1), Vec3i.mk 2 1 0, Vec3i.mk 2 (-1) 0, Vec3i.mk 0 1 0, Vec3i.mk 1 1 1, Vec3i.mk 1 1 (-1), Vec3i.mk 1 (-1) 1, Vec3i.mk 2 0 1, Vec3i.mk 2 0 (-1), Vec3i.mk 0 0 1, Vec3i.mk 2 1 1, Vec3i.mk 0 (-1) (-1), Vec3i.mk 0 (-1) 1, Vec3i.mk 0 1 (-1), Vec3i.mk 2 (-1) (-1), Vec3i.mk 1 1 0, Vec3i.mk 0 2 0, Vec3i.mk 0 1 1, Vec3i.mk (-1) 1 0, Vec3i.mk 0 1 (-1), Vec3i.mk 1 2 0, Vec3i.mk (-1) 2 0, Vec3i.mk 0 2 1, Vec3i.mk 0 2 (-1), Vec3i.mk 0 0 1, Vec3i.mk 1 1 1, Vec3i.mk 1 1 (-1), Vec3i.mk (-1) 1 1, Vec3i.mk 1 2 1, Vec3i.mk (-1) 0 (-1), Vec3i.mk (-1) 0 1, Vec3i.mk (-1) 2 (-1), Vec3i.mk 1 0 (-1), Vec3i.mk 1 0 1, Vec3i.mk 0 1 1, Vec3i.mk 0 0 2, Vec3i.mk (-1) 0 1, Vec3i.mk 0 (-1) 1, Vec3i.mk 1 1 1, Vec3i.mk 1 (-1) 1, Vec3i.mk (-1) 1 1, Vec3i.mk 0 1 2, Vec3i.mk 0 (-1) 2, Vec3i.mk 1 0 2, Vec3i.mk (-1) 0 2, Vec3i.mk 1 1 2, Vec3i.mk (-1) (-1) 0, Vec3i.mk (-1) (-1) 2, Vec3i.mk (-1) 1 0, Vec3i.mk 1 (-1) 0, Vec3i.mk 2 1 0, Vec3i.mk 1 2 0, Vec3i.mk 1 1 1, Vec3i.mk 1 1 (-1), Vec3i.mk 2 2 0, Vec3i.mk 2 0 0, Vec3i.mk 0 2 0, Vec3i.mk 1 2 1, Vec3i.mk 1 2 (-1), Vec3i.mk 1 0 1, Vec3i.mk 2 1 1, Vec3i.mk 2 1 (-1), Vec3i.mk 0 1 1, Vec3i.mk 2 2 1, Vec3i.mk 0 2 (-1), Vec3i.mk 2 0 (-1), Vec3i.mk 1 1 1, Vec3i.mk 0 2 1, Vec3i.mk 0 1 2, Vec3i.mk (-1) 1 1, Vec3i.mk 1 2 1, Vec3i.mk 1 0 1, Vec3i.mk (-1) 2 1, Vec3i.mk 0 2 2, Vec3i.mk 0 2 0, Vec3i.mk 0 0 2, Vec3i.mk 1 1 2, Vec3i.mk (-1) 1 2, Vec3i.mk 1 2 2, Vec3i.mk (-1) 0 2, Vec3i.mk (-1) 2 0, Vec3i.mk 2 0 1, Vec3i.mk 1 1 1, Vec3i.mk 1 0 2, Vec3i.mk 1 (-1) 1, Vec3i.mk 2 1 1, Vec3i.mk 2 (-1) 1, Vec3i.mk 1 1 2, Vec3i.mk 1 (-1) 2, Vec3i.mk 2 0 2, Vec3i.mk 2 0 0, Vec3i.mk 0 0 2, Vec3i.mk 2 1 2, Vec3i.mk 0 (-1) 2, Vec3i.mk 2 (-1) 0, Vec3i.mk 2 1 1, Vec3i.mk 1 2 1, Vec3i.mk 1 1 2, Vec3i.mk 2 2 1, Vec3i.mk 2 0 1, Vec3i.mk 0 2 1, Vec3i.mk 1 2 2, Vec3i.mk 1 2 0, Vec3i.mk 1 0 2, Vec3i.mk 2 1 2, Vec3i.mk 2 1 0, Vec3i.mk 0 1 2, Vec3i.mk 2 2 2, Vec3i.mk 0 0 2, Vec3i.mk 0 2 0, Vec3i.mk 2 0 0] [Vec3i.mk 2 0 0, Vec3i.mk 1 (-1) (-1), Vec3i.mk (-1) 1 (-1), Vec3i.mk (-1) (-1) 1, Vec3i.mk (-1) (-1) (-1), Vec3i.mk 1 1 1, Vec3i.mk (-1) 0 1, Vec3i.mk 1 0 (-1), Vec3i.mk 1 0 1, Vec3i.mk 0 (-1) 1, Vec3i.mk 0 1 (-1), Vec3i.mk 0 1 1, Vec3i.mk (-1) 1 0, Vec3i.mk 1 (-1) 0, Vec3i.mk 1 1 0, Vec3i.mk 0 0 (-1), Vec3i.mk 0 (-1) 0, Vec3i.mk (-1) 0 0, Vec3i.mk 0 0 1, Vec3i.mk 0 1 0, Vec3i.mk 1 0 0, Vec3i.mk 0 0 0] [Atom.mk (Vec3.mk (50000/200001) (50000/200001) (50000/200001)) "X", Atom.mk (Vec3.mk (50000/66667) (50000/200001) (50000/200001)) "X", Atom.mk (Vec3.mk (50000/200001) (50000/66667) (50000/200001)) "X", Atom.mk (Vec3.mk (50000/200001) (50000/200001) (50000/66667)) "X", Atom.mk (Vec3.mk (50000/66667) (50000/66667) (50000/200001)) "X", Atom.mk (Vec3.mk (50000/200001) (50000/66667) (50000/66667)) "X", Atom.mk (Vec3.mk (50000/66667) (50000/200001) (50000/66667)) "X", Atom.mk (Vec3.mk (50000/66667) (50000/66667) (50000/66667)) "X"],
  GrowState.mk [Vec3i.mk 1 (-1) 0, Vec3i.mk 1 0 (-1), Vec3i.mk 2 1 0, Vec3i.mk 2 (-1) 0, Vec3i.mk 0 1 0, Vec3i.mk 1 1 1, Vec3i.mk 1 1 (-1), Vec3i.mk 1 (-1) 1, Vec3i.mk 2 0 1, Vec3i.mk 2 0 (-1), Vec3i.mk 0 0 1, Vec3i.mk 2 1 1, Vec3i.mk 0 (-1) (-1), Vec3i.mk 0 (-1) 1, Vec3i.mk 0 1 (-1), Vec3i.mk 2 (-1) (-1), Vec3i.mk 1 1 0, Vec3i.mk 0 2 0, Vec3i.mk 0 1 1, Vec3i.mk (-1) 1 0, Vec3i.mk 0 1 (-1), Vec3i.mk 1 2 0, Vec3i.mk (-1) 2 0, Vec3i.mk 0 2 1, Vec3i.mk 0 2 (-1), Vec3i.mk 0 0 1, Vec3i.mk 1 1 1, Vec3i.mk 1 1 (-1), Vec3i.mk (-1) 1 1, Vec3i.mk 1 2 1, Vec3i.mk (-1) 0 (-1), Vec3i.mk (-1) 0 1, Vec3i.mk (-1) 2 (-1), Vec3i.mk 1 0 (-1), Vec3i.mk 1 0 1, Vec3i.mk 0 1 1, Vec3i.mk 0 0 2, Vec3i.mk (-1) 0 1, Vec3i.mk 0 (-1) 1, Vec3i.mk 1 1 1, Vec3i.mk 1 (-1) 1, Vec3i.mk (-1) 1 1, Vec3i.mk 0 1 2, Vec3i.mk 0 (-1) 2, Vec3i.mk 1 0 2, Vec3i.mk (-1) 0 2, Vec3i.mk 1 1 2, Vec3i.mk (-1) (-1) 0, Vec3i.mk (-1) (-1) 2, Vec3i.mk (-1) 1 0, Vec3i.mk 1 (-1) 0, Vec3i.mk 2 1 0, Vec3i.mk 1 2 0, Vec3i.mk 1 1 1, Vec3i.mk 1 1 (-1), Vec3i.mk 2 2 0, Vec3i.mk 2 0 0, Vec3i.mk 0 2 0, Vec3i.mk 1 2 1, Vec3i.mk 1 2 (-1), Vec3i.mk 1 0 1, Vec3i.mk 2 1 1, Vec3i.mk 2 1 (-1), Vec3i.mk 0 1 1, Vec3i.mk 2 2 1, Vec3i.mk 0 2 (-1), Vec3i.mk 2 0 (-1), Vec3i.mk 1 1 1, Vec3i.mk 0 2 1, Vec3i.mk 0 1 2, Vec3i.mk (-1) 1 1, Vec3i.mk 1 2 1, Vec3i.mk 1 0 1, Vec3i.mk (-1) 2 1, Vec3i.mk 0 2 2, Vec3i.mk 0 2 0, Vec3i.mk 0 0 2, Vec3i.mk 1 1 2, Vec3i.mk (-1) 1 2, Vec3i.mk 1 2 2, Vec3i.mk (-1) 0 2, Vec3i.mk (-1) 2 0, Vec3i.mk 2 0 1, Vec3i.mk 1 1 1, Vec3i.mk 1 0 2, Vec3i.mk 1 (-1) 1, Vec3i.mk 2 1 1, Vec3i.mk 2 (-1) 1, Vec3i.mk 1 1 2, Vec3i.mk 1 (-1) 2, Vec3i.mk 2 0 2, Vec3i.mk 2 0 0, Vec3i.mk 0 0 2, Vec3i.mk 2 1 2, Vec3i.mk 0 (-1) 2, Vec3i.mk 2 (-1) 0, Vec3i.mk 2 1 1, Vec3i.mk 1 2 1, Vec3i.mk 1 1 2, Vec3i.mk 2 2 1, Vec3i.mk 2 0 1, Vec3i.mk 0 2 1, Vec3i.mk 1 2 2, Vec3i.mk 1 2 0, Vec3i.mk 1 0 2, Vec3i.mk 2 1 2, Vec3i.mk 2 1 0, Vec3i.mk 0 1 2, Vec3i.mk 2 2 2, Vec3i.mk 0 0 2, Vec3i.mk 0 2 0, Vec3i.mk 2 0 0] [Vec3i.mk 2 0 0, Vec3i.mk 1 (-1) (-1), Vec3i.mk (-1) 1 (-1), Vec3i.mk (-1) (-1) 1, Vec3i.mk (-1) (-1) (-1), Vec3i.mk 1 1 1, Vec3i.mk (-1) 0 1, Vec3i.mk 1 0 (-1), Vec3i.mk 1 0 1, Vec3i.mk 0 (-1) 1, Vec3i.mk 0 1 (-1), Vec3i.mk 0 1 1, Vec3i.mk (-1) 1 0, Vec3i.mk 1 (-1) 0, Vec3i.mk 1 1 0, Vec3i.mk 0 0 (-1), Vec3i.mk 0 (-1) 0, Vec3i.mk (-1) 0 0, Vec3i.mk 0 0 1, Vec3i.mk 0 1 0, Vec3i.mk 1 0 0, Vec3i.mk 0 0 0] [Atom.mk (Vec3.mk (50000/200001) (50000/200001) (50000/200001)) "X", Atom.mk (Vec3.mk (50000/66667) (50000/200001) (50000/200001)) "X", Atom.mk (Vec3.mk (50000/200001) (50000/66667) (50000/200001)) "X", Atom.mk (Vec3.mk (50000/200001) (50000/200001) (50000/66667)) "X", Atom.mk (Vec3.mk (50000/66667) (50000/66667) (50000/200001)) "X", Atom.mk (Vec3.mk (50000/200001) (50000/66667) (50000/66667)) "X", Atom.mk (Vec3.mk (50000/66667) (50000/200001) (50000/66667)) "X", Atom.mk (Vec3.mk (50000/66667) (50000/66667) (50000/66667)) "X"],
  GrowState.mk [Vec3i.mk 1 0 (-1), Vec3i.mk 2 1 0, Vec3i.mk 2 (-1) 0, Vec3i.mk 0 1 0, Vec3i.mk 1 1 1, Vec3i.mk 1 1 (-1), Vec3i.mk 1 (-1) 1, Vec3i.mk 2 0 1, Vec3i.mk 2 0 (-1), Vec3i.mk 0 0 1, Vec3i.mk 2 1 1, Vec3i.mk 0 (-1) (-1), Vec3i.mk 0 (-1) 1, Vec3i.mk 0 1 (-1), Vec3i.mk 2 (-1) (-1), Vec3i.mk 1 1 0, Vec3i.mk 0 2 0, Vec3i.mk 0 1 1, Vec3i.mk (-1) 1 0, Vec3i.mk 0 1 (-1), Vec3i.mk 1 2 0, Vec3i.mk (-1) 2 0, Vec3i.mk 0 2 1, Vec3i.mk 0 2 (-1), Vec3i.mk 0 0 1, Vec3i.mk 1 1 1, Vec3i.mk 1 1 (-1), Vec3i.mk (-1) 1 1, Vec3i.mk 1 2 1, Vec3i.mk (-1) 0 (-1), Vec3i.mk (-1) 0 1, Vec3i.mk (-1) 2 (-1), Vec3i.mk 1 0 (-1), Vec3i.mk 1 0 1, Vec3i.mk 0 1 1, Vec3i.mk 0 0 2, Vec3i.mk (-1) 0 1, Vec3i.mk 0 (-1) 1, Vec3i.mk 1 1 1, Vec3i.mk 1 (-1) 1, Vec3i.mk (-1) 1 1, Vec3i.mk 0 1 2, Vec3i.mk 0 (-1) 2, Vec3i.mk 1 0 2, Vec3i.mk (-1) 0 2, Vec3i.mk 1 1 2, Vec3i.mk (-1) (-1) 0, Vec3i.mk (-1) (-1) 2, Vec3i.mk (-1) 1 0, Vec3i.mk 1 (-1) 0, Vec3i.mk 2 1 0, Vec3i.mk 1 2 0, Vec3i.mk 1 1 1, Vec3i.mk 1 1 (-1), Vec3i.mk 2 2 0, Vec3i.mk 2 0 0, Vec3i.mk 0 2 0, Vec3i.mk 1 2 1, Vec3i.mk 1 2 (-1), Vec3i.mk 1 0 1, Vec3i.mk 2 1 1, Vec3i.mk 2 1 (-1), Vec3i.mk 0 1 1, Vec3i.mk 2 2 1, Vec3i.mk 0 2 (-1), Vec3i.mk 2 0 (-1), Vec3i.mk 1 1 1, Vec3i.mk 0 2 1, Vec3i.mk 0 1 2, Vec3i.mk (-1) 1 1, Vec3i.mk 1 2 1, Vec3i.mk 1 0 1, Vec3i.mk (-1) 2 1, Vec3i.mk 0 2 2, Vec3i.mk 0 2 0, Vec3i.mk 0 0 2, Vec3i.mk 1 1 2, Vec3i.mk (-1) 1 2, Vec3i.mk 1 2 2, Vec3i.mk (-1) 0 2, Vec3i.mk (-1) 2 0, Vec3i.mk 2 0 1, Vec3i.mk 1 1 1, Vec3i.mk 1 0 2, Vec3i.mk 1 (-1) 1, Vec3i.mk 2 1 1, Vec3i.mk 2 (-1) 1, Vec3i.mk 1 1 2, Vec3i.mk 1 (-1) 2, Vec3i.mk 2 0 2, Vec3i.mk 2 0 0, Vec3i.mk 0 0 2, Vec3i.mk 2 1 2, Vec3i.mk 0 (-1) 2, Vec3i.mk 2 (-1) 0, Vec3i.mk 2 1 1, Vec3i.mk 1 2 1, Vec3i.mk 1 1 2, Vec3i.mk 2 2 1, Vec3i.mk 2 0 1, Vec3i.mk 0 2 1, Vec3i.mk 1 2 2, Vec3i.mk 1 2 0, Vec3i.mk 1 0 2, Vec3i.mk 2 1 2, Vec3i.mk 2 1 0, Vec3i.mk 0 1 2, Vec3i.mk 2 2 2, Vec3i.mk 0 0 2, Vec3i.mk 0 2 0, Vec3i.mk 2 0 0] [Vec3i.mk 2 0 0, Vec3i.mk 1 (-1) (-1), Vec3i.mk (-1) 1 (-1), Vec3i.mk (-1) (-1) 1, Vec3i.mk (-1) (-1) (-1), Vec3i.mk 1 1 1, Vec3i.mk (-1) 0 1, Vec3i.mk 1 0 (-1), Vec3i.mk 1 0 1, Vec3i.mk 0 (-1) 1, Vec3i.mk 0 1 (-1), Vec3i.mk 0 1 1, Vec3i.mk (-1) 1 0, Vec3i.mk 1 (-1) 0, Vec3i.mk 1 1 0, Vec3i.mk 0 0 (-1), Vec3i.mk 0 (-1) 0, Vec3i.mk (-1) 0 0, Vec3i.mk 0 0 1, Vec3i.mk 0 1 0, Vec3i.mk 1 0 0, Vec3i.mk 0 0 0] [Atom.mk (Vec3.mk (50000/200001) (50000/200001) (50000/200001)) "X", Atom.mk (Vec3.mk (50000/66667) (50000/200001) (50000/200001)) "X", Atom.mk (Vec3.mk (50000/200001) (50000/66667) (50000/200001)) "X", Atom.mk (Vec3.mk (50000/200001) (50000/200001) (50000/66667)) "X", Atom.mk (Vec3.mk (50000/66667) (50000/66667) (50000/200001)) "X", Atom.mk (Vec3.mk (50000/200001) (50000/66667) (50000/66667)) "X", Atom.mk (Vec3.mk (50000/66667) (50000/200001) (50000/66667)) "X", Atom.mk (Vec3.mk (50000/66667) (50000/66667) (50000/66667)) "X"],
  GrowState.mk [Vec3i.mk 2 1 0, Vec3i.mk 2 (-1) 0, Vec3i.mk 0 1 0, Vec3i.mk 1 1 1, Vec3i.mk 1 1 (-1), Vec3i.mk 1 (-1) 1, Vec3i.mk 2 0 1, Vec3i.mk 2 0 (-1), Vec3i.mk 0 0 1, Vec3i.mk 2 1 1, Vec3i.mk 0 (-1) (-1), Vec3i.mk 0 (-1) 1, Vec3i.mk 0 1 (-1), Vec3i.mk 2 (-1) (-1), Vec3i.mk 1 1 0, Vec3i.mk 0 2 0, Vec3i.mk 0 1 1, Vec3i.mk (-1) 1 0, Vec3i.mk 0 1 (-1), Vec3i.mk 1 2 0, Vec3i.mk (-1) 2 0, Vec3i.mk 0 2 1, Vec3i.mk 0 2 (-1), Vec3i.mk 0 0 1, Vec3i.mk 1 1 1, Vec3i.mk 1 1 (-1), Vec3i.mk (-1) 1 1, Vec3i.mk 1 2 1, Vec3i.mk (-1) 0 (-1), Vec3i.mk (-1) 0 1, Vec3i.mk (-1) 2 (-1), Vec3i.mk 1 0 (-1), Vec3i.mk 1 0 1, Vec3i.mk 0 1 1, Vec3i.mk 0 0 2, Vec3i.mk (-1) 0 1, Vec3i.mk 0 (-1) 1, Vec3i.mk 1 1 1, Vec3i.mk 1 (-1) 1, Vec3i.mk (-1) 1 1, Vec3i.mk 0 1 2, Vec3i.mk 0 (-1) 2, Vec3i.mk 1 0 2, Vec3i.mk (-1) 0 2, Vec3i.mk 1 1 2, Vec3i.mk (-1) (-1) 0, Vec3i.mk (-1) (-1) 2, Vec3i.mk (-1) 1 0, Vec3i.mk 1 (-1) 0, Vec3i.mk 2 1 0, Vec3i.mk 1 2 0, Vec3i.mk 1 1 1, Vec3i.mk 1 1 (-1), Vec3i.mk 2 2 0, Vec3i.mk 2 0 0, Vec3i.mk 0 2 0, Vec3i.mk 1 2 1, Vec3i.mk 1 2 (-1), Vec3i.mk 1 0 1, Vec3i.mk 2 1 1, Vec3i.mk 2 1 (-1), Vec3i.mk 0 1 1, Vec3i.mk 2 2 1, Vec3i.mk 0 2 (-1), Vec3i.mk 2 0 (-1), Vec3i.mk 1 1 1, Vec3i.mk 0 2 1, Vec3i.mk 0 1 2, Vec3i.mk (-1) 1 1, Vec3i.mk 1 2 1, Vec3i.mk 1 0 1, Vec3i.mk (-1) 2 1, Vec3i.mk 0 2 2, Vec3i.mk 0 2 0, Vec3i.mk 0 0 2, Vec3i.mk 1 1 2, Vec3i.mk (-1) 1 2, Vec3i.mk 1 2 2, Vec3i.mk (-1) 0 2, Vec3i.mk (-1) 2 0, Vec3i.mk 2 0 1, Vec3i.mk 1 1 1, Vec3i.mk 1 0 2, Vec3i.mk 1 (-1) 1, Vec3i.mk 2 1 1, Vec3i.mk 2 (-1) 1, Vec3i.mk 1 1 2, Vec3i.mk 1 (-1) 2, Vec3i.mk 2 0 2, Vec3i.mk 2 0 0, Vec3i.mk 0 0 2, Vec3i.mk 2 1 2, Vec3i.mk 0 (-1) 2, Vec3i.mk 2 (-1) 0, Vec3i.mk 2 1 1, Vec3i.mk 1 2 1, Vec3i.mk 1 1 2, Vec3i.mk 2 2 1, Vec3i.mk 2 0 1, Vec3i.mk 0 2 1, Vec3i.mk 1 2 2, Vec3i.mk 1 2 0, Vec3i.mk 1 0 2, Vec3i.mk 2 1 2, Vec3i.mk 2 1 0, Vec3i.mk 0 1 2, Vec3i.mk 2 2 2, Vec3i.mk 0 0 2, Vec3i.mk 0 2 0, Vec3i.mk 2 0 0] [Vec3i.mk 2 0 0, Vec3i.mk 1 (-1) (-1), Vec3i.mk (-1) 1 (-1), Vec3i.mk (-1) (-1) 1, Vec3i.mk (-1) (-1) (-1), Vec3i.mk 1 1 1, Vec3i.mk (-1) 0 1, Vec3i.mk 1 0 (-1), Vec3i.mk 1 0 1, Vec3i.mk 0 (-1) 1, Vec3i.mk 0 1 (-1), Vec3i.mk 0 1 1, Vec3i.mk (-1) 1 0, Vec3i.mk 1 (-1) 0, Vec3i.mk 1 1 0, Vec3i.mk 0 0 (-1), Vec3i.mk 0 (-1) 0, Vec3i.mk (-1) 0 0, Vec3i.mk 0 0 1, Vec3i.mk 0 1 0, Vec3i.mk 1 0 0, Vec3i.mk 0 0 0] [Atom.mk (Vec3.mk (50000/200001) (50000/200001) (50000/200001)) "X", Atom.mk (Vec3.mk (50000/66667) (50000/200001) (50000/200001)) "X", Atom.mk (Vec3.mk (50000/200001) (50000/66667) (50000/200001)) "X", Atom.mk (Vec3.mk (50000/200001) (50000/200001) (50000/66667)) "X", Atom.mk (Vec3.mk (50000/66667) (50000/66667) (50000/200001)) "X", Atom.mk (Vec3.mk (50000/200001) (50000/66667) (50000/66667)) "X", Atom.mk (Vec3.mk (50000/66667) (50000/200001) (50000/66667)) "X", Atom.mk (Vec3.mk (50000/66667) (50000/66667) (50000/66667)) "X"],
  GrowState.mk [Vec3i.mk 2 (-1) 0, Vec3i.mk 0 1 0, Vec3i.mk 1 1 1, Vec3i.mk 1 1 (-1), Vec3i.mk 1 (-1) 1, Vec3i.mk 2 0 1, Vec3i.mk 2 0 (-1), Vec3i.mk 0 0 1, Vec3i.mk 2 1 1, Vec3i.mk 0 (-1) (-1), Vec3i.mk 0 (-1) 1, Vec3i.mk 0 1 (-1), Vec3i.mk 2 (-1) (-1), Vec3i.mk 1 1 0, Vec3i.mk 0 2 0, Vec3i.mk 0 1 1, Vec3i.mk (-1) 1 0, Vec3i.mk 0 1 (-1), Vec3i.mk 1 2 0, Vec3i.mk (-1) 2 0, Vec3i.mk 0 2 1, Vec3i.mk 0 2 (-1), Vec3i.mk 0 0 1, Vec3i.mk 1 1 1, Vec3i.mk 1 1 (-1), Vec3i.mk (-1) 1 1, Vec3i.mk 1 2 1, Vec3i.mk (-1) 0 (-1), Vec3i.mk (-1) 0 1, Vec3i.mk (-1) 2 (-1), Vec3i.mk 1 0 (-1), Vec3i.mk 1 0 1, Vec3i.mk 0 1 1, Vec3i.mk 0 0 2, Vec3i.mk (-1) 0 1, Vec3i.mk 0 (-1) 1, Vec3i.mk 1 1 1, Vec3i.mk 1 (-1) 1, Vec3i.mk (-1) 1 1, Vec3i.mk 0 1 2, Vec3i.mk 0 (-1) 2, Vec3i.mk 1 0 2, Vec3i.mk (-1) 0 2, Vec3i.mk 1 1 2, Vec3i.mk (-1) (-1) 0, Vec3i.mk (-1) (-1) 2, Vec3i.mk (-1) 1 0, Vec3i.mk 1 (-1) 0, Vec3i.mk 2 1 0, Vec3i.mk 1 2 0, Vec3i.mk 1 1 1, Vec3i.mk 1 1 (-1), Vec3i.mk 2 2 0, Vec3i.mk 2 0 0, Vec3i.mk 0 2 0, Vec3i.mk 1 2 1, Vec3i.mk 1 2 (-1), Vec3i.mk 1 0 1, Vec3i.mk 2 1 1, Vec3i.mk 2 1 (-1), Vec3i.mk 0 1 1, Vec3i.mk 2 2 1, Vec3i.mk 0 2 (-1), Vec3i.mk 2 0 (-1), Vec3i.mk 1 1 1, Vec3i.mk 0 2 1, Vec3i.mk 0 1 2, Vec3i.mk (-1) 1 1, Vec3i.mk 1 2 1, Vec3i.mk 1 0 1, Vec3i.mk (-1) 2 1, Vec3i.mk 0 2 2, Vec3i.mk 0 2 0, Vec3i.mk 0 0 2, Vec3i.mk 1 1 2, Vec3i.mk (-1) 1 2, Vec3i.mk 1 2 2, Vec3i.mk (-1) 0 2, Vec3i.mk (-1) 2 0, Vec3i.mk 2 0 1, Vec3i.mk 1 1 1, Vec3i.mk 1 0 2, Vec3i.mk 1 (-1) 1, Vec3i.mk 2 1 1, Vec3i.mk 2 (-1) 1, Vec3i.mk 1 1 2, Vec3i.mk 1 (-1) 2, Vec3i.mk 2 0 2, Vec3i.mk 2 0 0, Vec3i.mk 0 0 2, Vec3i.mk 2 1 2, Vec3i.mk 0 (-1) 2, Vec3i.mk 2 (-1) 0, Vec3i.mk 2 1 1, Vec3i.mk 1 2 1, Vec3i.mk 1 1 2, Vec3i.mk 2 2 1, Vec3i.mk 2 0 1, Vec3i.mk 0 2 1, Vec3i.mk 1 2 2, Vec3i.mk 1 2 0, Vec3i.mk 1 0 2, Vec3i.mk 2 1 2, Vec3i.mk 2 1 0, Vec3i.mk 0 1 2, Vec3i.mk 2 2 2, Vec3i.mk 0 0 2, Vec3i.mk 0 2 0, Vec3i.mk 2 0 0] [Vec3i.mk 2 1 0, Vec3i.mk 2 0 0, Vec3i.mk 1 (-1) (-1), Vec3i.mk (-1) 1 (-1), Vec3i.mk (-1) (-1) 1, Vec3i.mk (-1) (-1) (-1), Vec3i.mk 1 1 1, Vec3i.mk (-1) 0 1, Vec3i.mk 1 0 (-1), Vec3i.mk 1 0 1, Vec3i.mk 0 (-1) 1, Vec3i.mk 0 1 (-1), Vec3i.mk 0 1 1, Vec3i.mk (-1) 1 0, Vec3i.mk 1 (-1) 0, Vec3i.mk 1 1 0, Vec3i.mk 0 0 (-1), Vec3i.mk 0 (-1) 0, Vec3i.mk (-1) 0 0, Vec3i.mk 0 0 1, Vec3i.mk 0 1 0, Vec3i.mk 1 0 0, Vec3i.mk 0 0 0] [Atom.mk (Vec3.mk (50000/200001) (50000/200001) (50000/200001)) "X", Atom.mk (Vec3.mk (50000/66667) (50000/200001) (50000/200001)) "X", Atom.mk (Vec3.mk (50000/200001) (50000/66667) (50000/200001)) "X", Atom.mk (Vec3.mk (50000/200001) (50000/200001) (50000/66667)) "X", Atom.mk (Vec3.mk (50000/66667) (50000/66667) (50000/200001)) "X", Atom.mk (Vec3.mk (50000/200001) (50000/66667) (50000/66667)) "X", Atom.mk (Vec3.mk (50000/66667) (50000/200001) (50000/66667)) "X", Atom.mk (Vec3.mk (50000/66667) (50000/66667) (50000/66667)) "X"],
  GrowState.mk [Vec3i.mk 0 1 0, Vec3i.mk 1 1 1, Vec3i.mk 1 1 (-1), Vec3i.mk 1 (-1) 1, Vec3i.mk 2 0 1, Vec3i.mk 2 0 (-1), Vec3i.mk 0 0 1, Vec3i.mk 2 1 1, Vec3i.mk 0 (-1) (-1), Vec3i.mk 0 (-1) 1, Vec3i.mk 0 1 (-1), Vec3i.mk 2 (-1) (-1), Vec3i.mk 1 1 0, Vec3i.mk 0 2 0, Vec3i.mk 0 1 1, Vec3i.mk (-1) 1 0, Vec3i.mk 0 1 (-1), Vec3i.mk 1 2 0, Vec3i.mk (-1) 2 0, Vec3i.mk 0 2 1, Vec3i.mk 0 2 (-1), Vec3i.mk 0 0 1, Vec3i.mk 1 1 1, Vec3i.mk 1 1 (-1), Vec3i.mk (-1) 1 1, Vec3i.mk 1 2 1, Vec3i.mk (-1) 0 (-1), Vec3i.mk (-1) 0 1, Vec3i.mk (-1) 2 (-1), Vec3i.mk 1 0 (-1), Vec3i.mk 1 0 1, Vec3i.mk 0 1 1, Vec3i.mk 0 0 2, Vec3i.mk (-1) 0 1, Vec3i.mk 0 (-1) 1, Vec3i.mk 1 1 1, Vec3i.mk 1 (-1) 1, Vec3i.mk (-1) 1 1, Vec3i.mk 0 1 2, Vec3i.mk 0 (-1) 2, Vec3i.mk 1 0 2, Vec3i.mk (-1) 0 2, Vec3i.mk 1 1 2, Vec3i.mk (-1) (-1) 0, Vec3i.mk (-1) (-1) 2, Vec3i.mk (-1) 1 0, Vec3i.mk 1 (-1) 0, Vec3i.mk 2 1 0, Vec3i.mk 1 2 0, Vec3i.mk 1 1 1, Vec3i.mk 1 1 (-1), Vec3i.mk 2 2 0, Vec3i.mk 2 0 0, Vec3i.mk 0 2 0, Vec3i.mk 1 2 1, Vec3i.mk 1 2 (-1), Vec3i.mk 1 0 1, Vec3i.mk 2 1 1, Vec3i.mk 2 1 (-1), Vec3i.mk 0 1 1, Vec3i.mk 2 2 1, Vec3i.mk 0 2 (-1), Vec3i.mk 2 0 (-1), Vec3i.mk 1 1 1, Vec3i.mk 0 2 1, Vec3i.mk 0 1 2, Vec3i.mk (-1) 1 1, Vec3i.mk 1 2 1, Vec3i.mk 1 0 1, Vec3i.mk (-1) 2 1, Vec3i.mk 0 2 2, Vec3i.mk 0 2 0, Vec3i.mk 0 0 2, Vec3i.mk 1 1 2, Vec3i.mk (-1) 1 2, Vec3i.mk 1 2 2, Vec3i.mk (-1) 0 2, Vec3i.mk (-1) 2 0, Vec3i.mk 2 0 1, Vec3i.mk 1 1 1, Vec3i.mk 1 0 2, Vec3i.mk 1 (-1) 1, Vec3i.mk 2 1 1, Vec3i.mk 2 (-1) 1, Vec3i.mk 1 1 2, Vec3i.mk 1 (-1) 2, Vec3i.mk 2 0 2, Vec3i.mk 2 0 0, Vec3i.mk 0 0 2, Vec3i.mk 2 1 2, Vec3i.mk 0 (-1) 2, Vec3i.mk 2 (-1) 0, Vec3i.mk 2 1 1, Vec3i.mk 1 2 1, Vec3i.mk 1 1 2, Vec3i.mk 2 2 1, Vec3i.mk 2 0 1, Vec3i.mk 0 2 1, Vec3i.mk 1 2 2, Vec3i.mk 1 2 0, Vec3i.mk 1 0 2, Vec3i.mk 2 1 2, Vec3i.mk 2 1 0, Vec3i.mk 0 1 2, Vec3i.mk 2 2 2, Vec3i.mk 0 0 2, Vec3i.mk 0 2 0, Vec3i.mk 2 0 0] [Vec3i.mk 2 (-1) 0, Vec3i.mk 2 1 0, Vec3i.mk 2 0 0, Vec3i.mk 1 (-1) (-1), Vec3i.mk (-1) 1 (-1), Vec3i.mk (-1) (-1) 1, Vec3i.mk (-1) (-1) (-1), Vec3i.mk 1 1 1, Vec3i.mk (-1) 0 1, Vec3i.mk 1 0 (-1), Vec3i.mk 1 0 1, Vec3i.mk 0 (-1) 1, Vec3i.mk 0 1 (-1), Vec3i.mk 0 1 1, Vec3i.mk (-1) 1 0, Vec3i.mk 1 (-1) 0, Vec3i.mk 1 1 0, Vec3i.mk 0 0 (-1), Vec3i.mk 0 (-1) 0, Vec3i.mk (-1) 0 0, Vec3i.mk 0 0 1, Vec3i.mk 0 1 0, Vec3i.mk 1 0 0, Vec3i.mk 0 0 0] [Atom.mk (Vec3.mk (50000/200001) (50000/200001) (50000/200001)) "X", Atom.mk (Vec3.mk (50000/66667) (50000/200001) (50000/200001)) "X", Atom.mk (Vec3.mk (50000/200001) (50000/66667) (50000/200001)) "X", Atom.mk (Vec3.mk (50000/200001) (50000/200001) (50000/66667)) "X", Atom.mk (Vec3.mk (50000/66667) (50000/66667) (50000/200001)) "X", Atom.mk (Vec3.mk (50000/200001) (50000/66667) (50000/66667)) "X", Atom.mk (Vec3.mk (50000/66667) (50000/200001) (50000/66667)) "X", Atom.mk (Vec3.mk (50000/66667) (50000/66667) (50000/66667)) "X"],
  GrowState.mk [Vec3i.mk 1 1 1, Vec3i.mk 1 1 (-1), Vec3i.mk 1 (-1) 1, Vec3i.mk 2 0 1, Vec3i.mk 2 0 (-1), Vec3i.mk 0 0 1, Vec3i.mk 2 1 1, Vec3i.mk 0 (-1) (-1), Vec3i.mk 0 (-1) 1, Vec3i.mk 0 1 (-1), Vec3i.mk 2 (-1) (-1), Vec3i.mk 1 1 0, Vec3i.mk 0 2 0, Vec3i.mk 0 1 1, Vec3i.mk (-1) 1 0, Vec3i.mk 0 1 (-1), Vec3i.mk 1 2 0, Vec3i.mk (-1) 2 0, Vec3i.mk 0 2 1, Vec3i.mk 0 2 (-1), Vec3i.mk 0 0 1, Vec3i.mk 1 1 1, Vec3i.mk 1 1 (-1), Vec3i.mk (-1) 1 1, Vec3i.mk 1 2 1, Vec3i.mk (-1) 0 (-1), Vec3i.mk (-1) 0 1, Vec3i.mk (-1) 2 (-1), Vec3i.mk 1 0 (-1), Vec3i.mk 1 0 1, Vec3i.mk 0 1 1, Vec3i.mk 0 0 2, Vec3i.mk (-1) 0 1, Vec3i.mk 0 (-1) 1, Vec3i.mk 1 1 1, Vec3i.mk 1 (-1) 1, Vec3i.mk (-1) 1 1, Vec3i.mk 0 1 2, Vec3i.mk 0 (-1) 2, Vec3i.mk 1 0 2, Vec3i.mk (-1) 0 2, Vec3i.mk 1 1 2, Vec3i.mk (-1) (-1) 0, Vec3i.mk (-1) (-1) 2, Vec3i.mk (-1) 1 0, Vec3i.mk 1 (-1) 0, Vec3i.mk 2 1 0, Vec3i.mk 1 2 0, Vec3i.mk 1 1 1, Vec3i.mk 1 1 (-1), Vec3i.mk 2 2 0, Vec3i.mk 2 0 0, Vec3i.mk 0 2 0, Vec3i.mk 1 2 1, Vec3i.mk 1 2 (-1), Vec3i.mk 1 0 1, Vec3i.mk 2 1 1, Vec3i.mk 2 1 (-1), Vec3i.mk 0 1 1, Vec3i.mk 2 2 1, Vec3i.mk 0 2 (-1), Vec3i.mk 2 0 (-1), Vec3i.mk 1 1 1, Vec3i.mk 0 2 1, Vec3i.mk 0 1 2, Vec3i.mk (-1) 1 1, Vec3i.mk 1 2 1, Vec3i.mk 1 0 1, Vec3i.mk (-1) 2 1, Vec3i.mk 0 2 2, Vec3i.mk 0 2 0, Vec3i.mk 0 0 2, Vec3i.mk 1 1 2, Vec3i.mk (-1) 1 2, Vec3i.mk 1 2 2, Vec3i.mk (-1) 0 2, Vec3i.mk (-1) 2 0, Vec3i.mk 2 0 1, Vec3i.mk 1 1 1, Vec3i.mk 1 0 2, Vec3i.mk 1 (-1) 1, Vec3i.mk 2 1 1, Vec3i.mk 2 (-1) 1, Vec3i.mk 1 1 2, Vec3i.mk 1 (-1) 2, Vec3i.mk 2 0 2, Vec3i.mk 2 0 0, Vec3i.mk 0 0 2, Vec3i.mk 2 1 2, Vec3i.mk 0 (-1) 2, Vec3i.mk 2 (-1) 0, Vec3i.mk 2 1 1, Vec3i.mk 1 2 1, Vec3i.mk 1 1 2, Vec3i.mk 2 2 1, Vec3i.mk 2 0 1, Vec3i.mk 0 2 1, Vec3i.mk 1 2 2, Vec3i.mk 1 2 0, Vec3i.mk 1 0 2, Vec3i.mk 2 1 2, Vec3i.mk 2 1 0, Vec3i.mk 0 1 2, Vec3i.mk 2 2 2, Vec3i.mk 0 0 2, Vec3i.mk 0 2 0, Vec3i.mk 2 0 0] [Vec3i.mk 2 (-1) 0, Vec3i.mk 2 1 0, Vec3i.mk 2 0 0, Vec3i.mk 1 (-1) (-1), Vec3i.mk (-1) 1 (-1), Vec3i.mk (-1) (-1) 1, Vec3i.mk (-1) (-1) (-1), Vec3i.mk 1 1 1, Vec3i.mk (-1) 0 1, Vec3i.mk 1 0 (-1), Vec3i.mk 1 0 1, Vec3i.mk 0 (-1) 1, Vec3i.mk 0 1 (-1), Vec3i.mk 0 1 1, Vec3i.mk (-1) 1 0, Vec3i.mk 1 (-1) 0, Vec3i.mk 1 1 0, Vec3i.mk 0 0 (-1), Vec3i.mk 0 (-1) 0, Vec3i.mk (-1) 0 0, Vec3i.mk 0 0 1, Vec3i.mk 0 1 0, Vec3i.mk 1 0 0, Vec3i.mk 0 0 0] [Atom.mk (Vec3.mk (50000/200001) (50000/200001) (50000/200001)) "X", Atom.mk (Vec3.mk (50000/66667) (50000/200001) (50000/200001)) "X", Atom.mk (Vec3.mk (50000/200001) (50000/66667) (50000/200001)) "X", Atom.mk (Vec3.mk (50000/200001) (50000/200001) (50000/66667)) "X", Atom.mk (Vec3.mk (50000/66667) (50000/66667) (50000/200001)) "X", Atom.mk (Vec3.mk (50000/200001) (50000/66667) (50000/66667)) "X", Atom.mk (Vec3.mk (50000/66667) (50000/200001) (50000/66667)) "X", Atom.mk (Vec3.mk (50000/66667) (50000/66667) (50000/66667)) "X"],
  GrowState.mk [Vec3i.mk 1 1 (-1), Vec3i.mk 1 (-1) 1, Vec3i.mk 2 0 1, Vec3i.mk 2 0 (-1), Vec3i.mk 0 0 1, Vec3i.mk 2 1 1, Vec3i.mk 0 (-1) (-1), Vec3i.mk 0 (-1) 1, Vec3i.mk 0 1 (-1), Vec3i.mk 2 (-1) (-1), Vec3i.mk 1 1 0, Vec3i.mk 0 2 0, Vec3i.mk 0 1 1, Vec3i.mk (-1) 1 0, Vec3i.mk 0 1 (-1), Vec3i.mk 1 2 0, Vec3i.mk (-1) 2 0, Vec3i.mk 0 2 1, Vec3i.mk 0 2 (-1), Vec3i.mk 0 0 1, Vec3i.mk 1 1 1, Vec3i.mk 1 1 (-1), Vec3i.mk (-1) 1 1, Vec3i.mk 1 2 1, Vec3i.mk (-1) 0 (-1), Vec3i.mk (-1) 0 1, Vec3i.mk (-1) 2 (-1), Vec3i.mk 1 0 (-1), Vec3i.mk 1 0 1, Vec3i.mk 0 1 1, Vec3i.mk 0 0 2, Vec3i.mk (-1) 0 1, Vec3i.mk 0 (-1) 1, Vec3i.mk 1 1 1, Vec3i.mk 1 (-1) 1, Vec3i.mk (-1) 1 1, Vec3i.mk 0 1 2, Vec3i.mk 0 (-1) 2, Vec3i.mk 1 0 2, Vec3i.mk (-1) 0 2, Vec3i.mk 1 1 2, Vec3i.mk (-1) (-1) 0, Vec3i.mk (-1) (-1) 2, Vec3i.mk (-1) 1 0, Vec3i.mk 1 (-1) 0, Vec3i.mk 2 1 0, Vec3i.mk 1 2 0, Vec3i.mk 1 1 1, Vec3i.mk 1 1 (-1), Vec3i.mk 2 2 0, Vec3i.mk 2 0 0, Vec3i.mk 0 2 0, Vec3i.mk 1 2 1, Vec3i.mk 1 2 (-1), Vec3i.mk 1 0 1, Vec3i.mk 2 1 1, Vec3i.mk 2 1 (-1), Vec3i.mk 0 1 1, Vec3i.mk 2 2 1, Vec3i.mk 0 2 (-1), Vec3i.mk 2 0 (-1), Vec3i.mk 1 1 1, Vec3i.mk 0 2 1, Vec3i.mk 0 1 2, Vec3i.mk (-1) 1 1, Vec3i.mk 1 2 1, Vec3i.mk 1 0 1, Vec3i.mk (-1) 2 1, Vec3i.mk 0 2 2, Vec3i.mk 0 2 0, Vec3i.mk 0 0 2, Vec3i.mk 1 1 2, Vec3i.mk (-1) 1 2, Vec3i.mk 1 2 2, Vec3i.mk (-1) 0 2, Vec3i.mk (-1) 2 0, Vec3i.mk 2 0 1, Vec3i.mk 1 1 1, Vec3i.mk 1 0 2, Vec3i.mk 1 (-1) 1, Vec3i.mk 2 1 1, Vec3i.mk 2 (-1) 1, Vec3i.mk 1 1 2, Vec3i.mk 1 (-1) 2, Vec3i.mk 2 0 2, Vec3i.mk 2 0 0, Vec3i.mk 0 0 2, Vec3i.mk 2 1 2, Vec3i.mk 0 (-1) 2, Vec3i.mk 2 (-1) 0, Vec3i.mk 2 1 1, Vec3i.mk 1 2 1, Vec3i.mk 1 1 2, Vec3i.mk 2 2 1, Vec3i.mk 2 0 1, Vec3i.mk 0 2 1, Vec3i.mk 1 2 2, Vec3i.mk 1 2 0, Vec3i.mk 1 0 2, Vec3i.mk 2 1 2, Vec3i.mk 2 1 0, Vec3i.mk 0 1 2, Vec3i.mk 2 2 2, Vec3i.mk 0 0 2, Vec3i.mk 0 2 0, Vec3i.mk 2 0 0] [Vec3i.mk 2 (-1) 0, Vec3i.mk 2 1 0, Vec3i.mk 2 0 0, Vec3i.mk 1 (-1) (-1), Vec3i.mk (-1) 1 (-1), Vec3i.mk (-1) (-1) 1, Vec3i.mk (-1) (-1) (-1), Vec3i.mk 1 1 1, Vec3i.mk (-1) 0 1, Vec3i.mk 1 0 (-1), Vec3i.mk 1 0 1, Vec3i.mk 0 (-1) 1, Vec3i.mk 0 1 (-1), Vec3i.mk 0 1 1, Vec3i.mk (-1) 1 0, Vec3i.mk 1 (-1) 0, Vec3i.mk 1 1 0, Vec3i.mk 0 0 (-1), Vec3i.mk 0 (-1) 0, Vec3i.mk (-1) 0 0, Vec3i.mk 0 0 1, Vec3i.mk 0 1 0, Vec3i.mk 1 0 0, Vec3i.mk 0 0 0] [Atom.mk (Vec3.mk (50000/200001) (50000/200001) (50000/200001)) "X", Atom.mk (Vec3.mk (50000/66667) (50000/200001) (50000/200001)) "X", Atom.mk (Vec3.mk (50000/200001) (50000/66667) (50000/200001)) "X", Atom.mk (Vec3.mk (50000/200001) (50000/200001) (50000/66667)) "X", Atom.mk (Vec3.mk (50000/66667) (50000/66667) (50000/200001)) "X", Atom.mk (Vec3.mk (50000/200001) (50000/66667) (50000/66667)) "X", Atom.mk (Vec3.mk (50000/66667) (50000/200001) (50000/66667)) "X", Atom.mk (Vec3.mk (50000/66667) (50000/66667) (50000/66667)) "X"],
  GrowState.mk [Vec3i.mk 1 (-1) 1, Vec3i.mk 2 0 1, Vec3i.mk 2 0 (-1), Vec3i.mk 0 0 1, Vec3i.mk 2 1 1, Vec3i.mk 0 (-1) (-1), Vec3i.mk 0 (-1) 1, Vec3i.mk 0 1 (-1), Vec3i.mk 2 (-1) (-1), Vec3i.mk 1 1 0, Vec3i.mk 0 2 0, Vec3i.mk 0 1 1, Vec3i.mk (-1) 1 0, Vec3i.mk 0 1 (-1), Vec3i.mk 1 2 0, Vec3i.mk (-1) 2 0, Vec3i.mk 0 2 1, Vec3i.mk 0 2 (-1), Vec3i.mk 0 0 1, Vec3i.mk 1 1 1, Vec3i.mk 1 1 (-1), Vec3i.mk (-1) 1 1, Vec3i.mk 1 2 1, Vec3i.mk (-1) 0 (-1), Vec3i.mk (-1) 0 1, Vec3i.mk (-1) 2 (-1), Vec3i.mk 1 0 (-1), Vec3i.mk 1 0 1, Vec3i.mk 0 1 1, Vec3i.mk 0 0 2, Vec3i.mk (-1) 0 1, Vec3i.mk 0 (-1) 1, Vec3i.mk 1 1 1, Vec3i.mk 1 (-1) 1, Vec3i.mk (-1) 1 1, Vec3i.mk 0 1 2, Vec3i.mk 0 (-1) 2, Vec3i.mk 1 0 2, Vec3i.mk (-1) 0 2, Vec3i.mk 1 1 2, Vec3i.mk (-1) (-1) 0, Vec3i.mk (-1) (-1) 2, Vec3i.mk (-1) 1 0, Vec3i.mk 1 (-1) 0, Vec3i.mk 2 1 0, Vec3i.mk 1 2 0, Vec3i.mk 1 1 1, Vec3i.mk 1 1 (-1), Vec3i.mk 2 2 0, Vec3i.mk 2 0 0, Vec3i.mk 0 2 0, Vec3i.mk 1 2 1, Vec3i.mk 1 2 (-1), Vec3i.mk 1 0 1, Vec3i.mk 2 1 1, Vec3i.mk 2 1 (-1), Vec3i.mk 0 1 1, Vec3i.mk 2 2 1, Vec3i.mk 0 2 (-1), Vec3i.mk 2 0 (-1), Vec3i.mk 1 1 1, Vec3i.mk 0 2 1, Vec3i.mk 0 1 2, Vec3i.mk (-1) 1 1, Vec3i.mk 1 2 1, Vec3i.mk 1 0 1, Vec3i.mk (-1) 2 1, Vec3i.mk 0 2 2, Vec3i.mk 0 2 0, Vec3i.mk 0 0 2, Vec3i.mk 1 1 2, Vec3i.mk (-1) 1 2, Vec3i.mk 1 2 2, Vec3i.mk (-1) 0 2, Vec3i.mk (-1) 2 0, Vec3i.mk 2 0 1, Vec3i.mk 1 1 1, Vec3i.mk 1 0 2, Vec3i.mk 1 (-1) 1, Vec3i.mk 2 1 1, Vec3i.mk 2 (-1) 1, Vec3i.mk 1 1 2, Vec3i.mk 1 (-1) 2, Vec3i.mk 2 0 2, Vec3i.mk 2 0 0, Vec3i.mk 0 0 2, Vec3i.mk 2 1 2, Vec3i.mk 0 (-1) 2, Vec3i.mk 2 (-1) 0, Vec3i.mk 2 1 1, Vec3i.mk 1 2 1, Vec3i.mk 1 1 2, Vec3i.mk 2 2 1, Vec3i.mk 2 0 1, Vec3i.mk 0 2 1, Vec3i.mk 1 2 2, Vec3i.mk 1 2 0, Vec3i.mk 1 0 2, Vec3i.mk 2 1 2, Vec3i.mk 2 1 0, Vec3i.mk 0 1 2, Vec3i.mk 2 2 2, Vec3i.mk 0 0 2, Vec3i.mk 0 2 0, Vec3i.mk 2 0 0] [Vec3i.mk 1 1 (-1), Vec3i.mk 2 (-1) 0, Vec3i.mk 2 1 0, Vec3i.mk 2 0 0, Vec3i.mk 1 (-1) (-1), Vec3i.mk (-1) 1 (-1), Vec3i.mk (-1) (-1) 1, Vec3i.mk (-1) (-1) (-1), Vec3i.mk 1 1 1, Vec3i.mk (-1) 0 1, Vec3i.mk 1 0 (-1), Vec3i.mk 1 0 1, Vec3i.mk 0 (-1) 1, Vec3i.mk 0 1 (-1), Vec3i.mk 0 1 1, Vec3i.mk (-1) 1 0, Vec3i.mk 1 (-1) 0, Vec3i.mk 1 1 0, Vec3i.mk 0 0 (-1), Vec3i.mk 0 (-1) 0, Vec3i.mk (-1) 0 0, Vec3i.mk 0 0 1, Vec3i.mk 0 1 0, Vec3i.mk 1 0 0, Vec3i.mk 0 0 0] [Atom.mk (Vec3.mk (50000/200001) (50000/200001) (50000/200001)) "X", Atom.mk (Vec3.mk (50000/66667) (50000/200001) (50000/200001)) "X", Atom.mk (Vec3.mk (50000/200001) (50000/66667) (50000/200001)) "X", Atom.mk (Vec3.mk (50000/200001) (50000/200001) (50000/66667)) "X", Atom.mk (Vec3.mk (50000/66667) (50000/66667) (50000/200001)) "X", Atom.mk (Vec3.mk (50000/200001) (50000/66667) (50000/66667)) "X", Atom.mk (Vec3.mk (50000/66667) (50000/200001) (50000/66667)) "X", Atom.mk (Vec3.mk (50000/66667) (50000/66667) (50000/66667)) "X"],
  GrowState.mk [Vec3i.mk 2 0 1, Vec3i.mk 2 0 (-1), Vec3i.mk 0 0 1, Vec3i.mk 2 1 1, Vec3i.mk 0 (-1) (-1), Vec3i.mk 0 (-1) 1, Vec3i.mk 0 1 (-1), Vec3i.mk 2 (-1) (-1), Vec3i.mk 1 1 0, Vec3i.mk 0 2 0, Vec3i.mk 0 1 1, Vec3i.mk (-1) 1 0, Vec3i.mk 0 1 (-1), Vec3i.mk 1 2 0, Vec3i.mk (-1) 2 0, Vec3i.mk 0 2 1, Vec3i.mk 0 2 (-1), Vec3i.mk 0 0 1, Vec3i.mk 1 1 1, Vec3i.mk 1 1 (-1), Vec3i.mk (-1) 1 1, Vec3i.mk 1 2 1, Vec3i.mk (-1) 0 (-1), Vec3i.mk (-1) 0 1, Vec3i.mk (-1) 2 (-1), Vec3i.mk 1 0 (-1), Vec3i.mk 1 0 1, Vec3i.mk 0 1 1, Vec3i.mk 0 0 2, Vec3i.mk (-1) 0 1, Vec3i.mk 0 (-1) 1, Vec3i.mk 1 1 1, Vec3i.mk 1 (-1) 1, Vec3i.mk (-1) 1 1, Vec3i.mk 0 1 2, Vec3i.mk 0 (-1) 2, Vec3i.mk 1 0 2, Vec3i.mk (-1) 0 2, Vec3i.mk 1 1 2, Vec3i.mk (-1) (-1) 0, Vec3i.mk (-1) (-1) 2, Vec3i.mk (-1) 1 0, Vec3i.mk 1 (-1) 0, Vec3i.mk 2 1 0, Vec3i.mk 1 2 0, Vec3i.mk 1 1 1, Vec3i.mk 1 1 (-1), Vec3i.mk 2 2 0, Vec3i.mk 2 0 0, Vec3i.mk 0 2 0, Vec3i.mk 1 2 1, Vec3i.mk 1 2 (-1), Vec3i.mk 1 0 1, Vec3i.mk 2 1 1, Vec3i.mk 2 1 (-1), Vec3i.mk 0 1 1, Vec3i.mk 2 2 1, Vec3i.mk 0 2 (-1), Vec3i.mk 2 0 (-1), Vec3i.mk 1 1 1, Vec3i.mk 0 2 1, Vec3i.mk 0 1 2, Vec3i.mk (-1) 1 1, Vec3i.mk 1 2 1, Vec3i.mk 1 0 1, Vec3i.mk (-1) 2 1, Vec3i.mk 0 2 2, Vec3i.mk 0 2 0, Vec3i.mk 0 0 2, Vec3i.mk 1 1 2, Vec3i.mk (-1) 1 2, Vec3i.mk 1 2 2, Vec3i.mk (-1) 0 2, Vec3i.mk (-1) 2 0, Vec3i.mk 2 0 1, Vec3i.mk 1 1 1, Vec3i.mk 1 0 2, Vec3i.mk 1 (-1) 1, Vec3i.mk 2 1 1, Vec3i.mk 2 (-1) 1, Vec3i.mk 1 1 2, Vec3i.mk 1 (-1) 2, Vec3i.mk 2 0 2, Vec3i.mk 2 0 0, Vec3i.mk 0 0 2, Vec3i.mk 2 1 2, Vec3i.mk 0 (-1) 2, Vec3i.mk 2 (-1) 0, Vec3i.mk 2 1 1, Vec3i.mk 1 2 1, Vec3i.mk 1 1 2, Vec3i.mk 2 2 1, Vec3i.mk 2 0 1, Vec3i.mk 0 2 1, Vec3i.mk 1 2 2, Vec3i.mk 1 2 0, Vec3i.mk 1 0 2, Vec3i.mk 2 1 2, Vec3i.mk 2 1 0, Vec3i.mk 0 1 2, Vec3i.mk 2 2 2, Vec3i.mk 0 0 2, Vec3i.mk 0 2 0, Vec3i.mk 2 0 0] [Vec3i.mk 1 (-1) 1, Vec3i.mk 1 1 (-1), Vec3i.mk 2 (-1) 0, Vec3i.mk 2 1 0, Vec3i.mk 2 0 0, Vec3i.mk 1 (-1) (-1), Vec3i.mk (-1) 1 (-1), Vec3i.mk (-1) (-1) 1, Vec3i.mk (-1) (-1) (-1), Vec3i.mk 1 1 1, Vec3i.mk (-1) 0 1, Vec3i.mk 1 0 (-1), Vec3i.mk 1 0 1, Vec3i.mk 0 (-1) 1, Vec3i.mk 0 1 (-1), Vec3i.mk 0 1 1, Vec3i.mk (-1) 1 0, Vec3i.mk 1 (-1) 0, Vec3i.mk 1 1 0, Vec3i.mk 0 0 (-1), Vec3i.mk 0 (-1) 0, Vec3i.mk (-1) 0 0, Vec3i.mk 0 0 1, Vec3i.mk 0 1 0, Vec3i.mk 1 0 0, Vec3i.mk 0 0 0] [Atom.mk (Vec3.mk (50000/200001) (50000/200001) (50000/200001)) "X", Atom.mk (Vec3.mk (50000/66667) (50000/200001) (50000/200001)) "X", Atom.mk (Vec3.mk (50000/200001) (50000/66667) (50000/200001)) "X", Atom.mk (Vec3.mk (50000/200001) (50000/200001) (50000/66667)) "X", Atom.mk (Vec3.mk (50000/66667) (50000/66667) (50000/200001)) "X", Atom.mk (Vec3.mk (50000/200001) (50000/66667) (50000/66667)) "X", Atom.mk (Vec3.mk (50000/66667) (50000/200001) (50000/66667)) "X", Atom.mk (Vec3.mk (50000/66667) (50000/66667) (50000/66667)) "X"],
  GrowState.mk [Vec3i.mk 2 0 (-1), Vec3i.mk 0 0 1, Vec3i.mk 2 1 1, Vec3i.mk 0 (-1) (-1), Vec3i.mk 0 (-1) 1, Vec3i.mk 0 1 (-1), Vec3i.mk 2 (-1) (-1), Vec3i.mk 1 1 0, Vec3i.mk 0 2 0, Vec3i.mk 0 1 1, Vec3i.mk (-1) 1 0, Vec3i.mk 0 1 (-1), Vec3i.mk 1 2 0, Vec3i.mk (-1) 2 0, Vec3i.mk 0 2 1, Vec3i.mk 0 2 (-1), Vec3i.mk 0 0 1, Vec3i.mk 1 1 1, Vec3i.mk 1 1 (-1), Vec3i.mk (-1) 1 1, Vec3i.mk 1 2 1, Vec3i.mk (-1) 0 (-1), Vec3i.mk (-1) 0 1, Vec3i.mk (-1) 2 (-1), Vec3i.mk 1 0 (-1), Vec3i.mk 1 0 1, Vec3i.mk 0 1 1, Vec3i.mk 0 0 2, Vec3i.mk (-1) 0 1, Vec3i.mk 0 (-1) 1, Vec3i.mk 1 1 1, Vec3i.mk 1 (-1) 1, Vec3i.mk (-1) 1 1, Vec3i.mk 0 1 2, Vec3i.mk 0 (-1) 2, Vec3i.mk 1 0 2, Vec3i.mk (-1) 0 2, Vec3i.mk 1 1 2, Vec3i.mk (-1) (-1) 0, Vec3i.mk (-1) (-1) 2, Vec3i.mk (-1) 1 0, Vec3i.mk 1 (-1) 0, Vec3i.mk 2 1 0, Vec3i.mk 1 2 0, Vec3i.mk 1 1 1, Vec3i.mk 1 1 (-1), Vec3i.mk 2 2 0, Vec3i.mk 2 0 0, Vec3i.mk 0 2 0, Vec3i.mk 1 2 1, Vec3i.mk 1 2 (-1), Vec3i.mk 1 0 1, Vec3i.mk 2 1 1, Vec3i.mk 2 1 (-1), Vec3i.mk 0 1 1, Vec3i.mk 2 2 1, Vec3i.mk 0 2 (-1), Vec3i.mk 2 0 (-1), Vec3i.mk 1 1 1, Vec3i.mk 0 2 1, Vec3i.mk 0 1 2, Vec3i.mk (-1) 1 1, Vec3i.mk 1 2 1, Vec3i.mk 1 0 1, Vec3i.mk (-1) 2 1, Vec3i.mk 0 2 2, Vec3i.mk 0 2 0, Vec3i.mk 0 0 2, Vec3i.mk 1 1 2, Vec3i.mk (-1) 1 2, Vec3i.mk 1 2 2, Vec3i.mk (-1) 0 2, Vec3i.mk (-1) 2 0, Vec3i.mk 2 0 1, Vec3i.mk 1 1 1, Vec3i.mk 1 0 2, Vec3i.mk 1 (-1) 1, Vec3i.mk 2 1 1, Vec3i.mk 2 (-1) 1, Vec3i.mk 1 1 2, Vec3i.mk 1 (-1) 2, Vec3i.mk 2 0 2, Vec3i.mk 2 0 0, Vec3i.mk 0 0 2, Vec3i.mk 2 1 2, Vec3i.mk 0 (-1) 2, Vec3i.mk 2 (-1) 0, Vec3i.mk 2 1 1, Vec3i.mk 1 2 1, Vec3i.mk 1 1 2, Vec3i.mk 2 2 1, Vec3i.mk 2 0 1, Vec3i.mk 0 2 1, Vec3i.mk 1 2 2, Vec3i.mk 1 2 0, Vec3i.mk 1 0 2, Vec3i.mk 2 1 2, Vec3i.mk 2 1 0, Vec3i.mk 0 1 2, Vec3i.mk 2 2 2, Vec3i.mk 0 0 2, Vec3i.mk 0 2 0, Vec3i.mk 2 0 0] [Vec3i.mk 2 0 1, Vec3i.mk 1 (-1) 1, Vec3i.mk 1 1 (-1), Vec3i.mk 2 (-1) 0, Vec3i.mk 2 1 0, Vec3i.mk 2 0 0, Vec3i.mk 1 (-1) (-1), Vec3i.mk (-1) 1 (-1), Vec3i.mk (-1) (-1) 1, Vec3i.mk (-1) (-1) (-1), Vec3i.mk 1 1 1, Vec3i.mk (-1) 0 1, Vec3i.mk 1 0 (-1), Vec3i.mk 1 0 1, Vec3i.mk 0 (-1) 1, Vec3i.mk 0 1 (-1), Vec3i.mk 0 1 1, Vec3i.mk (-1) 1 0, Vec3i.mk 1 (-1) 0, Vec3i.mk 1 1 0, Vec3i.mk 0 0 (-1), Vec3i.mk 0 (-1) 0, Vec3i.mk (-1) 0 0, Vec3i.mk 0 0 1, Vec3i.mk 0 1 0, Vec3i.mk 1 0 0, Vec3i.mk 0 0 0] [Atom.mk (Vec3.mk (50000/200001) (50000/200001) (50000/200001)) "X", Atom.mk (Vec3.mk (50000/66667) (50000/200001) (50000/200001)) "X", Atom.mk (Vec3.mk (50000/200001) (50000/66667) (50000/200001)) "X", Atom.mk (Vec3.mk (50000/200001) (50000/200001) (50000/66667)) "X", Atom.mk (Vec3.mk (50000/66667) (50000/66667) (50000/200001)) "X", Atom.mk (Vec3.mk (50000/200001) (50000/66667) (50000/66667)) "X", Atom.mk (Vec3.mk (50000/66667) (50000/200001) (50000/66667)) "X", Atom.mk (Vec3.mk (50000/66667) (50000/66667) (50000/66667)) "X"],
  GrowState.mk [Vec3i.mk 0 0 1, Vec3i.mk 2 1 1, Vec3i.mk 0 (-1) (-1), Vec3i.mk 0 (-1) 1, Vec3i.mk 0 1 (-1), Vec3i.mk 2 (-1) (-1), Vec3i.mk 1 1 0, Vec3i.mk 0 2 0, Vec3i.mk 0 1 1, Vec3i.mk (-1) 1 0, Vec3i.mk 0 1 (-1), Vec3i.mk 1 2 0, Vec3i.mk (-1) 2 0, Vec3i.mk 0 2 1, Vec3i.mk 0 2 (-1), Vec3i.mk 0 0 1, Vec3i.mk 1 1 1, Vec3i.mk 1 1 (-1), Vec3i.mk (-1) 1 1, Vec3i.mk 1 2 1, Vec3i.mk (-1) 0 (-1), Vec3i.mk (-1) 0 1, Vec3i.mk (-1) 2 (-1), Vec3i.mk 1 0 (-1), Vec3i.mk 1 0 1, Vec3i.mk 0 1 1, Vec3i.mk 0 0 2, Vec3i.mk (-1) 0 1, Vec3i.mk 0 (-1) 1, Vec3i.mk 1 1 1, Vec3i.mk 1 (-1) 1, Vec3i.mk (-1) 1 1, Vec3i.mk 0 1 2, Vec3i.mk 0 (-1) 2, Vec3i.mk 1 0 2, Vec3i.mk (-1) 0 2, Vec3i.mk 1 1 2, Vec3i.mk (-1) (-1) 0, Vec3i.mk (-1) (-1) 2, Vec3i.mk (-1) 1 0, Vec3i.mk 1 (-1) 0, Vec3i.mk 2 1 0, Vec3i.mk 1 2 0, Vec3i.mk 1 1 1, Vec3i.mk 1 1 (-1), Vec3i.mk 2 2 0, Vec3i.mk 2 0 0, Vec3i.mk 0 2 0, Vec3i.mk 1 2 1, Vec3i.mk 1 2 (-1), Vec3i.mk 1 0 1, Vec3i.mk 2 1 1, Vec3i.mk 2 1 (-1), Vec3i.mk 0 1 1, Vec3i.mk 2 2 1, Vec3i.mk 0 2 (-1), Vec3i.mk 2 0 (-1), Vec3i.mk 1 1 1, Vec3i.mk 0 2 1, Vec3i.mk 0 1 2, Vec3i.mk (-1) 1 1, Vec3i.mk 1 2 1, Vec3i.mk 1 0 1, Vec3i.mk (-1) 2 1, Vec3i.mk 0 2 2, Vec3i.mk 0 2 0, Vec3i.mk 0 0 2, Vec3i.mk 1 1 2, Vec3i.mk (-1) 1 2, Vec3i.mk 1 2 2, Vec3i.mk (-1) 0 2, Vec3i.mk (-1) 2 0, Vec3i.mk 2 0 1, Vec3i.mk 1 1 1, Vec3i.mk 1 0 2, Vec3i.mk 1 (-1) 1, Vec3i.mk 2 1 1, Vec3i.mk 2 (-1) 1, Vec3i.mk 1 1 2, Vec3i.mk 1 (-1) 2, Vec3i.mk 2 0 2, Vec3i.mk 2 0 0, Vec3i.mk 0 0 2, Vec3i.mk 2 1 2, Vec3i.mk 0 (-1) 2, Vec3i.mk 2 (-1) 0, Vec3i.mk 2 1 1, Vec3i.mk 1 2 1, Vec3i.mk 1 1 2, Vec3i.mk 2 2 1, Vec3i.mk 2 0 1, Vec3i.mk 0 2 1, Vec3i.mk 1 2 2, Vec3i.mk 1 2 0, Vec3i.mk 1 0 2, Vec3i.mk 2 1 2, Vec3i.mk 2 1 0, Vec3i.mk 0 1 2, Vec3i.mk 2 2 2, Vec3i.mk 0 0 2, Vec3i.mk 0 2 0, Vec3i.mk 2 0 0] [Vec3i.mk 2 0 (-1), Vec3i.mk 2 0 1, Vec3i.mk 1 (-1) 1, Vec3i.mk 1 1 (-1), Vec3i.mk 2 (-1) 0, Vec3i.mk 2 1 0, Vec3i.mk 2 0 0, Vec3i.mk 1 (-1) (-1), Vec3i.mk (-1) 1 (-1), Vec3i.mk (-1) (-1) 1, Vec3i.mk (-1) (-1) (-1), Vec3i.mk 1 1 1, Vec3i.mk (-1) 0 1, Vec3i.mk 1 0 (-1), Vec3i.mk 1 0 1, Vec3i.mk 0 (-1) 1, Vec3i.mk 0 1 (-1), Vec3i.mk 0 1 1, Vec3i.mk (-1) 1 0, Vec3i.mk 1 (-1) 0, Vec3i.mk 1 1 0, Vec3i.mk 0 0 (-1), Vec3i.mk 0 (-1) 0, Vec3i.mk (-1) 0 0, Vec3i.mk 0 0 1, Vec3i.mk 0 1 0, Vec3i.mk 1 0 0, Vec3i.mk 0 0 0] [Atom.mk (Vec3.mk (50000/200001) (50000/200001) (50000/200001)) "X", Atom.mk (Vec3.mk (50000/66667) (50000/200001) (50000/200001)) "X", Atom.mk (Vec3.mk (50000/200001) (50000/66667) (50000/200001)) "X", Atom.mk (Vec3.mk (50000/200001) (50000/200001) (50000/66667)) "X", Atom.mk (Vec3.mk (50000/66667) (50000/66667) (50000/200001)) "X", Atom.mk (Vec3.mk (50000/200001) (50000/66667) (50000/66667)) "X", Atom.mk (Vec3.mk (50000/66667) (50000/200001) (50000/66667)) "X", Atom.mk (Vec3.mk (50000/66667) (50000/66667) (50000/66667)) "X"],
  GrowState.mk [Vec3i.mk 2 1 1, Vec3i.mk 0 (-1) (-1), Vec3i.mk 0 (-1) 1, Vec3i.mk 0 1 (-1), Vec3i.mk 2 (-1) (-1), Vec3i.mk 1 1 0, Vec3i.mk 0 2 0, Vec3i.mk 0 1 1, Vec3i.mk (-1) 1 0, Vec3i.mk 0 1 (-1), Vec3i.mk 1 2 0, Vec3i.mk (-1) 2 0, Vec3i.mk 0 2 1, Vec3i.mk 0 2 (-1), Vec3i.mk 0 0 1, Vec3i.mk 1 1 1, Vec3i.mk 1 1 (-1), Vec3i.mk (-1) 1 1, Vec3i.mk 1 2 1, Vec3i.mk (-1) 0 (-1), Vec3i.mk (-1) 0 1, Vec3i.mk (-1) 2 (-1), Vec3i.mk 1 0 (-1), Vec3i.mk 1 0 1, Vec3i.mk 0 1 1, Vec3i.mk 0 0 2, Vec3i.mk (-1) 0 1, Vec3i.mk 0 (-1) 1, Vec3i.mk 1 1 1, Vec3i.mk 1 (-1) 1, Vec3i.mk (-1) 1 1, Vec3i.mk 0 1 2, Vec3i.mk 0 (-1) 2, Vec3i.mk 1 0 2, Vec3i.mk (-1) 0 2, Vec3i.mk 1 1 2, Vec3i.mk (-1) (-1) 0, Vec3i.mk (-1) (-1) 2, Vec3i.mk (-1) 1 0, Vec3i.mk 1 (-1) 0, Vec3i.mk 2 1 0, Vec3i.mk 1 2 0, Vec3i.mk 1 1 1, Vec3i.mk 1 1 (-1), Vec3i.mk 2 2 0, Vec3i.mk 2 0 0, Vec3i.mk 0 2 0, Vec3i.mk 1 2 1, Vec3i.mk 1 2 (-1), Vec3i.mk 1 0 1, Vec3i.mk 2 1 1, Vec3i.mk 2 1 (-1), Vec3i.mk 0 1 1, Vec3i.mk 2 2 1, Vec3i.mk 0 2 (-1), Vec3i.mk 2 0 (-1), Vec3i.mk 1 1 1, Vec3i.mk 0 2 1, Vec3i.mk 0 1 2, Vec3i.mk (-1) 1 1, Vec3i.mk 1 2 1, Vec3i.mk 1 0 1, Vec3i.mk (-1) 2 1, Vec3i.mk 0 2 2, Vec3i.mk 0 2 0, Vec3i.mk 0 0 2, Vec3i.mk 1 1 2, Vec3i.mk (-1) 1 2, Vec3i.mk 1 2 2, Vec3i.mk (-1) 0 2, Vec3i.mk (-1) 2 0, Vec3i.mk 2 0 1, Vec3i.mk 1 1 1, Vec3i.mk 1 0 2, Vec3i.mk 1 (-1) 1, Vec3i.mk 2 1 1, Vec3i.mk 2 (-1) 1, Vec3i.mk 1 1 2, Vec3i.mk 1 (-1) 2, Vec3i.mk 2 0 2, Vec3i.mk 2 0 0, Vec3i.mk 0 0 2, Vec3i.mk 2 1 2, Vec3i.mk 0 (-1) 2, Vec3i.mk 2 (-1) 0, Vec3i.mk 2 1 1, Vec3i.mk 1 2 1, Vec3i.mk 1 1 2, Vec3i.mk 2 2 1, Vec3i.mk 2 0 1, Vec3i.mk 0 2 1, Vec3i.mk 1 2 2, Vec3i.mk 1 2 0, Vec3i.mk 1 0 2, Vec3i.mk 2 1 2, Vec3i.mk 2 1 0, Vec3i.mk 0 1 2, Vec3i.mk 2 2 2, Vec3i.mk 0 0 2, Vec3i.mk 0 2 0, Vec3i.mk 2 0 0] [Vec3i.mk 2 0 (-1), Vec3i.mk 2 0 1, Vec3i.mk 1 (-1) 1, Vec3i.mk 1 1 (-1), Vec3i.mk 2 (-1) 0, Vec3i.mk 2 1 0, Vec3i.mk 2 0 0, Vec3i.mk 1 (-1) (-1), Vec3i.mk (-1) 1 (-1), Vec3i.mk (-1) (-1) 1, Vec3i.mk (-1) (-1) (-1), Vec3i.mk 1 1 1, Vec3i.mk (-1) 0 1, Vec3i.mk 1 0 (-1), Vec3i.mk 1 0 1, Vec3i.mk 0 (-1) 1, Vec3i.mk 0 1 (-1), Vec3i.mk 0 1 1, Vec3i.mk (-1) 1 0, Vec3i.mk 1 (-1) 0, Vec3i.mk 1 1 0, Vec3i.mk 0 0 (-1), Vec3i.mk 0 (-1) 0, Vec3i.mk (-1) 0 0, Vec3i.mk 0 0 1, Vec3i.mk 0 1 0, Vec3i.mk 1 0 0, Vec3i.mk 0 0 0] [Atom.mk (Vec3.mk (50000/200001) (50000/200001) (50000/200001)) "X", Atom.mk (Vec3.mk (50000/66667) (50000/200001) (50000/200001)) "X", Atom.mk (Vec3.mk (50000/200001) (50000/66667) (50000/200001)) "X", Atom.mk (Vec3.mk (50000/200001) (50000/200001) (50000/66667)) "X", Atom.mk (Vec3.mk (50000/66667) (50000/66667) (50000/200001)) "X", Atom.mk (Vec3.mk (50000/200001) (50000/66667) (50000/66667)) "X", Atom.mk (Vec3.mk (50000/66667) (50000/200001) (50000/66667)) "X", Atom.mk (Vec3.mk (50000/66667) (50000/66667) (50000/66667)) "X"],
  GrowState.mk [Vec3i.mk 0 (-1) (-1), Vec3i.mk 0 (-1) 1, Vec3i.mk 0 1 (-1), Vec3i.mk 2 (-1) (-1), Vec3i.mk 1 1 0, Vec3i.mk 0 2 0, Vec3i.mk 0 1 1, Vec3i.mk (-1) 1 0, Vec3i.mk 0 1 (-1), Vec3i.mk 1 2 0, Vec3i.mk (-1) 2 0, Vec3i.mk 0 2 1, Vec3i.mk 0 2 (-1), Vec3i.mk 0 0 1, Vec3i.mk 1 1 1, Vec3i.mk 1 1 (-1), Vec3i.mk (-1) 1 1, Vec3i.mk 1 2 1, Vec3i.mk (-1) 0 (-1), Vec3i.mk (-1) 0 1, Vec3i.mk (-1) 2 (-1), Vec3i.mk 1 0 (-1), Vec3i.mk 1 0 1, Vec3i.mk 0 1 1, Vec3i.mk 0 0 2, Vec3i.mk (-1) 0 1, Vec3i.mk 0 (-1) 1, Vec3i.mk 1 1 1, Vec3i.mk 1 (-1) 1, Vec3i.mk (-1) 1 1, Vec3i.mk 0 1 2, Vec3i.mk 0 (-1) 2, Vec3i.mk 1 0 2, Vec3i.mk (-1) 0 2, Vec3i.mk 1 1 2, Vec3i.mk (-1) (-1) 0, Vec3i.mk (-1) (-1) 2, Vec3i.mk (-1) 1 0, Vec3i.mk 1 (-1) 0, Vec3i.mk 2 1 0, Vec3i.mk 1 2 0, Vec3i.mk 1 1 1, Vec3i.mk 1 1 (-1), Vec3i.mk 2 2 0, Vec3i.mk 2 0 0, Vec3i.mk 0 2 0, Vec3i.mk 1 2 1, Vec3i.mk 1 2 (-1), Vec3i.mk 1 0 1, Vec3i.mk 2 1 1, Vec3i.mk 2 1 (-1), Vec3i.mk 0 1 1, Vec3i.mk 2 2 1, Vec3i.mk 0 2 (-1), Vec3i.mk 2 0 (-1), Vec3i.mk 1 1 1, Vec3i.mk 0 2 1, Vec3i.mk 0 1 2, Vec3i.mk (-1) 1 1, Vec3i.mk 1 2 1, Vec3i.mk 1 0 1, Vec3i.mk (-1) 2 1, Vec3i.mk 0 2 2, Vec3i.mk 0 2 0, Vec3i.mk 0 0 2, Vec3i.mk 1 1 2, Vec3i.mk (-1) 1 2, Vec3i.mk 1 2 2, Vec3i.mk (-1) 0 2, Vec3i.mk (-1) 2 0, Vec3i.mk 2 0 1, Vec3i.mk 1 1 1, Vec3i.mk 1 0 2, Vec3i.mk 1 (-1) 1, Vec3i.mk 2 1 1, Vec3i.mk 2 (-1) 1, Vec3i.mk 1 1 2, Vec3i.mk 1 (-1) 2, Vec3i.mk 2 0 2, Vec3i.mk 2 0 0, Vec3i.mk 0 0 2, Vec3i.mk 2 1 2, Vec3i.mk 0 (-1) 2, Vec3i.mk 2 (-1) 0, Vec3i.mk 2 1 1, Vec3i.mk 1 2 1, Vec3i.mk 1 1 2, Vec3i.mk 2 2 1, Vec3i.mk 2 0 1, Vec3i.mk 0 2 1, Vec3i.mk 1 2 2, Vec3i.mk 1 2 0, Vec3i.mk 1 0 2, Vec3i.mk 2 1 2, Vec3i.mk 2 1 0, Vec3i.mk 0 1 2, Vec3i.mk 2 2 2, Vec3i.mk 0 0 2, Vec3i.mk 0 2 0, Vec3i.mk 2 0 0] [Vec3i.mk 2 1 1, Vec3i.mk 2 0 (-1), Vec3i.mk 2 0 1, Vec3i.mk 1 (-1) 1, Vec3i.mk 1 1 (-1), Vec3i.mk 2 (-1) 0, Vec3i.mk 2 1 0, Vec3i.mk 2 0 0, Vec3i.mk 1 (-1) (-1), Vec3i.mk (-1) 1 (-1), Vec3i.mk (-1) (-1) 1, Vec3i.mk (-1) (-1) (-1), Vec3i.mk 1 1 1, Vec3i.mk (-1) 0 1, Vec3i.mk 1 0 (-1), Vec3i.mk 1 0 1, Vec3i.mk 0 (-1) 1, Vec3i.mk 0 1 (-1), Vec3i.mk 0 1 1, Vec3i.mk (-1) 1 0, Vec3i.mk 1 (-1) 0, Vec3i.mk 1 1 0, Vec3i.mk 0 0 (-1), Vec3i.mk 0 (-1) 0, Vec3i.mk (-1) 0 0, Vec3i.mk 0 0 1, Vec3i.mk 0 1 0, Vec3i.mk 1 0 0, Vec3i.mk 0 0 0] [Atom.mk (Vec3.mk (50000/200001) (50000/200001) (50000/200001)) "X", Atom.mk (Vec3.mk (50000/66667) (50000/200001) (50000/200001)) "X", Atom.mk (Vec3.mk (50000/200001) (50000/66667) (50000/200001)) "X", Atom.mk (Vec3.mk (50000/200001) (50000/200001) (50000/66667)) "X", Atom.mk (Vec3.mk (50000/66667) (50000/66667) (50000/200001)) "X", Atom.mk (Vec3.mk (50000/200001) (50000/66667) (50000/66667)) "X", Atom.mk (Vec3.mk (50000/66667) (50000/200001) (50000/66667)) "X", Atom.mk (Vec3.mk (50000/66667) (50000/66667) (50000/66667)) "X"],
  GrowState.mk [Vec3i.mk 0 (-1) 1, Vec3i.mk 0 1 (-1), Vec3i.mk 2 (-1) (-1), Vec3i.mk 1 1 0, Vec3i.mk 0 2 0, Vec3i.mk 0 1 1, Vec3i.mk (-1) 1 0, Vec3i.mk 0 1 (-1), Vec3i.mk 1 2 0, Vec3i.mk (-1) 2 0, Vec3i.mk 0 2 1, Vec3i.mk 0 2 (-1), Vec3i.mk 0 0 1, Vec3i.mk 1 1 1, Vec3i.mk 1 1 (-1), Vec3i.mk (-1) 1 1, Vec3i.mk 1 2 1, Vec3i.mk (-1) 0 (-1), Vec3i.mk (-1) 0 1, Vec3i.mk (-1) 2 (-1), Vec3i.mk 1 0 (-1), Vec3i.mk 1 0 1, Vec3i.mk 0 1 1, Vec3i.mk 0 0 2, Vec3i.mk (-1) 0 1, Vec3i.mk 0 (-1) 1, Vec3i.mk 1 1 1, Vec3i.mk 1 (-1) 1, Vec3i.mk (-1) 1 1, Vec3i.mk 0 1 2, Vec3i.mk 0 (-1) 2, Vec3i.mk 1 0 2, Vec3i.mk (-1) 0 2, Vec3i.mk 1 1 2, Vec3i.mk (-1) (-1) 0, Vec3i.mk (-1) (-1) 2, Vec3i.mk (-1) 1 0, Vec3i.mk 1 (-1) 0, Vec3i.mk 2 1 0, Vec3i.mk 1 2 0, Vec3i.mk 1 1 1, Vec3i.mk 1 1 (-1), Vec3i.mk 2 2 0, Vec3i.mk 2 0 0, Vec3i.mk 0 2 0, Vec3i.mk 1 2 1, Vec3i.mk 1 2 (-1), Vec3i.mk 1 0 1, Vec3i.mk 2 1 1, Vec3i.mk 2 1 (-1), Vec3i.mk 0 1 1, Vec3i.mk 2 2 1, Vec3i.mk 0 2 (-1), Vec3i.mk 2 0 (-1), Vec3i.mk 1 1 1, Vec3i.mk 0 2 1, Vec3i.mk 0 1 2, Vec3i.mk (-1) 1 1, Vec3i.mk 1 2 1, Vec3i.mk 1 0 1, Vec3i.mk (-1) 2 1, Vec3i.mk 0 2 2, Vec3i.mk 0 2 0, Vec3i.mk 0 0 2, Vec3i.mk 1 1 2, Vec3i.mk (-1) 1 2, Vec3i.mk 1 2 2, Vec3i.mk (-1) 0 2, Vec3i.mk (-1) 2 0, Vec3i.mk 2 0 1, Vec3i.mk 1 1 1, Vec3i.mk 1 0 2, Vec3i.mk 1 (-1) 1, Vec3i.mk 2 1 1, Vec3i.mk 2 (-1) 1, Vec3i.mk 1 1 2, Vec3i.mk 1 (-1) 2, Vec3i.mk 2 0 2, Vec3i.mk 2 0 0, Vec3i.mk 0 0 2, Vec3i.mk 2 1 2, Vec3i.mk 0 (-1) 2, Vec3i.mk 2 (-1) 0, Vec3i.mk 2 1 1, Vec3i.mk 1 2 1, Vec3i.mk 1 1 2, Vec3i.mk 2 2 1, Vec3i.mk 2 0 1, Vec3i.mk 0 2 1, Vec3i.mk 1 2 2, Vec3i.mk 1 2 0, Vec3i.mk 1 0 2, Vec3i.mk 2 1 2, Vec3i.mk 2 1 0, Vec3i.mk 0 1 2, Vec3i.mk 2 2 2, Vec3i.mk 0 0 2, Vec3i.mk 0 2 0, Vec3i.mk 2 0 0] [Vec3i.mk 0 (-1) (-1), Vec3i.mk 2 1 1, Vec3i.mk 2 0 (-1), Vec3i.mk 2 0 1, Vec3i.mk 1 (-1) 1, Vec3i.mk 1 1 (-1), Vec3i.mk 2 (-1) 0, Vec3i.mk 2 1 0, Vec3i.mk 2 0 0, Vec3i.mk 1 (-1) (-1), Vec3i.mk (-1) 1 (-1), Vec3i.mk (-1) (-1) 1, Vec3i.mk (-1) (-1) (-1), Vec3i.mk 1 1 1, Vec3i.mk (-1) 0 1, Vec3i.mk 1 0 (-1), Vec3i.mk 1 0 1, Vec3i.mk 0 (-1) 1, Vec3i.mk 0 1 (-1), Vec3i.mk 0 1 1, Vec3i.mk (-1) 1 0, Vec3i.mk 1 (-1) 0, Vec3i.mk 1 1 0, Vec3i.mk 0 0 (-1), Vec3i.mk 0 (-1) 0, Vec3i.mk (-1) 0 0, Vec3i.mk 0 0 1, Vec3i.mk 0 1 0, Vec3i.mk 1 0 0, Vec3i.mk 0 0 0] [Atom.mk (Vec3.mk (50000/200001) (50000/200001) (50000/200001)) "X", Atom.mk (Vec3.mk (50000/66667) (50000/200001) (50000/200001)) "X", Atom.mk (Vec3.mk (50000/200001) (50000/66667) (50000/200001)) "X", Atom.mk (Vec3.mk (50000/200001) (50000/200001) (50000/66667)) "X", Atom.mk (Vec3.mk (50000/66667) (50000/66667) (50000/200001)) "X", Atom.mk (Vec3.mk (50000/200001) (50000/66667) (50000/66667)) "X", Atom.mk (Vec3.mk (50000/66667) (50000/200001) (50000/66667)) "X", Atom.mk (Vec3.mk (50000/66667) (50000/66667) (50000/66667)) "X"],
  GrowState.mk [Vec3i.mk 0 1 (-1), Vec3i.mk 2 (-1) (-1), Vec3i.mk 1 1 0, Vec3i.mk 0 2 0, Vec3i.mk 0 1 1, Vec3i.mk (-1) 1 0, Vec3i.mk 0 1 (-1), Vec3i.mk 1 2 0, Vec3i.mk (-1) 2 0, Vec3i.mk 0 2 1, Vec3i.mk 0 2 (-1), Vec3i.mk 0 0 1, Vec3i.mk 1 1 1, Vec3i.mk 1 1 (-1), Vec3i.mk (-1) 1 1, Vec3i.mk 1 2 1, Vec3i.mk (-1) 0 (-1), Vec3i.mk (-1) 0 1, Vec3i.mk (-1) 2 (-1), Vec3i.mk 1 0 (-1), Vec3i.mk 1 0 1, Vec3i.mk 0 1 1, Vec3i.mk 0 0 2, Vec3i.mk (-1) 0 1, Vec3i.mk 0 (-1) 1, Vec3i.mk 1 1 1, Vec3i.mk 1 (-1) 1, Vec3i.mk (-1) 1 1, Vec3i.mk 0 1 2, Vec3i.mk 0 (-1) 2, Vec3i.mk 1 0 2, Vec3i.mk (-1) 0 2, Vec3i.mk 1 1 2, Vec3i.mk (-1) (-1) 0, Vec3i.mk (-1) (-1) 2, Vec3i.mk (-1) 1 0, Vec3i.mk 1 (-1) 0, Vec3i.mk 2 1 0, Vec3i.mk 1 2 0, Vec3i.mk 1 1 1, Vec3i.mk 1 1 (-1), Vec3i.mk 2 2 0, Vec3i.mk 2 0 0, Vec3i.mk 0 2 0, Vec3i.mk 1 2 1, Vec3i.mk 1 2 (-1), Vec3i.mk 1 0 1, Vec3i.mk 2 1 1, Vec3i.mk 2 1 (-1), Vec3i.mk 0 1 1, Vec3i.mk 2 2 1, Vec3i.mk 0 2 (-1), Vec3i.mk 2 0 (-1), Vec3i.mk 1 1 1, Vec3i.mk 0 2 1, Vec3i.mk 0 1 2, Vec3i.mk (-1) 1 1, Vec3i.mk 1 2 1, Vec3i.mk 1 0 1, Vec3i.mk (-1) 2 1, Vec3i.mk 0 2 2, Vec3i.mk 0 2 0, Vec3i.mk 0 0 2, Vec3i.mk 1 1 2, Vec3i.mk (-1) 1 2, Vec3i.mk 1 2 2, Vec3i.mk (-1) 0 2, Vec3i.mk (-1) 2 0, Vec3i.mk 2 0 1, Vec3i.mk 1 1 1, Vec3i.mk 1 0 2, Vec3i.mk 1 (-1) 1, Vec3i.mk 2 1 1, Vec3i.mk 2 (-1) 1, Vec3i.mk 1 1 2, Vec3i.mk 1 (-1) 2, Vec3i.mk 2 0 2, Vec3i.mk 2 0 0, Vec3i.mk 0 0 2, Vec3i.mk 2 1 2, Vec3i.mk 0 (-1) 2, Vec3i.mk 2 (-1) 0, Vec3i.mk 2 1 1, Vec3i.mk 1 2 1, Vec3i.mk 1 1 2, Vec3i.mk 2 2 1, Vec3i.mk 2 0 1, Vec3i.mk 0 2 1, Vec3i.mk 1 2 2, Vec3i.mk 1 2 0, Vec3i.mk 1 0 2, Vec3i.mk 2 1 2, Vec3i.mk 2 1 0, Vec3i.mk 0 1 2, Vec3i.mk 2 2 2, Vec3i.mk 0 0 2, Vec3i.mk 0 2 0, Vec3i.mk 2 0 0] [Vec3i.mk 0 (-1) (-1), Vec3i.mk 2 1 1, Vec3i.mk 2 0 (-1), Vec3i.mk 2 0 1, Vec3i.mk 1 (-1) 1, Vec3i.mk 1 1 (-1), Vec3i.mk 2 (-1) 0, Vec3i.mk 2 1 0, Vec3i.mk 2 0 0, Vec3i.mk 1 (-1) (-1), Vec3i.mk (-1) 1 (-1), Vec3i.mk (-1) (-1) 1, Vec3i.mk (-1) (-1) (-1), Vec3i.mk 1 1 1, Vec3i.mk (-1) 0 1, Vec3i.mk 1 0 (-1), Vec3i.mk 1 0 1, Vec3i.mk 0 (-1) 1, Vec3i.mk 0 1 (-1), Vec3i.mk 0 1 1, Vec3i.mk (-1) 1 0, Vec3i.mk 1 (-1) 0, Vec3i.mk 1 1 0, Vec3i.mk 0 0 (-1), Vec3i.mk 0 (-1) 0, Vec3i.mk (-1) 0 0, Vec3i.mk 0 0 1, Vec3i.mk 0 1 0, Vec3i.mk 1 0 0, Vec3i.mk 0 0 0] [Atom.mk (Vec3.mk (50000/200001) (50000/200001) (50000/200001)) "X", Atom.mk (Vec3.mk (50000/66667) (50000/200001) (50000/200001)) "X", Atom.mk (Vec3.mk (50000/200001) (50000/66667) (50000/200001)) "X", Atom.mk (Vec3.mk (50000/200001) (50000/200001) (50000/66667)) "X", Atom.mk (Vec3.mk (50000/66667) (50000/66667) (50000/200001)) "X", Atom.mk (Vec3.mk (50000/200001) (50000/66667) (50000/66667)) "X", Atom.mk (Vec3.mk (50000/66667) (50000/200001) (50000/66667)) "X", Atom.mk (Vec3.mk (50000/66667) (50000/66667) (50000/66667)) "X"],
  GrowState.mk [Vec3i.mk 2 (-1) (-1), Vec3i.mk 1 1 0, Vec3i.mk 0 2 0, Vec3i.mk 0 1 1, Vec3i.mk (-1) 1 0, Vec3i.mk 0 1 (-1), Vec3i.mk 1 2 0, Vec3i.mk (-1) 2 0, Vec3i.mk 0 2 1, Vec3i.mk 0 2 (-1), Vec3i.mk 0 0 1, Vec3i.mk 1 1 1, Vec3i.mk 1 1 (-1), Vec3i.mk (-1) 1 1, Vec3i.mk 1 2 1, Vec3i.mk (-1) 0 (-1), Vec3i.mk (-1) 0 1, Vec3i.mk (-1) 2 (-1), Vec3i.mk 1 0 (-1), Vec3i.mk 1 0 1, Vec3i.mk 0 1 1, Vec3i.mk 0 0 2, Vec3i.mk (-1) 0 1, Vec3i.mk 0 (-1) 1, Vec3i.mk 1 1 1, Vec3i.mk 1 (-1) 1, Vec3i.mk (-1) 1 1, Vec3i.mk 0 1 2, Vec3i.mk 0 (-1) 2, Vec3i.mk 1 0 2, Vec3i.mk (-1) 0 2, Vec3i.mk 1 1 2, Vec3i.mk (-1) (-1) 0, Vec3i.mk (-1) (-1) 2, Vec3i.mk (-1) 1 0, Vec3i.mk 1 (-1) 0, Vec3i.mk 2 1 0, Vec3i.mk 1 2 0, Vec3i.mk 1 1 1, Vec3i.mk 1 1 (-1), Vec3i.mk 2 2 0, Vec3i.mk 2 0 0, Vec3i.mk 0 2 0, Vec3i.mk 1 2 1, Vec3i.mk 1 2 (-1), Vec3i.mk 1 0 1, Vec3i.mk 2 1 1, Vec3i.mk 2 1 (-1), Vec3i.mk 0 1 1, Vec3i.mk 2 2 1, Vec3i.mk 0 2 (-1), Vec3i.mk 2 0 (-1), Vec3i.mk 1 1 1, Vec3i.mk 0 2 1, Vec3i.mk 0 1 2, Vec3i.mk (-1) 1 1, Vec3i.mk 1 2 1, Vec3i.mk 1 0 1, Vec3i.mk (-1) 2 1, Vec3i.mk 0 2 2, Vec3i.mk 0 2 0, Vec3i.mk 0 0 2, Vec3i.mk 1 1 2, Vec3i.mk (-1) 1 2, Vec3i.mk 1 2 2, Vec3i.mk (-1) 0 2, Vec3i.mk (-1) 2 0, Vec3i.mk 2 0 1, Vec3i.mk 1 1 1, Vec3i.mk 1 0 2, Vec3i.mk 1 (-1) 1, Vec3i.mk 2 1 1, Vec3i.mk 2 (-1) 1, Vec3i.mk 1 1 2, Vec3i.mk 1 (-1) 2, Vec3i.mk 2 0 2, Vec3i.mk 2 0 0, Vec3i.mk 0 0 2, Vec3i.mk 2 1 2, Vec3i.mk 0 (-1) 2, Vec3i.mk 2 (-1) 0, Vec3i.mk 2 1 1, Vec3i.mk 1 2 1, Vec3i.mk 1 1 2, Vec3i.mk 2 2 1, Vec3i.mk 2 0 1, Vec3i.mk 0 2 1, Vec3i.mk 1 2 2, Vec3i.mk 1 2 0, Vec3i.mk 1 0 2, Vec3i.mk 2 1 2, Vec3i.mk 2 1 0, Vec3i.mk 0 1 2, Vec3i.mk 2 2 2, Vec3i.mk 0 0 2, Vec3i.mk 0 2 0, Vec3i.mk 2 0 0] [Vec3i.mk 0 (-1) (-1), Vec3i.mk 2 1 1, Vec3i.mk 2 0 (-1), Vec3i.mk 2 0 1, Vec3i.mk 1 (-1) 1, Vec3i.mk 1 1 (-1), Vec3i.mk 2 (-1) 0, Vec3i.mk 2 1 0, Vec3i.mk 2 0 0, Vec3i.mk 1 (-1) (-1), Vec3i.mk (-1) 1 (-1), Vec3i.mk (-1) (-1) 1, Vec3i.mk (-1) (-1) (-1), Vec3i.mk 1 1 1, Vec3i.mk (-1) 0 1, Vec3i.mk 1 0 (-1), Vec3i.mk 1 0 1, Vec3i.mk 0 (-1) 1, Vec3i.mk 0 1 (-1), Vec3i.mk 0 1 1, Vec3i.mk (-1) 1 0, Vec3i.mk 1 (-1) 0, Vec3i.mk 1 1 0, Vec3i.mk 0 0 (-1), Vec3i.mk 0 (-1) 0, Vec3i.mk (-1) 0 0, Vec3i.mk 0 0 1, Vec3i.mk 0 1 0, Vec3i.mk 1 0 0, Vec3i.mk 0 0 0] [Atom.mk (Vec3.mk (50000/200001) (50000/200001) (50000/200001)) "X", Atom.mk (Vec3.mk (50000/66667) (50000/200001) (50000/200001)) "X", Atom.mk (Vec3.mk (50000/200001) (50000/66667) (50000/200001)) "X", Atom.mk (Vec3.mk (50000/200001) (50000/200001) (50000/66667)) "X", Atom.mk (Vec3.mk (50000/66667) (50000/66667) (50000/200001)) "X", Atom.mk (Vec3.mk (50000/200001) (50000/66667) (50000/66667)) "X", Atom.mk (Vec3.mk (50000/66667) (50000/200001) (50000/66667)) "X", Atom.mk (Vec3.mk (50000/66667) (50000/66667) (50000/66667)) "X"],
  GrowState.mk [Vec3i.mk 1 1 0, Vec3i.mk 0 2 0, Vec3i.mk 0 1 1, Vec3i.mk (-1) 1 0, Vec3i.mk 0 1 (-1), Vec3i.mk 1 2 0, Vec3i.mk (-1) 2 0, Vec3i.mk 0 2 1, Vec3i.mk 0 2 (-1), Vec3i.mk 0 0 1, Vec3i.mk 1 1 1, Vec3i.mk 1 1 (-1), Vec3i.mk (-1) 1 1, Vec3i.mk 1 2 1, Vec3i.mk (-1) 0 (-1), Vec3i.mk (-1) 0 1, Vec3i.mk (-1) 2 (-1), Vec3i.mk 1 0 (-1), Vec3i.mk 1 0 1, Vec3i.mk 0 1 1, Vec3i.mk 0 0 2, Vec3i.mk (-1) 0 1, Vec3i.mk 0 (-1) 1, Vec3i.mk 1 1 1, Vec3i.mk 1 (-1) 1, Vec3i.mk (-1) 1 1, Vec3i.mk 0 1 2, Vec3i.mk 0 (-1) 2, Vec3i.mk 1 0 2, Vec3i.mk (-1) 0 2, Vec3i.mk 1 1 2, Vec3i.mk (-1) (-1) 0, Vec3i.mk (-1) (-1) 2, Vec3i.mk (-1) 1 0, Vec3i.mk 1 (-1) 0, Vec3i.mk 2 1 0, Vec3i.mk 1 2 0, Vec3i.mk 1 1 1, Vec3i.mk 1 1 (-1), Vec3i.mk 2 2 0, Vec3i.mk 2 0 0, Vec3i.mk 0 2 0, Vec3i.mk 1 2 1, Vec3i.mk 1 2 (-1), Vec3i.mk 1 0 1, Vec3i.mk 2 1 1, Vec3i.mk 2 1 (-1), Vec3i.mk 0 1 1, Vec3i.mk 2 2 1, Vec3i.mk 0 2 (-1), Vec3i.mk 2 0 (-1), Vec3i.mk 1 1 1, Vec3i.mk 0 2 1, Vec3i.mk 0 1 2, Vec3i.mk (-1) 1 1, Vec3i.mk 1 2 1, Vec3i.mk 1 0 1, Vec3i.mk (-1) 2 1, Vec3i.mk 0 2 2, Vec3i.mk 0 2 0, Vec3i.mk 0 0 2, Vec3i.mk 1 1 2, Vec3i.mk (-1) 1 2, Vec3i.mk 1 2 2, Vec3i.mk (-1) 0 2, Vec3i.mk (-1) 2 0, Vec3i.mk 2 0 1, Vec3i.mk 1 1 1, Vec3i.mk 1 0 2, Vec3i.mk 1 (-1) 1, Vec3i.mk 2 1 1, Vec3i.mk 2 (-1) 1, Vec3i.mk 1 1 2, Vec3i.mk 1 (-1) 2, Vec3i.mk 2 0 2, Vec3i.mk 2 0 0, Vec3i.mk 0 0 2, Vec3i.mk 2 1 2, Vec3i.mk 0 (-1) 2, Vec3i.mk 2 (-1) 0, Vec3i.mk 2 1 1, Vec3i.mk 1 2 1, Vec3i.mk 1 1 2, Vec3i.mk 2 2 1, Vec3i.mk 2 0 1, Vec3i.mk 0 2 1, Vec3i.mk 1 2 2, Vec3i.mk 1 2 0, Vec3i.mk 1 0 2, Vec3i.mk 2 1 2, Vec3i.mk 2 1 0, Vec3i.mk 0 1 2, Vec3i.mk 2 2 2, Vec3i.mk 0 0 2, Vec3i.mk 0 2 0, Vec3i.mk 2 0 0] [Vec3i.mk 2 (-1) (-1), Vec3i.mk 0 (-1) (-1), Vec3i.mk 2 1 1, Vec3i.mk 2 0 (-1), Vec3i.mk 2 0 1, Vec3i.mk 1 (-1) 1, Vec3i.mk 1 1 (-1), Vec3i.mk 2 (-1) 0, Vec3i.mk 2 1 0, Vec3i.mk 2 0 0, Vec3i.mk 1 (-1) (-1), Vec3i.mk (-1) 1 (-1), Vec3i.mk (-1) (-1) 1, Vec3i.mk (-1) (-1) (-1), Vec3i.mk 1 1 1, Vec3i.mk (-1) 0 1, Vec3i.mk 1 0 (-1), Vec3i.mk 1 0 1, Vec3i.mk 0 (-1) 1, Vec3i.mk 0 1 (-1), Vec3i.mk 0 1 1, Vec3i.mk (-1) 1 0, Vec3i.mk 1 (-1) 0, Vec3i.mk 1 1 0, Vec3i.mk 0 0 (-1), Vec3i.mk 0 (-1) 0, Vec3i.mk (-1) 0 0, Vec3i.mk 0 0 1, Vec3i.mk 0 1 0, Vec3i.mk 1 0 0, Vec3i.mk 0 0 0] [Atom.mk (Vec3.mk (50000/200001) (50000/200001) (50000/200001)) "X", Atom.mk (Vec3.mk (50000/66667) (50000/200001) (50000/200001)) "X", Atom.mk (Vec3.mk (50000/200001) (50000/66667) (50000/200001)) "X", Atom.mk (Vec3.mk (50000/200001) (50000/200001) (50000/66667)) "X", Atom.mk (Vec3.mk (50000/66667) (50000/66667) (50000/200001)) "X", Atom.mk (Vec3.mk (50000/200001) (50000/66667) (50000/66667)) "X", Atom.mk (Vec3.mk (50000/66667) (50000/200001) (50000/66667)) "X", Atom.mk (Vec3.mk (50000/66667) (50000/66667) (50000/66667)) "X"],
  GrowState.mk [Vec3i.mk 0 2 0, Vec3i.mk 0 1 1, Vec3i.mk (-1) 1 0, Vec3i.mk 0 1 (-1), Vec3i.mk 1 2 0, Vec3i.mk (-1) 2 0, Vec3i.mk 0 2 1, Vec3i.mk 0 2 (-1), Vec3i.mk 0 0 1, Vec3i.mk 1 1 1, Vec3i.mk 1 1 (-1), Vec3i.mk (-1) 1 1, Vec3i.mk 1 2 1, Vec3i.mk (-1) 0 (-1), Vec3i.mk (-1) 0 1, Vec3i.mk (-1) 2 (-1), Vec3i.mk 1 0 (-1), Vec3i.mk 1 0 1, Vec3i.mk 0 1 1, Vec3i.mk 0 0 2, Vec3i.mk (-1) 0 1, Vec3i.mk 0 (-1) 1, Vec3i.mk 1 1 1, Vec3i.mk 1 (-1) 1, Vec3i.mk (-1) 1 1, Vec3i.mk 0 1 2, Vec3i.mk 0 (-1) 2, Vec3i.mk 1 0 2, Vec3i.mk (-1) 0 2, Vec3i.mk 1 1 2, Vec3i.mk (-1) (-1) 0, Vec3i.mk (-1) (-1) 2, Vec3i.mk (-1) 1 0, Vec3i.mk 1 (-1) 0, Vec3i.mk 2 1 0, Vec3i.mk 1 2 0, Vec3i.mk 1 1 1, Vec3i.mk 1 1 (-1), Vec3i.mk 2 2 0, Vec3i.mk 2 0 0, Vec3i.mk 0 2 0, Vec3i.mk 1 2 1, Vec3i.mk 1 2 (-1), Vec3i.mk 1 0 1, Vec3i.mk 2 1 1, Vec3i.mk 2 1 (-1), Vec3i.mk 0 1 1, Vec3i.mk 2 2 1, Vec3i.mk 0 2 (-1), Vec3i.mk 2 0 (-1), Vec3i.mk 1 1 1, Vec3i.mk 0 2 1, Vec3i.mk 0 1 2, Vec3i.mk (-1) 1 1, Vec3i.mk 1 2 1, Vec3i.mk 1 0 1, Vec3i.mk (-1) 2 1, Vec3i.mk 0 2 2, Vec3i.mk 0 2 0, Vec3i.mk 0 0 2, Vec3i.mk 1 1 2, Vec3i.mk (-1) 1 2, Vec3i.mk 1 2 2, Vec3i.mk (-1) 0 2, Vec3i.mk (-1) 2 0, Vec3i.mk 2 0 1, Vec3i.mk 1 1 1, Vec3i.mk 1 0 2, Vec3i.mk 1 (-1) 1, Vec3i.mk 2 1 1, Vec3i.mk 2 (-1) 1, Vec3i.mk 1 1 2, Vec3i.mk 1 (-1) 2, Vec3i.mk 2 0 2, Vec3i.mk 2 0 0, Vec3i.mk 0 0 2, Vec3i.mk 2 1 2, Vec3i.mk 0 (-1) 2, Vec3i.mk 2 (-1) 0, Vec3i.mk 2 1 1, Vec3i.mk 1 2 1, Vec3i.mk 1 1 2, Vec3i.mk 2 2 1, Vec3i.mk 2 0 1, Vec3i.mk 0 2 1, Vec3i.mk 1 2 2, Vec3i.mk 1 2 0, Vec3i.mk 1 0 2, Vec3i.mk 2 1 2, Vec3i.mk 2 1 0, Vec3i.mk 0 1 2, Vec3i.mk 2 2 2, Vec3i.mk 0 0 2, Vec3i.mk 0 2 0, Vec3i.mk 2 0 0] [Vec3i.mk 2 (-1) (-1), Vec3i.mk 0 (-1) (-1), Vec3i.mk 2 1 1, Vec3i.mk 2 0 (-1), Vec3i.mk 2 0 1, Vec3i.mk 1 (-1) 1, Vec3i.mk 1 1 (-1), Vec3i.mk 2 (-1) 0, Vec3i.mk 2 1 0, Vec3i.mk 2 0 0, Vec3i.mk 1 (-1) (-1), Vec3i.mk (-1) 1 (-1), Vec3i.mk (-1) (-1) 1, Vec3i.mk (-1) (-1) (-1), Vec3i.mk 1 1 1, Vec3i.mk (-1) 0 1, Vec3i.mk 1 0 (-1), Vec3i.mk 1 0 1, Vec3i.mk 0 (-1) 1, Vec3i.mk 0 1 (-1), Vec3i.mk 0 1 1, Vec3i.mk (-1) 1 0, Vec3i.mk 1 (-1) 0, Vec3i.mk 1 1 0, Vec3i.mk 0 0 (-1), Vec3i.mk 0 (-1) 0, Vec3i.mk (-1) 0 0, Vec3i.mk 0 0 1, Vec3i.mk 0 1 0, Vec3i.mk 1 0 0, Vec3i.mk 0 0 0] [Atom.mk (Vec3.mk (50000/200001) (50000/200001) (50000/200001)) "X", Atom.mk (Vec3.mk (50000/66667) (50000/200001) (50000/200001)) "X", Atom.mk (Vec3.mk (50000/200001) (50000/66667) (50000/200001)) "X", Atom.mk (Vec3.mk (50000/200001) (50000/200001) (50000/66667)) "X", Atom.mk (Vec3.mk (50000/66667) (50000/66667) (50000/200001)) "X", Atom.mk (Vec3.mk (50000/200001) (50000/66667) (50000/66667)) "X", Atom.mk (Vec3.mk (50000/66667) (50000/200001) (50000/66667)) "X", Atom.mk (Vec3.mk (50000/66667) (50000/66667) (50000/66667)) "X"],
  GrowState.mk [Vec3i.mk 0 1 1, Vec3i.mk (-1) 1 0, Vec3i.mk 0 1 (-1), Vec3i.mk 1 2 0, Vec3i.mk (-1) 2 0, Vec3i.mk 0 2 1, Vec3i.mk 0 2 (-1), Vec3i.mk 0 0 1, Vec3i.mk 1 1 1, Vec3i.mk 1 1 (-1), Vec3i.mk (-1) 1 1, Vec3i.mk 1 2 1, Vec3i.mk (-1) 0 (-1), Vec3i.mk (-1) 0 1, Vec3i.mk (-1) 2 (-1), Vec3i.mk 1 0 (-1), Vec3i.mk 1 0 1, Vec3i.mk 0 1 1, Vec3i.mk 0 0 2, Vec3i.mk (-1) 0 1, Vec3i.mk 0 (-1) 1, Vec3i.mk 1 1 1, Vec3i.mk 1 (-1) 1, Vec3i.mk (-1) 1 1, Vec3i.mk 0 1 2, Vec3i.mk 0 (-1) 2, Vec3i.mk 1 0 2, Vec3i.mk (-1) 0 2, Vec3i.mk 1 1 2, Vec3i.mk (-1) (-1) 0, Vec3i.mk (-1) (-1) 2, Vec3i.mk (-1) 1 0, Vec3i.mk 1 (-1) 0, Vec3i.mk 2 1 0, Vec3i.mk 1 2 0, Vec3i.mk 1 1 1, Vec3i.mk 1 1 (-1), Vec3i.mk 2 2 0, Vec3i.mk 2 0 0, Vec3i.mk 0 2 0, Vec3i.mk 1 2 1, Vec3i.mk 1 2 (-1), Vec3i.mk 1 0 1, Vec3i.mk 2 1 1, Vec3i.mk 2 1 (-1), Vec3i.mk 0 1 1, Vec3i.mk 2 2 1, Vec3i.mk 0 2 (-1), Vec3i.mk 2 0 (-1), Vec3i.mk 1 1 1, Vec3i.mk 0 2 1, Vec3i.mk 0 1 2, Vec3i.mk (-1) 1 1, Vec3i.mk 1 2 1, Vec3i.mk 1 0 1, Vec3i.mk (-1) 2 1, Vec3i.mk 0 2 2, Vec3i.mk 0 2 0, Vec3i.mk 0 0 2, Vec3i.mk 1 1 2, Vec3i.mk (-1) 1 2, Vec3i.mk 1 2 2, Vec3i.mk (-1) 0 2, Vec3i.mk (-1) 2 0, Vec3i.mk 2 0 1, Vec3i.mk 1 1 1, Vec3i.mk 1 0 2, Vec3i.mk 1 (-1) 1, Vec3i.mk 2 1 1, Vec3i.mk 2 (-1) 1, Vec3i.mk 1 1 2, Vec3i.mk 1 (-1) 2, Vec3i.mk 2 0 2, Vec3i.mk 2 0 0, Vec3i.mk 0 0 2, Vec3i.mk 2 1 2, Vec3i.mk 0 (-1) 2, Vec3i.mk 2 (-1) 0, Vec3i.mk 2 1 1, Vec3i.mk 1 2 1, Vec3i.mk 1 1 2, Vec3i.mk 2 2 1, Vec3i.mk 2 0 1, Vec3i.mk 0 2 1, Vec3i.mk 1 2 2, Vec3i.mk 1 2 0, Vec3i.mk 1 0 2, Vec3i.mk 2 1 2, Vec3i.mk 2 1 0, Vec3i.mk 0 1 2, Vec3i.mk 2 2 2, Vec3i.mk 0 0 2, Vec3i.mk 0 2 0, Vec3i.mk 2 0 0] [Vec3i.mk 0 2 0, Vec3i.mk 2 (-1) (-1), Vec3i.mk 0 (-1) (-1), Vec3i.mk 2 1 1, Vec3i.mk 2 0 (-1), Vec3i.mk 2 0 1, Vec3i.mk 1 (-1) 1, Vec3i.mk 1 1 (-1), Vec3i.mk 2 (-1) 0, Vec3i.mk 2 1 0, Vec3i.mk 2 0 0, Vec3i.mk 1 (-1) (-1), Vec3i.mk (-1) 1 (-1), Vec3i.mk (-1) (-1) 1, Vec3i.mk (-1) (-1) (-1), Vec3i.mk 1 1 1, Vec3i.mk (-1) 0 1, Vec3i.mk 1 0 (-1), Vec3i.mk 1 0 1, Vec3i.mk 0 (-1) 1, Vec3i.mk 0 1 (-1), Vec3i.mk 0 1 1, Vec3i.mk (-1) 1 0, Vec3i.mk 1 (-1) 0, Vec3i.mk 1 1 0, Vec3i.mk 0 0 (-1), Vec3i.mk 0 (-1) 0, Vec3i.mk (-1) 0 0, Vec3i.mk 0 0 1, Vec3i.mk 0 1 0, Vec3i.mk 1 0 0, Vec3i.mk 0 0 0] [Atom.mk (Vec3.mk (50000/200001) (50000/200001) (50000/200001)) "X", Atom.mk (Vec3.mk (50000/66667) (50000/200001) (50000/200001)) "X", Atom.mk (Vec3.mk (50000/200001) (50000/66667) (50000/200001)) "X", Atom.mk (Vec3.mk (50000/200001) (50000/200001) (50000/66667)) "X", Atom.mk (Vec3.mk (50000/66667) (50000/66667) (50000/200001)) "X", Atom.mk (Vec3.mk (50000/200001) (50000/66667) (50000/66667)) "X", Atom.mk (Vec3.mk (50000/66667) (50000/200001) (50000/66667)) "X", Atom.mk (Vec3.mk (50000/66667) (50000/66667) (50000/66667)) "X"],
  GrowState.mk [Vec3i.mk (-1) 1 0, Vec3i.mk 0 1 (-1), Vec3i.mk 1 2 0, Vec3i.mk (-1) 2 0, Vec3i.mk 0 2 1, Vec3i.mk 0 2 (-1), Vec3i.mk 0 0 1, Vec3i.mk 1 1 1, Vec3i.mk 1 1 (-1), Vec3i.mk (-1) 1 1, Vec3i.mk 1 2 1, Vec3i.mk (-1) 0 (-1), Vec3i.mk (-1) 0 1, Vec3i.mk (-1) 2 (-1), Vec3i.mk 1 0 (-1), Vec3i.mk 1 0 1, Vec3i.mk 0 1 1, Vec3i.mk 0 0 2, Vec3i.mk (-1) 0 1, Vec3i.mk 0 (-1) 1, Vec3i.mk 1 1 1, Vec3i.mk 1 (-1) 1, Vec3i.mk (-1) 1 1, Vec3i.mk 0 1 2, Vec3i.mk 0 (-1) 2, Vec3i.mk 1 0 2, Vec3i.mk (-1) 0 2, Vec3i.mk 1 1 2, Vec3i.mk (-1) (-1) 0, Vec3i.mk (-1) (-1) 2, Vec3i.mk (-1) 1 0, Vec3i.mk 1 (-1) 0, Vec3i.mk 2 1 0, Vec3i.mk 1 2 0, Vec3i.mk 1 1 1, Vec3i.mk 1 1 (-1), Vec3i.mk 2 2 0, Vec3i.mk 2 0 0, Vec3i.mk 0 2 0, Vec3i.mk 1 2 1, Vec3i.mk 1 2 (-1), Vec3i.mk 1 0 1, Vec3i.mk 2 1 1, Vec3i.mk 2 1 (-1), Vec3i.mk 0 1 1, Vec3i.mk 2 2 1, Vec3i.mk 0 2 (-1), Vec3i.mk 2 0 (-1), Vec3i.mk 1 1 1, Vec3i.mk 0 2 1, Vec3i.mk 0 1 2, Vec3i.mk (-1) 1 1, Vec3i.mk 1 2 1, Vec3i.mk 1 0 1, Vec3i.mk (-1) 2 1, Vec3i.mk 0 2 2, Vec3i.mk 0 2 0, Vec3i.mk 0 0 2, Vec3i.mk 1 1 2, Vec3i.mk (-1) 1 2, Vec3i.mk 1 2 2, Vec3i.mk (-1) 0 2, Vec3i.mk (-1) 2 0, Vec3i.mk 2 0 1, Vec3i.mk 1 1 1, Vec3i.mk 1 0 2, Vec3i.mk 1 (-1) 1, Vec3i.mk 2 1 1, Vec3i.mk 2 (-1) 1, Vec3i.mk 1 1 2, Vec3i.mk 1 (-1) 2, Vec3i.mk 2 0 2, Vec3i.mk 2 0 0, Vec3i.mk 0 0 2, Vec3i.mk 2 1 2, Vec3i.mk 0 (-1) 2, Vec3i.mk 2 (-1) 0, Vec3i.mk 2 1 1, Vec3i.mk 1 2 1, Vec3i.mk 1 1 2, Vec3i.mk 2 2 1, Vec3i.mk 2 0 1, Vec3i.mk 0 2 1, Vec3i.mk 1 2 2, Vec3i.mk 1 2 0, Vec3i.mk 1 0 2, Vec3i.mk 2 1 2, Vec3i.mk 2 1 0, Vec3i.mk 0 1 2, Vec3i.mk 2 2 2, Vec3i.mk 0 0 2, Vec3i.mk 0 2 0, Vec3i.mk 2 0 0] [Vec3i.mk 0 2 0, Vec3i.mk 2 (-1) (-1), Vec3i.mk 0 (-1) (-1), Vec3i.mk 2 1 1, Vec3i.mk 2 0 (-1), Vec3i.mk 2 0 1, Vec3i.mk 1 (-1) 1, Vec3i.mk 1 1 (-1), Vec3i.mk 2 (-1) 0, Vec3i.mk 2 1 0, Vec3i.mk 2 0 0, Vec3i.mk 1 (-1) (-1), Vec3i.mk (-1) 1 (-1), Vec3i.mk (-1) (-1) 1, Vec3i.mk (-1) (-1) (-1), Vec3i.mk 1 1 1, Vec3i.mk (-1) 0 1, Vec3i.mk 1 0 (-1), Vec3i.mk 1 0 1, Vec3i.mk 0 (-1) 1, Vec3i.mk 0 1 (-1), Vec3i.mk 0 1 1, Vec3i.mk (-1) 1 0, Vec3i.mk 1 (-1) 0, Vec3i.mk 1 1 0, Vec3i.mk 0 0 (-1), Vec3i.mk 0 (-1) 0, Vec3i.mk (-1) 0 0, Vec3i.mk 0 0 1, Vec3i.mk 0 1 0, Vec3i.mk 1 0 0, Vec3i.mk 0 0 0] [Atom.mk (Vec3.mk (50000/200001) (50000/200001) (50000/200001)) "X", Atom.mk (Vec3.mk (50000/66667) (50000/200001) (50000/200001)) "X", Atom.mk (Vec3.mk (50000/200001) (50000/66667) (50000/200001)) "X", Atom.mk (Vec3.mk (50000/200001) (50000/200001) (50000/66667)) "X", Atom.mk (Vec3.mk (50000/66667) (50000/66667) (50000/200001)) "X", Atom.mk (Vec3.mk (50000/200001) (50000/66667) (50000/66667)) "X", Atom.mk (Vec3.mk (50000/66667) (50000/200001) (50000/66667)) "X", Atom.mk (Vec3.mk (50000/66667) (50000/66667) (50000/66667)) "X"],
  GrowState.mk [Vec3i.mk 0 1 (-1), Vec3i.mk 1 2 0, Vec3i.mk (-1) 2 0, Vec3i.mk 0 2 1, Vec3i.mk 0 2 (-1), Vec3i.mk 0 0 1, Vec3i.mk 1 1 1, Vec3i.mk 1 1 (-1), Vec3i.mk (-1) 1 1, Vec3i.mk 1 2 1, Vec3i.mk (-1) 0 (-1), Vec3i.mk (-1) 0 1, Vec3i.mk (-1) 2 (-1), Vec3i.mk 1 0 (-1), Vec3i.mk 1 0 1, Vec3i.mk 0 1 1, Vec3i.mk 0 0 2, Vec3i.mk (-1) 0 1, Vec3i.mk 0 (-1) 1, Vec3i.mk 1 1 1, Vec3i.mk 1 (-1) 1, Vec3i.mk (-1) 1 1, Vec3i.mk 0 1 2, Vec3i.mk 0 (-1) 2, Vec3i.mk 1 0 2, Vec3i.mk (-1) 0 2, Vec3i.mk 1 1 2, Vec3i.mk (-1) (-1) 0, Vec3i.mk (-1) (-1) 2, Vec3i.mk (-1) 1 0, Vec3i.mk 1 (-1) 0, Vec3i.mk 2 1 0, Vec3i.mk 1 2 0, Vec3i.mk 1 1 1, Vec3i.mk 1 1 (-1), Vec3i.mk 2 2 0, Vec3i.mk 2 0 0, Vec3i.mk 0 2 0, Vec3i.mk 1 2 1, Vec3i.mk 1 2 (-1), Vec3i.mk 1 0 1, Vec3i.mk 2 1 1, Vec3i.mk 2 1 (-1), Vec3i.mk 0 1 1, Vec3i.mk 2 2 1, Vec3i.mk 0 2 (-1), Vec3i.mk 2 0 (-1), Vec3i.mk 1 1 1, Vec3i.mk 0 2 1, Vec3i.mk 0 1 2, Vec3i.mk (-1) 1 1, Vec3i.mk 1 2 1, Vec3i.mk 1 0 1, Vec3i.mk (-1) 2 1, Vec3i.mk 0 2 2, Vec3i.mk 0 2 0, Vec3i.mk 0 0 2, Vec3i.mk 1 1 2, Vec3i.mk (-1) 1 2, Vec3i.mk 1 2 2, Vec3i.mk (-1) 0 2, Vec3i.mk (-1) 2 0, Vec3i.mk 2 0 1, Vec3i.mk 1 1 1, Vec3i.mk 1 0 2, Vec3i.mk 1 (-1) 1, Vec3i.mk 2 1 1, Vec3i.mk 2 (-1) 1, Vec3i.mk 1 1 2, Vec3i.mk 1 (-1) 2, Vec3i.mk 2 0 2, Vec3i.mk 2 0 0, Vec3i.mk 0 0 2, Vec3i.mk 2 1 2, Vec3i.mk 0 (-1) 2, Vec3i.mk 2 (-1) 0, Vec3i.mk 2 1 1, Vec3i.mk 1 2 1, Vec3i.mk 1 1 2, Vec3i.mk 2 2 1, Vec3i.mk 2 0 1, Vec3i.mk 0 2 1, Vec3i.mk 1 2 2, Vec3i.mk 1 2 0, Vec3i.mk 1 0 2, Vec3i.mk 2 1 2, Vec3i.mk 2 1 0, Vec3i.mk 0 1 2, Vec3i.mk 2 2 2, Vec3i.mk 0 0 2, Vec3i.mk 0 2 0, Vec3i.mk 2 0 0] [Vec3i.mk 0 2 0, Vec3i.mk 2 (-1) (-1), Vec3i.mk 0 (-1) (-1), Vec3i.mk 2 1 1, Vec3i.mk 2 0 (-1), Vec3i.mk 2 0 1, Vec3i.mk 1 (-1) 1, Vec3i.mk 1 1 (-1), Vec3i.mk 2 (-1) 0, Vec3i.mk 2 1 0, Vec3i.mk 2 0 0, Vec3i.mk 1 (-1) (-1), Vec3i.mk (-1) 1 (-1), Vec3i.mk (-1) (-1) 1, Vec3i.mk (-1) (-1) (-1), Vec3i.mk 1 1 1, Vec3i.mk (-1) 0 1, Vec3i.mk 1 0 (-1), Vec3i.mk 1 0 1, Vec3i.mk 0 (-1) 1, Vec3i.mk 0 1 (-1), Vec3i.mk 0 1 1, Vec3i.mk (-1) 1 0, Vec3i.mk 1 (-1) 0, Vec3i.mk 1 1 0, Vec3i.mk 0 0 (-1), Vec3i.mk 0 (-1) 0, Vec3i.mk (-1) 0 0, Vec3i.mk 0 0 1, Vec3i.mk 0 1 0, Vec3i.mk 1 0 0, Vec3i.mk 0 0 0] [Atom.mk (Vec3.mk (50000/200001) (50000/200001) (50000/200001)) "X", Atom.mk (Vec3.mk (50000/66667) (50000/200001) (50000/200001)) "X", Atom.mk (Vec3.mk (50000/200001) (50000/66667) (50000/200001)) "X", Atom.mk (Vec3.mk (50000/200001) (50000/200001) (50000/66667)) "X", Atom.mk (Vec3.mk (50000/66667) (50000/66667) (50000/200001)) "X", Atom.mk (Vec3.mk (50000/200001) (50000/66667) (50000/66667)) "X", Atom.mk (Vec3.mk (50000/66667) (50000/200001) (50000/66667)) "X", Atom.mk (Vec3.mk (50000/66667) (50000/66667) (50000/66667)) "X"],
  GrowState.mk [Vec3i.mk 1 2 0, Vec3i.mk (-1) 2 0, Vec3i.mk 0 2 1, Vec3i.mk 0 2 (-1), Vec3i.mk 0 0 1, Vec3i.mk 1 1 1, Vec3i.mk 1 1 (-1), Vec3i.mk (-1) 1 1, Vec3i.mk 1 2 1, Vec3i.mk (-1) 0 (-1), Vec3i.mk (-1) 0 1, Vec3i.mk (-1) 2 (-1), Vec3i.mk 1 0 (-1), Vec3i.mk 1 0 1, Vec3i.mk 0 1 1, Vec3i.mk 0 0 2, Vec3i.mk (-1) 0 1, Vec3i.mk 0 (-1) 1, Vec3i.mk 1 1 1, Vec3i.mk 1 (-1) 1, Vec3i.mk (-1) 1 1, Vec3i.mk 0 1 2, Vec3i.mk 0 (-1) 2, Vec3i.mk 1 0 2, Vec3i.mk (-1) 0 2, Vec3i.mk 1 1 2, Vec3i.mk (-1) (-1) 0, Vec3i.mk (-1) (-1) 2, Vec3i.mk (-1) 1 0, Vec3i.mk 1 (-1) 0, Vec3i.mk 2 1 0, Vec3i.mk 1 2 0, Vec3i.mk 1 1 1, Vec3i.mk 1 1 (-1), Vec3i.mk 2 2 0, Vec3i.mk 2 0 0, Vec3i.mk 0 2 0, Vec3i.mk 1 2 1, Vec3i.mk 1 2 (-1), Vec3i.mk 1 0 1, Vec3i.mk 2 1 1, Vec3i.mk 2 1 (-1), Vec3i.mk 0 1 1, Vec3i.mk 2 2 1, Vec3i.mk 0 2 (-1), Vec3i.mk 2 0 (-1), Vec3i.mk 1 1 1, Vec3i.mk 0 2 1, Vec3i.mk 0 1 2, Vec3i.mk (-1) 1 1, Vec3i.mk 1 2 1, Vec3i.mk 1 0 1, Vec3i.mk (-1) 2 1, Vec3i.mk 0 2 2, Vec3i.mk 0 2 0, Vec3i.mk 0 0 2, Vec3i.mk 1 1 2, Vec3i.mk (-1) 1 2, Vec3i.mk 1 2 2, Vec3i.mk (-1) 0 2, Vec3i.mk (-1) 2 0, Vec3i.mk 2 0 1, Vec3i.mk 1 1 1, Vec3i.mk 1 0 2, Vec3i.mk 1 (-1) 1, Vec3i.mk 2 1 1, Vec3i.mk 2 (-1) 1, Vec3i.mk 1 1 2, Vec3i.mk 1 (-1) 2, Vec3i.mk 2 0 2, Vec3i.mk 2 0 0, Vec3i.mk 0 0 2, Vec3i.mk 2 1 2, Vec3i.mk 0 (-1) 2, Vec3i.mk 2 (-1) 0, Vec3i.mk 2 1 1, Vec3i.mk 1 2 1, Vec3i.mk 1 1 2, Vec3i.mk 2 2 1, Vec3i.mk 2 0 1, Vec3i.mk 0 2 1, Vec3i.mk 1 2 2, Vec3i.mk 1 2 0, Vec3i.mk 1 0 2, Vec3i.mk 2 1 2, Vec3i.mk 2 1 0, Vec3i.mk 0 1 2, Vec3i.mk 2 2 2, Vec3i.mk 0 0 2, Vec3i.mk 0 2 0, Vec3i.mk 2 0 0] [Vec3i.mk 0 2 0, Vec3i.mk 2 (-1) (-1), Vec3i.mk 0 (-1) (-1), Vec3i.mk 2 1 1, Vec3i.mk 2 0 (-1), Vec3i.mk 2 0 1, Vec3i.mk 1 (-1) 1, Vec3i.mk 1 1 (-1), Vec3i.mk 2 (-1) 0, Vec3i.mk 2 1 0, Vec3i.mk 2 0 0, Vec3i.mk 1 (-1) (-1), Vec3i.mk (-1) 1 (-1), Vec3i.mk (-1) (-1) 1, Vec3i.mk (-1) (-1) (-1), Vec3i.mk 1 1 1, Vec3i.mk (-1) 0 1, Vec3i.mk 1 0 (-1), Vec3i.mk 1 0 1, Vec3i.mk 0 (-1) 1, Vec3i.mk 0 1 (-1), Vec3i.mk 0 1 1, Vec3i.mk (-1) 1 0, Vec3i.mk 1 (-1) 0, Vec3i.mk 1 1 0, Vec3i.mk 0 0 (-1), Vec3i.mk 0 (-1) 0, Vec3i.mk (-1) 0 0, Vec3i.mk 0 0 1, Vec3i.mk 0 1 0, Vec3i.mk 1 0 0, Vec3i.mk 0 0 0] [Atom.mk (Vec3.mk (50000/200001) (50000/200001) (50000/200001)) "X", Atom.mk (Vec3.mk (50000/66667) (50000/200001) (50000/200001)) "X", Atom.mk (Vec3.mk (50000/200001) (50000/66667) (50000/200001)) "X", Atom.mk (Vec3.mk (50000/200001) (50000/200001) (50000/66667)) "X", Atom.mk (Vec3.mk (50000/66667) (50000/66667) (50000/200001)) "X", Atom.mk (Vec3.mk (50000/200001) (50000/66667) (50000/66667)) "X", Atom.mk (Vec3.mk (50000/66667) (50000/200001) (50000/66667)) "X", Atom.mk (Vec3.mk (50000/66667) (50000/66667) (50000/66667)) "X"],
  GrowState.mk [Vec3i.mk (-1) 2 0, Vec3i.mk 0 2 1, Vec3i.mk 0 2 (-1), Vec3i.mk 0 0 1, Vec3i.mk 1 1 1, Vec3i.mk 1 1 (-1), Vec3i.mk (-1) 1 1, Vec3i.mk 1 2 1, Vec3i.mk (-1) 0 (-1), Vec3i.mk (-1) 0 1, Vec3i.mk (-1) 2 (-1), Vec3i.mk 1 0 (-1), Vec3i.mk 1 0 1, Vec3i.mk 0 1 1, Vec3i.mk 0 0 2, Vec3i.mk (-1) 0 1, Vec3i.mk 0 (-1) 1, Vec3i.mk 1 1 1, Vec3i.mk 1 (-1) 1, Vec3i.mk (-1) 1 1, Vec3i.mk 0 1 2, Vec3i.mk 0 (-1) 2, Vec3i.mk 1 0 2, Vec3i.mk (-1) 0 2, Vec3i.mk 1 1 2, Vec3i.mk (-1) (-1) 0, Vec3i.mk (-1) (-1) 2, Vec3i.mk (-1) 1 0, Vec3i.mk 1 (-1) 0, Vec3i.mk 2 1 0, Vec3i.mk 1 2 0, Vec3i.mk 1 1 1, Vec3i.mk 1 1 (-1), Vec3i.mk 2 2 0, Vec3i.mk 2 0 0, Vec3i.mk 0 2 0, Vec3i.mk 1 2 1, Vec3i.mk 1 2 (-1), Vec3i.mk 1 0 1, Vec3i.mk 2 1 1, Vec3i.mk 2 1 (-1), Vec3i.mk 0 1 1, Vec3i.mk 2 2 1, Vec3i.mk 0 2 (-1), Vec3i.mk 2 0 (-1), Vec3i.mk 1 1 1, Vec3i.mk 0 2 1, Vec3i.mk 0 1 2, Vec3i.mk (-1) 1 1, Vec3i.mk 1 2 1, Vec3i.mk 1 0 1, Vec3i.mk (-1) 2 1, Vec3i.mk 0 2 2, Vec3i.mk 0 2 0, Vec3i.mk 0 0 2, Vec3i.mk 1 1 2, Vec3i.mk (-1) 1 2, Vec3i.mk 1 2 2, Vec3i.mk (-1) 0 2, Vec3i.mk (-1) 2 0, Vec3i.mk 2 0 1, Vec3i.mk 1 1 1, Vec3i.mk 1 0 2, Vec3i.mk 1 (-1) 1, Vec3i.mk 2 1 1, Vec3i.mk 2 (-1) 1, Vec3i.mk 1 1 2, Vec3i.mk 1 (-1) 2, Vec3i.mk 2 0 2, Vec3i.mk 2 0 0, Vec3i.mk 0 0 2, Vec3i.mk 2 1 2, Vec3i.mk 0 (-1) 2, Vec3i.mk 2 (-1) 0, Vec3i.mk 2 1 1, Vec3i.mk 1 2 1, Vec3i.mk 1 1 2, Vec3i.mk 2 2 1, Vec3i.mk 2 0 1, Vec3i.mk 0 2 1, Vec3i.mk 1 2 2, Vec3i.mk 1 2 0, Vec3i.mk 1 0 2, Vec3i.mk 2 1 2, Vec3i.mk 2 1 0, Vec3i.mk 0 1 2, Vec3i.mk 2 2 2, Vec3i.mk 0 0 2, Vec3i.mk 0 2 0, Vec3i.mk 2 0 0] [Vec3i.mk 1 2 0, Vec3i.mk 0 2 0, Vec3i.mk 2 (-1) (-1), Vec3i.mk 0 (-1) (-1), Vec3i.mk 2 1 1, Vec3i.mk 2 0 (-1), Vec3i.mk 2 0 1, Vec3i.mk 1 (-1) 1, Vec3i.mk 1 1 (-1), Vec3i.mk 2 (-1) 0, Vec3i.mk 2 1 0, Vec3i.mk 2 0 0, Vec3i.mk 1 (-1) (-1), Vec3i.mk (-1) 1 (-1), Vec3i.mk (-1) (-1) 1, Vec3i.mk (-1) (-1) (-1), Vec3i.mk 1 1 1, Vec3i.mk (-1) 0 1, Vec3i.mk 1 0 (-1), Vec3i.mk 1 0 1, Vec3i.mk 0 (-1) 1, Vec3i.mk 0 1 (-1), Vec3i.mk 0 1 1, Vec3i.mk (-1) 1 0, Vec3i.mk 1 (-1) 0, Vec3i.mk 1 1 0, Vec3i.mk 0 0 (-1), Vec3i.mk 0 (-1) 0, Vec3i.mk (-1) 0 0, Vec3i.mk 0 0 1, Vec3i.mk 0 1 0, Vec3i.mk 1 0 0, Vec3i.mk 0 0 0] [Atom.mk (Vec3.mk (50000/200001) (50000/200001) (50000/200001)) "X", Atom.mk (Vec3.mk (50000/66667) (50000/200001) (50000/200001)) "X", Atom.mk (Vec3.mk (50000/200001) (50000/66667) (50000/200001)) "X", Atom.mk (Vec3.mk (50000/200001) (50000/200001) (50000/66667)) "X", Atom.mk (Vec3.mk (50000/66667) (50000/66667) (50000/200001)) "X", Atom.mk (Vec3.mk (50000/200001) (50000/66667) (50000/66667)) "X", Atom.mk (Vec3.mk (50000/66667) (50000/200001) (50000/66667)) "X", Atom.mk (Vec3.mk (50000/66667) (50000/66667) (50000/66667)) "X"],
  GrowState.mk [Vec3i.mk 0 2 1, Vec3i.mk 0 2 (-1), Vec3i.mk 0 0 1, Vec3i.mk 1 1 1, Vec3i.mk 1 1 (-1), Vec3i.mk (-1) 1 1, Vec3i.mk 1 2 1, Vec3i.mk (-1) 0 (-1), Vec3i.mk (-1) 0 1, Vec3i.mk (-1) 2 (-1), Vec3i.mk 1 0 (-1), Vec3i.mk 1 0 1, Vec3i.mk 0 1 1, Vec3i.mk 0 0 2, Vec3i.mk (-1) 0 1, Vec3i.mk 0 (-1) 1, Vec3i.mk 1 1 1, Vec3i.mk 1 (-1) 1, Vec3i.mk (-1) 1 1, Vec3i.mk 0 1 2, Vec3i.mk 0 (-1) 2, Vec3i.mk 1 0 2, Vec3i.mk (-1) 0 2, Vec3i.mk 1 1 2, Vec3i.mk (-1) (-1) 0, Vec3i.mk (-1) (-1) 2, Vec3i.mk (-1) 1 0, Vec3i.mk 1 (-1) 0, Vec3i.mk 2 1 0, Vec3i.mk 1 2 0, Vec3i.mk 1 1 1, Vec3i.mk 1 1 (-1), Vec3i.mk 2 2 0, Vec3i.mk 2 0 0, Vec3i.mk 0 2 0, Vec3i.mk 1 2 1, Vec3i.mk 1 2 (-1), Vec3i.mk 1 0 1, Vec3i.mk 2 1 1, Vec3i.mk 2 1 (-1), Vec3i.mk 0 1 1, Vec3i.mk 2 2 1, Vec3i.mk 0 2 (-1), Vec3i.mk 2 0 (-1), Vec3i.mk 1 1 1, Vec3i.mk 0 2 1, Vec3i.mk 0 1 2, Vec3i.mk (-1) 1 1, Vec3i.mk 1 2 1, Vec3i.mk 1 0 1, Vec3i.mk (-1) 2 1, Vec3i.mk 0 2 2, Vec3i.mk 0 2 0, Vec3i.mk 0 0 2, Vec3i.mk 1 1 2, Vec3i.mk (-1) 1 2, Vec3i.mk 1 2 2, Vec3i.mk (-1) 0 2, Vec3i.mk (-1) 2 0, Vec3i.mk 2 0 1, Vec3i.mk 1 1 1, Vec3i.mk 1 0 2, Vec3i.mk 1 (-1) 1, Vec3i.mk 2 1 1, Vec3i.mk 2 (-1) 1, Vec3i.mk 1 1 2, Vec3i.mk 1 (-1) 2, Vec3i.mk 2 0 2, Vec3i.mk 2 0 0, Vec3i.mk 0 0 2, Vec3i.mk 2 1 2, Vec3i.mk 0 (-1) 2, Vec3i.mk 2 (-1) 0, Vec3i.mk 2 1 1, Vec3i.mk 1 2 1, Vec3i.mk 1 1 2, Vec3i.mk 2 2 1, Vec3i.mk 2 0 1, Vec3i.mk 0 2 1, Vec3i.mk 1 2 2, Vec3i.mk 1 2 0, Vec3i.mk 1 0 2, Vec3i.mk 2 1 2, Vec3i.mk 2 1 0, Vec3i.mk 0 1 2, Vec3i.mk 2 2 2, Vec3i.mk 0 0 2, Vec3i.mk 0 2 0, Vec3i.mk 2 0 0] [Vec3i.mk (-1) 2 0, Vec3i.mk 1 2 0, Vec3i.mk 0 2 0, Vec3i.mk 2 (-1) (-1), Vec3i.mk 0 (-1) (-1), Vec3i.mk 2 1 1, Vec3i.mk 2 0 (-1), Vec3i.mk 2 0 1, Vec3i.mk 1 (-1) 1, Vec3i.mk 1 1 (-1), Vec3i.mk 2 (-1) 0, Vec3i.mk 2 1 0, Vec3i.mk 2 0 0, Vec3i.mk 1 (-1) (-1), Vec3i.mk (-1) 1 (-1), Vec3i.mk (-1) (-1) 1, Vec3i.mk (-1) (-1) (-1), Vec3i.mk 1 1 1, Vec3i.mk (-1) 0 1, Vec3i.mk 1 0 (-1), Vec3i.mk 1 0 1, Vec3i.mk 0 (-1) 1, Vec3i.mk 0 1 (-1), Vec3i.mk 0 1 1, Vec3i.mk (-1) 1 0, Vec3i.mk 1 (-1) 0, Vec3i.mk 1 1 0, Vec3i.mk 0 0 (-1), Vec3i.mk 0 (-1) 0, Vec3i.mk (-1) 0 0, Vec3i.mk 0 0 1, Vec3i.mk 0 1 0, Vec3i.mk 1 0 0, Vec3i.mk 0 0 0] [Atom.mk (Vec3.mk (50000/200001) (50000/200001) (50000/200001)) "X", Atom.mk (Vec3.mk (50000/66667) (50000/200001) (50000/200001)) "X", Atom.mk (Vec3.mk (50000/200001) (50000/66667) (50000/200001)) "X", Atom.mk (Vec3.mk (50000/200001) (50000/200001) (50000/66667)) "X", Atom.mk (Vec3.mk (50000/66667) (50000/66667) (50000/200001)) "X", Atom.mk (Vec3.mk (50000/200001) (50000/66667) (50000/66667)) "X", Atom.mk (Vec3.mk (50000/66667) (50000/200001) (50000/66667)) "X", Atom.mk (Vec3.mk (50000/66667) (50000/66667) (50000/66667)) "X"],
  GrowState.mk [Vec3i.mk 0 2 (-1), Vec3i.mk 0 0 1, Vec3i.mk 1 1 1, Vec3i.mk 1 1 (-1), Vec3i.mk (-1) 1 1, Vec3i.mk 1 2 1, Vec3i.mk (-1) 0 (-1), Vec3i.mk (-1) 0 1, Vec3i.mk (-1) 2 (-1), Vec3i.mk 1 0 (-1), Vec3i.mk 1 0 1, Vec3i.mk 0 1 1, Vec3i.mk 0 0 2, Vec3i.mk (-1) 0 1, Vec3i.mk 0 (-1) 1, Vec3i.mk 1 1 1, Vec3i.mk 1 (-1) 1, Vec3i.mk (-1) 1 1, Vec3i.mk 0 1 2, Vec3i.mk 0 (-1) 2, Vec3i.mk 1 0 2, Vec3i.mk (-1) 0 2, Vec3i.mk 1 1 2, Vec3i.mk (-1) (-1) 0, Vec3i.mk (-1) (-1) 2, Vec3i.mk (-1) 1 0, Vec3i.mk 1 (-1) 0, Vec3i.mk 2 1 0, Vec3i.mk 1 2 0, Vec3i.mk 1 1 1, Vec3i.mk 1 1 (-1), Vec3i.mk 2 2 0, Vec3i.mk 2 0 0, Vec3i.mk 0 2 0, Vec3i.mk 1 2 1, Vec3i.mk 1 2 (-1), Vec3i.mk 1 0 1, Vec3i.mk 2 1 1, Vec3i.mk 2 1 (-1), Vec3i.mk 0 1 1, Vec3i.mk 2 2 1, Vec3i.mk 0 2 (-1), Vec3i.mk 2 0 (-1), Vec3i.mk 1 1 1, Vec3i.mk 0 2 1, Vec3i.mk 0 1 2, Vec3i.mk (-1) 1 1, Vec3i.mk 1 2 1, Vec3i.mk 1 0 1, Vec3i.mk (-1) 2 1, Vec3i.mk 0 2 2, Vec3i.mk 0 2 0, Vec3i.mk 0 0 2, Vec3i.mk 1 1 2, Vec3i.mk (-1) 1 2, Vec3i.mk 1 2 2, Vec3i.mk (-1) 0 2, Vec3i.mk (-1) 2 0, Vec3i.mk 2 0 1, Vec3i.mk 1 1 1, Vec3i.mk 1 0 2, Vec3i.mk 1 (-1) 1, Vec3i.mk 2 1 1, Vec3i.mk 2 (-1) 1, Vec3i.mk 1 1 2, Vec3i.mk 1 (-1) 2, Vec3i.mk 2 0 2, Vec3i.mk 2 0 0, Vec3i.mk 0 0 2, Vec3i.mk 2 1 2, Vec3i.mk 0 (-1) 2, Vec3i.mk 2 (-1) 0, Vec3i.mk 2 1 1, Vec3i.mk 1 2 1, Vec3i.mk 1 1 2, Vec3i.mk 2 2 1, Vec3i.mk 2 0 1, Vec3i.mk 0 2 1, Vec3i.mk 1 2 2, Vec3i.mk 1 2 0, Vec3i.mk 1 0 2, Vec3i.mk 2 1 2, Vec3i.mk 2 1 0, Vec3i.mk 0 1 2, Vec3i.mk 2 2 2, Vec3i.mk 0 0 2, Vec3i.mk 0 2 0, Vec3i.mk 2 0 0] [Vec3i.mk 0 2 1, Vec3i.mk (-1) 2 0, Vec3i.mk 1 2 0, Vec3i.mk 0 2 0, Vec3i.mk 2 (-1) (-1), Vec3i.mk 0 (-1) (-1), Vec3i.mk 2 1 1, Vec3i.mk 2 0 (-1), Vec3i.mk 2 0 1, Vec3i.mk 1 (-1) 1, Vec3i.mk 1 1 (-1), Vec3i.mk 2 (-1) 0, Vec3i.mk 2 1 0, Vec3i.mk 2 0 0, Vec3i.mk 1 (-1) (-1), Vec3i.mk (-1) 1 (-1), Vec3i.mk (-1) (-1) 1, Vec3i.mk (-1) (-1) (-1), Vec3i.mk 1 1 1, Vec3i.mk (-1) 0 1, Vec3i.mk 1 0 (-1), Vec3i.mk 1 0 1, Vec3i.mk 0 (-1) 1, Vec3i.mk 0 1 (-1), Vec3i.mk 0 1 1, Vec3i.mk (-1) 1 0, Vec3i.mk 1 (-1) 0, Vec3i.mk 1 1 0, Vec3i.mk 0 0 (-1), Vec3i.mk 0 (-1) 0, Vec3i.mk (-1) 0 0, Vec3i.mk 0 0 1, Vec3i.mk 0 1 0, Vec3i.mk 1 0 0, Vec3i.mk 0 0 0] [Atom.mk (Vec3.mk (50000/200001) (50000/200001) (50000/200001)) "X", Atom.mk (Vec3.mk (50000/66667) (50000/200001) (50000/200001)) "X", Atom.mk (Vec3.mk (50000/200001) (50000/66667) (50000/200001)) "X", Atom.mk (Vec3.mk (50000/200001) (50000/200001) (50000/66667)) "X", Atom.mk (Vec3.mk (50000/66667) (50000/66667) (50000/200001)) "X", Atom.mk (Vec3.mk (50000/200001) (50000/66667) (50000/66667)) "X", Atom.mk (Vec3.mk (50000/66667) (50000/200001) (50000/66667)) "X", Atom.mk (Vec3.mk (50000/66667) (50000/66667) (50000/66667)) "X"],
  GrowState.mk [Vec3i.mk 0 0 1, Vec3i.mk 1 1 1, Vec3i.mk 1 1 (-1), Vec3i.mk (-1) 1 1, Vec3i.mk 1 2 1, Vec3i.mk (-1) 0 (-1), Vec3i.mk (-1) 0 1, Vec3i.mk (-1) 2 (-1), Vec3i.mk 1 0 (-1), Vec3i.mk 1 0 1, Vec3i.mk 0 1 1, Vec3i.mk 0 0 2, Vec3i.mk (-1) 0 1, Vec3i.mk 0 (-1) 1, Vec3i.mk 1 1 1, Vec3i.mk 1 (-1) 1, Vec3i.mk (-1) 1 1, Vec3i.mk 0 1 2, Vec3i.mk 0 (-1) 2, Vec3i.mk 1 0 2, Vec3i.mk (-1) 0 2, Vec3i.mk 1 1 2, Vec3i.mk (-1) (-1) 0, Vec3i.mk (-1) (-1) 2, Vec3i.mk (-1) 1 0, Vec3i.mk 1 (-1) 0, Vec3i.mk 2 1 0, Vec3i.mk 1 2 0, Vec3i.mk 1 1 1, Vec3i.mk 1 1 (-1), Vec3i.mk 2 2 0, Vec3i.mk 2 0 0, Vec3i.mk 0 2 0, Vec3i.mk 1 2 1, Vec3i.mk 1 2 (-1), Vec3i.mk 1 0 1, Vec3i.mk 2 1 1, Vec3i.mk 2 1 (-1), Vec3i.mk 0 1 1, Vec3i.mk 2 2 1, Vec3i.mk 0 2 (-1), Vec3i.mk 2 0 (-1), Vec3i.mk 1 1 1, Vec3i.mk 0 2 1, Vec3i.mk 0 1 2, Vec3i.mk (-1) 1 1, Vec3i.mk 1 2 1, Vec3i.mk 1 0 1, Vec3i.mk (-1) 2 1, Vec3i.mk 0 2 2, Vec3i.mk 0 2 0, Vec3i.mk 0 0 2, Vec3i.mk 1 1 2, Vec3i.mk (-1) 1 2, Vec3i.mk 1 2 2, Vec3i.mk (-1) 0 2, Vec3i.mk (-1) 2 0, Vec3i.mk 2 0 1, Vec3i.mk 1 1 1, Vec3i.mk 1 0 2, Vec3i.mk 1 (-1) 1, Vec3i.mk 2 1 1, Vec3i.mk 2 (-1) 1, Vec3i.mk 1 1 2, Vec3i.mk 1 (-1) 2, Vec3i.mk 2 0 2, Vec3i.mk 2 0 0, Vec3i.mk 0 0 2, Vec3i.mk 2 1 2, Vec3i.mk 0 (-1) 2, Vec3i.mk 2 (-1) 0, Vec3i.mk 2 1 1, Vec3i.mk 1 2 1, Vec3i.mk 1 1 2, Vec3i.mk 2 2 1, Vec3i.mk 2 0 1, Vec3i.mk 0 2 1, Vec3i.mk 1 2 2, Vec3i.mk 1 2 0, Vec3i.mk 1 0 2, Vec3i.mk 2 1 2, Vec3i.mk 2 1 0, Vec3i.mk 0 1 2, Vec3i.mk 2 2 2, Vec3i.mk 0 0 2, Vec3i.mk 0 2 0, Vec3i.mk 2 0 0] [Vec3i.mk 0 2 (-1), Vec3i.mk 0 2 1, Vec3i.mk (-1) 2 0, Vec3i.mk 1 2 0, Vec3i.mk 0 2 0, Vec3i.mk 2 (-1) (-1), Vec3i.mk 0 (-1) (-1), Vec3i.mk 2 1 1, Vec3i.mk 2 0 (-1), Vec3i.mk 2 0 1, Vec3i.mk 1 (-1) 1, Vec3i.mk 1 1 (-1), Vec3i.mk 2 (-1) 0, Vec3i.mk 2 1 0, Vec3i.mk 2 0 0, Vec3i.mk 1 (-1) (-1), Vec3i.mk (-1) 1 (-1), Vec3i.mk (-1) (-1) 1, Vec3i.mk (-1) (-1) (-1), Vec3i.mk 1 1 1, Vec3i.mk (-1) 0 1, Vec3i.mk 1 0 (-1), Vec3i.mk 1 0 1, Vec3i.mk 0 (-1) 1, Vec3i.mk 0 1 (-1), Vec3i.mk 0 1 1, Vec3i.mk (-1) 1 0, Vec3i.mk 1 (-1) 0, Vec3i.mk 1 1 0, Vec3i.mk 0 0 (-1), Vec3i.mk 0 (-1) 0, Vec3i.mk (-1) 0 0, Vec3i.mk 0 0 1, Vec3i.mk 0 1 0, Vec3i.mk 1 0 0, Vec3i.mk 0 0 0] [Atom.mk (Vec3.mk (50000/200001) (50000/200001) (50000/200001)) "X", Atom.mk (Vec3.mk (50000/66667) (50000/200001) (50000/200001)) "X", Atom.mk (Vec3.mk (50000/200001) (50000/66667) (50000/200001)) "X", Atom.mk (Vec3.mk (50000/200001) (50000/200001) (50000/66667)) "X", Atom.mk (Vec3.mk (50000/66667) (50000/66667) (50000/200001)) "X", Atom.mk (Vec3.mk (50000/200001) (50000/66667) (50000/66667)) "X", Atom.mk (Vec3.mk (50000/66667) (50000/200001) (50000/66667)) "X", Atom.mk (Vec3.mk (50000/66667) (50000/66667) (50000/66667)) "X"],
  GrowState.mk [Vec3i.mk 1 1 1, Vec3i.mk 1 1 (-1), Vec3i.mk (-1) 1 1, Vec3i.mk 1 2 1, Vec3i.mk (-1) 0 (-1), Vec3i.mk (-1) 0 1, Vec3i.mk (-1) 2 (-1), Vec3i.mk 1 0 (-1), Vec3i.mk 1 0 1, Vec3i.mk 0 1 1, Vec3i.mk 0 0 2, Vec3i.mk (-1) 0 1, Vec3i.mk 0 (-1) 1, Vec3i.mk 1 1 1, Vec3i.mk 1 (-1) 1, Vec3i.mk (-1) 1 1, Vec3i.mk 0 1 2, Vec3i.mk 0 (-1) 2, Vec3i.mk 1 0 2, Vec3i.mk (-1) 0 2, Vec3i.mk 1 1 2, Vec3i.mk (-1) (-1) 0, Vec3i.mk (-1) (-1) 2, Vec3i.mk (-1) 1 0, Vec3i.mk 1 (-1) 0, Vec3i.mk 2 1 0, Vec3i.mk 1 2 0, Vec3i.mk 1 1 1, Vec3i.mk 1 1 (-1), Vec3i.mk 2 2 0, Vec3i.mk 2 0 0, Vec3i.mk 0 2 0, Vec3i.mk 1 2 1, Vec3i.mk 1 2 (-1), Vec3i.mk 1 0 1, Vec3i.mk 2 1 1, Vec3i.mk 2 1 (-1), Vec3i.mk 0 1 1, Vec3i.mk 2 2 1, Vec3i.mk 0 2 (-1), Vec3i.mk 2 0 (-1), Vec3i.mk 1 1 1, Vec3i.mk 0 2 1, Vec3i.mk 0 1 2, Vec3i.mk (-1) 1 1, Vec3i.mk 1 2 1, Vec3i.mk 1 0 1, Vec3i.mk (-1) 2 1, Vec3i.mk 0 2 2, Vec3i.mk 0 2 0, Vec3i.mk 0 0 2, Vec3i.mk 1 1 2, Vec3i.mk (-1) 1 2, Vec3i.mk 1 2 2, Vec3i.mk (-1) 0 2, Vec3i.mk (-1) 2 0, Vec3i.mk 2 0 1, Vec3i.mk 1 1 1, Vec3i.mk 1 0 2, Vec3i.mk 1 (-1) 1, Vec3i.mk 2 1 1, Vec3i.mk 2 (-1) 1, Vec3i.mk 1 1 2, Vec3i.mk 1 (-1) 2, Vec3i.mk 2 0 2, Vec3i.mk 2 0 0, Vec3i.mk 0 0 2, Vec3i.mk 2 1 2, Vec3i.mk 0 (-1) 2, Vec3i.mk 2 (-1) 0, Vec3i.mk 2 1 1, Vec3i.mk 1 2 1, Vec3i.mk 1 1 2, Vec3i.mk 2 2 1, Vec3i.mk 2 0 1, Vec3i.mk 0 2 1, Vec3i.mk 1 2 2, Vec3i.mk 1 2 0, Vec3i.mk 1 0 2, Vec3i.mk 2 1 2, Vec3i.mk 2 1 0, Vec3i.mk 0 1 2, Vec3i.mk 2 2 2, Vec3i.mk 0 0 2, Vec3i.mk 0 2 0, Vec3i.mk 2 0 0] [Vec3i.mk 0 2 (-1), Vec3i.mk 0 2 1, Vec3i.mk (-1) 2 0, Vec3i.mk 1 2 0, Vec3i.mk 0 2 0, Vec3i.mk 2 (-1) (-1), Vec3i.mk 0 (-1) (-1), Vec3i.mk 2 1 1, Vec3i.mk 2 0 (-1), Vec3i.mk 2 0 1, Vec3i.mk 1 (-1) 1, Vec3i.mk 1 1 (-1), Vec3i.mk 2 (-1) 0, Vec3i.mk 2 1 0, Vec3i.mk 2 0 0, Vec3i.mk 1 (-1) (-1), Vec3i.mk (-1) 1 (-1), Vec3i.mk (-1) (-1) 1, Vec3i.mk (-1) (-1) (-1), Vec3i.mk 1 1 1, Vec3i.mk (-1) 0 1, Vec3i.mk 1 0 (-1), Vec3i.mk 1 0 1, Vec3i.mk 0 (-1) 1, Vec3i.mk 0 1 (-1), Vec3i.mk 0 1 1, Vec3i.mk (-1) 1 0, Vec3i.mk 1 (-1) 0, Vec3i.mk 1 1 0, Vec3i.mk 0 0 (-1), Vec3i.mk 0 (-1) 0, Vec3i.mk (-1) 0 0, Vec3i.mk 0 0 1, Vec3i.mk 0 1 0, Vec3i.mk 1 0 0, Vec3i.mk 0 0 0] [Atom.mk (Vec3.mk (50000/200001) (50000/200001) (50000/200001)) "X", Atom.mk (Vec3.mk (50000/66667) (50000/200001) (50000/200001)) "X", Atom.mk (Vec3.mk (50000/200001) (50000/66667) (50000/200001)) "X", Atom.mk (Vec3.mk (50000/200001) (50000/200001) (50000/66667)) "X", Atom.mk (Vec3.mk (50000/66667) (50000/66667) (50000/200001)) "X", Atom.mk (Vec3.mk (50000/200001) (50000/66667) (50000/66667)) "X", Atom.mk (Vec3.mk (50000/66667) (50000/200001) (50000/66667)) "X", Atom.mk (Vec3.mk (50000/66667) (50000/66667) (50000/66667)) "X"],
  GrowState.mk [Vec3i.mk 1 1 (-1), Vec3i.mk (-1) 1 1, Vec3i.mk 1 2 1, Vec3i.mk (-1) 0 (-1), Vec3i.mk (-1) 0 1, Vec3i.mk (-1) 2 (-1), Vec3i.mk 1 0 (-1), Vec3i.mk 1 0 1, Vec3i.mk 0 1 1, Vec3i.mk 0 0 2, Vec3i.mk (-1) 0 1, Vec3i.mk 0 (-1) 1, Vec3i.mk 1 1 1, Vec3i.mk 1 (-1) 1, Vec3i.mk (-1) 1 1, Vec3i.mk 0 1 2, Vec3i.mk 0 (-1) 2, Vec3i.mk 1 0 2, Vec3i.mk (-1) 0 2, Vec3i.mk 1 1 2, Vec3i.mk (-1) (-1) 0, Vec3i.mk (-1) (-1) 2, Vec3i.mk (-1) 1 0, Vec3i.mk 1 (-1) 0, Vec3i.mk 2 1 0, Vec3i.mk 1 2 0, Vec3i.mk 1 1 1, Vec3i.mk 1 1 (-1), Vec3i.mk 2 2 0, Vec3i.mk 2 0 0, Vec3i.mk 0 2 0, Vec3i.mk 1 2 1, Vec3i.mk 1 2 (-1), Vec3i.mk 1 0 1, Vec3i.mk 2 1 1, Vec3i.mk 2 1 (-1), Vec3i.mk 0 1 1, Vec3i.mk 2 2 1, Vec3i.mk 0 2 (-1), Vec3i.mk 2 0 (-1), Vec3i.mk 1 1 1, Vec3i.mk 0 2 1, Vec3i.mk 0 1 2, Vec3i.mk (-1) 1 1, Vec3i.mk 1 2 1, Vec3i.mk 1 0 1, Vec3i.mk (-1) 2 1, Vec3i.mk 0 2 2, Vec3i.mk 0 2 0, Vec3i.mk 0 0 2, Vec3i.mk 1 1 2, Vec3i.mk (-1) 1 2, Vec3i.mk 1 2 2, Vec3i.mk (-1) 0 2, Vec3i.mk (-1) 2 0, Vec3i.mk 2 0 1, Vec3i.mk 1 1 1, Vec3i.mk 1 0 2, Vec3i.mk 1 (-1) 1, Vec3i.mk 2 1 1, Vec3i.mk 2 (-1) 1, Vec3i.mk 1 1 2, Vec3i.mk 1 (-1) 2, Vec3i.mk 2 0 2, Vec3i.mk 2 0 0, Vec3i.mk 0 0 2, Vec3i.mk 2 1 2, Vec3i.mk 0 (-1) 2, Vec3i.mk 2 (-1) 0, Vec3i.mk 2 1 1, Vec3i.mk 1 2 1, Vec3i.mk 1 1 2, Vec3i.mk 2 2 1, Vec3i.mk 2 0 1, Vec3i.mk 0 2 1, Vec3i.mk 1 2 2, Vec3i.mk 1 2 0, Vec3i.mk 1 0 2, Vec3i.mk 2 1 2, Vec3i.mk 2 1 0, Vec3i.mk 0 1 2, Vec3i.mk 2 2 2, Vec3i.mk 0 0 2, Vec3i.mk 0 2 0, Vec3i.mk 2 0 0] [Vec3i.mk 0 2 (-1), Vec3i.mk 0 2 1, Vec3i.mk (-1) 2 0, Vec3i.mk 1 2 0, Vec3i.mk 0 2 0, Vec3i.mk 2 (-1) (-1), Vec3i.mk 0 (-1) (-1), Vec3i.mk 2 1 1, Vec3i.mk 2 0 (-1), Vec3i.mk 2 0 1, Vec3i.mk 1 (-1) 1, Vec3i.mk 1 1 (-1), Vec3i.mk 2 (-1) 0, Vec3i.mk 2 1 0, Vec3i.mk 2 0 0, Vec3i.mk 1 (-1) (-1), Vec3i.mk (-1) 1 (-1), Vec3i.mk (-1) (-1) 1, Vec3i.mk (-1) (-1) (-1), Vec3i.mk 1 1 1, Vec3i.mk (-1) 0 1, Vec3i.mk 1 0 (-1), Vec3i.mk 1 0 1, Vec3i.mk 0 (-1) 1, Vec3i.mk 0 1 (-1), Vec3i.mk 0 1 1, Vec3i.mk (-1) 1 0, Vec3i.mk 1 (-1) 0, Vec3i.mk 1 1 0, Vec3i.mk 0 0 (-1), Vec3i.mk 0 (-1) 0, Vec3i.mk (-1) 0 0, Vec3i.mk 0 0 1, Vec3i.mk 0 1 0, Vec3i.mk 1 0 0, Vec3i.mk 0 0 0] [Atom.mk (Vec3.mk (50000/200001) (50000/200001) (50000/200001)) "X", Atom.mk (Vec3.mk (50000/66667) (50000/200001) (50000/200001)) "X", Atom.mk (Vec3.mk (50000/200001) (50000/66667) (50000/200001)) "X", Atom.mk (Vec3.mk (50000/200001) (50000/200001) (50000/66667)) "X", Atom.mk (Vec3.mk (50000/66667) (50000/66667) (50000/200001)) "X", Atom.mk (Vec3.mk (50000/200001) (50000/66667) (50000/66667)) "X", Atom.mk (Vec3.mk (50000/66667) (50000/200001) (50000/66667)) "X", Atom.mk (Vec3.mk (50000/66667) (50000/66667) (50000/66667)) "X"],
  GrowState.mk [Vec3i.mk (-1) 1 1, Vec3i.mk 1 2 1, Vec3i.mk (-1) 0 (-1), Vec3i.mk (-1) 0 1, Vec3i.mk (-1) 2 (-1), Vec3i.mk 1 0 (-1), Vec3i.mk 1 0 1, Vec3i.mk 0 1 1, Vec3i.mk 0 0 2, Vec3i.mk (-1) 0 1, Vec3i.mk 0 (-1) 1, Vec3i.mk 1 1 1, Vec3i.mk 1 (-1) 1, Vec3i.mk (-1) 1 1, Vec3i.mk 0 1 2, Vec3i.mk 0 (-1) 2, Vec3i.mk 1 0 2, Vec3i.mk (-1) 0 2, Vec3i.mk 1 1 2, Vec3i.mk (-1) (-1) 0, Vec3i.mk (-1) (-1) 2, Vec3i.mk (-1) 1 0, Vec3i.mk 1 (-1) 0, Vec3i.mk 2 1 0, Vec3i.mk 1 2 0, Vec3i.mk 1 1 1, Vec3i.mk 1 1 (-1), Vec3i.mk 2 2 0, Vec3i.mk 2 0 0, Vec3i.mk 0 2 0, Vec3i.mk 1 2 1, Vec3i.mk 1 2 (-1), Vec3i.mk 1 0 1, Vec3i.mk 2 1 1, Vec3i.mk 2 1 (-1), Vec3i.mk 0 1 1, Vec3i.mk 2 2 1, Vec3i.mk 0 2 (-1), Vec3i.mk 2 0 (-1), Vec3i.mk 1 1 1, Vec3i.mk 0 2 1, Vec3i.mk 0 1 2, Vec3i.mk (-1) 1 1, Vec3i.mk 1 2 1, Vec3i.mk 1 0 1, Vec3i.mk (-1) 2 1, Vec3i.mk 0 2 2, Vec3i.mk 0 2 0, Vec3i.mk 0 0 2, Vec3i.mk 1 1 2, Vec3i.mk (-1) 1 2, Vec3i.mk 1 2 2, Vec3i.mk (-1) 0 2, Vec3i.mk (-1) 2 0, Vec3i.mk 2 0 1, Vec3i.mk 1 1 1, Vec3i.mk 1 0 2, Vec3i.mk 1 (-1) 1, Vec3i.mk 2 1 1, Vec3i.mk 2 (-1) 1, Vec3i.mk 1 1 2, Vec3i.mk 1 (-1) 2, Vec3i.mk 2 0 2, Vec3i.mk 2 0 0, Vec3i.mk 0 0 2, Vec3i.mk 2 1 2, Vec3i.mk 0 (-1) 2, Vec3i.mk 2 (-1) 0, Vec3i.mk 2 1 1, Vec3i.mk 1 2 1, Vec3i.mk 1 1 2, Vec3i.mk 2 2 1, Vec3i.mk 2 0 1, Vec3i.mk 0 2 1, Vec3i.mk 1 2 2, Vec3i.mk 1 2 0, Vec3i.mk 1 0 2, Vec3i.mk 2 1 2, Vec3i.mk 2 1 0, Vec3i.mk 0 1 2, Vec3i.mk 2 2 2, Vec3i.mk 0 0 2, Vec3i.mk 0 2 0, Vec3i.mk 2 0 0] [Vec3i.mk 0 2 (-1), Vec3i.mk 0 2 1, Vec3i.mk (-1) 2 0, Vec3i.mk 1 2 0, Vec3i.mk 0 2 0, Vec3i.mk 2 (-1) (-1), Vec3i.mk 0 (-1) (-1), Vec3i.mk 2 1 1, Vec3i.mk 2 0 (-1), Vec3i.mk 2 0 1, Vec3i.mk 1 (-1) 1, Vec3i.mk 1 1 (-1), Vec3i.mk 2 (-1) 0, Vec3i.mk 2 1 0, Vec3i.mk 2 0 0, Vec3i.mk 1 (-1) (-1), Vec3i.mk (-1) 1 (-1), Vec3i.mk (-1) (-1) 1, Vec3i.mk (-1) (-1) (-1), Vec3i.mk 1 1 1, Vec3i.mk (-1) 0 1, Vec3i.mk 1 0 (-1), Vec3i.mk 1 0 1, Vec3i.mk 0 (-1) 1, Vec3i.mk 0 1 (-1), Vec3i.mk 0 1 1, Vec3i.mk (-1) 1 0, Vec3i.mk 1 (-1) 0, Vec3i.mk 1 1 0, Vec3i.mk 0 0 (-1), Vec3i.mk 0 (-1) 0, Vec3i.mk (-1) 0 0, Vec3i.mk 0 0 1, Vec3i.mk 0 1 0, Vec3i.mk 1 0 0, Vec3i.mk 0 0 0] [Atom.mk (Vec3.mk (50000/200001) (50000/200001) (50000/200001)) "X", Atom.mk (Vec3.mk (50000/66667) (50000/200001) (50000/200001)) "X", Atom.mk (Vec3.mk (50000/200001) (50000/66667) (50000/200001)) "X", Atom.mk (Vec3.mk (50000/200001) (50000/200001) (50000/66667)) "X", Atom.mk (Vec3.mk (50000/66667) (50000/66667) (50000/200001)) "X", Atom.mk (Vec3.mk (50000/200001) (50000/66667) (50000/66667)) "X", Atom.mk (Vec3.mk (50000/66667) (50000/200001) (50000/66667)) "X", Atom.mk (Vec3.mk (50000/66667) (50000/66667) (50000/66667)) "X"],
  GrowState.mk [Vec3i.mk 1 2 1, Vec3i.mk (-1) 0 (-1), Vec3i.mk (-1) 0 1, Vec3i.mk (-1) 2 (-1), Vec3i.mk 1 0 (-1), Vec3i.mk 1 0 1, Vec3i.mk 0 1 1, Vec3i.mk 0 0 2, Vec3i.mk (-1) 0 1, Vec3i.mk 0 (-1) 1, Vec3i.mk 1 1 1, Vec3i.mk 1 (-1) 1, Vec3i.mk (-1) 1 1, Vec3i.mk 0 1 2, Vec3i.mk 0 (-1) 2, Vec3i.mk 1 0 2, Vec3i.mk (-1) 0 2, Vec3i.mk 1 1 2, Vec3i.mk (-1) (-1) 0, Vec3i.mk (-1) (-1) 2, Vec3i.mk (-1) 1 0, Vec3i.mk 1 (-1) 0, Vec3i.mk 2 1 0, Vec3i.mk 1 2 0, Vec3i.mk 1 1 1, Vec3i.mk 1 1 (-1), Vec3i.mk 2 2 0, Vec3i.mk 2 0 0, Vec3i.mk 0 2 0, Vec3i.mk 1 2 1, Vec3i.mk 1 2 (-1), Vec3i.mk 1 0 1, Vec3i.mk 2 1 1, Vec3i.mk 2 1 (-1), Vec3i.mk 0 1 1, Vec3i.mk 2 2 1, Vec3i.mk 0 2 (-1), Vec3i.mk 2 0 (-1), Vec3i.mk 1 1 1, Vec3i.mk 0 2 1, Vec3i.mk 0 1 2, Vec3i.mk (-1) 1 1, Vec3i.mk 1 2 1, Vec3i.mk 1 0 1, Vec3i.mk (-1) 2 1, Vec3i.mk 0 2 2, Vec3i.mk 0 2 0, Vec3i.mk 0 0 2, Vec3i.mk 1 1 2, Vec3i.mk (-1) 1 2, Vec3i.mk 1 2 2, Vec3i.mk (-1) 0 2, Vec3i.mk (-1) 2 0, Vec3i.mk 2 0 1, Vec3i.mk 1 1 1, Vec3i.mk 1 0 2, Vec3i.mk 1 (-1) 1, Vec3i.mk 2 1 1, Vec3i.mk 2 (-1) 1, Vec3i.mk 1 1 2, Vec3i.mk 1 (-1) 2, Vec3i.mk 2 0 2, Vec3i.mk 2 0 0, Vec3i.mk 0 0 2, Vec3i.mk 2 1 2, Vec3i.mk 0 (-1) 2, Vec3i.mk 2 (-1) 0, Vec3i.mk 2 1 1, Vec3i.mk 1 2 1, Vec3i.mk 1 1 2, Vec3i.mk 2 2 1, Vec3i.mk 2 0 1, Vec3i.mk 0 2 1, Vec3i.mk 1 2 2, Vec3i.mk 1 2 0, Vec3i.mk 1 0 2, Vec3i.mk 2 1 2, Vec3i.mk 2 1 0, Vec3i.mk 0 1 2, Vec3i.mk 2 2 2, Vec3i.mk 0 0 2, Vec3i.mk 0 2 0, Vec3i.mk 2 0 0] [Vec3i.mk (-1) 1 1, Vec3i.mk 0 2 (-1), Vec3i.mk 0 2 1, Vec3i.mk (-1) 2 0, Vec3i.mk 1 2 0, Vec3i.mk 0 2 0, Vec3i.mk 2 (-1) (-1), Vec3i.mk 0 (-1) (-1), Vec3i.mk 2 1 1, Vec3i.mk 2 0 (-1), Vec3i.mk 2 0 1, Vec3i.mk 1 (-1) 1, Vec3i.mk 1 1 (-1), Vec3i.mk 2 (-1) 0, Vec3i.mk 2 1 0, Vec3i.mk 2 0 0, Vec3i.mk 1 (-1) (-1), Vec3i.mk (-1) 1 (-1), Vec3i.mk (-1) (-1) 1, Vec3i.mk (-1) (-1) (-1), Vec3i.mk 1 1 1, Vec3i.mk (-1) 0 1, Vec3i.mk 1 0 (-1), Vec3i.mk 1 0 1, Vec3i.mk 0 (-1) 1, Vec3i.mk 0 1 (-1), Vec3i.mk 0 1 1, Vec3i.mk (-1) 1 0, Vec3i.mk 1 (-1) 0, Vec3i.mk 1 1 0, Vec3i.mk 0 0 (-1), Vec3i.mk 0 (-1) 0, Vec3i.mk (-1) 0 0, Vec3i.mk 0 0 1, Vec3i.mk 0 1 0, Vec3i.mk 1 0 0, Vec3i.mk 0 0 0] [Atom.mk (Vec3.mk (50000/200001) (50000/200001) (50000/200001)) "X", Atom.mk (Vec3.mk (50000/66667) (50000/200001) (50000/200001)) "X", Atom.mk (Vec3.mk (50000/200001) (50000/66667) (50000/200001)) "X", Atom.mk (Vec3.mk (50000/200001) (50000/200001) (50000/66667)) "X", Atom.mk (Vec3.mk (50000/66667) (50000/66667) (50000/200001)) "X", Atom.mk (Vec3.mk (50000/200001) (50000/66667) (50000/66667)) "X", Atom.mk (Vec3.mk (50000/66667) (50000/200001) (50000/66667)) "X", Atom.mk (Vec3.mk (50000/66667) (50000/66667) (50000/66667)) "X"],
  GrowState.mk [Vec3i.mk (-1) 0 (-1), Vec3i.mk (-1) 0 1, Vec3i.mk (-1) 2 (-1), Vec3i.mk 1 0 (-1), Vec3i.mk 1 0 1, Vec3i.mk 0 1 1, Vec3i.mk 0 0 2, Vec3i.mk (-1) 0 1, Vec3i.mk 0 (-1) 1, Vec3i.mk 1 1 1, Vec3i.mk 1 (-1) 1, Vec3i.mk (-1) 1 1, Vec3i.mk 0 1 2, Vec3i.mk 0 (-1) 2, Vec3i.mk 1 0 2, Vec3i.mk (-1) 0 2, Vec3i.mk 1 1 2, Vec3i.mk (-1) (-1) 0, Vec3i.mk (-1) (-1) 2, Vec3i.mk (-1) 1 0, Vec3i.mk 1 (-1) 0, Vec3i.mk 2 1 0, Vec3i.mk 1 2 0, Vec3i.mk 1 1 1, Vec3i.mk 1 1 (-1), Vec3i.mk 2 2 0, Vec3i.mk 2 0 0, Vec3i.mk 0 2 0, Vec3i.mk 1 2 1, Vec3i.mk 1 2 (-1), Vec3i.mk 1 0 1, Vec3i.mk 2 1 1, Vec3i.mk 2 1 (-1), Vec3i.mk 0 1 1, Vec3i.mk 2 2 1, Vec3i.mk 0 2 (-1), Vec3i.mk 2 0 (-1), Vec3i.mk 1 1 1, Vec3i.mk 0 2 1, Vec3i.mk 0 1 2, Vec3i.mk (-1) 1 1, Vec3i.mk 1 2 1, Vec3i.mk 1 0 1, Vec3i.mk (-1) 2 1, Vec3i.mk 0 2 2, Vec3i.mk 0 2 0, Vec3i.mk 0 0 2, Vec3i.mk 1 1 2, Vec3i.mk (-1) 1 2, Vec3i.mk 1 2 2, Vec3i.mk (-1) 0 2, Vec3i.mk (-1) 2 0, Vec3i.mk 2 0 1, Vec3i.mk 1 1 1, Vec3i.mk 1 0 2, Vec3i.mk 1 (-1) 1, Vec3i.mk 2 1 1, Vec3i.mk 2 (-1) 1, Vec3i.mk 1 1 2, Vec3i.mk 1 (-1) 2, Vec3i.mk 2 0 2, Vec3i.mk 2 0 0, Vec3i.mk 0 0 2, Vec3i.mk 2 1 2, Vec3i.mk 0 (-1) 2, Vec3i.mk 2 (-1) 0, Vec3i.mk 2 1 1, Vec3i.mk 1 2 1, Vec3i.mk 1 1 2, Vec3i.mk 2 2 1, Vec3i.mk 2 0 1, Vec3i.mk 0 2 1, Vec3i.mk 1 2 2, Vec3i.mk 1 2 0, Vec3i.mk 1 0 2, Vec3i.mk 2 1 2, Vec3i.mk 2 1 0, Vec3i.mk 0 1 2, Vec3i.mk 2 2 2, Vec3i.mk 0 0 2, Vec3i.mk 0 2 0, Vec3i.mk 2 0 0] [Vec3i.mk 1 2 1, Vec3i.mk (-1) 1 1, Vec3i.mk 0 2 (-1), Vec3i.mk 0 2 1, Vec3i.mk (-1) 2 0, Vec3i.mk 1 2 0, Vec3i.mk 0 2 0, Vec3i.mk 2 (-1) (-1), Vec3i.mk 0 (-1) (-1), Vec3i.mk 2 1 1, Vec3i.mk 2 0 (-1), Vec3i.mk 2 0 1, Vec3i.mk 1 (-1) 1, Vec3i.mk 1 1 (-1), Vec3i.mk 2 (-1) 0, Vec3i.mk 2 1 0, Vec3i.mk 2 0 0, Vec3i.mk 1 (-1) (-1), Vec3i.mk (-1) 1 (-1), Vec3i.mk (-1) (-1) 1, Vec3i.mk (-1) (-1) (-1), Vec3i.mk 1 1 1, Vec3i.mk (-1) 0 1, Vec3i.mk 1 0 (-1), Vec3i.mk 1 0 1, Vec3i.mk 0 (-1) 1, Vec3i.mk 0 1 (-1), Vec3i.mk 0 1 1, Vec3i.mk (-1) 1 0, Vec3i.mk 1 (-1) 0, Vec3i.mk 1 1 0, Vec3i.mk 0 0 (-1), Vec3i.mk 0 (-1) 0, Vec3i.mk (-1) 0 0, Vec3i.mk 0 0 1, Vec3i.mk 0 1 0, Vec3i.mk 1 0 0, Vec3i.mk 0 0 0] [Atom.mk (Vec3.mk (50000/200001) (50000/200001) (50000/200001)) "X", Atom.mk (Vec3.mk (50000/66667) (50000/200001) (50000/200001)) "X", Atom.mk (Vec3.mk (50000/200001) (50000/66667) (50000/200001)) "X", Atom.mk (Vec3.mk (50000/200001) (50000/200001) (50000/66667)) "X", Atom.mk (Vec3.mk (50000/66667) (50000/66667) (50000/200001)) "X", Atom.mk (Vec3.mk (50000/200001) (50000/66667) (50000/66667)) "X", Atom.mk (Vec3.mk (50000/66667) (50000/200001) (50000/66667)) "X", Atom.mk (Vec3.mk (50000/66667) (50000/66667) (50000/66667)) "X"],
  GrowState.mk [Vec3i.mk (-1) 0 1, Vec3i.mk (-1) 2 (-1), Vec3i.mk 1 0 (-1), Vec3i.mk 1 0 1, Vec3i.mk 0 1 1, Vec3i.mk 0 0 2, Vec3i.mk (-1) 0 1, Vec3i.mk 0 (-1) 1, Vec3i.mk 1 1 1, Vec3i.mk 1 (-1) 1, Vec3i.mk (-1) 1 1, Vec3i.mk 0 1 2, Vec3i.mk 0 (-1) 2, Vec3i.mk 1 0 2, Vec3i.mk (-1) 0 2, Vec3i.mk 1 1 2, Vec3i.mk (-1) (-1) 0, Vec3i.mk (-1) (-1) 2, Vec3i.mk (-1) 1 0, Vec3i.mk 1 (-1) 0, Vec3i.mk 2 1 0, Vec3i.mk 1 2 0, Vec3i.mk 1 1 1, Vec3i.mk 1 1 (-1), Vec3i.mk 2 2 0, Vec3i.mk 2 0 0, Vec3i.mk 0 2 0, Vec3i.mk 1 2 1, Vec3i.mk 1 2 (-1), Vec3i.mk 1 0 1, Vec3i.mk 2 1 1, Vec3i.mk 2 1 (-1), Vec3i.mk 0 1 1, Vec3i.mk 2 2 1, Vec3i.mk 0 2 (-1), Vec3i.mk 2 0 (-1), Vec3i.mk 1 1 1, Vec3i.mk 0 2 1, Vec3i.mk 0 1 2, Vec3i.mk (-1) 1 1, Vec3i.mk 1 2 1, Vec3i.mk 1 0 1, Vec3i.mk (-1) 2 1, Vec3i.mk 0 2 2, Vec3i.mk 0 2 0, Vec3i.mk 0 0 2, Vec3i.mk 1 1 2, Vec3i.mk (-1) 1 2, Vec3i.mk 1 2 2, Vec3i.mk (-1) 0 2, Vec3i.mk (-1) 2 0, Vec3i.mk 2 0 1, Vec3i.mk 1 1 1, Vec3i.mk 1 0 2, Vec3i.mk 1 (-1) 1, Vec3i.mk 2 1 1, Vec3i.mk 2 (-1) 1, Vec3i.mk 1 1 2, Vec3i.mk 1 (-1) 2, Vec3i.mk 2 0 2, Vec3i.mk 2 0 0, Vec3i.mk 0 0 2, Vec3i.mk 2 1 2, Vec3i.mk 0 (-1) 2, Vec3i.mk 2 (-1) 0, Vec3i.mk 2 1 1, Vec3i.mk 1 2 1, Vec3i.mk 1 1 2, Vec3i.mk 2 2 1, Vec3i.mk 2 0 1, Vec3i.mk 0 2 1, Vec3i.mk 1 2 2, Vec3i.mk 1 2 0, Vec3i.mk 1 0 2, Vec3i.mk 2 1 2, Vec3i.mk 2 1 0, Vec3i.mk 0 1 2, Vec3i.mk 2 2 2, Vec3i.mk 0 0 2, Vec3i.mk 0 2 0, Vec3i.mk 2 0 0] [Vec3i.mk (-1) 0 (-1), Vec3i.mk 1 2 1, Vec3i.mk (-1) 1 1, Vec3i.mk 0 2 (-1), Vec3i.mk 0 2 1, Vec3i.mk (-1) 2 0, Vec3i.mk 1 2 0, Vec3i.mk 0 2 0, Vec3i.mk 2 (-1) (-1), Vec3i.mk 0 (-1) (-1), Vec3i.mk 2 1 1, Vec3i.mk 2 0 (-1), Vec3i.mk 2 0 1, Vec3i.mk 1 (-1) 1, Vec3i.mk 1 1 (-1), Vec3i.mk 2 (-1) 0, Vec3i.mk 2 1 0, Vec3i.mk 2 0 0, Vec3i.mk 1 (-1) (-1), Vec3i.mk (-1) 1 (-1), Vec3i.mk (-1) (-1) 1, Vec3i.mk (-1) (-1) (-1), Vec3i.mk 1 1 1, Vec3i.mk (-1) 0 1, Vec3i.mk 1 0 (-1), Vec3i.mk 1 0 1, Vec3i.mk 0 (-1) 1, Vec3i.mk 0 1 (-1), Vec3i.mk 0 1 1, Vec3i.mk (-1) 1 0, Vec3i.mk 1 (-1) 0, Vec3i.mk 1 1 0, Vec3i.mk 0 0 (-1), Vec3i.mk 0 (-1) 0, Vec3i.mk (-1) 0 0, Vec3i.mk 0 0 1, Vec3i.mk 0 1 0, Vec3i.mk 1 0 0, Vec3i.mk 0 0 0] [Atom.mk (Vec3.mk (50000/200001) (50000/200001) (50000/200001)) "X", Atom.mk (Vec3.mk (50000/66667) (50000/200001) (50000/200001)) "X", Atom.mk (Vec3.mk (50000/200001) (50000/66667) (50000/200001)) "X", Atom.mk (Vec3.mk (50000/200001) (50000/200001) (50000/66667)) "X", Atom.mk (Vec3.mk (50000/66667) (50000/66667) (50000/200001)) "X", Atom.mk (Vec3.mk (50000/200001) (50000/66667) (50000/66667)) "X", Atom.mk (Vec3.mk (50000/66667) (50000/200001) (50000/66667)) "X", Atom.mk (Vec3.mk (50000/66667) (50000/66667) (50000/66667)) "X"],
  GrowState.mk [Vec3i.mk (-1) 2 (-1), Vec3i.mk 1 0 (-1), Vec3i.mk 1 0 1, Vec3i.mk 0 1 1, Vec3i.mk 0 0 2, Vec3i.mk (-1) 0 1, Vec3i.mk 0 (-1) 1, Vec3i.mk 1 1 1, Vec3i.mk 1 (-1) 1, Vec3i.mk (-1) 1 1, Vec3i.mk 0 1 2, Vec3i.mk 0 (-1) 2, Vec3i.mk 1 0 2, Vec3i.mk (-1) 0 2, Vec3i.mk 1 1 2, Vec3i.mk (-1) (-1) 0, Vec3i.mk (-1) (-1) 2, Vec3i.mk (-1) 1 0, Vec3i.mk 1 (-1) 0, Vec3i.mk 2 1 0, Vec3i.mk 1 2 0, Vec3i.mk 1 1 1, Vec3i.mk 1 1 (-1), Vec3i.mk 2 2 0, Vec3i.mk 2 0 0, Vec3i.mk 0 2 0, Vec3i.mk 1 2 1, Vec3i.mk 1 2 (-1), Vec3i.mk 1 0 1, Vec3i.mk 2 1 1, Vec3i.mk 2 1 (-1), Vec3i.mk 0 1 1, Vec3i.mk 2 2 1, Vec3i.mk 0 2 (-1), Vec3i.mk 2 0 (-1), Vec3i.mk 1 1 1, Vec3i.mk 0 2 1, Vec3i.mk 0 1 2, Vec3i.mk (-1) 1 1, Vec3i.mk 1 2 1, Vec3i.mk 1 0 1, Vec3i.mk (-1) 2 1, Vec3i.mk 0 2 2, Vec3i.mk 0 2 0, Vec3i.mk 0 0 2, Vec3i.mk 1 1 2, Vec3i.mk (-1) 1 2, Vec3i.mk 1 2 2, Vec3i.mk (-1) 0 2, Vec3i.mk (-1) 2 0, Vec3i.mk 2 0 1, Vec3i.mk 1 1 1, Vec3i.mk 1 0 2, Vec3i.mk 1 (-1) 1, Vec3i.mk 2 1 1, Vec3i.mk 2 (-1) 1, Vec3i.mk 1 1 2, Vec3i.mk 1 (-1) 2, Vec3i.mk 2 0 2, Vec3i.mk 2 0 0, Vec3i.mk 0 0 2, Vec3i.mk 2 1 2, Vec3i.mk 0 (-1) 2, Vec3i.mk 2 (-1) 0, Vec3i.mk 2 1 1, Vec3i.mk 1 2 1, Vec3i.mk 1 1 2, Vec3i.mk 2 2 1, Vec3i.mk 2 0 1, Vec3i.mk 0 2 1, Vec3i.mk 1 2 2, Vec3i.mk 1 2 0, Vec3i.mk 1 0 2, Vec3i.mk 2 1 2, Vec3i.mk 2 1 0, Vec3i.mk 0 1 2, Vec3i.mk 2 2 2, Vec3i.mk 0 0 2, Vec3i.mk 0 2 0, Vec3i.mk 2 0 0] [Vec3i.mk (-1) 0 (-1), Vec3i.mk 1 2 1, Vec3i.mk (-1) 1 1, Vec3i.mk 0 2 (-1), Vec3i.mk 0 2 1, Vec3i.mk (-1) 2 0, Vec3i.mk 1 2 0, Vec3i.mk 0 2 0, Vec3i.mk 2 (-1) (-1), Vec3i.mk 0 (-1) (-1), Vec3i.mk 2 1 1, Vec3i.mk 2 0 (-1), Vec3i.mk 2 0 1, Vec3i.mk 1 (-1) 1, Vec3i.mk 1 1 (-1), Vec3i.mk 2 (-1) 0, Vec3i.mk 2 1 0, Vec3i.mk 2 0 0, Vec3i.mk 1 (-1) (-1), Vec3i.mk (-1) 1 (-1), Vec3i.mk (-1) (-1) 1, Vec3i.mk (-1) (-1) (-1), Vec3i.mk 1 1 1, Vec3i.mk (-1) 0 1, Vec3i.mk 1 0 (-1), Vec3i.mk 1 0 1, Vec3i.mk 0 (-1) 1, Vec3i.mk 0 1 (-1), Vec3i.mk 0 1 1, Vec3i.mk (-1) 1 0, Vec3i.mk 1 (-1) 0, Vec3i.mk 1 1 0, Vec3i.mk 0 0 (-1), Vec3i.mk 0 (-1) 0, Vec3i.mk (-1) 0 0, Vec3i.mk 0 0 1, Vec3i.mk 0 1 0, Vec3i.mk 1 0 0, Vec3i.mk 0 0 0] [Atom.mk (Vec3.mk (50000/200001) (50000/200001) (50000/200001)) "X", Atom.mk (Vec3.mk (50000/66667) (50000/200001) (50000/200001)) "X", Atom.mk (Vec3.mk (50000/200001) (50000/66667) (50000/200001)) "X", Atom.mk (Vec3.mk (50000/200001) (50000/200001) (50000/66667)) "X", Atom.mk (Vec3.mk (50000/66667) (50000/66667) (50000/200001)) "X", Atom.mk (Vec3.mk (50000/200001) (50000/66667) (50000/66667)) "X", Atom.mk (Vec3.mk (50000/66667) (50000/200001) (50000/66667)) "X", Atom.mk (Vec3.mk (50000/66667) (50000/66667) (50000/66667)) "X"],
  GrowState.mk [Vec3i.mk 1 0 (-1), Vec3i.mk 1 0 1, Vec3i.mk 0 1 1, Vec3i.mk 0 0 2, Vec3i.mk (-1) 0 1, Vec3i.mk 0 (-1) 1, Vec3i.mk 1 1 1, Vec3i.mk 1 (-1) 1, Vec3i.mk (-1) 1 1, Vec3i.mk 0 1 2, Vec3i.mk 0 (-1) 2, Vec3i.mk 1 0 2, Vec3i.mk (-1) 0 2, Vec3i.mk 1 1 2, Vec3i.mk (-1) (-1) 0, Vec3i.mk (-1) (-1) 2, Vec3i.mk (-1) 1 0, Vec3i.mk 1 (-1) 0, Vec3i.mk 2 1 0, Vec3i.mk 1 2 0, Vec3i.mk 1 1 1, Vec3i.mk 1 1 (-1), Vec3i.mk 2 2 0, Vec3i.mk 2 0 0, Vec3i.mk 0 2 0, Vec3i.mk 1 2 1, Vec3i.mk 1 2 (-1), Vec3i.mk 1 0 1, Vec3i.mk 2 1 1, Vec3i.mk 2 1 (-1), Vec3i.mk 0 1 1, Vec3i.mk 2 2 1, Vec3i.mk 0 2 (-1), Vec3i.mk 2 0 (-1), Vec3i.mk 1 1 1, Vec3i.mk 0 2 1, Vec3i.mk 0 1 2, Vec3i.mk (-1) 1 1, Vec3i.mk 1 2 1, Vec3i.mk 1 0 1, Vec3i.mk (-1) 2 1, Vec3i.mk 0 2 2, Vec3i.mk 0 2 0, Vec3i.mk 0 0 2, Vec3i.mk 1 1 2, Vec3i.mk (-1) 1 2, Vec3i.mk 1 2 2, Vec3i.mk (-1) 0 2, Vec3i.mk (-1) 2 0, Vec3i.mk 2 0 1, Vec3i.mk 1 1 1, Vec3i.mk 1 0 2, Vec3i.mk 1 (-1) 1, Vec3i.mk 2 1 1, Vec3i.mk 2 (-1) 1, Vec3i.mk 1 1 2, Vec3i.mk 1 (-1) 2, Vec3i.mk 2 0 2, Vec3i.mk 2 0 0, Vec3i.mk 0 0 2, Vec3i.mk 2 1 2, Vec3i.mk 0 (-1) 2, Vec3i.mk 2 (-1) 0, Vec3i.mk 2 1 1, Vec3i.mk 1 2 1, Vec3i.mk 1 1 2, Vec3i.mk 2 2 1, Vec3i.mk 2 0 1, Vec3i.mk 0 2 1, Vec3i.mk 1 2 2, Vec3i.mk 1 2 0, Vec3i.mk 1 0 2, Vec3i.mk 2 1 2, Vec3i.mk 2 1 0, Vec3i.mk 0 1 2, Vec3i.mk 2 2 2, Vec3i.mk 0 0 2, Vec3i.mk 0 2 0, Vec3i.mk 2 0 0] [Vec3i.mk (-1) 2 (-1), Vec3i.mk (-1) 0 (-1), Vec3i.mk 1 2 1, Vec3i.mk (-1) 1 1, Vec3i.mk 0 2 (-1), Vec3i.mk 0 2 1, Vec3i.mk (-1) 2 0, Vec3i.mk 1 2 0, Vec3i.mk 0 2 0, Vec3i.mk 2 (-1) (-1), Vec3i.mk 0 (-1) (-1), Vec3i.mk 2 1 1, Vec3i.mk 2 0 (-1), Vec3i.mk 2 0 1, Vec3i.mk 1 (-1) 1, Vec3i.mk 1 1 (-1), Vec3i.mk 2 (-1) 0, Vec3i.mk 2 1 0, Vec3i.mk 2 0 0, Vec3i.mk 1 (-1) (-1), Vec3i.mk (-1) 1 (-1), Vec3i.mk (-1) (-1) 1, Vec3i.mk (-1) (-1) (-1), Vec3i.mk 1 1 1, Vec3i.mk (-1) 0 1, Vec3i.mk 1 0 (-1), Vec3i.mk 1 0 1, Vec3i.mk 0 (-1) 1, Vec3i.mk 0 1 (-1), Vec3i.mk 0 1 1, Vec3i.mk (-1) 1 0, Vec3i.mk 1 (-1) 0, Vec3i.mk 1 1 0, Vec3i.mk 0 0 (-1), Vec3i.mk 0 (-1) 0, Vec3i.mk (-1) 0 0, Vec3i.mk 0 0 1, Vec3i.mk 0 1 0, Vec3i.mk 1 0 0, Vec3i.mk 0 0 0] [Atom.mk (Vec3.mk (50000/200001) (50000/200001) (50000/200001)) "X", Atom.mk (Vec3.mk (50000/66667) (50000/200001) (50000/200001)) "X", Atom.mk (Vec3.mk (50000/200001) (50000/66667) (50000/200001)) "X", Atom.mk (Vec3.mk (50000/200001) (50000/200001) (50000/66667)) "X", Atom.mk (Vec3.mk (50000/66667) (50000/66667) (50000/200001)) "X", Atom.mk (Vec3.mk (50000/200001) (50000/66667) (50000/66667)) "X", Atom.mk (Vec3.mk (50000/66667) (50000/200001) (50000/66667)) "X", Atom.mk (Vec3.mk (50000/66667) (50000/66667) (50000/66667)) "X"],
  GrowState.mk [Vec3i.mk 1 0 1, Vec3i.mk 0 1 1, Vec3i.mk 0 0 2, Vec3i.mk (-1) 0 1, Vec3i.mk 0 (-1) 1, Vec3i.mk 1 1 1, Vec3i.mk 1 (-1) 1, Vec3i.mk (-1) 1 1, Vec3i.mk 0 1 2, Vec3i.mk 0 (-1) 2, Vec3i.mk 1 0 2, Vec3i.mk (-1) 0 2, Vec3i.mk 1 1 2, Vec3i.mk (-1) (-1) 0, Vec3i.mk (-1) (-1) 2, Vec3i.mk (-1) 1 0, Vec3i.mk 1 (-1) 0, Vec3i.mk 2 1 0, Vec3i.mk 1 2 0, Vec3i.mk 1 1 1, Vec3i.mk 1 1 (-1), Vec3i.mk 2 2 0, Vec3i.mk 2 0 0, Vec3i.mk 0 2 0, Vec3i.mk 1 2 1, Vec3i.mk 1 2 (-1), Vec3i.mk 1 0 1, Vec3i.mk 2 1 1, Vec3i.mk 2 1 (-1), Vec3i.mk 0 1 1, Vec3i.mk 2 2 1, Vec3i.mk 0 2 (-1), Vec3i.mk 2 0 (-1), Vec3i.mk 1 1 1, Vec3i.mk 0 2 1, Vec3i.mk 0 1 2, Vec3i.mk (-1) 1 1, Vec3i.mk 1 2 1, Vec3i.mk 1 0 1, Vec3i.mk (-1) 2 1, Vec3i.mk 0 2 2, Vec3i.mk 0 2 0, Vec3i.mk 0 0 2, Vec3i.mk 1 1 2, Vec3i.mk (-1) 1 2, Vec3i.mk 1 2 2, Vec3i.mk (-1) 0 2, Vec3i.mk (-1) 2 0, Vec3i.mk 2 0 1, Vec3i.mk 1 1 1, Vec3i.mk 1 0 2, Vec3i.mk 1 (-1) 1, Vec3i.mk 2 1 1, Vec3i.mk 2 (-1) 1, Vec3i.mk 1 1 2, Vec3i.mk 1 (-1) 2, Vec3i.mk 2 0 2, Vec3i.mk 2 0 0, Vec3i.mk 0 0 2, Vec3i.mk 2 1 2, Vec3i.mk 0 (-1) 2, Vec3i.mk 2 (-1) 0, Vec3i.mk 2 1 1, Vec3i.mk 1 2 1, Vec3i.mk 1 1 2, Vec3i.mk 2 2 1, Vec3i.mk 2 0 1, Vec3i.mk 0 2 1, Vec3i.mk 1 2 2, Vec3i.mk 1 2 0, Vec3i.mk 1 0 2, Vec3i.mk 2 1 2, Vec3i.mk 2 1 0, Vec3i.mk 0 1 2, Vec3i.mk 2 2 2, Vec3i.mk 0 0 2, Vec3i.mk 0 2 0, Vec3i.mk 2 0 0] [Vec3i.mk (-1) 2 (-1), Vec3i.mk (-1) 0 (-1), Vec3i.mk 1 2 1, Vec3i.mk (-1) 1 1, Vec3i.mk 0 2 (-1), Vec3i.mk 0 2 1, Vec3i.mk (-1) 2 0, Vec3i.mk 1 2 0, Vec3i.mk 0 2 0, Vec3i.mk 2 (-1) (-1), Vec3i.mk 0 (-1) (-1), Vec3i.mk 2 1 1, Vec3i.mk 2 0 (-1), Vec3i.mk 2 0 1, Vec3i.mk 1 (-1) 1, Vec3i.mk 1 1 (-1), Vec3i.mk 2 (-1) 0, Vec3i.mk 2 1 0, Vec3i.mk 2 0 0, Vec3i.mk 1 (-1) (-1), Vec3i.mk (-1) 1 (-1), Vec3i.mk (-1) (-1) 1, Vec3i.mk (-1) (-1) (-1), Vec3i.mk 1 1 1, Vec3i.mk (-1) 0 1, Vec3i.mk 1 0 (-1), Vec3i.mk 1 0 1, Vec3i.mk 0 (-1) 1, Vec3i.mk 0 1 (-1), Vec3i.mk 0 1 1, Vec3i.mk (-1) 1 0, Vec3i.mk 1 (-1) 0, Vec3i.mk 1 1 0, Vec3i.mk 0 0 (-1), Vec3i.mk 0 (-1) 0, Vec3i.mk (-1) 0 0, Vec3i.mk 0 0 1, Vec3i.mk 0 1 0, Vec3i.mk 1 0 0, Vec3i.mk 0 0 0] [Atom.mk (Vec3.mk (50000/200001) (50000/200001) (50000/200001)) "X", Atom.mk (Vec3.mk (50000/66667) (50000/200001) (50000/200001)) "X", Atom.mk (Vec3.mk (50000/200001) (50000/66667) (50000/200001)) "X", Atom.mk (Vec3.mk (50000/200001) (50000/200001) (50000/66667)) "X", Atom.mk (Vec3.mk (50000/66667) (50000/66667) (50000/200001)) "X", Atom.mk (Vec3.mk (50000/200001) (50000/66667) (50000/66667)) "X", Atom.mk (Vec3.mk (50000/66667) (50000/200001) (50000/66667)) "X", Atom.mk (Vec3.mk (50000/66667) (50000/66667) (50000/66667)) "X"],
  GrowState.mk [Vec3i.mk 0 1 1, Vec3i.mk 0 0 2, Vec3i.mk (-1) 0 1, Vec3i.mk 0 (-1) 1, Vec3i.mk 1 1 1, Vec3i.mk 1 (-1) 1, Vec3i.mk (-1) 1 1, Vec3i.mk 0 1 2, Vec3i.mk 0 (-1) 2, Vec3i.mk 1 0 2, Vec3i.mk (-1) 0 2, Vec3i.mk 1 1 2, Vec3i.mk (-1) (-1) 0, Vec3i.mk (-1) (-1) 2, Vec3i.mk (-1) 1 0, Vec3i.mk 1 (-1) 0, Vec3i.mk 2 1 0, Vec3i.mk 1 2 0, Vec3i.mk 1 1 1, Vec3i.mk 1 1 (-1), Vec3i.mk 2 2 0, Vec3i.mk 2 0 0, Vec3i.mk 0 2 0, Vec3i.mk 1 2 1, Vec3i.mk 1 2 (-1), Vec3i.mk 1 0 1, Vec3i.mk 2 1 1, Vec3i.mk 2 1 (-1), Vec3i.mk 0 1 1, Vec3i.mk 2 2 1, Vec3i.mk 0 2 (-1), Vec3i.mk 2 0 (-1), Vec3i.mk 1 1 1, Vec3i.mk 0 2 1, Vec3i.mk 0 1 2, Vec3i.mk (-1) 1 1, Vec3i.mk 1 2 1, Vec3i.mk 1 0 1, Vec3i.mk (-1) 2 1, Vec3i.mk 0 2 2, Vec3i.mk 0 2 0, Vec3i.mk 0 0 2, Vec3i.mk 1 1 2, Vec3i.mk (-1) 1 2, Vec3i.mk 1 2 2, Vec3i.mk (-1) 0 2, Vec3i.mk (-1) 2 0, Vec3i.mk 2 0 1, Vec3i.mk 1 1 1, Vec3i.mk 1 0 2, Vec3i.mk 1 (-1) 1, Vec3i.mk 2 1 1, Vec3i.mk 2 (-1) 1, Vec3i.mk 1 1 2, Vec3i.mk 1 (-1) 2, Vec3i.mk 2 0 2, Vec3i.mk 2 0 0, Vec3i.mk 0 0 2, Vec3i.mk 2 1 2, Vec3i.mk 0 (-1) 2, Vec3i.mk 2 (-1) 0, Vec3i.mk 2 1 1, Vec3i.mk 1 2 1, Vec3i.mk 1 1 2, Vec3i.mk 2 2 1, Vec3i.mk 2 0 1, Vec3i.mk 0 2 1, Vec3i.mk 1 2 2, Vec3i.mk 1 2 0, Vec3i.mk 1 0 2, Vec3i.mk 2 1 2, Vec3i.mk 2 1 0, Vec3i.mk 0 1 2, Vec3i.mk 2 2 2, Vec3i.mk 0 0 2, Vec3i.mk 0 2 0, Vec3i.mk 2 0 0] [Vec3i.mk (-1) 2 (-1), Vec3i.mk (-1) 0 (-1), Vec3i.mk 1 2 1, Vec3i.mk (-1) 1 1, Vec3i.mk 0 2 (-1), Vec3i.mk 0 2 1, Vec3i.mk (-1) 2 0, Vec3i.mk 1 2 0, Vec3i.mk 0 2 0, Vec3i.mk 2 (-1) (-1), Vec3i.mk 0 (-1) (-1), Vec3i.mk 2 1 1, Vec3i.mk 2 0 (-1), Vec3i.mk 2 0 1, Vec3i.mk 1 (-1) 1, Vec3i.mk 1 1 (-1), Vec3i.mk 2 (-1) 0, Vec3i.mk 2 1 0, Vec3i.mk 2 0 0, Vec3i.mk 1 (-1) (-1), Vec3i.mk (-1) 1 (-1), Vec3i.mk (-1) (-1) 1, Vec3i.mk (-1) (-1) (-1), Vec3i.mk 1 1 1, Vec3i.mk (-1) 0 1, Vec3i.mk 1 0 (-1), Vec3i.mk 1 0 1, Vec3i.mk 0 (-1) 1, Vec3i.mk 0 1 (-1), Vec3i.mk 0 1 1, Vec3i.mk (-1) 1 0, Vec3i.mk 1 (-1) 0, Vec3i.mk 1 1 0, Vec3i.mk 0 0 (-1), Vec3i.mk 0 (-1) 0, Vec3i.mk (-1) 0 0, Vec3i.mk 0 0 1, Vec3i.mk 0 1 0, Vec3i.mk 1 0 0, Vec3i.mk 0 0 0] [Atom.mk (Vec3.mk (50000/200001) (50000/200001) (50000/200001)) "X", Atom.mk (Vec3.mk (50000/66667) (50000/200001) (50000/200001)) "X", Atom.mk (Vec3.mk (50000/200001) (50000/66667) (50000/200001)) "X", Atom.mk (Vec3.mk (50000/200001) (50000/200001) (50000/66667)) "X", Atom.mk (Vec3.mk (50000/66667) (50000/66667) (50000/200001)) "X", Atom.mk (Vec3.mk (50000/200001) (50000/66667) (50000/66667)) "X", Atom.mk (Vec3.mk (50000/66667) (50000/200001) (50000/66667)) "X", Atom.mk (Vec3.mk (50000/66667) (50000/66667) (50000/66667)) "X"],
  GrowState.mk [Vec3i.mk 0 0 2, Vec3i.mk (-1) 0 1, Vec3i.mk 0 (-1) 1, Vec3i.mk 1 1 1, Vec3i.mk 1 (-1) 1, Vec3i.mk (-1) 1 1, Vec3i.mk 0 1 2, Vec3i.mk 0 (-1) 2, Vec3i.mk 1 0 2, Vec3i.mk (-1) 0 2, Vec3i.mk 1 1 2, Vec3i.mk (-1) (-1) 0, Vec3i.mk (-1) (-1) 2, Vec3i.mk (-1) 1 0, Vec3i.mk 1 (-1) 0, Vec3i.mk 2 1 0, Vec3i.mk 1 2 0, Vec3i.mk 1 1 1, Vec3i.mk 1 1 (-1), Vec3i.mk 2 2 0, Vec3i.mk 2 0 0, Vec3i.mk 0 2 0, Vec3i.mk 1 2 1, Vec3i.mk 1 2 (-1), Vec3i.mk 1 0 1, Vec3i.mk 2 1 1, Vec3i.mk 2 1 (-1), Vec3i.mk 0 1 1, Vec3i.mk 2 2 1, Vec3i.mk 0 2 (-1), Vec3i.mk 2 0 (-1), Vec3i.mk 1 1 1, Vec3i.mk 0 2 1, Vec3i.mk 0 1 2, Vec3i.mk (-1) 1 1, Vec3i.mk 1 2 1, Vec3i.mk 1 0 1, Vec3i.mk (-1) 2 1, Vec3i.mk 0 2 2, Vec3i.mk 0 2 0, Vec3i.mk 0 0 2, Vec3i.mk 1 1 2, Vec3i.mk (-1) 1 2, Vec3i.mk 1 2 2, Vec3i.mk (-1) 0 2, Vec3i.mk (-1) 2 0, Vec3i.mk 2 0 1, Vec3i.mk 1 1 1, Vec3i.mk 1 0 2, Vec3i.mk 1 (-1) 1, Vec3i.mk 2 1 1, Vec3i.mk 2 (-1) 1, Vec3i.mk 1 1 2, Vec3i.mk 1 (-1) 2, Vec3i.mk 2 0 2, Vec3i.mk 2 0 0, Vec3i.mk 0 0 2, Vec3i.mk 2 1 2, Vec3i.mk 0 (-1) 2, Vec3i.mk 2 (-1) 0, Vec3i.mk 2 1 1, Vec3i.mk 1 2 1, Vec3i.mk 1 1 2, Vec3i.mk 2 2 1, Vec3i.mk 2 0 1, Vec3i.mk 0 2 1, Vec3i.mk 1 2 2, Vec3i.mk 1 2 0, Vec3i.mk 1 0 2, Vec3i.mk 2 1 2, Vec3i.mk 2 1 0, Vec3i.mk 0 1 2, Vec3i.mk 2 2 2, Vec3i.mk 0 0 2, Vec3i.mk 0 2 0, Vec3i.mk 2 0 0] [Vec3i.mk (-1) 2 (-1), Vec3i.mk (-1) 0 (-1), Vec3i.mk 1 2 1, Vec3i.mk (-1) 1 1, Vec3i.mk 0 2 (-1), Vec3i.mk 0 2 1, Vec3i.mk (-1) 2 0, Vec3i.mk 1 2 0, Vec3i.mk 0 2 0, Vec3i.mk 2 (-1) (-1), Vec3i.mk 0 (-1) (-1), Vec3i.mk 2 1 1, Vec3i.mk 2 0 (-1), Vec3i.mk 2 0 1, Vec3i.mk 1 (-1) 1, Vec3i.mk 1 1 (-1), Vec3i.mk 2 (-1) 0, Vec3i.mk 2 1 0, Vec3i.mk 2 0 0, Vec3i.mk 1 (-1) (-1), Vec3i.mk (-1) 1 (-1), Vec3i.mk (-1) (-1) 1, Vec3i.mk (-1) (-1) (-1), Vec3i.mk 1 1 1, Vec3i.mk (-1) 0 1, Vec3i.mk 1 0 (-1), Vec3i.mk 1 0 1, Vec3i.mk 0 (-1) 1, Vec3i.mk 0 1 (-1), Vec3i.mk 0 1 1, Vec3i.mk (-1) 1 0, Vec3i.mk 1 (-1) 0, Vec3i.mk 1 1 0, Vec3i.mk 0 0 (-1), Vec3i.mk 0 (-1) 0, Vec3i.mk (-1) 0 0, Vec3i.mk 0 0 1, Vec3i.mk 0 1 0, Vec3i.mk 1 0 0, Vec3i.mk 0 0 0] [Atom.mk (Vec3.mk (50000/200001) (50000/200001) (50000/200001)) "X", Atom.mk (Vec3.mk (50000/66667) (50000/200001) (50000/200001)) "X", Atom.mk (Vec3.mk (50000/200001) (50000/66667) (50000/200001)) "X", Atom.mk (Vec3.mk (50000/200001) (50000/200001) (50000/66667)) "X", Atom.mk (Vec3.mk (50000/66667) (50000/66667) (50000/200001)) "X", Atom.mk (Vec3.mk (50000/200001) (50000/66667) (50000/66667)) "X", Atom.mk (Vec3.mk (50000/66667) (50000/200001) (50000/66667)) "X", Atom.mk (Vec3.mk (50000/66667) (50000/66667) (50000/66667)) "X"],
  GrowState.mk [Vec3i.mk (-1) 0 1, Vec3i.mk 0 (-1) 1, Vec3i.mk 1 1 1, Vec3i.mk 1 (-1) 1, Vec3i.mk (-1) 1 1, Vec3i.mk 0 1 2, Vec3i.mk 0 (-1) 2, Vec3i.mk 1 0 2, Vec3i.mk (-1) 0 2, Vec3i.mk 1 1 2, Vec3i.mk (-1) (-1) 0, Vec3i.mk (-1) (-1) 2, Vec3i.mk (-1) 1 0, Vec3i.mk 1 (-1) 0, Vec3i.mk 2 1 0, Vec3i.mk 1 2 0, Vec3i.mk 1 1 1, Vec3i.mk 1 1 (-1), Vec3i.mk 2 2 0, Vec3i.mk 2 0 0, Vec3i.mk 0 2 0, Vec3i.mk 1 2 1, Vec3i.mk 1 2 (-1), Vec3i.mk 1 0 1, Vec3i.mk 2 1 1, Vec3i.mk 2 1 (-1), Vec3i.mk 0 1 1, Vec3i.mk 2 2 1, Vec3i.mk 0 2 (-1), Vec3i.mk 2 0 (-1), Vec3i.mk 1 1 1, Vec3i.mk 0 2 1, Vec3i.mk 0 1 2, Vec3i.mk (-1) 1 1, Vec3i.mk 1 2 1, Vec3i.mk 1 0 1, Vec3i.mk (-1) 2 1, Vec3i.mk 0 2 2, Vec3i.mk 0 2 0, Vec3i.mk 0 0 2, Vec3i.mk 1 1 2, Vec3i.mk (-1) 1 2, Vec3i.mk 1 2 2, Vec3i.mk (-1) 0 2, Vec3i.mk (-1) 2 0, Vec3i.mk 2 0 1, Vec3i.mk 1 1 1, Vec3i.mk 1 0 2, Vec3i.mk 1 (-1) 1, Vec3i.mk 2 1 1, Vec3i.mk 2 (-1) 1, Vec3i.mk 1 1 2, Vec3i.mk 1 (-1) 2, Vec3i.mk 2 0 2, Vec3i.mk 2 0 0, Vec3i.mk 0 0 2, Vec3i.mk 2 1 2, Vec3i.mk 0 (-1) 2, Vec3i.mk 2 (-1) 0, Vec3i.mk 2 1 1, Vec3i.mk 1 2 1, Vec3i.mk 1 1 2, Vec3i.mk 2 2 1, Vec3i.mk 2 0 1, Vec3i.mk 0 2 1, Vec3i.mk 1 2 2, Vec3i.mk 1 2 0, Vec3i.mk 1 0 2, Vec3i.mk 2 1 2, Vec3i.mk 2 1 0, Vec3i.mk 0 1 2, Vec3i.mk 2 2 2, Vec3i.mk 0 0 2, Vec3i.mk 0 2 0, Vec3i.mk 2 0 0] [Vec3i.mk 0 0 2, Vec3i.mk (-1) 2 (-1), Vec3i.mk (-1) 0 (-1), Vec3i.mk 1 2 1, Vec3i.mk (-1) 1 1, Vec3i.mk 0 2 (-1), Vec3i.mk 0 2 1, Vec3i.mk (-1) 2 0, Vec3i.mk 1 2 0, Vec3i.mk 0 2 0, Vec3i.mk 2 (-1) (-1), Vec3i.mk 0 (-1) (-1), Vec3i.mk 2 1 1, Vec3i.mk 2 0 (-1), Vec3i.mk 2 0 1, Vec3i.mk 1 (-1) 1, Vec3i.mk 1 1 (-1), Vec3i.mk 2 (-1) 0, Vec3i.mk 2 1 0, Vec3i.mk 2 0 0, Vec3i.mk 1 (-1) (-1), Vec3i.mk (-1) 1 (-1), Vec3i.mk (-1) (-1) 1, Vec3i.mk (-1) (-1) (-1), Vec3i.mk 1 1 1, Vec3i.mk (-1) 0 1, Vec3i.mk 1 0 (-1), Vec3i.mk 1 0 1, Vec3i.mk 0 (-1) 1, Vec3i.mk 0 1 (-1), Vec3i.mk 0 1 1, Vec3i.mk (-1) 1 0, Vec3i.mk 1 (-1) 0, Vec3i.mk 1 1 0, Vec3i.mk 0 0 (-1), Vec3i.mk 0 (-1) 0, Vec3i.mk (-1) 0 0, Vec3i.mk 0 0 1, Vec3i.mk 0 1 0, Vec3i.mk 1 0 0, Vec3i.mk 0 0 0] [Atom.mk (Vec3.mk (50000/200001) (50000/200001) (50000/200001)) "X", Atom.mk (Vec3.mk (50000/66667) (50000/200001) (50000/200001)) "X", Atom.mk (Vec3.mk (50000/200001) (50000/66667) (50000/200001)) "X", Atom.mk (Vec3.mk (50000/200001) (50000/200001) (50000/66667)) "X", Atom.mk (Vec3.mk (50000/66667) (50000/66667) (50000/200001)) "X", Atom.mk (Vec3.mk (50000/200001) (50000/66667) (50000/66667)) "X", Atom.mk (Vec3.mk (50000/66667) (50000/200001) (50000/66667)) "X", Atom.mk (Vec3.mk (50000/66667) (50000/66667) (50000/66667)) "X"],
  GrowState.mk [Vec3i.mk 0 (-1) 1, Vec3i.mk 1 1 1, Vec3i.mk 1 (-1) 1, Vec3i.mk (-1) 1 1, Vec3i.mk 0 1 2, Vec3i.mk 0 (-1) 2, Vec3i.mk 1 0 2, Vec3i.mk (-1) 0 2, Vec3i.mk 1 1 2, Vec3i.mk (-1) (-1) 0, Vec3i.mk (-1) (-1) 2, Vec3i.mk (-1) 1 0, Vec3i.mk 1 (-1) 0, Vec3i.mk 2 1 0, Vec3i.mk 1 2 0, Vec3i.mk 1 1 1, Vec3i.mk 1 1 (-1), Vec3i.mk 2 2 0, Vec3i.mk 2 0 0, Vec3i.mk 0 2 0, Vec3i.mk 1 2 1, Vec3i.mk 1 2 (-1), Vec3i.mk 1 0 1, Vec3i.mk 2 1 1, Vec3i.mk 2 1 (-1), Vec3i.mk 0 1 1, Vec3i.mk 2 2 1, Vec3i.mk 0 2 (-1), Vec3i.mk 2 0 (-1), Vec3i.mk 1 1 1, Vec3i.mk 0 2 1, Vec3i.mk 0 1 2, Vec3i.mk (-1) 1 1, Vec3i.mk 1 2 1, Vec3i.mk 1 0 1, Vec3i.mk (-1) 2 1, Vec3i.mk 0 2 2, Vec3i.mk 0 2 0, Vec3i.mk 0 0 2, Vec3i.mk 1 1 2, Vec3i.mk (-1) 1 2, Vec3i.mk 1 2 2, Vec3i.mk (-1) 0 2, Vec3i.mk (-1) 2 0, Vec3i.mk 2 0 1, Vec3i.mk 1 1 1, Vec3i.mk 1 0 2, Vec3i.mk 1 (-1) 1, Vec3i.mk 2 1 1, Vec3i.mk 2 (-1) 1, Vec3i.mk 1 1 2, Vec3i.mk 1 (-1) 2, Vec3i.mk 2 0 2, Vec3i.mk 2 0 0, Vec3i.mk 0 0 2, Vec3i.mk 2 1 2, Vec3i.mk 0 (-1) 2, Vec3i.mk 2 (-1) 0, Vec3i.mk 2 1 1, Vec3i.mk 1 2 1, Vec3i.mk 1 1 2, Vec3i.mk 2 2 1, Vec3i.mk 2 0 1, Vec3i.mk 0 2 1, Vec3i.mk 1 2 2, Vec3i.mk 1 2 0, Vec3i.mk 1 0 2, Vec3i.mk 2 1 2, Vec3i.mk 2 1 0, Vec3i.mk 0 1 2, Vec3i.mk 2 2 2, Vec3i.mk 0 0 2, Vec3i.mk 0 2 0, Vec3i.mk 2 0 0] [Vec3i.mk 0 0 2, Vec3i.mk (-1) 2 (-1), Vec3i.mk (-1) 0 (-1), Vec3i.mk 1 2 1, Vec3i.mk (-1) 1 1, Vec3i.mk 0 2 (-1), Vec3i.mk 0 2 1, Vec3i.mk (-1) 2 0, Vec3i.mk 1 2 0, Vec3i.mk 0 2 0, Vec3i.mk 2 (-1) (-1), Vec3i.mk 0 (-1) (-1), Vec3i.mk 2 1 1, Vec3i.mk 2 0 (-1), Vec3i.mk 2 0 1, Vec3i.mk 1 (-1) 1, Vec3i.mk 1 1 (-1), Vec3i.mk 2 (-1) 0, Vec3i.mk 2 1 0, Vec3i.mk 2 0 0, Vec3i.mk 1 (-1) (-1), Vec3i.mk (-1) 1 (-1), Vec3i.mk (-1) (-1) 1, Vec3i.mk (-1) (-1) (-1), Vec3i.mk 1 1 1, Vec3i.mk (-1) 0 1, Vec3i.mk 1 0 (-1), Vec3i.mk 1 0 1, Vec3i.mk 0 (-1) 1, Vec3i.mk 0 1 (-1), Vec3i.mk 0 1 1, Vec3i.mk (-1) 1 0, Vec3i.mk 1 (-1) 0, Vec3i.mk 1 1 0, Vec3i.mk 0 0 (-1), Vec3i.mk 0 (-1) 0, Vec3i.mk (-1) 0 0, Vec3i.mk 0 0 1, Vec3i.mk 0 1 0, Vec3i.mk 1 0 0, Vec3i.mk 0 0 0] [Atom.mk (Vec3.mk (50000/200001) (50000/200001) (50000/200001)) "X", Atom.mk (Vec3.mk (50000/66667) (50000/200001) (50000/200001)) "X", Atom.mk (Vec3.mk (50000/200001) (50000/66667) (50000/200001)) "X", Atom.mk (Vec3.mk (50000/200001) (50000/200001) (50000/66667)) "X", Atom.mk (Vec3.mk (50000/66667) (50000/66667) (50000/200001)) "X", Atom.mk (Vec3.mk (50000/200001) (50000/66667) (50000/66667)) "X", Atom.mk (Vec3.mk (50000/66667) (50000/200001) (50000/66667)) "X", Atom.mk (Vec3.mk (50000/66667) (50000/66667) (50000/66667)) "X"],
  GrowState.mk [Vec3i.mk 1 1 1, Vec3i.mk 1 (-1) 1, Vec3i.mk (-1) 1 1, Vec3i.mk 0 1 2, Vec3i.mk 0 (-1) 2, Vec3i.mk 1 0 2, Vec3i.mk (-1) 0 2, Vec3i.mk 1 1 2, Vec3i.mk (-1) (-1) 0, Vec3i.mk (-1) (-1) 2, Vec3i.mk (-1) 1 0, Vec3i.mk 1 (-1) 0, Vec3i.mk 2 1 0, Vec3i.mk 1 2 0, Vec3i.mk 1 1 1, Vec3i.mk 1 1 (-1), Vec3i.mk 2 2 0, Vec3i.mk 2 0 0, Vec3i.mk 0 2 0, Vec3i.mk 1 2 1, Vec3i.mk 1 2 (-1), Vec3i.mk 1 0 1, Vec3i.mk 2 1 1, Vec3i.mk 2 1 (-1), Vec3i.mk 0 1 1, Vec3i.mk 2 2 1, Vec3i.mk 0 2 (-1), Vec3i.mk 2 0 (-1), Vec3i.mk 1 1 1, Vec3i.mk 0 2 1, Vec3i.mk 0 1 2, Vec3i.mk (-1) 1 1, Vec3i.mk 1 2 1, Vec3i.mk 1 0 1, Vec3i.mk (-1) 2 1, Vec3i.mk 0 2 2, Vec3i.mk 0 2 0, Vec3i.mk 0 0 2, Vec3i.mk 1 1 2, Vec3i.mk (-1) 1 2, Vec3i.mk 1 2 2, Vec3i.mk (-1) 0 2, Vec3i.mk (-1) 2 0, Vec3i.mk 2 0 1, Vec3i.mk 1 1 1, Vec3i.mk 1 0 2, Vec3i.mk 1 (-1) 1, Vec3i.mk 2 1 1, Vec3i.mk 2 (-1) 1, Vec3i.mk 1 1 2, Vec3i.mk 1 (-1) 2, Vec3i.mk 2 0 2, Vec3i.mk 2 0 0, Vec3i.mk 0 0 2, Vec3i.mk 2 1 2, Vec3i.mk 0 (-1) 2, Vec3i.mk 2 (-1) 0, Vec3i.mk 2 1 1, Vec3i.mk 1 2 1, Vec3i.mk 1 1 2, Vec3i.mk 2 2 1, Vec3i.mk 2 0 1, Vec3i.mk 0 2 1, Vec3i.mk 1 2 2, Vec3i.mk 1 2 0, Vec3i.mk 1 0 2, Vec3i.mk 2 1 2, Vec3i.mk 2 1 0, Vec3i.mk 0 1 2, Vec3i.mk 2 2 2, Vec3i.mk 0 0 2, Vec3i.mk 0 2 0, Vec3i.mk 2 0 0] [Vec3i.mk 0 0 2, Vec3i.mk (-1) 2 (-1), Vec3i.mk (-1) 0 (-1), Vec3i.mk 1 2 1, Vec3i.mk (-1) 1 1, Vec3i.mk 0 2 (-1), Vec3i.mk 0 2 1, Vec3i.mk (-1) 2 0, Vec3i.mk 1 2 0, Vec3i.mk 0 2 0, Vec3i.mk 2 (-1) (-1), Vec3i.mk 0 (-1) (-1), Vec3i.mk 2 1 1, Vec3i.mk 2 0 (-1), Vec3i.mk 2 0 1, Vec3i.mk 1 (-1) 1, Vec3i.mk 1 1 (-1), Vec3i.mk 2 (-1) 0, Vec3i.mk 2 1 0, Vec3i.mk 2 0 0, Vec3i.mk 1 (-1) (-1), Vec3i.mk (-1) 1 (-1), Vec3i.mk (-1) (-1) 1, Vec3i.mk (-1) (-1) (-1), Vec3i.mk 1 1 1, Vec3i.mk (-1) 0 1, Vec3i.mk 1 0 (-1), Vec3i.mk 1 0 1, Vec3i.mk 0 (-1) 1, Vec3i.mk 0 1 (-1), Vec3i.mk 0 1 1, Vec3i.mk (-1) 1 0, Vec3i.mk 1 (-1) 0, Vec3i.mk 1 1 0, Vec3i.mk 0 0 (-1), Vec3i.mk 0 (-1) 0, Vec3i.mk (-1) 0 0, Vec3i.mk 0 0 1, Vec3i.mk 0 1 0, Vec3i.mk 1 0 0, Vec3i.mk 0 0 0] [Atom.mk (Vec3.mk (50000/200001) (50000/200001) (50000/200001)) "X", Atom.mk (Vec3.mk (50000/66667) (50000/200001) (50000/200001)) "X", Atom.mk (Vec3.mk (50000/200001) (50000/66667) (50000/200001)) "X", Atom.mk (Vec3.mk (50000/200001) (50000/200001) (50000/66667)) "X", Atom.mk (Vec3.mk (50000/66667) (50000/66667) (50000/200001)) "X", Atom.mk (Vec3.mk (50000/200001) (50000/66667) (50000/66667)) "X", Atom.mk (Vec3.mk (50000/66667) (50000/200001) (50000/66667)) "X", Atom.mk (Vec3.mk (50000/66667) (50000/66667) (50000/66667)) "X"],
  GrowState.mk [Vec3i.mk 1 (-1) 1, Vec3i.mk (-1) 1 1, Vec3i.mk 0 1 2, Vec3i.mk 0 (-1) 2, Vec3i.mk 1 0 2, Vec3i.mk (-1) 0 2, Vec3i.mk 1 1 2, Vec3i.mk (-1) (-1) 0, Vec3i.mk (-1) (-1) 2, Vec3i.mk (-1) 1 0, Vec3i.mk 1 (-1) 0, Vec3i.mk 2 1 0, Vec3i.mk 1 2 0, Vec3i.mk 1 1 1, Vec3i.mk 1 1 (-1), Vec3i.mk 2 2 0, Vec3i.mk 2 0 0, Vec3i.mk 0 2 0, Vec3i.mk 1 2 1, Vec3i.mk 1 2 (-1), Vec3i.mk 1 0 1, Vec3i.mk 2 1 1, Vec3i.mk 2 1 (-1), Vec3i.mk 0 1 1, Vec3i.mk 2 2 1, Vec3i.mk 0 2 (-1), Vec3i.mk 2 0 (-1), Vec3i.mk 1 1 1, Vec3i.mk 0 2 1, Vec3i.mk 0 1 2, Vec3i.mk (-1) 1 1, Vec3i.mk 1 2 1, Vec3i.mk 1 0 1, Vec3i.mk (-1) 2 1, Vec3i.mk 0 2 2, Vec3i.mk 0 2 0, Vec3i.mk 0 0 2, Vec3i.mk 1 1 2, Vec3i.mk (-1) 1 2, Vec3i.mk 1 2 2, Vec3i.mk (-1) 0 2, Vec3i.mk (-1) 2 0, Vec3i.mk 2 0 1, Vec3i.mk 1 1 1, Vec3i.mk 1 0 2, Vec3i.mk 1 (-1) 1, Vec3i.mk 2 1 1, Vec3i.mk 2 (-1) 1, Vec3i.mk 1 1 2, Vec3i.mk 1 (-1) 2, Vec3i.mk 2 0 2, Vec3i.mk 2 0 0, Vec3i.mk 0 0 2, Vec3i.mk 2 1 2, Vec3i.mk 0 (-1) 2, Vec3i.mk 2 (-1) 0, Vec3i.mk 2 1 1, Vec3i.mk 1 2 1, Vec3i.mk 1 1 2, Vec3i.mk 2 2 1, Vec3i.mk 2 0 1, Vec3i.mk 0 2 1, Vec3i.mk 1 2 2, Vec3i.mk 1 2 0, Vec3i.mk 1 0 2, Vec3i.mk 2 1 2, Vec3i.mk 2 1 0, Vec3i.mk 0 1 2, Vec3i.mk 2 2 2, Vec3i.mk 0 0 2, Vec3i.mk 0 2 0, Vec3i.mk 2 0 0] [Vec3i.mk 0 0 2, Vec3i.mk (-1) 2 (-1), Vec3i.mk (-1) 0 (-1), Vec3i.mk 1 2 1, Vec3i.mk (-1) 1 1, Vec3i.mk 0 2 (-1), Vec3i.mk 0 2 1, Vec3i.mk (-1) 2 0, Vec3i.mk 1 2 0, Vec3i.mk 0 2 0, Vec3i.mk 2 (-1) (-1), Vec3i.mk 0 (-1) (-1), Vec3i.mk 2 1 1, Vec3i.mk 2 0 (-1), Vec3i.mk 2 0 1, Vec3i.mk 1 (-1) 1, Vec3i.mk 1 1 (-1), Vec3i.mk 2 (-1) 0, Vec3i.mk 2 1 0, Vec3i.mk 2 0 0, Vec3i.mk 1 (-1) (-1), Vec3i.mk (-1) 1 (-1), Vec3i.mk (-1) (-1) 1, Vec3i.mk (-1) (-1) (-1), Vec3i.mk 1 1 1, Vec3i.mk (-1) 0 1, Vec3i.mk 1 0 (-1), Vec3i.mk 1 0 1, Vec3i.mk 0 (-1) 1, Vec3i.mk 0 1 (-1), Vec3i.mk 0 1 1, Vec3i.mk (-1) 1 0, Vec3i.mk 1 (-1) 0, Vec3i.mk 1 1 0, Vec3i.mk 0 0 (-1), Vec3i.mk 0 (-1) 0, Vec3i.mk (-1) 0 0, Vec3i.mk 0 0 1, Vec3i.mk 0 1 0, Vec3i.mk 1 0 0, Vec3i.mk 0 0 0] [Atom.mk (Vec3.mk (50000/200001) (50000/200001) (50000/200001)) "X", Atom.mk (Vec3.mk (50000/66667) (50000/200001) (50000/200001)) "X", Atom.mk (Vec3.mk (50000/200001) (50000/66667) (50000/200001)) "X", Atom.mk (Vec3.mk (50000/200001) (50000/200001) (50000/66667)) "X", Atom.mk (Vec3.mk (50000/66667) (50000/66667) (50000/200001)) "X", Atom.mk (Vec3.mk (50000/200001) (50000/66667) (50000/66667)) "X", Atom.mk (Vec3.mk (50000/66667) (50000/200001) (50000/66667)) "X", Atom.mk (Vec3.mk (50000/66667) (50000/66667) (50000/66667)) "X"],
  GrowState.mk [Vec3i.mk (-1) 1 1, Vec3i.mk 0 1 2, Vec3i.mk 0 (-1) 2, Vec3i.mk 1 0 2, Vec3i.mk (-1) 0 2, Vec3i.mk 1 1 2, Vec3i.mk (-1) (-1) 0, Vec3i.mk (-1) (-1) 2, Vec3i.mk (-1) 1 0, Vec3i.mk 1 (-1) 0, Vec3i.mk 2 1 0, Vec3i.mk 1 2 0, Vec3i.mk 1 1 1, Vec3i.mk 1 1 (-1), Vec3i.mk 2 2 0, Vec3i.mk 2 0 0, Vec3i.mk 0 2 0, Vec3i.mk 1 2 1, Vec3i.mk 1 2 (-1), Vec3i.mk 1 0 1, Vec3i.mk 2 1 1, Vec3i.mk 2 1 (-1), Vec3i.mk 0 1 1, Vec3i.mk 2 2 1, Vec3i.mk 0 2 (-1), Vec3i.mk 2 0 (-1), Vec3i.mk 1 1 1, Vec3i.mk 0 2 1, Vec3i.mk 0 1 2, Vec3i.mk (-1) 1 1, Vec3i.mk 1 2 1, Vec3i.mk 1 0 1, Vec3i.mk (-1) 2 1, Vec3i.mk 0 2 2, Vec3i.mk 0 2 0, Vec3i.mk 0 0 2, Vec3i.mk 1 1 2, Vec3i.mk (-1) 1 2, Vec3i.mk 1 2 2, Vec3i.mk (-1) 0 2, Vec3i.mk (-1) 2 0, Vec3i.mk 2 0 1, Vec3i.mk 1 1 1, Vec3i.mk 1 0 2, Vec3i.mk 1 (-1) 1, Vec3i.mk 2 1 1, Vec3i.mk 2 (-1) 1, Vec3i.mk 1 1 2, Vec3i.mk 1 (-1) 2, Vec3i.mk 2 0 2, Vec3i.mk 2 0 0, Vec3i.mk 0 0 2, Vec3i.mk 2 1 2, Vec3i.mk 0 (-1) 2, Vec3i.mk 2 (-1) 0, Vec3i.mk 2 1 1, Vec3i.mk 1 2 1, Vec3i.mk 1 1 2, Vec3i.mk 2 2 1, Vec3i.mk 2 0 1, Vec3i.mk 0 2 1, Vec3i.mk 1 2 2, Vec3i.mk 1 2 0, Vec3i.mk 1 0 2, Vec3i.mk 2 1 2, Vec3i.mk 2 1 0, Vec3i.mk 0 1 2, Vec3i.mk 2 2 2, Vec3i.mk 0 0 2, Vec3i.mk 0 2 0, Vec3i.mk 2 0 0] [Vec3i.mk 0 0 2, Vec3i.mk (-1) 2 (-1), Vec3i.mk (-1) 0 (-1), Vec3i.mk 1 2 1, Vec3i.mk (-1) 1 1, Vec3i.mk 0 2 (-1), Vec3i.mk 0 2 1, Vec3i.mk (-1) 2 0, Vec3i.mk 1 2 0, Vec3i.mk 0 2 0, Vec3i.mk 2 (-1) (-1), Vec3i.mk 0 (-1) (-1), Vec3i.mk 2 1 1, Vec3i.mk 2 0 (-1), Vec3i.mk 2 0 1, Vec3i.mk 1 (-1) 1, Vec3i.mk 1 1 (-1), Vec3i.mk 2 (-1) 0, Vec3i.mk 2 1 0, Vec3i.mk 2 0 0, Vec3i.mk 1 (-1) (-1), Vec3i.mk (-1) 1 (-1), Vec3i.mk (-1) (-1) 1, Vec3i.mk (-1) (-1) (-1), Vec3i.mk 1 1 1, Vec3i.mk (-1) 0 1, Vec3i.mk 1 0 (-1), Vec3i.mk 1 0 1, Vec3i.mk 0 (-1) 1, Vec3i.mk 0 1 (-1), Vec3i.mk 0 1 1, Vec3i.mk (-1) 1 0, Vec3i.mk 1 (-1) 0, Vec3i.mk 1 1 0, Vec3i.mk 0 0 (-1), Vec3i.mk 0 (-1) 0, Vec3i.mk (-1) 0 0, Vec3i.mk 0 0 1, Vec3i.mk 0 1 0, Vec3i.mk 1 0 0, Vec3i.mk 0 0 0] [Atom.mk (Vec3.mk (50000/200001) (50000/200001) (50000/200001)) "X", Atom.mk (Vec3.mk (50000/66667) (50000/200001) (50000/200001)) "X", Atom.mk (Vec3.mk (50000/200001) (50000/66667) (50000/200001)) "X", Atom.mk (Vec3.mk (50000/200001) (50000/200001) (50000/66667)) "X", Atom.mk (Vec3.mk (50000/66667) (50000/66667) (50000/200001)) "X", Atom.mk (Vec3.mk (50000/200001) (50000/66667) (50000/66667)) "X", Atom.mk (Vec3.mk (50000/66667) (50000/200001) (50000/66667)) "X", Atom.mk (Vec3.mk (50000/66667) (50000/66667) (50000/66667)) "X"],
  GrowState.mk [Vec3i.mk 0 1 2, Vec3i.mk 0 (-1) 2, Vec3i.mk 1 0 2, Vec3i.mk (-1) 0 2, Vec3i.mk 1 1 2, Vec3i.mk (-1) (-1) 0, Vec3i.mk (-1) (-1) 2, Vec3i.mk (-1) 1 0, Vec3i.mk 1 (-1) 0, Vec3i.mk 2 1 0, Vec3i.mk 1 2 0, Vec3i.mk 1 1 1, Vec3i.mk 1 1 (-1), Vec3i.mk 2 2 0, Vec3i.mk 2 0 0, Vec3i.mk 0 2 0, Vec3i.mk 1 2 1, Vec3i.mk 1 2 (-1), Vec3i.mk 1 0 1, Vec3i.mk 2 1 1, Vec3i.mk 2 1 (-1), Vec3i.mk 0 1 1, Vec3i.mk 2 2 1, Vec3i.mk 0 2 (-1), Vec3i.mk 2 0 (-1), Vec3i.mk 1 1 1, Vec3i.mk 0 2 1, Vec3i.mk 0 1 2, Vec3i.mk (-1) 1 1, Vec3i.mk 1 2 1, Vec3i.mk 1 0 1, Vec3i.mk (-1) 2 1, Vec3i.mk 0 2 2, Vec3i.mk 0 2 0, Vec3i.mk 0 0 2, Vec3i.mk 1 1 2, Vec3i.mk (-1) 1 2, Vec3i.mk 1 2 2, Vec3i.mk (-1) 0 2, Vec3i.mk (-1) 2 0, Vec3i.mk 2 0 1, Vec3i.mk 1 1 1, Vec3i.mk 1 0 2, Vec3i.mk 1 (-1) 1, Vec3i.mk 2 1 1, Vec3i.mk 2 (-1) 1, Vec3i.mk 1 1 2, Vec3i.mk 1 (-1) 2, Vec3i.mk 2 0 2, Vec3i.mk 2 0 0, Vec3i.mk 0 0 2, Vec3i.mk 2 1 2, Vec3i.mk 0 (-1) 2, Vec3i.mk 2 (-1) 0, Vec3i.mk 2 1 1, Vec3i.mk 1 2 1, Vec3i.mk 1 1 2, Vec3i.mk 2 2 1, Vec3i.mk 2 0 1, Vec3i.mk 0 2 1, Vec3i.mk 1 2 2, Vec3i.mk 1 2 0, Vec3i.mk 1 0 2, Vec3i.mk 2 1 2, Vec3i.mk 2 1 0, Vec3i.mk 0 1 2, Vec3i.mk 2 2 2, Vec3i.mk 0 0 2, Vec3i.mk 0 2 0, Vec3i.mk 2 0 0] [Vec3i.mk 0 0 2, Vec3i.mk (-1) 2 (-1), Vec3i.mk (-1) 0 (-1), Vec3i.mk 1 2 1, Vec3i.mk (-1) 1 1, Vec3i.mk 0 2 (-1), Vec3i.mk 0 2 1, Vec3i.mk (-1) 2 0, Vec3i.mk 1 2 0, Vec3i.mk 0 2 0, Vec3i.mk 2 (-1) (-1), Vec3i.mk 0 (-1) (-1), Vec3i.mk 2 1 1, Vec3i.mk 2 0 (-1), Vec3i.mk 2 0 1, Vec3i.mk 1 (-1) 1, Vec3i.mk 1 1 (-1), Vec3i.mk 2 (-1) 0, Vec3i.mk 2 1 0, Vec3i.mk 2 0 0, Vec3i.mk 1 (-1) (-1), Vec3i.mk (-1) 1 (-1), Vec3i.mk (-1) (-1) 1, Vec3i.mk (-1) (-1) (-1), Vec3i.mk 1 1 1, Vec3i.mk (-1) 0 1, Vec3i.mk 1 0 (-1), Vec3i.mk 1 0 1, Vec3i.mk 0 (-1) 1, Vec3i.mk 0 1 (-1), Vec3i.mk 0 1 1, Vec3i.mk (-1) 1 0, Vec3i.mk 1 (-1) 0, Vec3i.mk 1 1 0, Vec3i.mk 0 0 (-1), Vec3i.mk 0 (-1) 0, Vec3i.mk (-1) 0 0, Vec3i.mk 0 0 1, Vec3i.mk 0 1 0, Vec3i.mk 1 0 0, Vec3i.mk 0 0 0] [Atom.mk (Vec3.mk (50000/200001) (50000/200001) (50000/200001)) "X", Atom.mk (Vec3.mk (50000/66667) (50000/200001) (50000/200001)) "X", Atom.mk (Vec3.mk (50000/200001) (50000/66667) (50000/200001)) "X", Atom.mk (Vec3.mk (50000/200001) (50000/200001) (50000/66667)) "X", Atom.mk (Vec3.mk (50000/66667) (50000/66667) (50000/200001)) "X", Atom.mk (Vec3.mk (50000/200001) (50000/66667) (50000/66667)) "X", Atom.mk (Vec3.mk (50000/66667) (50000/200001) (50000/66667)) "X", Atom.mk (Vec3.mk (50000/66667) (50000/66667) (50000/66667)) "X"],
  GrowState.mk [Vec3i.mk 0 (-1) 2, Vec3i.mk 1 0 2, Vec3i.mk (-1) 0 2, Vec3i.mk 1 1 2, Vec3i.mk (-1) (-1) 0, Vec3i.mk (-1) (-1) 2, Vec3i.mk (-1) 1 0, Vec3i.mk 1 (-1) 0, Vec3i.mk 2 1 0, Vec3i.mk 1 2 0, Vec3i.mk 1 1 1, Vec3i.mk 1 1 (-1), Vec3i.mk 2 2 0, Vec3i.mk 2 0 0, Vec3i.mk 0 2 0, Vec3i.mk 1 2 1, Vec3i.mk 1 2 (-1), Vec3i.mk 1 0 1, Vec3i.mk 2 1 1, Vec3i.mk 2 1 (-1), Vec3i.mk 0 1 1, Vec3i.mk 2 2 1, Vec3i.mk 0 2 (-1), Vec3i.mk 2 0 (-1), Vec3i.mk 1 1 1, Vec3i.mk 0 2 1, Vec3i.mk 0 1 2, Vec3i.mk (-1) 1 1, Vec3i.mk 1 2 1, Vec3i.mk 1 0 1, Vec3i.mk (-1) 2 1, Vec3i.mk 0 2 2, Vec3i.mk 0 2 0, Vec3i.mk 0 0 2, Vec3i.mk 1 1 2, Vec3i.mk (-1) 1 2, Vec3i.mk 1 2 2, Vec3i.mk (-1) 0 2, Vec3i.mk (-1) 2 0, Vec3i.mk 2 0 1, Vec3i.mk 1 1 1, Vec3i.mk 1 0 2, Vec3i.mk 1 (-1) 1, Vec3i.mk 2 1 1, Vec3i.mk 2 (-1) 1, Vec3i.mk 1 1 2, Vec3i.mk 1 (-1) 2, Vec3i.mk 2 0 2, Vec3i.mk 2 0 0, Vec3i.mk 0 0 2, Vec3i.mk 2 1 2, Vec3i.mk 0 (-1) 2, Vec3i.mk 2 (-1) 0, Vec3i.mk 2 1 1, Vec3i.mk 1 2 1, Vec3i.mk 1 1 2, Vec3i.mk 2 2 1, Vec3i.mk 2 0 1, Vec3i.mk 0 2 1, Vec3i.mk 1 2 2, Vec3i.mk 1 2 0, Vec3i.mk 1 0 2, Vec3i.mk 2 1 2, Vec3i.mk 2 1 0, Vec3i.mk 0 1 2, Vec3i.mk 2 2 2, Vec3i.mk 0 0 2, Vec3i.mk 0 2 0, Vec3i.mk 2 0 0] [Vec3i.mk 0 1 2, Vec3i.mk 0 0 2, Vec3i.mk (-1) 2 (-1), Vec3i.mk (-1) 0 (-1), Vec3i.mk 1 2 1, Vec3i.mk (-1) 1 1, Vec3i.mk 0 2 (-1), Vec3i.mk 0 2 1, Vec3i.mk (-1) 2 0, Vec3i.mk 1 2 0, Vec3i.mk 0 2 0, Vec3i.mk 2 (-1) (-1), Vec3i.mk 0 (-1) (-1), Vec3i.mk 2 1 1, Vec3i.mk 2 0 (-1), Vec3i.mk 2 0 1, Vec3i.mk 1 (-1) 1, Vec3i.mk 1 1 (-1), Vec3i.mk 2 (-1) 0, Vec3i.mk 2 1 0, Vec3i.mk 2 0 0, Vec3i.mk 1 (-1) (-1), Vec3i.mk (-1) 1 (-1), Vec3i.mk (-1) (-1) 1, Vec3i.mk (-1) (-1) (-1), Vec3i.mk 1 1 1, Vec3i.mk (-1) 0 1, Vec3i.mk 1 0 (-1), Vec3i.mk 1 0 1, Vec3i.mk 0 (-1) 1, Vec3i.mk 0 1 (-1), Vec3i.mk 0 1 1, Vec3i.mk (-1) 1 0, Vec3i.mk 1 (-1) 0, Vec3i.mk 1 1 0, Vec3i.mk 0 0 (-1), Vec3i.mk 0 (-1) 0, Vec3i.mk (-1) 0 0, Vec3i.mk 0 0 1, Vec3i.mk 0 1 0, Vec3i.mk 1 0 0, Vec3i.mk 0 0 0] [Atom.mk (Vec3.mk (50000/200001) (50000/200001) (50000/200001)) "X", Atom.mk (Vec3.mk (50000/66667) (50000/200001) (50000/200001)) "X", Atom.mk (Vec3.mk (50000/200001) (50000/66667) (50000/200001)) "X", Atom.mk (Vec3.mk (50000/200001) (50000/200001) (50000/66667)) "X", Atom.mk (Vec3.mk (50000/66667) (50000/66667) (50000/200001)) "X", Atom.mk (Vec3.mk (50000/200001) (50000/66667) (50000/66667)) "X", Atom.mk (Vec3.mk (50000/66667) (50000/200001) (50000/66667)) "X", Atom.mk (Vec3.mk (50000/66667) (50000/66667) (50000/66667)) "X"],
  GrowState.mk [Vec3i.mk 1 0 2, Vec3i.mk (-1) 0 2, Vec3i.mk 1 1 2, Vec3i.mk (-1) (-1) 0, Vec3i.mk (-1) (-1) 2, Vec3i.mk (-1) 1 0, Vec3i.mk 1 (-1) 0, Vec3i.mk 2 1 0, Vec3i.mk 1 2 0, Vec3i.mk 1 1 1, Vec3i.mk 1 1 (-1), Vec3i.mk 2 2 0, Vec3i.mk 2 0 0, Vec3i.mk 0 2 0, Vec3i.mk 1 2 1, Vec3i.mk 1 2 (-1), Vec3i.mk 1 0 1, Vec3i.mk 2 1 1, Vec3i.mk 2 1 (-1), Vec3i.mk 0 1 1, Vec3i.mk 2 2 1, Vec3i.mk 0 2 (-1), Vec3i.mk 2 0 (-1), Vec3i.mk 1 1 1, Vec3i.mk 0 2 1, Vec3i.mk 0 1 2, Vec3i.mk (-1) 1 1, Vec3i.mk 1 2 1, Vec3i.mk 1 0 1, Vec3i.mk (-1) 2 1, Vec3i.mk 0 2 2, Vec3i.mk 0 2 0, Vec3i.mk 0 0 2, Vec3i.mk 1 1 2, Vec3i.mk (-1) 1 2, Vec3i.mk 1 2 2, Vec3i.mk (-1) 0 2, Vec3i.mk (-1) 2 0, Vec3i.mk 2 0 1, Vec3i.mk 1 1 1, Vec3i.mk 1 0 2, Vec3i.mk 1 (-1) 1, Vec3i.mk 2 1 1, Vec3i.mk 2 (-1) 1, Vec3i.mk 1 1 2, Vec3i.mk 1 (-1) 2, Vec3i.mk 2 0 2, Vec3i.mk 2 0 0, Vec3i.mk 0 0 2, Vec3i.mk 2 1 2, Vec3i.mk 0 (-1) 2, Vec3i.mk 2 (-1) 0, Vec3i.mk 2 1 1, Vec3i.mk 1 2 1, Vec3i.mk 1 1 2, Vec3i.mk 2 2 1, Vec3i.mk 2 0 1, Vec3i.mk 0 2 1, Vec3i.mk 1 2 2, Vec3i.mk 1 2 0, Vec3i.mk 1 0 2, Vec3i.mk 2 1 2, Vec3i.mk 2 1 0, Vec3i.mk 0 1 2, Vec3i.mk 2 2 2, Vec3i.mk 0 0 2, Vec3i.mk 0 2 0, Vec3i.mk 2 0 0] [Vec3i.mk 0 (-1) 2, Vec3i.mk 0 1 2, Vec3i.mk 0 0 2, Vec3i.mk (-1) 2 (-1), Vec3i.mk (-1) 0 (-1), Vec3i.mk 1 2 1, Vec3i.mk (-1) 1 1, Vec3i.mk 0 2 (-1), Vec3i.mk 0 2 1, Vec3i.mk (-1) 2 0, Vec3i.mk 1 2 0, Vec3i.mk 0 2 0, Vec3i.mk 2 (-1) (-1), Vec3i.mk 0 (-1) (-1), Vec3i.mk 2 1 1, Vec3i.mk 2 0 (-1), Vec3i.mk 2 0 1, Vec3i.mk 1 (-1) 1, Vec3i.mk 1 1 (-1), Vec3i.mk 2 (-1) 0, Vec3i.mk 2 1 0, Vec3i.mk 2 0 0, Vec3i.mk 1 (-1) (-1), Vec3i.mk (-1) 1 (-1), Vec3i.mk (-1) (-1) 1, Vec3i.mk (-1) (-1) (-1), Vec3i.mk 1 1 1, Vec3i.mk (-1) 0 1, Vec3i.mk 1 0 (-1), Vec3i.mk 1 0 1, Vec3i.mk 0 (-1) 1, Vec3i.mk 0 1 (-1), Vec3i.mk 0 1 1, Vec3i.mk (-1) 1 0, Vec3i.mk 1 (-1) 0, Vec3i.mk 1 1 0, Vec3i.mk 0 0 (-1), Vec3i.mk 0 (-1) 0, Vec3i.mk (-1) 0 0, Vec3i.mk 0 0 1, Vec3i.mk 0 1 0, Vec3i.mk 1 0 0, Vec3i.mk 0 0 0] [Atom.mk (Vec3.mk (50000/200001) (50000/200001) (50000/200001)) "X", Atom.mk (Vec3.mk (50000/66667) (50000/200001) (50000/200001)) "X", Atom.mk (Vec3.mk (50000/200001) (50000/66667) (50000/200001)) "X", Atom.mk (Vec3.mk (50000/200001) (50000/200001) (50000/66667)) "X", Atom.mk (Vec3.mk (50000/66667) (50000/66667) (50000/200001)) "X", Atom.mk (Vec3.mk (50000/200001) (50000/66667) (50000/66667)) "X", Atom.mk (Vec3.mk (50000/66667) (50000/200001) (50000/66667)) "X", Atom.mk (Vec3.mk (50000/66667) (50000/66667) (50000/66667)) "X"],
  GrowState.mk [Vec3i.mk (-1) 0 2, Vec3i.mk 1 1 2, Vec3i.mk (-1) (-1) 0, Vec3i.mk (-1) (-1) 2, Vec3i.mk (-1) 1 0, Vec3i.mk 1 (-1) 0, Vec3i.mk 2 1 0, Vec3i.mk 1 2 0, Vec3i.mk 1 1 1, Vec3i.mk 1 1 (-1), Vec3i.mk 2 2 0, Vec3i.mk 2 0 0, Vec3i.mk 0 2 0, Vec3i.mk 1 2 1, Vec3i.mk 1 2 (-1), Vec3i.mk 1 0 1, Vec3i.mk 2 1 1, Vec3i.mk 2 1 (-1), Vec3i.mk 0 1 1, Vec3i.mk 2 2 1, Vec3i.mk 0 2 (-1), Vec3i.mk 2 0 (-1), Vec3i.mk 1 1 1, Vec3i.mk 0 2 1, Vec3i.mk 0 1 2, Vec3i.mk (-1) 1 1, Vec3i.mk 1 2 1, Vec3i.mk 1 0 1, Vec3i.mk (-1) 2 1, Vec3i.mk 0 2 2, Vec3i.mk 0 2 0, Vec3i.mk 0 0 2, Vec3i.mk 1 1 2, Vec3i.mk (-1) 1 2, Vec3i.mk 1 2 2, Vec3i.mk (-1) 0 2, Vec3i.mk (-1) 2 0, Vec3i.mk 2 0 1, Vec3i.mk 1 1 1, Vec3i.mk 1 0 2, Vec3i.mk 1 (-1) 1, Vec3i.mk 2 1 1, Vec3i.mk 2 (-1) 1, Vec3i.mk 1 1 2, Vec3i.mk 1 (-1) 2, Vec3i.mk 2 0 2, Vec3i.mk 2 0 0, Vec3i.mk 0 0 2, Vec3i.mk 2 1 2, Vec3i.mk 0 (-1) 2, Vec3i.mk 2 (-1) 0, Vec3i.mk 2 1 1, Vec3i.mk 1 2 1, Vec3i.mk 1 1 2, Vec3i.mk 2 2 1, Vec3i.mk 2 0 1, Vec3i.mk 0 2 1, Vec3i.mk 1 2 2, Vec3i.mk 1 2 0, Vec3i.mk 1 0 2, Vec3i.mk 2 1 2, Vec3i.mk 2 1 0, Vec3i.mk 0 1 2, Vec3i.mk 2 2 2, Vec3i.mk 0 0 2, Vec3i.mk 0 2 0, Vec3i.mk 2 0 0] [Vec3i.mk 1 0 2, Vec3i.mk 0 (-1) 2, Vec3i.mk 0 1 2, Vec3i.mk 0 0 2, Vec3i.mk (-1) 2 (-1), Vec3i.mk (-1) 0 (-1), Vec3i.mk 1 2 1, Vec3i.mk (-1) 1 1, Vec3i.mk 0 2 (-1), Vec3i.mk 0 2 1, Vec3i.mk (-1) 2 0, Vec3i.mk 1 2 0, Vec3i.mk 0 2 0, Vec3i.mk 2 (-1) (-1), Vec3i.mk 0 (-1) (-1), Vec3i.mk 2 1 1, Vec3i.mk 2 0 (-1), Vec3i.mk 2 0 1, Vec3i.mk 1 (-1) 1, Vec3i.mk 1 1 (-1), Vec3i.mk 2 (-1) 0, Vec3i.mk 2 1 0, Vec3i.mk 2 0 0, Vec3i.mk 1 (-1) (-1), Vec3i.mk (-1) 1 (-1), Vec3i.mk (-1) (-1) 1, Vec3i.mk (-1) (-1) (-1), Vec3i.mk 1 1 1, Vec3i.mk (-1) 0 1, Vec3i.mk 1 0 (-1), Vec3i.mk 1 0 1, Vec3i.mk 0 (-1) 1, Vec3i.mk 0 1 (-1), Vec3i.mk 0 1 1, Vec3i.mk (-1) 1 0, Vec3i.mk 1 (-1) 0, Vec3i.mk 1 1 0, Vec3i.mk 0 0 (-1), Vec3i.mk 0 (-1) 0, Vec3i.mk (-1) 0 0, Vec3i.mk 0 0 1, Vec3i.mk 0 1 0, Vec3i.mk 1 0 0, Vec3i.mk 0 0 0] [Atom.mk (Vec3.mk (50000/200001) (50000/200001) (50000/200001)) "X", Atom.mk (Vec3.mk (50000/66667) (50000/200001) (50000/200001)) "X", Atom.mk (Vec3.mk (50000/200001) (50000/66667) (50000/200001)) "X", Atom.mk (Vec3.mk (50000/200001) (50000/200001) (50000/66667)) "X", Atom.mk (Vec3.mk (50000/66667) (50000/66667) (50000/200001)) "X", Atom.mk (Vec3.mk (50000/200001) (50000/66667) (50000/66667)) "X", Atom.mk (Vec3.mk (50000/66667) (50000/200001) (50000/66667)) "X", Atom.mk (Vec3.mk (50000/66667) (50000/66667) (50000/66667)) "X"],
  GrowState.mk [Vec3i.mk 1 1 2, Vec3i.mk (-1) (-1) 0, Vec3i.mk (-1) (-1) 2, Vec3i.mk (-1) 1 0, Vec3i.mk 1 (-1) 0, Vec3i.mk 2 1 0, Vec3i.mk 1 2 0, Vec3i.mk 1 1 1, Vec3i.mk 1 1 (-1), Vec3i.mk 2 2 0, Vec3i.mk 2 0 0, Vec3i.mk 0 2 0, Vec3i.mk 1 2 1, Vec3i.mk 1 2 (-1), Vec3i.mk 1 0 1, Vec3i.mk 2 1 1, Vec3i.mk 2 1 (-1), Vec3i.mk 0 1 1, Vec3i.mk 2 2 1, Vec3i.mk 0 2 (-1), Vec3i.mk 2 0 (-1), Vec3i.mk 1 1 1, Vec3i.mk 0 2 1, Vec3i.mk 0 1 2, Vec3i.mk (-1) 1 1, Vec3i.mk 1 2 1, Vec3i.mk 1 0 1, Vec3i.mk (-1) 2 1, Vec3i.mk 0 2 2, Vec3i.mk 0 2 0, Vec3i.mk 0 0 2, Vec3i.mk 1 1 2, Vec3i.mk (-1) 1 2, Vec3i.mk 1 2 2, Vec3i.mk (-1) 0 2, Vec3i.mk (-1) 2 0, Vec3i.mk 2 0 1, Vec3i.mk 1 1 1, Vec3i.mk 1 0 2, Vec3i.mk 1 (-1) 1, Vec3i.mk 2 1 1, Vec3i.mk 2 (-1) 1, Vec3i.mk 1 1 2, Vec3i.mk 1 (-1) 2, Vec3i.mk 2 0 2, Vec3i.mk 2 0 0, Vec3i.mk 0 0 2, Vec3i.mk 2 1 2, Vec3i.mk 0 (-1) 2, Vec3i.mk 2 (-1) 0, Vec3i.mk 2 1 1, Vec3i.mk 1 2 1, Vec3i.mk 1 1 2, Vec3i.mk 2 2 1, Vec3i.mk 2 0 1, Vec3i.mk 0 2 1, Vec3i.mk 1 2 2, Vec3i.mk 1 2 0, Vec3i.mk 1 0 2, Vec3i.mk 2 1 2, Vec3i.mk 2 1 0, Vec3i.mk 0 1 2, Vec3i.mk 2 2 2, Vec3i.mk 0 0 2, Vec3i.mk 0 2 0, Vec3i.mk 2 0 0] [Vec3i.mk (-1) 0 2, Vec3i.mk 1 0 2, Vec3i.mk 0 (-1) 2, Vec3i.mk 0 1 2, Vec3i.mk 0 0 2, Vec3i.mk (-1) 2 (-1), Vec3i.mk (-1) 0 (-1), Vec3i.mk 1 2 1, Vec3i.mk (-1) 1 1, Vec3i.mk 0 2 (-1), Vec3i.mk 0 2 1, Vec3i.mk (-1) 2 0, Vec3i.mk 1 2 0, Vec3i.mk 0 2 0, Vec3i.mk 2 (-1) (-1), Vec3i.mk 0 (-1) (-1), Vec3i.mk 2 1 1, Vec3i.mk 2 0 (-1), Vec3i.mk 2 0 1, Vec3i.mk 1 (-1) 1, Vec3i.mk 1 1 (-1), Vec3i.mk 2 (-1) 0, Vec3i.mk 2 1 0, Vec3i.mk 2 0 0, Vec3i.mk 1 (-1) (-1), Vec3i.mk (-1) 1 (-1), Vec3i.mk (-1) (-1) 1, Vec3i.mk (-1) (-1) (-1), Vec3i.mk 1 1 1, Vec3i.mk (-1) 0 1, Vec3i.mk 1 0 (-1), Vec3i.mk 1 0 1, Vec3i.mk 0 (-1) 1, Vec3i.mk 0 1 (-1), Vec3i.mk 0 1 1, Vec3i.mk (-1) 1 0, Vec3i.mk 1 (-1) 0, Vec3i.mk 1 1 0, Vec3i.mk 0 0 (-1), Vec3i.mk 0 (-1) 0, Vec3i.mk (-1) 0 0, Vec3i.mk 0 0 1, Vec3i.mk 0 1 0, Vec3i.mk 1 0 0, Vec3i.mk 0 0 0] [Atom.mk (Vec3.mk (50000/200001) (50000/200001) (50000/200001)) "X", Atom.mk (Vec3.mk (50000/66667) (50000/200001) (50000/200001)) "X", Atom.mk (Vec3.mk (50000/200001) (50000/66667) (50000/200001)) "X", Atom.mk (Vec3.mk (50000/200001) (50000/200001) (50000/66667)) "X", Atom.mk (Vec3.mk (50000/66667) (50000/66667) (50000/200001)) "X", Atom.mk (Vec3.mk (50000/200001) (50000/66667) (50000/66667)) "X", Atom.mk (Vec3.mk (50000/66667) (50000/200001) (50000/66667)) "X", Atom.mk (Vec3.mk (50000/66667) (50000/66667) (50000/66667)) "X"],
  GrowState.mk [Vec3i.mk (-1) (-1) 0, Vec3i.mk (-1) (-1) 2, Vec3i.mk (-1) 1 0, Vec3i.mk 1 (-1) 0, Vec3i.mk 2 1 0, Vec3i.mk 1 2 0, Vec3i.mk 1 1 1, Vec3i.mk 1 1 (-1), Vec3i.mk 2 2 0, Vec3i.mk 2 0 0, Vec3i.mk 0 2 0, Vec3i.mk 1 2 1, Vec3i.mk 1 2 (-1), Vec3i.mk 1 0 1, Vec3i.mk 2 1 1, Vec3i.mk 2 1 (-1), Vec3i.mk 0 1 1, Vec3i.mk 2 2 1, Vec3i.mk 0 2 (-1), Vec3i.mk 2 0 (-1), Vec3i.mk 1 1 1, Vec3i.mk 0 2 1, Vec3i.mk 0 1 2, Vec3i.mk (-1) 1 1, Vec3i.mk 1 2 1, Vec3i.mk 1 0 1, Vec3i.mk (-1) 2 1, Vec3i.mk 0 2 2, Vec3i.mk 0 2 0, Vec3i.mk 0 0 2, Vec3i.mk 1 1 2, Vec3i.mk (-1) 1 2, Vec3i.mk 1 2 2, Vec3i.mk (-1) 0 2, Vec3i.mk (-1) 2 0, Vec3i.mk 2 0 1, Vec3i.mk 1 1 1, Vec3i.mk 1 0 2, Vec3i.mk 1 (-1) 1, Vec3i.mk 2 1 1, Vec3i.mk 2 (-1) 1, Vec3i.mk 1 1 2, Vec3i.mk 1 (-1) 2, Vec3i.mk 2 0 2, Vec3i.mk 2 0 0, Vec3i.mk 0 0 2, Vec3i.mk 2 1 2, Vec3i.mk 0 (-1) 2, Vec3i.mk 2 (-1) 0, Vec3i.mk 2 1 1, Vec3i.mk 1 2 1, Vec3i.mk 1 1 2, Vec3i.mk 2 2 1, Vec3i.mk 2 0 1, Vec3i.mk 0 2 1, Vec3i.mk 1 2 2, Vec3i.mk 1 2 0, Vec3i.mk 1 0 2, Vec3i.mk 2 1 2, Vec3i.mk 2 1 0, Vec3i.mk 0 1 2, Vec3i.mk 2 2 2, Vec3i.mk 0 0 2, Vec3i.mk 0 2 0, Vec3i.mk 2 0 0] [Vec3i.mk 1 1 2, Vec3i.mk (-1) 0 2, Vec3i.mk 1 0 2, Vec3i.mk 0 (-1) 2, Vec3i.mk 0 1 2, Vec3i.mk 0 0 2, Vec3i.mk (-1) 2 (-1), Vec3i.mk (-1) 0 (-1), Vec3i.mk 1 2 1, Vec3i.mk (-1) 1 1, Vec3i.mk 0 2 (-1), Vec3i.mk 0 2 1, Vec3i.mk (-1) 2 0, Vec3i.mk 1 2 0, Vec3i.mk 0 2 0, Vec3i.mk 2 (-1) (-1), Vec3i.mk 0 (-1) (-1), Vec3i.mk 2 1 1, Vec3i.mk 2 0 (-1), Vec3i.mk 2 0 1, Vec3i.mk 1 (-1) 1, Vec3i.mk 1 1 (-1), Vec3i.mk 2 (-1) 0, Vec3i.mk 2 1 0, Vec3i.mk 2 0 0, Vec3i.mk 1 (-1) (-1), Vec3i.mk (-1) 1 (-1), Vec3i.mk (-1) (-1) 1, Vec3i.mk (-1) (-1) (-1), Vec3i.mk 1 1 1, Vec3i.mk (-1) 0 1, Vec3i.mk 1 0 (-1), Vec3i.mk 1 0 1, Vec3i.mk 0 (-1) 1, Vec3i.mk 0 1 (-1), Vec3i.mk 0 1 1, Vec3i.mk (-1) 1 0, Vec3i.mk 1 (-1) 0, Vec3i.mk 1 1 0, Vec3i.mk 0 0 (-1), Vec3i.mk 0 (-1) 0, Vec3i.mk (-1) 0 0, Vec3i.mk 0 0 1, Vec3i.mk 0 1 0, Vec3i.mk 1 0 0, Vec3i.mk 0 0 0] [Atom.mk (Vec3.mk (50000/200001) (50000/200001) (50000/200001)) "X", Atom.mk (Vec3.mk (50000/66667) (50000/200001) (50000/200001)) "X", Atom.mk (Vec3.mk (50000/200001) (50000/66667) (50000/200001)) "X", Atom.mk (Vec3.mk (50000/200001) (50000/200001) (50000/66667)) "X", Atom.mk (Vec3.mk (50000/66667) (50000/66667) (50000/200001)) "X", Atom.mk (Vec3.mk (50000/200001) (50000/66667) (50000/66667)) "X", Atom.mk (Vec3.mk (50000/66667) (50000/200001) (50000/66667)) "X", Atom.mk (Vec3.mk (50000/66667) (50000/66667) (50000/66667)) "X"],
  GrowState.mk [Vec3i.mk (-1) (-1) 2, Vec3i.mk (-1) 1 0, Vec3i.mk 1 (-1) 0, Vec3i.mk 2 1 0, Vec3i.mk 1 2 0, Vec3i.mk 1 1 1, Vec3i.mk 1 1 (-1), Vec3i.mk 2 2 0, Vec3i.mk 2 0 0, Vec3i.mk 0 2 0, Vec3i.mk 1 2 1, Vec3i.mk 1 2 (-1), Vec3i.mk 1 0 1, Vec3i.mk 2 1 1, Vec3i.mk 2 1 (-1), Vec3i.mk 0 1 1, Vec3i.mk 2 2 1, Vec3i.mk 0 2 (-1), Vec3i.mk 2 0 (-1), Vec3i.mk 1 1 1, Vec3i.mk 0 2 1, Vec3i.mk 0 1 2, Vec3i.mk (-1) 1 1, Vec3i.mk 1 2 1, Vec3i.mk 1 0 1, Vec3i.mk (-1) 2 1, Vec3i.mk 0 2 2, Vec3i.mk 0 2 0, Vec3i.mk 0 0 2, Vec3i.mk 1 1 2, Vec3i.mk (-1) 1 2, Vec3i.mk 1 2 2, Vec3i.mk (-1) 0 2, Vec3i.mk (-1) 2 0, Vec3i.mk 2 0 1, Vec3i.mk 1 1 1, Vec3i.mk 1 0 2, Vec3i.mk 1 (-1) 1, Vec3i.mk 2 1 1, Vec3i.mk 2 (-1) 1, Vec3i.mk 1 1 2, Vec3i.mk 1 (-1) 2, Vec3i.mk 2 0 2, Vec3i.mk 2 0 0, Vec3i.mk 0 0 2, Vec3i.mk 2 1 2, Vec3i.mk 0 (-1) 2, Vec3i.mk 2 (-1) 0, Vec3i.mk 2 1 1, Vec3i.mk 1 2 1, Vec3i.mk 1 1 2, Vec3i.mk 2 2 1, Vec3i.mk 2 0 1, Vec3i.mk 0 2 1, Vec3i.mk 1 2 2, Vec3i.mk 1 2 0, Vec3i.mk 1 0 2, Vec3i.mk 2 1 2, Vec3i.mk 2 1 0, Vec3i.mk 0 1 2, Vec3i.mk 2 2 2, Vec3i.mk 0 0 2, Vec3i.mk 0 2 0, Vec3i.mk 2 0 0] [Vec3i.mk (-1) (-1) 0, Vec3i.mk 1 1 2, Vec3i.mk (-1) 0 2, Vec3i.mk 1 0 2, Vec3i.mk 0 (-1) 2, Vec3i.mk 0 1 2, Vec3i.mk 0 0 2, Vec3i.mk (-1) 2 (-1), Vec3i.mk (-1) 0 (-1), Vec3i.mk 1 2 1, Vec3i.mk (-1) 1 1, Vec3i.mk 0 2 (-1), Vec3i.mk 0 2 1, Vec3i.mk (-1) 2 0, Vec3i.mk 1 2 0, Vec3i.mk 0 2 0, Vec3i.mk 2 (-1) (-1), Vec3i.mk 0 (-1) (-1), Vec3i.mk 2 1 1, Vec3i.mk 2 0 (-1), Vec3i.mk 2 0 1, Vec3i.mk 1 (-1) 1, Vec3i.mk 1 1 (-1), Vec3i.mk 2 (-1) 0, Vec3i.mk 2 1 0, Vec3i.mk 2 0 0, Vec3i.mk 1 (-1) (-1), Vec3i.mk (-1) 1 (-1), Vec3i.mk (-1) (-1) 1, Vec3i.mk (-1) (-1) (-1), Vec3i.mk 1 1 1, Vec3i.mk (-1) 0 1, Vec3i.mk 1 0 (-1), Vec3i.mk 1 0 1, Vec3i.mk 0 (-1) 1, Vec3i.mk 0 1 (-1), Vec3i.mk 0 1 1, Vec3i.mk (-1) 1 0, Vec3i.mk 1 (-1) 0, Vec3i.mk 1 1 0, Vec3i.mk 0 0 (-1), Vec3i.mk 0 (-1) 0, Vec3i.mk (-1) 0 0, Vec3i.mk 0 0 1, Vec3i.mk 0 1 0, Vec3i.mk 1 0 0, Vec3i.mk 0 0 0] [Atom.mk (Vec3.mk (50000/200001) (50000/200001) (50000/200001)) "X", Atom.mk (Vec3.mk (50000/66667) (50000/200001) (50000/200001)) "X", Atom.mk (Vec3.mk (50000/200001) (50000/66667) (50000/200001)) "X", Atom.mk (Vec3.mk (50000/200001) (50000/200001) (50000/66667)) "X", Atom.mk (Vec3.mk (50000/66667) (50000/66667) (50000/200001)) "X", Atom.mk (Vec3.mk (50000/200001) (50000/66667) (50000/66667)) "X", Atom.mk (Vec3.mk (50000/66667) (50000/200001) (50000/66667)) "X", Atom.mk (Vec3.mk (50000/66667) (50000/66667) (50000/66667)) "X"],
  GrowState.mk [Vec3i.mk (-1) 1 0, Vec3i.mk 1 (-1) 0, Vec3i.mk 2 1 0, Vec3i.mk 1 2 0, Vec3i.mk 1 1 1, Vec3i.mk 1 1 (-1), Vec3i.mk 2 2 0, Vec3i.mk 2 0 0, Vec3i.mk 0 2 0, Vec3i.mk 1 2 1, Vec3i.mk 1 2 (-1), Vec3i.mk 1 0 1, Vec3i.mk 2 1 1, Vec3i.mk 2 1 (-1), Vec3i.mk 0 1 1, Vec3i.mk 2 2 1, Vec3i.mk 0 2 (-1), Vec3i.mk 2 0 (-1), Vec3i.mk 1 1 1, Vec3i.mk 0 2 1, Vec3i.mk 0 1 2, Vec3i.mk (-1) 1 1, Vec3i.mk 1 2 1, Vec3i.mk 1 0 1, Vec3i.mk (-1) 2 1, Vec3i.mk 0 2 2, Vec3i.mk 0 2 0, Vec3i.mk 0 0 2, Vec3i.mk 1 1 2, Vec3i.mk (-1) 1 2, Vec3i.mk 1 2 2, Vec3i.mk (-1) 0 2, Vec3i.mk (-1) 2 0, Vec3i.mk 2 0 1, Vec3i.mk 1 1 1, Vec3i.mk 1 0 2, Vec3i.mk 1 (-1) 1, Vec3i.mk 2 1 1, Vec3i.mk 2 (-1) 1, Vec3i.mk 1 1 2, Vec3i.mk 1 (-1) 2, Vec3i.mk 2 0 2, Vec3i.mk 2 0 0, Vec3i.mk 0 0 2, Vec3i.mk 2 1 2, Vec3i.mk 0 (-1) 2, Vec3i.mk 2 (-1) 0, Vec3i.mk 2 1 1, Vec3i.mk 1 2 1, Vec3i.mk 1 1 2, Vec3i.mk 2 2 1, Vec3i.mk 2 0 1, Vec3i.mk 0 2 1, Vec3i.mk 1 2 2, Vec3i.mk 1 2 0, Vec3i.mk 1 0 2, Vec3i.mk 2 1 2, Vec3i.mk 2 1 0, Vec3i.mk 0 1 2, Vec3i.mk 2 2 2, Vec3i.mk 0 0 2, Vec3i.mk 0 2 0, Vec3i.mk 2 0 0] [Vec3i.mk (-1) (-1) 2, Vec3i.mk (-1) (-1) 0, Vec3i.mk 1 1 2, Vec3i.mk (-1) 0 2, Vec3i.mk 1 0 2, Vec3i.mk 0 (-1) 2, Vec3i.mk 0 1 2, Vec3i.mk 0 0 2, Vec3i.mk (-1) 2 (-1), Vec3i.mk (-1) 0 (-1), Vec3i.mk 1 2 1, Vec3i.mk (-1) 1 1, Vec3i.mk 0 2 (-1), Vec3i.mk 0 2 1, Vec3i.mk (-1) 2 0, Vec3i.mk 1 2 0, Vec3i.mk 0 2 0, Vec3i.mk 2 (-1) (-1), Vec3i.mk 0 (-1) (-1), Vec3i.mk 2 1 1, Vec3i.mk 2 0 (-1), Vec3i.mk 2 0 1, Vec3i.mk 1 (-1) 1, Vec3i.mk 1 1 (-1), Vec3i.mk 2 (-1) 0, Vec3i.mk 2 1 0, Vec3i.mk 2 0 0, Vec3i.mk 1 (-1) (-1), Vec3i.mk (-1) 1 (-1), Vec3i.mk (-1) (-1) 1, Vec3i.mk (-1) (-1) (-1), Vec3i.mk 1 1 1, Vec3i.mk (-1) 0 1, Vec3i.mk 1 0 (-1), Vec3i.mk 1 0 1, Vec3i.mk 0 (-1) 1, Vec3i.mk 0 1 (-1), Vec3i.mk 0 1 1, Vec3i.mk (-1) 1 0, Vec3i.mk 1 (-1) 0, Vec3i.mk 1 1 0, Vec3i.mk 0 0 (-1), Vec3i.mk 0 (-1) 0, Vec3i.mk (-1) 0 0, Vec3i.mk 0 0 1, Vec3i.mk 0 1 0, Vec3i.mk 1 0 0, Vec3i.mk 0 0 0] [Atom.mk (Vec3.mk (50000/200001) (50000/200001) (50000/200001)) "X", Atom.mk (Vec3.mk (50000/66667) (50000/200001) (50000/200001)) "X", Atom.mk (Vec3.mk (50000/200001) (50000/66667) (50000/200001)) "X", Atom.mk (Vec3.mk (50000/200001) (50000/200001) (50000/66667)) "X", Atom.mk (Vec3.mk (50000/66667) (50000/66667) (50000/200001)) "X", Atom.mk (Vec3.mk (50000/200001) (50000/66667) (50000/66667)) "X", Atom.mk (Vec3.mk (50000/66667) (50000/200001) (50000/66667)) "X", Atom.mk (Vec3.mk (50000/66667) (50000/66667) (50000/66667)) "X"],
  GrowState.mk [Vec3i.mk 1 (-1) 0, Vec3i.mk 2 1 0, Vec3i.mk 1 2 0, Vec3i.mk 1 1 1, Vec3i.mk 1 1 (-1), Vec3i.mk 2 2 0, Vec3i.mk 2 0 0, Vec3i.mk 0 2 0, Vec3i.mk 1 2 1, Vec3i.mk 1 2 (-1), Vec3i.mk 1 0 1, Vec3i.mk 2 1 1, Vec3i.mk 2 1 (-1), Vec3i.mk 0 1 1, Vec3i.mk 2 2 1, Vec3i.mk 0 2 (-1), Vec3i.mk 2 0 (-1), Vec3i.mk 1 1 1, Vec3i.mk 0 2 1, Vec3i.mk 0 1 2, Vec3i.mk (-1) 1 1, Vec3i.mk 1 2 1, Vec3i.mk 1 0 1, Vec3i.mk (-1) 2 1, Vec3i.mk 0 2 2, Vec3i.mk 0 2 0, Vec3i.mk 0 0 2, Vec3i.mk 1 1 2, Vec3i.mk (-1) 1 2, Vec3i.mk 1 2 2, Vec3i.mk (-1) 0 2, Vec3i.mk (-1) 2 0, Vec3i.mk 2 0 1, Vec3i.mk 1 1 1, Vec3i.mk 1 0 2, Vec3i.mk 1 (-1) 1, Vec3i.mk 2 1 1, Vec3i.mk 2 (-1) 1, Vec3i.mk 1 1 2, Vec3i.mk 1 (-1) 2, Vec3i.mk 2 0 2, Vec3i.mk 2 0 0, Vec3i.mk 0 0 2, Vec3i.mk 2 1 2, Vec3i.mk 0 (-1) 2, Vec3i.mk 2 (-1) 0, Vec3i.mk 2 1 1, Vec3i.mk 1 2 1, Vec3i.mk 1 1 2, Vec3i.mk 2 2 1, Vec3i.mk 2 0 1, Vec3i.mk 0 2 1, Vec3i.mk 1 2 2, Vec3i.mk 1 2 0, Vec3i.mk 1 0 2, Vec3i.mk 2 1 2, Vec3i.mk 2 1 0, Vec3i.mk 0 1 2, Vec3i.mk 2 2 2, Vec3i.mk 0 0 2, Vec3i.mk 0 2 0, Vec3i.mk 2 0 0] [Vec3i.mk (-1) (-1) 2, Vec3i.mk (-1) (-1) 0, Vec3i.mk 1 1 2, Vec3i.mk (-1) 0 2, Vec3i.mk 1 0 2, Vec3i.mk 0 (-1) 2, Vec3i.mk 0 1 2, Vec3i.mk 0 0 2, Vec3i.mk (-1) 2 (-1), Vec3i.mk (-1) 0 (-1), Vec3i.mk 1 2 1, Vec3i.mk (-1) 1 1, Vec3i.mk 0 2 (-1), Vec3i.mk 0 2 1, Vec3i.mk (-1) 2 0, Vec3i.mk 1 2 0, Vec3i.mk 0 2 0, Vec3i.mk 2 (-1) (-1), Vec3i.mk 0 (-1) (-1), Vec3i.mk 2 1 1, Vec3i.mk 2 0 (-1), Vec3i.mk 2 0 1, Vec3i.mk 1 (-1) 1, Vec3i.mk 1 1 (-1), Vec3i.mk 2 (-1) 0, Vec3i.mk 2 1 0, Vec3i.mk 2 0 0, Vec3i.mk 1 (-1) (-1), Vec3i.mk (-1) 1 (-1), Vec3i.mk (-1) (-1) 1, Vec3i.mk (-1) (-1) (-1), Vec3i.mk 1 1 1, Vec3i.mk (-1) 0 1, Vec3i.mk 1 0 (-1), Vec3i.mk 1 0 1, Vec3i.mk 0 (-1) 1, Vec3i.mk 0 1 (-1), Vec3i.mk 0 1 1, Vec3i.mk (-1) 1 0, Vec3i.mk 1 (-1) 0, Vec3i.mk 1 1 0, Vec3i.mk 0 0 (-1), Vec3i.mk 0 (-1) 0, Vec3i.mk (-1) 0 0, Vec3i.mk 0 0 1, Vec3i.mk 0 1 0, Vec3i.mk 1 0 0, Vec3i.mk 0 0 0] [Atom.mk (Vec3.mk (50000/200001) (50000/200001) (50000/200001)) "X", Atom.mk (Vec3.mk (50000/66667) (50000/200001) (50000/200001)) "X", Atom.mk (Vec3.mk (50000/200001) (50000/66667) (50000/200001)) "X", Atom.mk (Vec3.mk (50000/200001) (50000/200001) (50000/66667)) "X", Atom.mk (Vec3.mk (50000/66667) (50000/66667) (50000/200001)) "X", Atom.mk (Vec3.mk (50000/200001) (50000/66667) (50000/66667)) "X", Atom.mk (Vec3.mk (50000/66667) (50000/200001) (50000/66667)) "X", Atom.mk (Vec3.mk (50000/66667) (50000/66667) (50000/66667)) "X"],
  GrowState.mk [Vec3i.mk 2 1 0, Vec3i.mk 1 2 0, Vec3i.mk 1 1 1, Vec3i.mk 1 1 (-1), Vec3i.mk 2 2 0, Vec3i.mk 2 0 0, Vec3i.mk 0 2 0, Vec3i.mk 1 2 1, Vec3i.mk 1 2 (-1), Vec3i.mk 1 0 1, Vec3i.mk 2 1 1, Vec3i.mk 2 1 (-1), Vec3i.mk 0 1 1, Vec3i.mk 2 2 1, Vec3i.mk 0 2 (-1), Vec3i.mk 2 0 (-1), Vec3i.mk 1 1 1, Vec3i.mk 0 2 1, Vec3i.mk 0 1 2, Vec3i.mk (-1) 1 1, Vec3i.mk 1 2 1, Vec3i.mk 1 0 1, Vec3i.mk (-1) 2 1, Vec3i.mk 0 2 2, Vec3i.mk 0 2 0, Vec3i.mk 0 0 2, Vec3i.mk 1 1 2, Vec3i.mk (-1) 1 2, Vec3i.mk 1 2 2, Vec3i.mk (-1) 0 2, Vec3i.mk (-1) 2 0, Vec3i.mk 2 0 1, Vec3i.mk 1 1 1, Vec3i.mk 1 0 2, Vec3i.mk 1 (-1) 1, Vec3i.mk 2 1 1, Vec3i.mk 2 (-1) 1, Vec3i.mk 1 1 2, Vec3i.mk 1 (-1) 2, Vec3i.mk 2 0 2, Vec3i.mk 2 0 0, Vec3i.mk 0 0 2, Vec3i.mk 2 1 2, Vec3i.mk 0 (-1) 2, Vec3i.mk 2 (-1) 0, Vec3i.mk 2 1 1, Vec3i.mk 1 2 1, Vec3i.mk 1 1 2, Vec3i.mk 2 2 1, Vec3i.mk 2 0 1, Vec3i.mk 0 2 1, Vec3i.mk 1 2 2, Vec3i.mk 1 2 0, Vec3i.mk 1 0 2, Vec3i.mk 2 1 2, Vec3i.mk 2 1 0, Vec3i.mk 0 1 2, Vec3i.mk 2 2 2, Vec3i.mk 0 0 2, Vec3i.mk 0 2 0, Vec3i.mk 2 0 0] [Vec3i.mk (-1) (-1) 2, Vec3i.mk (-1) (-1) 0, Vec3i.mk 1 1 2, Vec3i.mk (-1) 0 2, Vec3i.mk 1 0 2, Vec3i.mk 0 (-1) 2, Vec3i.mk 0 1 2, Vec3i.mk 0 0 2, Vec3i.mk (-1) 2 (-1), Vec3i.mk (-1) 0 (-1), Vec3i.mk 1 2 1, Vec3i.mk (-1) 1 1, Vec3i.mk 0 2 (-1), Vec3i.mk 0 2 1, Vec3i.mk (-1) 2 0, Vec3i.mk 1 2 0, Vec3i.mk 0 2 0, Vec3i.mk 2 (-1) (-1), Vec3i.mk 0 (-1) (-1), Vec3i.mk 2 1 1, Vec3i.mk 2 0 (-1), Vec3i.mk 2 0 1, Vec3i.mk 1 (-1) 1, Vec3i.mk 1 1 (-1), Vec3i.mk 2 (-1) 0, Vec3i.mk 2 1 0, Vec3i.mk 2 0 0, Vec3i.mk 1 (-1) (-1), Vec3i.mk (-1) 1 (-1), Vec3i.mk (-1) (-1) 1, Vec3i.mk (-1) (-1) (-1), Vec3i.mk 1 1 1, Vec3i.mk (-1) 0 1, Vec3i.mk 1 0 (-1), Vec3i.mk 1 0 1, Vec3i.mk 0 (-1) 1, Vec3i.mk 0 1 (-1), Vec3i.mk 0 1 1, Vec3i.mk (-1) 1 0, Vec3i.mk 1 (-1) 0, Vec3i.mk 1 1 0, Vec3i.mk 0 0 (-1), Vec3i.mk 0 (-1) 0, Vec3i.mk (-1) 0 0, Vec3i.mk 0 0 1, Vec3i.mk 0 1 0, Vec3i.mk 1 0 0, Vec3i.mk 0 0 0] [Atom.mk (Vec3.mk (50000/200001) (50000/200001) (50000/200001)) "X", Atom.mk (Vec3.mk (50000/66667) (50000/200001) (50000/200001)) "X", Atom.mk (Vec3.mk (50000/200001) (50000/66667) (50000/200001)) "X", Atom.mk (Vec3.mk (50000/200001) (50000/200001) (50000/66667)) "X", Atom.mk (Vec3.mk (50000/66667) (50000/66667) (50000/200001)) "X", Atom.mk (Vec3.mk (50000/200001) (50000/66667) (50000/66667)) "X", Atom.mk (Vec3.mk (50000/66667) (50000/200001) (50000/66667)) "X", Atom.mk (Vec3.mk (50000/66667) (50000/66667) (50000/66667)) "X"],
  GrowState.mk [Vec3i.mk 1 2 0, Vec3i.mk 1 1 1, Vec3i.mk 1 1 (-1), Vec3i.mk 2 2 0, Vec3i.mk 2 0 0, Vec3i.mk 0 2 0, Vec3i.mk 1 2 1, Vec3i.mk 1 2 (-1), Vec3i.mk 1 0 1, Vec3i.mk 2 1 1, Vec3i.mk 2 1 (-1), Vec3i.mk 0 1 1, Vec3i.mk 2 2 1, Vec3i.mk 0 2 (-1), Vec3i.mk 2 0 (-1), Vec3i.mk 1 1 1, Vec3i.mk 0 2 1, Vec3i.mk 0 1 2, Vec3i.mk (-1) 1 1, Vec3i.mk 1 2 1, Vec3i.mk 1 0 1, Vec3i.mk (-1) 2 1, Vec3i.mk 0 2 2, Vec3i.mk 0 2 0, Vec3i.mk 0 0 2, Vec3i.mk 1 1 2, Vec3i.mk (-1) 1 2, Vec3i.mk 1 2 2, Vec3i.mk (-1) 0 2, Vec3i.mk (-1) 2 0, Vec3i.mk 2 0 1, Vec3i.mk 1 1 1, Vec3i.mk 1 0 2, Vec3i.mk 1 (-1) 1, Vec3i.mk 2 1 1, Vec3i.mk 2 (-1) 1, Vec3i.mk 1 1 2, Vec3i.mk 1 (-1) 2, Vec3i.mk 2 0 2, Vec3i.mk 2 0 0, Vec3i.mk 0 0 2, Vec3i.mk 2 1 2, Vec3i.mk 0 (-1) 2, Vec3i.mk 2 (-1) 0, Vec3i.mk 2 1 1, Vec3i.mk 1 2 1, Vec3i.mk 1 1 2, Vec3i.mk 2 2 1, Vec3i.mk 2 0 1, Vec3i.mk 0 2 1, Vec3i.mk 1 2 2, Vec3i.mk 1 2 0, Vec3i.mk 1 0 2, Vec3i.mk 2 1 2, Vec3i.mk 2 1 0, Vec3i.mk 0 1 2, Vec3i.mk 2 2 2, Vec3i.mk 0 0 2, Vec3i.mk 0 2 0, Vec3i.mk 2 0 0] [Vec3i.mk (-1) (-1) 2, Vec3i.mk (-1) (-1) 0, Vec3i.mk 1 1 2, Vec3i.mk (-1) 0 2, Vec3i.mk 1 0 2, Vec3i.mk 0 (-1) 2, Vec3i.mk 0 1 2, Vec3i.mk 0 0 2, Vec3i.mk (-1) 2 (-1), Vec3i.mk (-1) 0 (-1), Vec3i.mk 1 2 1, Vec3i.mk (-1) 1 1, Vec3i.mk 0 2 (-1), Vec3i.mk 0 2 1, Vec3i.mk (-1) 2 0, Vec3i.mk 1 2 0, Vec3i.mk 0 2 0, Vec3i.mk 2 (-1) (-1), Vec3i.mk 0 (-1) (-1), Vec3i.mk 2 1 1, Vec3i.mk 2 0 (-1), Vec3i.mk 2 0 1, Vec3i.mk 1 (-1) 1, Vec3i.mk 1 1 (-1), Vec3i.mk 2 (-1) 0, Vec3i.mk 2 1 0, Vec3i.mk 2 0 0, Vec3i.mk 1 (-1) (-1), Vec3i.mk (-1) 1 (-1), Vec3i.mk (-1) (-1) 1, Vec3i.mk (-1) (-1) (-1), Vec3i.mk 1 1 1, Vec3i.mk (-1) 0 1, Vec3i.mk 1 0 (-1), Vec3i.mk 1 0 1, Vec3i.mk 0 (-1) 1, Vec3i.mk 0 1 (-1), Vec3i.mk 0 1 1, Vec3i.mk (-1) 1 0, Vec3i.mk 1 (-1) 0, Vec3i.mk 1 1 0, Vec3i.mk 0 0 (-1), Vec3i.mk 0 (-1) 0, Vec3i.mk (-1) 0 0, Vec3i.mk 0 0 1, Vec3i.mk 0 1 0, Vec3i.mk 1 0 0, Vec3i.mk 0 0 0] [Atom.mk (Vec3.mk (50000/200001) (50000/200001) (50000/200001)) "X", Atom.mk (Vec3.mk (50000/66667) (50000/200001) (50000/200001)) "X", Atom.mk (Vec3.mk (50000/200001) (50000/66667) (50000/200001)) "X", Atom.mk (Vec3.mk (50000/200001) (50000/200001) (50000/66667)) "X", Atom.mk (Vec3.mk (50000/66667) (50000/66667) (50000/200001)) "X", Atom.mk (Vec3.mk (50000/200001) (50000/66667) (50000/66667)) "X", Atom.mk (Vec3.mk (50000/66667) (50000/200001) (50000/66667)) "X", Atom.mk (Vec3.mk (50000/66667) (50000/66667) (50000/66667)) "X"],
  GrowState.mk [Vec3i.mk 1 1 1, Vec3i.mk 1 1 (-1), Vec3i.mk 2 2 0, Vec3i.mk 2 0 0, Vec3i.mk 0 2 0, Vec3i.mk 1 2 1, Vec3i.mk 1 2 (-1), Vec3i.mk 1 0 1, Vec3i.mk 2 1 1, Vec3i.mk 2 1 (-1), Vec3i.mk 0 1 1, Vec3i.mk 2 2 1, Vec3i.mk 0 2 (-1), Vec3i.mk 2 0 (-1), Vec3i.mk 1 1 1, Vec3i.mk 0 2 1, Vec3i.mk 0 1 2, Vec3i.mk (-1) 1 1, Vec3i.mk 1 2 1, Vec3i.mk 1 0 1, Vec3i.mk (-1) 2 1, Vec3i.mk 0 2 2, Vec3i.mk 0 2 0, Vec3i.mk 0 0 2, Vec3i.mk 1 1 2, Vec3i.mk (-1) 1 2, Vec3i.mk 1 2 2, Vec3i.mk (-1) 0 2, Vec3i.mk (-1) 2 0, Vec3i.mk 2 0 1, Vec3i.mk 1 1 1, Vec3i.mk 1 0 2, Vec3i.mk 1 (-1) 1, Vec3i.mk 2 1 1, Vec3i.mk 2 (-1) 1, Vec3i.mk 1 1 2, Vec3i.mk 1 (-1) 2, Vec3i.mk 2 0 2, Vec3i.mk 2 0 0, Vec3i.mk 0 0 2, Vec3i.mk 2 1 2, Vec3i.mk 0 (-1) 2, Vec3i.mk 2 (-1) 0, Vec3i.mk 2 1 1, Vec3i.mk 1 2 1, Vec3i.mk 1 1 2, Vec3i.mk 2 2 1, Vec3i.mk 2 0 1, Vec3i.mk 0 2 1, Vec3i.mk 1 2 2, Vec3i.mk 1 2 0, Vec3i.mk 1 0 2, Vec3i.mk 2 1 2, Vec3i.mk 2 1 0, Vec3i.mk 0 1 2, Vec3i.mk 2 2 2, Vec3i.mk 0 0 2, Vec3i.mk 0 2 0, Vec3i.mk 2 0 0] [Vec3i.mk (-1) (-1) 2, Vec3i.mk (-1) (-1) 0, Vec3i.mk 1 1 2, Vec3i.mk (-1) 0 2, Vec3i.mk 1 0 2, Vec3i.mk 0 (-1) 2, Vec3i.mk 0 1 2, Vec3i.mk 0 0 2, Vec3i.mk (-1) 2 (-1), Vec3i.mk (-1) 0 (-1), Vec3i.mk 1 2 1, Vec3i.mk (-1) 1 1, Vec3i.mk 0 2 (-1), Vec3i.mk 0 2 1, Vec3i.mk (-1) 2 0, Vec3i.mk 1 2 0, Vec3i.mk 0 2 0, Vec3i.mk 2 (-1) (-1), Vec3i.mk 0 (-1) (-1), Vec3i.mk 2 1 1, Vec3i.mk 2 0 (-1), Vec3i.mk 2 0 1, Vec3i.mk 1 (-1) 1, Vec3i.mk 1 1 (-1), Vec3i.mk 2 (-1) 0, Vec3i.mk 2 1 0, Vec3i.mk 2 0 0, Vec3i.mk 1 (-1) (-1), Vec3i.mk (-1) 1 (-1), Vec3i.mk (-1) (-1) 1, Vec3i.mk (-1) (-1) (-1), Vec3i.mk 1 1 1, Vec3i.mk (-1) 0 1, Vec3i.mk 1 0 (-1), Vec3i.mk 1 0 1, Vec3i.mk 0 (-1) 1, Vec3i.mk 0 1 (-1), Vec3i.mk 0 1 1, Vec3i.mk (-1) 1 0, Vec3i.mk 1 (-1) 0, Vec3i.mk 1 1 0, Vec3i.mk 0 0 (-1), Vec3i.mk 0 (-1) 0, Vec3i.mk (-1) 0 0, Vec3i.mk 0 0 1, Vec3i.mk 0 1 0, Vec3i.mk 1 0 0, Vec3i.mk 0 0 0] [Atom.mk (Vec3.mk (50000/200001) (50000/200001) (50000/200001)) "X", Atom.mk (Vec3.mk (50000/66667) (50000/200001) (50000/200001)) "X", Atom.mk (Vec3.mk (50000/200001) (50000/66667) (50000/200001)) "X", Atom.mk (Vec3.mk (50000/200001) (50000/200001) (50000/66667)) "X", Atom.mk (Vec3.mk (50000/66667) (50000/66667) (50000/200001)) "X", Atom.mk (Vec3.mk (50000/200001) (50000/66667) (50000/66667)) "X", Atom.mk (Vec3.mk (50000/66667) (50000/200001) (50000/66667)) "X", Atom.mk (Vec3.mk (50000/66667) (50000/66667) (50000/66667)) "X"],
  GrowState.mk [Vec3i.mk 1 1 (-1), Vec3i.mk 2 2 0, Vec3i.mk 2 0 0, Vec3i.mk 0 2 0, Vec3i.mk 1 2 1, Vec3i.mk 1 2 (-1), Vec3i.mk 1 0 1, Vec3i.mk 2 1 1, Vec3i.mk 2 1 (-1), Vec3i.mk 0 1 1, Vec3i.mk 2 2 1, Vec3i.mk 0 2 (-1), Vec3i.mk 2 0 (-1), Vec3i.mk 1 1 1, Vec3i.mk 0 2 1, Vec3i.mk 0 1 2, Vec3i.mk (-1) 1 1, Vec3i.mk 1 2 1, Vec3i.mk 1 0 1, Vec3i.mk (-1) 2 1, Vec3i.mk 0 2 2, Vec3i.mk 0 2 0, Vec3i.mk 0 0 2, Vec3i.mk 1 1 2, Vec3i.mk (-1) 1 2, Vec3i.mk 1 2 2, Vec3i.mk (-1) 0 2, Vec3i.mk (-1) 2 0, Vec3i.mk 2 0 1, Vec3i.mk 1 1 1, Vec3i.mk 1 0 2, Vec3i.mk 1 (-1) 1, Vec3i.mk 2 1 1, Vec3i.mk 2 (-1) 1, Vec3i.mk 1 1 2, Vec3i.mk 1 (-1) 2, Vec3i.mk 2 0 2, Vec3i.mk 2 0 0, Vec3i.mk 0 0 2, Vec3i.mk 2 1 2, Vec3i.mk 0 (-1) 2, Vec3i.mk 2 (-1) 0, Vec3i.mk 2 1 1, Vec3i.mk 1 2 1, Vec3i.mk 1 1 2, Vec3i.mk 2 2 1, Vec3i.mk 2 0 1, Vec3i.mk 0 2 1, Vec3i.mk 1 2 2, Vec3i.mk 1 2 0, Vec3i.mk 1 0 2, Vec3i.mk 2 1 2, Vec3i.mk 2 1 0, Vec3i.mk 0 1 2, Vec3i.mk 2 2 2, Vec3i.mk 0 0 2, Vec3i.mk 0 2 0, Vec3i.mk 2 0 0] [Vec3i.mk (-1) (-1) 2, Vec3i.mk (-1) (-1) 0, Vec3i.mk 1 1 2, Vec3i.mk (-1) 0 2, Vec3i.mk 1 0 2, Vec3i.mk 0 (-1) 2, Vec3i.mk 0 1 2, Vec3i.mk 0 0 2, Vec3i.mk (-1) 2 (-1), Vec3i.mk (-1) 0 (-1), Vec3i.mk 1 2 1, Vec3i.mk (-1) 1 1, Vec3i.mk 0 2 (-1), Vec3i.mk 0 2 1, Vec3i.mk (-1) 2 0, Vec3i.mk 1 2 0, Vec3i.mk 0 2 0, Vec3i.mk 2 (-1) (-1), Vec3i.mk 0 (-1) (-1), Vec3i.mk 2 1 1, Vec3i.mk 2 0 (-1), Vec3i.mk 2 0 1, Vec3i.mk 1 (-1) 1, Vec3i.mk 1 1 (-1), Vec3i.mk 2 (-1) 0, Vec3i.mk 2 1 0, Vec3i.mk 2 0 0, Vec3i.mk 1 (-1) (-1), Vec3i.mk (-1) 1 (-1), Vec3i.mk (-1) (-1) 1, Vec3i.mk (-1) (-1) (-1), Vec3i.mk 1 1 1, Vec3i.mk (-1) 0 1, Vec3i.mk 1 0 (-1), Vec3i.mk 1 0 1, Vec3i.mk 0 (-1) 1, Vec3i.mk 0 1 (-1), Vec3i.mk 0 1 1, Vec3i.mk (-1) 1 0, Vec3i.mk 1 (-1) 0, Vec3i.mk 1 1 0, Vec3i.mk 0 0 (-1), Vec3i.mk 0 (-1) 0, Vec3i.mk (-1) 0 0, Vec3i.mk 0 0 1, Vec3i.mk 0 1 0, Vec3i.mk 1 0 0, Vec3i.mk 0 0 0] [Atom.mk (Vec3.mk (50000/200001) (50000/200001) (50000/200001)) "X", Atom.mk (Vec3.mk (50000/66667) (50000/200001) (50000/200001)) "X", Atom.mk (Vec3.mk (50000/200001) (50000/66667) (50000/200001)) "X", Atom.mk (Vec3.mk (50000/200001) (50000/200001) (50000/66667)) "X", Atom.mk (Vec3.mk (50000/66667) (50000/66667) (50000/200001)) "X", Atom.mk (Vec3.mk (50000/200001) (50000/66667) (50000/66667)) "X", Atom.mk (Vec3.mk (50000/66667) (50000/200001) (50000/66667)) "X", Atom.mk (Vec3.mk (50000/66667) (50000/66667) (50000/66667)) "X"],
  GrowState.mk [Vec3i.mk 2 2 0, Vec3i.mk 2 0 0, Vec3i.mk 0 2 0, Vec3i.mk 1 2 1, Vec3i.mk 1 2 (-1), Vec3i.mk 1 0 1, Vec3i.mk 2 1 1, Vec3i.mk 2 1 (-1), Vec3i.mk 0 1 1, Vec3i.mk 2 2 1, Vec3i.mk 0 2 (-1), Vec3i.mk 2 0 (-1), Vec3i.mk 1 1 1, Vec3i.mk 0 2 1, Vec3i.mk 0 1 2, Vec3i.mk (-1) 1 1, Vec3i.mk 1 2 1, Vec3i.mk 1 0 1, Vec3i.mk (-1) 2 1, Vec3i.mk 0 2 2, Vec3i.mk 0 2 0, Vec3i.mk 0 0 2, Vec3i.mk 1 1 2, Vec3i.mk (-1) 1 2, Vec3i.mk 1 2 2, Vec3i.mk (-1) 0 2, Vec3i.mk (-1) 2 0, Vec3i.mk 2 0 1, Vec3i.mk 1 1 1, Vec3i.mk 1 0 2, Vec3i.mk 1 (-1) 1, Vec3i.mk 2 1 1, Vec3i.mk 2 (-1) 1, Vec3i.mk 1 1 2, Vec3i.mk 1 (-1) 2, Vec3i.mk 2 0 2, Vec3i.mk 2 0 0, Vec3i.mk 0 0 2, Vec3i.mk 2 1 2, Vec3i.mk 0 (-1) 2, Vec3i.mk 2 (-1) 0, Vec3i.mk 2 1 1, Vec3i.mk 1 2 1, Vec3i.mk 1 1 2, Vec3i.mk 2 2 1, Vec3i.mk 2 0 1, Vec3i.mk 0 2 1, Vec3i.mk 1 2 2, Vec3i.mk 1 2 0, Vec3i.mk 1 0 2, Vec3i.mk 2 1 2, Vec3i.mk 2 1 0, Vec3i.mk 0 1 2, Vec3i.mk 2 2 2, Vec3i.mk 0 0 2, Vec3i.mk 0 2 0, Vec3i.mk 2 0 0] [Vec3i.mk (-1) (-1) 2, Vec3i.mk (-1) (-1) 0, Vec3i.mk 1 1 2, Vec3i.mk (-1) 0 2, Vec3i.mk 1 0 2, Vec3i.mk 0 (-1) 2, Vec3i.mk 0 1 2, Vec3i.mk 0 0 2, Vec3i.mk (-1) 2 (-1), Vec3i.mk (-1) 0 (-1), Vec3i.mk 1 2 1, Vec3i.mk (-1) 1 1, Vec3i.mk 0 2 (-1), Vec3i.mk 0 2 1, Vec3i.mk (-1) 2 0, Vec3i.mk 1 2 0, Vec3i.mk 0 2 0, Vec3i.mk 2 (-1) (-1), Vec3i.mk 0 (-1) (-1), Vec3i.mk 2 1 1, Vec3i.mk 2 0 (-1), Vec3i.mk 2 0 1, Vec3i.mk 1 (-1) 1, Vec3i.mk 1 1 (-1), Vec3i.mk 2 (-1) 0, Vec3i.mk 2 1 0, Vec3i.mk 2 0 0, Vec3i.mk 1 (-1) (-1), Vec3i.mk (-1) 1 (-1), Vec3i.mk (-1) (-1) 1, Vec3i.mk (-1) (-1) (-1), Vec3i.mk 1 1 1, Vec3i.mk (-1) 0 1, Vec3i.mk 1 0 (-1), Vec3i.mk 1 0 1, Vec3i.mk 0 (-1) 1, Vec3i.mk 0 1 (-1), Vec3i.mk 0 1 1, Vec3i.mk (-1) 1 0, Vec3i.mk 1 (-1) 0, Vec3i.mk 1 1 0, Vec3i.mk 0 0 (-1), Vec3i.mk 0 (-1) 0, Vec3i.mk (-1) 0 0, Vec3i.mk 0 0 1, Vec3i.mk 0 1 0, Vec3i.mk 1 0 0, Vec3i.mk 0 0 0] [Atom.mk (Vec3.mk (50000/200001) (50000/200001) (50000/200001)) "X", Atom.mk (Vec3.mk (50000/66667) (50000/200001) (50000/200001)) "X", Atom.mk (Vec3.mk (50000/200001) (50000/66667) (50000/200001)) "X", Atom.mk (Vec3.mk (50000/200001) (50000/200001) (50000/66667)) "X", Atom.mk (Vec3.mk (50000/66667) (50000/66667) (50000/200001)) "X", Atom.mk (Vec3.mk (50000/200001) (50000/66667) (50000/66667)) "X", Atom.mk (Vec3.mk (50000/66667) (50000/200001) (50000/66667)) "X", Atom.mk (Vec3.mk (50000/66667) (50000/66667) (50000/66667)) "X"],
  GrowState.mk [Vec3i.mk 2 0 0, Vec3i.mk 0 2 0, Vec3i.mk 1 2 1, Vec3i.mk 1 2 (-1), Vec3i.mk 1 0 1, Vec3i.mk 2 1 1, Vec3i.mk 2 1 (-1), Vec3i.mk 0 1 1, Vec3i.mk 2 2 1, Vec3i.mk 0 2 (-1), Vec3i.mk 2 0 (-1), Vec3i.mk 1 1 1, Vec3i.mk 0 2 1, Vec3i.mk 0 1 2, Vec3i.mk (-1) 1 1, Vec3i.mk 1 2 1, Vec3i.mk 1 0 1, Vec3i.mk (-1) 2 1, Vec3i.mk 0 2 2, Vec3i.mk 0 2 0, Vec3i.mk 0 0 2, Vec3i.mk 1 1 2, Vec3i.mk (-1) 1 2, Vec3i.mk 1 2 2, Vec3i.mk (-1) 0 2, Vec3i.mk (-1) 2 0, Vec3i.mk 2 0 1, Vec3i.mk 1 1 1, Vec3i.mk 1 0 2, Vec3i.mk 1 (-1) 1, Vec3i.mk 2 1 1, Vec3i.mk 2 (-1) 1, Vec3i.mk 1 1 2, Vec3i.mk 1 (-1) 2, Vec3i.mk 2 0 2, Vec3i.mk 2 0 0, Vec3i.mk 0 0 2, Vec3i.mk 2 1 2, Vec3i.mk 0 (-1) 2, Vec3i.mk 2 (-1) 0, Vec3i.mk 2 1 1, Vec3i.mk 1 2 1, Vec3i.mk 1 1 2, Vec3i.mk 2 2 1, Vec3i.mk 2 0 1, Vec3i.mk 0 2 1, Vec3i.mk 1 2 2, Vec3i.mk 1 2 0, Vec3i.mk 1 0 2, Vec3i.mk 2 1 2, Vec3i.mk 2 1 0, Vec3i.mk 0 1 2, Vec3i.mk 2 2 2, Vec3i.mk 0 0 2, Vec3i.mk 0 2 0, Vec3i.mk 2 0 0] [Vec3i.mk 2 2 0, Vec3i.mk (-1) (-1) 2, Vec3i.mk (-1) (-1) 0, Vec3i.mk 1 1 2, Vec3i.mk (-1) 0 2, Vec3i.mk 1 0 2, Vec3i.mk 0 (-1) 2, Vec3i.mk 0 1 2, Vec3i.mk 0 0 2, Vec3i.mk (-1) 2 (-1), Vec3i.mk (-1) 0 (-1), Vec3i.mk 1 2 1, Vec3i.mk (-1) 1 1, Vec3i.mk 0 2 (-1), Vec3i.mk 0 2 1, Vec3i.mk (-1) 2 0, Vec3i.mk 1 2 0, Vec3i.mk 0 2 0, Vec3i.mk 2 (-1) (-1), Vec3i.mk 0 (-1) (-1), Vec3i.mk 2 1 1, Vec3i.mk 2 0 (-1), Vec3i.mk 2 0 1, Vec3i.mk 1 (-1) 1, Vec3i.mk 1 1 (-1), Vec3i.mk 2 (-1) 0, Vec3i.mk 2 1 0, Vec3i.mk 2 0 0, Vec3i.mk 1 (-1) (-1), Vec3i.mk (-1) 1 (-1), Vec3i.mk (-1) (-1) 1, Vec3i.mk (-1) (-1) (-1), Vec3i.mk 1 1 1, Vec3i.mk (-1) 0 1, Vec3i.mk 1 0 (-1), Vec3i.mk 1 0 1, Vec3i.mk 0 (-1) 1, Vec3i.mk 0 1 (-1), Vec3i.mk 0 1 1, Vec3i.mk (-1) 1 0, Vec3i.mk 1 (-1) 0, Vec3i.mk 1 1 0, Vec3i.mk 0 0 (-1), Vec3i.mk 0 (-1) 0, Vec3i.mk (-1) 0 0, Vec3i.mk 0 0 1, Vec3i.mk 0 1 0, Vec3i.mk 1 0 0, Vec3i.mk 0 0 0] [Atom.mk (Vec3.mk (50000/200001) (50000/200001) (50000/200001)) "X", Atom.mk (Vec3.mk (50000/66667) (50000/200001) (50000/200001)) "X", Atom.mk (Vec3.mk (50000/200001) (50000/66667) (50000/200001)) "X", Atom.mk (Vec3.mk (50000/200001) (50000/200001) (50000/66667)) "X", Atom.mk (Vec3.mk (50000/66667) (50000/66667) (50000/200001)) "X", Atom.mk (Vec3.mk (50000/200001) (50000/66667) (50000/66667)) "X", Atom.mk (Vec3.mk (50000/66667) (50000/200001) (50000/66667)) "X", Atom.mk (Vec3.mk (50000/66667) (50000/66667) (50000/66667)) "X"],
  GrowState.mk [Vec3i.mk 0 2 0, Vec3i.mk 1 2 1, Vec3i.mk 1 2 (-1), Vec3i.mk 1 0 1, Vec3i.mk 2 1 1, Vec3i.mk 2 1 (-1), Vec3i.mk 0 1 1, Vec3i.mk 2 2 1, Vec3i.mk 0 2 (-1), Vec3i.mk 2 0 (-1), Vec3i.mk 1 1 1, Vec3i.mk 0 2 1, Vec3i.mk 0 1 2, Vec3i.mk (-1) 1 1, Vec3i.mk 1 2 1, Vec3i.mk 1 0 1, Vec3i.mk (-1) 2 1, Vec3i.mk 0 2 2, Vec3i.mk 0 2 0, Vec3i.mk 0 0 2, Vec3i.mk 1 1 2, Vec3i.mk (-1) 1 2, Vec3i.mk 1 2 2, Vec3i.mk (-1) 0 2, Vec3i.mk (-1) 2 0, Vec3i.mk 2 0 1, Vec3i.mk 1 1 1, Vec3i.mk 1 0 2, Vec3i.mk 1 (-1) 1, Vec3i.mk 2 1 1, Vec3i.mk 2 (-1) 1, Vec3i.mk 1 1 2, Vec3i.mk 1 (-1) 2, Vec3i.mk 2 0 2, Vec3i.mk 2 0 0, Vec3i.mk 0 0 2, Vec3i.mk 2 1 2, Vec3i.mk 0 (-1) 2, Vec3i.mk 2 (-1) 0, Vec3i.mk 2 1 1, Vec3i.mk 1 2 1, Vec3i.mk 1 1 2, Vec3i.mk 2 2 1, Vec3i.mk 2 0 1, Vec3i.mk 0 2 1, Vec3i.mk 1 2 2, Vec3i.mk 1 2 0, Vec3i.mk 1 0 2, Vec3i.mk 2 1 2, Vec3i.mk 2 1 0, Vec3i.mk 0 1 2, Vec3i.mk 2 2 2, Vec3i.mk 0 0 2, Vec3i.mk 0 2 0, Vec3i.mk 2 0 0] [Vec3i.mk 2 2 0, Vec3i.mk (-1) (-1) 2, Vec3i.mk (-1) (-1) 0, Vec3i.mk 1 1 2, Vec3i.mk (-1) 0 2, Vec3i.mk 1 0 2, Vec3i.mk 0 (-1) 2, Vec3i.mk 0 1 2, Vec3i.mk 0 0 2, Vec3i.mk (-1) 2 (-1), Vec3i.mk (-1) 0 (-1), Vec3i.mk 1 2 1, Vec3i.mk (-1) 1 1, Vec3i.mk 0 2 (-1), Vec3i.mk 0 2 1, Vec3i.mk (-1) 2 0, Vec3i.mk 1 2 0, Vec3i.mk 0 2 0, Vec3i.mk 2 (-1) (-1), Vec3i.mk 0 (-1) (-1), Vec3i.mk 2 1 1, Vec3i.mk 2 0 (-1), Vec3i.mk 2 0 1, Vec3i.mk 1 (-1) 1, Vec3i.mk 1 1 (-1), Vec3i.mk 2 (-1) 0, Vec3i.mk 2 1 0, Vec3i.mk 2 0 0, Vec3i.mk 1 (-1) (-1), Vec3i.mk (-1) 1 (-1), Vec3i.mk (-1) (-1) 1, Vec3i.mk (-1) (-1) (-1), Vec3i.mk 1 1 1, Vec3i.mk (-1) 0 1, Vec3i.mk 1 0 (-1), Vec3i.mk 1 0 1, Vec3i.mk 0 (-1) 1, Vec3i.mk 0 1 (-1), Vec3i.mk 0 1 1, Vec3i.mk (-1) 1 0, Vec3i.mk 1 (-1) 0, Vec3i.mk 1 1 0, Vec3i.mk 0 0 (-1), Vec3i.mk 0 (-1) 0, Vec3i.mk (-1) 0 0, Vec3i.mk 0 0 1, Vec3i.mk 0 1 0, Vec3i.mk 1 0 0, Vec3i.mk 0 0 0] [Atom.mk (Vec3.mk (50000/200001) (50000/200001) (50000/200001)) "X", Atom.mk (Vec3.mk (50000/66667) (50000/200001) (50000/200001)) "X", Atom.mk (Vec3.mk (50000/200001) (50000/66667) (50000/200001)) "X", Atom.mk (Vec3.mk (50000/200001) (50000/200001) (50000/66667)) "X", Atom.mk (Vec3.mk (50000/66667) (50000/66667) (50000/200001)) "X", Atom.mk (Vec3.mk (50000/200001) (50000/66667) (50000/66667)) "X", Atom.mk (Vec3.mk (50000/66667) (50000/200001) (50000/66667)) "X", Atom.mk (Vec3.mk (50000/66667) (50000/66667) (50000/66667)) "X"],
  GrowState.mk [Vec3i.mk 1 2 1, Vec3i.mk 1 2 (-1), Vec3i.mk 1 0 1, Vec3i.mk 2 1 1, Vec3i.mk 2 1 (-1), Vec3i.mk 0 1 1, Vec3i.mk 2 2 1, Vec3i.mk 0 2 (-1), Vec3i.mk 2 0 (-1), Vec3i.mk 1 1 1, Vec3i.mk 0 2 1, Vec3i.mk 0 1 2, Vec3i.mk (-1) 1 1, Vec3i.mk 1 2 1, Vec3i.mk 1 0 1, Vec3i.mk (-1) 2 1, Vec3i.mk 0 2 2, Vec3i.mk 0 2 0, Vec3i.mk 0 0 2, Vec3i.mk 1 1 2, Vec3i.mk (-1) 1 2, Vec3i.mk 1 2 2, Vec3i.mk (-1) 0 2, Vec3i.mk (-1) 2 0, Vec3i.mk 2 0 1, Vec3i.mk 1 1 1, Vec3i.mk 1 0 2, Vec3i.mk 1 (-1) 1, Vec3i.mk 2 1 1, Vec3i.mk 2 (-1) 1, Vec3i.mk 1 1 2, Vec3i.mk 1 (-1) 2, Vec3i.mk 2 0 2, Vec3i.mk 2 0 0, Vec3i.mk 0 0 2, Vec3i.mk 2 1 2, Vec3i.mk 0 (-1) 2, Vec3i.mk 2 (-1) 0, Vec3i.mk 2 1 1, Vec3i.mk 1 2 1, Vec3i.mk 1 1 2, Vec3i.mk 2 2 1, Vec3i.mk 2 0 1, Vec3i.mk 0 2 1, Vec3i.mk 1 2 2, Vec3i.mk 1 2 0, Vec3i.mk 1 0 2, Vec3i.mk 2 1 2, Vec3i.mk 2 1 0, Vec3i.mk 0 1 2, Vec3i.mk 2 2 2, Vec3i.mk 0 0 2, Vec3i.mk 0 2 0, Vec3i.mk 2 0 0] [Vec3i.mk 2 2 0, Vec3i.mk (-1) (-1) 2, Vec3i.mk (-1) (-1) 0, Vec3i.mk 1 1 2, Vec3i.mk (-1) 0 2, Vec3i.mk 1 0 2, Vec3i.mk 0 (-1) 2, Vec3i.mk 0 1 2, Vec3i.mk 0 0 2, Vec3i.mk (-1) 2 (-1), Vec3i.mk (-1) 0 (-1), Vec3i.mk 1 2 1, Vec3i.mk (-1) 1 1, Vec3i.mk 0 2 (-1), Vec3i.mk 0 2 1, Vec3i.mk (-1) 2 0, Vec3i.mk 1 2 0, Vec3i.mk 0 2 0, Vec3i.mk 2 (-1) (-1), Vec3i.mk 0 (-1) (-1), Vec3i.mk 2 1 1, Vec3i.mk 2 0 (-1), Vec3i.mk 2 0 1, Vec3i.mk 1 (-1) 1, Vec3i.mk 1 1 (-1), Vec3i.mk 2 (-1) 0, Vec3i.mk 2 1 0, Vec3i.mk 2 0 0, Vec3i.mk 1 (-1) (-1), Vec3i.mk (-1) 1 (-1), Vec3i.mk (-1) (-1) 1, Vec3i.mk (-1) (-1) (-1), Vec3i.mk 1 1 1, Vec3i.mk (-1) 0 1, Vec3i.mk 1 0 (-1), Vec3i.mk 1 0 1, Vec3i.mk 0 (-1) 1, Vec3i.mk 0 1 (-1), Vec3i.mk 0 1 1, Vec3i.mk (-1) 1 0, Vec3i.mk 1 (-1) 0, Vec3i.mk 1 1 0, Vec3i.mk 0 0 (-1), Vec3i.mk 0 (-1) 0, Vec3i.mk (-1) 0 0, Vec3i.mk 0 0 1, Vec3i.mk 0 1 0, Vec3i.mk 1 0 0, Vec3i.mk 0 0 0] [Atom.mk (Vec3.mk (50000/200001) (50000/200001) (50000/200001)) "X", Atom.mk (Vec3.mk (50000/66667) (50000/200001) (50000/200001)) "X", Atom.mk (Vec3.mk (50000/200001) (50000/66667) (50000/200001)) "X", Atom.mk (Vec3.mk (50000/200001) (50000/200001) (50000/66667)) "X", Atom.mk (Vec3.mk (50000/66667) (50000/66667) (50000/200001)) "X", Atom.mk (Vec3.mk (50000/200001) (50000/66667) (50000/66667)) "X", Atom.mk (Vec3.mk (50000/66667) (50000/200001) (50000/66667)) "X", Atom.mk (Vec3.mk (50000/66667) (50000/66667) (50000/66667)) "X"],
  GrowState.mk [Vec3i.mk 1 2 (-1), Vec3i.mk 1 0 1, Vec3i.mk 2 1 1, Vec3i.mk 2 1 (-1), Vec3i.mk 0 1 1, Vec3i.mk 2 2 1, Vec3i.mk 0 2 (-1), Vec3i.mk 2 0 (-1), Vec3i.mk 1 1 1, Vec3i.mk 0 2 1, Vec3i.mk 0 1 2, Vec3i.mk (-1) 1 1, Vec3i.mk 1 2 1, Vec3i.mk 1 0 1, Vec3i.mk (-1) 2 1, Vec3i.mk 0 2 2, Vec3i.mk 0 2 0, Vec3i.mk 0 0 2, Vec3i.mk 1 1 2, Vec3i.mk (-1) 1 2, Vec3i.mk 1 2 2, Vec3i.mk (-1) 0 2, Vec3i.mk (-1) 2 0, Vec3i.mk 2 0 1, Vec3i.mk 1 1 1, Vec3i.mk 1 0 2, Vec3i.mk 1 (-1) 1, Vec3i.mk 2 1 1, Vec3i.mk 2 (-1) 1, Vec3i.mk 1 1 2, Vec3i.mk 1 (-1) 2, Vec3i.mk 2 0 2, Vec3i.mk 2 0 0, Vec3i.mk 0 0 2, Vec3i.mk 2 1 2, Vec3i.mk 0 (-1) 2, Vec3i.mk 2 (-1) 0, Vec3i.mk 2 1 1, Vec3i.mk 1 2 1, Vec3i.mk 1 1 2, Vec3i.mk 2 2 1, Vec3i.mk 2 0 1, Vec3i.mk 0 2 1, Vec3i.mk 1 2 2, Vec3i.mk 1 2 0, Vec3i.mk 1 0 2, Vec3i.mk 2 1 2, Vec3i.mk 2 1 0, Vec3i.mk 0 1 2, Vec3i.mk 2 2 2, Vec3i.mk 0 0 2, Vec3i.mk 0 2 0, Vec3i.mk 2 0 0] [Vec3i.mk 2 2 0, Vec3i.mk (-1) (-1) 2, Vec3i.mk (-1) (-1) 0, Vec3i.mk 1 1 2, Vec3i.mk (-1) 0 2, Vec3i.mk 1 0 2, Vec3i.mk 0 (-1) 2, Vec3i.mk 0 1 2, Vec3i.mk 0 0 2, Vec3i.mk (-1) 2 (-1), Vec3i.mk (-1) 0 (-1), Vec3i.mk 1 2 1, Vec3i.mk (-1) 1 1, Vec3i.mk 0 2 (-1), Vec3i.mk 0 2 1, Vec3i.mk (-1) 2 0, Vec3i.mk 1 2 0, Vec3i.mk 0 2 0, Vec3i.mk 2 (-1) (-1), Vec3i.mk 0 (-1) (-1), Vec3i.mk 2 1 1, Vec3i.mk 2 0 (-1), Vec3i.mk 2 0 1, Vec3i.mk 1 (-1) 1, Vec3i.mk 1 1 (-1), Vec3i.mk 2 (-1) 0, Vec3i.mk 2 1 0, Vec3i.mk 2 0 0, Vec3i.mk 1 (-1) (-1), Vec3i.mk (-1) 1 (-1), Vec3i.mk (-1) (-1) 1, Vec3i.mk (-1) (-1) (-1), Vec3i.mk 1 1 1, Vec3i.mk (-1) 0 1, Vec3i.mk 1 0 (-1), Vec3i.mk 1 0 1, Vec3i.mk 0 (-1) 1, Vec3i.mk 0 1 (-1), Vec3i.mk 0 1 1, Vec3i.mk (-1) 1 0, Vec3i.mk 1 (-1) 0, Vec3i.mk 1 1 0, Vec3i.mk 0 0 (-1), Vec3i.mk 0 (-1) 0, Vec3i.mk (-1) 0 0, Vec3i.mk 0 0 1, Vec3i.mk 0 1 0, Vec3i.mk 1 0 0, Vec3i.mk 0 0 0] [Atom.mk (Vec3.mk (50000/200001) (50000/200001) (50000/200001)) "X", Atom.mk (Vec3.mk (50000/66667) (50000/200001) (50000/200001)) "X", Atom.mk (Vec3.mk (50000/200001) (50000/66667) (50000/200001)) "X", Atom.mk (Vec3.mk (50000/200001) (50000/200001) (50000/66667)) "X", Atom.mk (Vec3.mk (50000/66667) (50000/66667) (50000/200001)) "X", Atom.mk (Vec3.mk (50000/200001) (50000/66667) (50000/66667)) "X", Atom.mk (Vec3.mk (50000/66667) (50000/200001) (50000/66667)) "X", Atom.mk (Vec3.mk (50000/66667) (50000/66667) (50000/66667)) "X"],
  GrowState.mk [Vec3i.mk 1 0 1, Vec3i.mk 2 1 1, Vec3i.mk 2 1 (-1), Vec3i.mk 0 1 1, Vec3i.mk 2 2 1, Vec3i.mk 0 2 (-1), Vec3i.mk 2 0 (-1), Vec3i.mk 1 1 1, Vec3i.mk 0 2 1, Vec3i.mk 0 1 2, Vec3i.mk (-1) 1 1, Vec3i.mk 1 2 1, Vec3i.mk 1 0 1, Vec3i.mk (-1) 2 1, Vec3i.mk 0 2 2, Vec3i.mk 0 2 0, Vec3i.mk 0 0 2, Vec3i.mk 1 1 2, Vec3i.mk (-1) 1 2, Vec3i.mk 1 2 2, Vec3i.mk (-1) 0 2, Vec3i.mk (-1) 2 0, Vec3i.mk 2 0 1, Vec3i.mk 1 1 1, Vec3i.mk 1 0 2, Vec3i.mk 1 (-1) 1, Vec3i.mk 2 1 1, Vec3i.mk 2 (-1) 1, Vec3i.mk 1 1 2, Vec3i.mk 1 (-1) 2, Vec3i.mk 2 0 2, Vec3i.mk 2 0 0, Vec3i.mk 0 0 2, Vec3i.mk 2 1 2, Vec3i.mk 0 (-1) 2, Vec3i.mk 2 (-1) 0, Vec3i.mk 2 1 1, Vec3i.mk 1 2 1, Vec3i.mk 1 1 2, Vec3i.mk 2 2 1, Vec3i.mk 2 0 1, Vec3i.mk 0 2 1, Vec3i.mk 1 2 2, Vec3i.mk 1 2 0, Vec3i.mk 1 0 2, Vec3i.mk 2 1 2, Vec3i.mk 2 1 0, Vec3i.mk 0 1 2, Vec3i.mk 2 2 2, Vec3i.mk 0 0 2, Vec3i.mk 0 2 0, Vec3i.mk 2 0 0] [Vec3i.mk 1 2 (-1), Vec3i.mk 2 2 0, Vec3i.mk (-1) (-1) 2, Vec3i.mk (-1) (-1) 0, Vec3i.mk 1 1 2, Vec3i.mk (-1) 0 2, Vec3i.mk 1 0 2, Vec3i.mk 0 (-1) 2, Vec3i.mk 0 1 2, Vec3i.mk 0 0 2, Vec3i.mk (-1) 2 (-1), Vec3i.mk (-1) 0 (-1), Vec3i.mk 1 2 1, Vec3i.mk (-1) 1 1, Vec3i.mk 0 2 (-1), Vec3i.mk 0 2 1, Vec3i.mk (-1) 2 0, Vec3i.mk 1 2 0, Vec3i.mk 0 2 0, Vec3i.mk 2 (-1) (-1), Vec3i.mk 0 (-1) (-1), Vec3i.mk 2 1 1, Vec3i.mk 2 0 (-1), Vec3i.mk 2 0 1, Vec3i.mk 1 (-1) 1, Vec3i.mk 1 1 (-1), Vec3i.mk 2 (-1) 0, Vec3i.mk 2 1 0, Vec3i.mk 2 0 0, Vec3i.mk 1 (-1) (-1), Vec3i.mk (-1) 1 (-1), Vec3i.mk (-1) (-1) 1, Vec3i.mk (-1) (-1) (-1), Vec3i.mk 1 1 1, Vec3i.mk (-1) 0 1, Vec3i.mk 1 0 (-1), Vec3i.mk 1 0 1, Vec3i.mk 0 (-1) 1, Vec3i.mk 0 1 (-1), Vec3i.mk 0 1 1, Vec3i.mk (-1) 1 0, Vec3i.mk 1 (-1) 0, Vec3i.mk 1 1 0, Vec3i.mk 0 0 (-1), Vec3i.mk 0 (-1) 0, Vec3i.mk (-1) 0 0, Vec3i.mk 0 0 1, Vec3i.mk 0 1 0, Vec3i.mk 1 0 0, Vec3i.mk 0 0 0] [Atom.mk (Vec3.mk (50000/200001) (50000/200001) (50000/200001)) "X", Atom.mk (Vec3.mk (50000/66667) (50000/200001) (50000/200001)) "X", Atom.mk (Vec3.mk (50000/200001) (50000/66667) (50000/200001)) "X", Atom.mk (Vec3.mk (50000/200001) (50000/200001) (50000/66667)) "X", Atom.mk (Vec3.mk (50000/66667) (50000/66667) (50000/200001)) "X", Atom.mk (Vec3.mk (50000/200001) (50000/66667) (50000/66667)) "X", Atom.mk (Vec3.mk (50000/66667) (50000/200001) (50000/66667)) "X", Atom.mk (Vec3.mk (50000/66667) (50000/66667) (50000/66667)) "X"],
  GrowState.mk [Vec3i.mk 2 1 1, Vec3i.mk 2 1 (-1), Vec3i.mk 0 1 1, Vec3i.mk 2 2 1, Vec3i.mk 0 2 (-1), Vec3i.mk 2 0 (-1), Vec3i.mk 1 1 1, Vec3i.mk 0 2 1, Vec3i.mk 0 1 2, Vec3i.mk (-1) 1 1, Vec3i.mk 1 2 1, Vec3i.mk 1 0 1, Vec3i.mk (-1) 2 1, Vec3i.mk 0 2 2, Vec3i.mk 0 2 0, Vec3i.mk 0 0 2, Vec3i.mk 1 1 2, Vec3i.mk (-1) 1 2, Vec3i.mk 1 2 2, Vec3i.mk (-1) 0 2, Vec3i.mk (-1) 2 0, Vec3i.mk 2 0 1, Vec3i.mk 1 1 1, Vec3i.mk 1 0 2, Vec3i.mk 1 (-1) 1, Vec3i.mk 2 1 1, Vec3i.mk 2 (-1) 1, Vec3i.mk 1 1 2, Vec3i.mk 1 (-1) 2, Vec3i.mk 2 0 2, Vec3i.mk 2 0 0, Vec3i.mk 0 0 2, Vec3i.mk 2 1 2, Vec3i.mk 0 (-1) 2, Vec3i.mk 2 (-1) 0, Vec3i.mk 2 1 1, Vec3i.mk 1 2 1, Vec3i.mk 1 1 2, Vec3i.mk 2 2 1, Vec3i.mk 2 0 1, Vec3i.mk 0 2 1, Vec3i.mk 1 2 2, Vec3i.mk 1 2 0, Vec3i.mk 1 0 2, Vec3i.mk 2 1 2, Vec3i.mk 2 1 0, Vec3i.mk 0 1 2, Vec3i.mk 2 2 2, Vec3i.mk 0 0 2, Vec3i.mk 0 2 0, Vec3i.mk 2 0 0] [Vec3i.mk 1 2 (-1), Vec3i.mk 2 2 0, Vec3i.mk (-1) (-1) 2, Vec3i.mk (-1) (-1) 0, Vec3i.mk 1 1 2, Vec3i.mk (-1) 0 2, Vec3i.mk 1 0 2, Vec3i.mk 0 (-1) 2, Vec3i.mk 0 1 2, Vec3i.mk 0 0 2, Vec3i.mk (-1) 2 (-1), Vec3i.mk (-1) 0 (-1), Vec3i.mk 1 2 1, Vec3i.mk (-1) 1 1, Vec3i.mk 0 2 (-1), Vec3i.mk 0 2 1, Vec3i.mk (-1) 2 0, Vec3i.mk 1 2 0, Vec3i.mk 0 2 0, Vec3i.mk 2 (-1) (-1), Vec3i.mk 0 (-1) (-1), Vec3i.mk 2 1 1, Vec3i.mk 2 0 (-1), Vec3i.mk 2 0 1, Vec3i.mk 1 (-1) 1, Vec3i.mk 1 1 (-1), Vec3i.mk 2 (-1) 0, Vec3i.mk 2 1 0, Vec3i.mk 2 0 0, Vec3i.mk 1 (-1) (-1), Vec3i.mk (-1) 1 (-1), Vec3i.mk (-1) (-1) 1, Vec3i.mk (-1) (-1) (-1), Vec3i.mk 1 1 1, Vec3i.mk (-1) 0 1, Vec3i.mk 1 0 (-1), Vec3i.mk 1 0 1, Vec3i.mk 0 (-1) 1, Vec3i.mk 0 1 (-1), Vec3i.mk 0 1 1, Vec3i.mk (-1) 1 0, Vec3i.mk 1 (-1) 0, Vec3i.mk 1 1 0, Vec3i.mk 0 0 (-1), Vec3i.mk 0 (-1) 0, Vec3i.mk (-1) 0 0, Vec3i.mk 0 0 1, Vec3i.mk 0 1 0, Vec3i.mk 1 0 0, Vec3i.mk 0 0 0] [Atom.mk (Vec3.mk (50000/200001) (50000/200001) (50000/200001)) "X", Atom.mk (Vec3.mk (50000/66667) (50000/200001) (50000/200001)) "X", Atom.mk (Vec3.mk (50000/200001) (50000/66667) (50000/200001)) "X", Atom.mk (Vec3.mk (50000/200001) (50000/200001) (50000/66667)) "X", Atom.mk (Vec3.mk (50000/66667) (50000/66667) (50000/200001)) "X", Atom.mk (Vec3.mk (50000/200001) (50000/66667) (50000/66667)) "X", Atom.mk (Vec3.mk (50000/66667) (50000/200001) (50000/66667)) "X", Atom.mk (Vec3.mk (50000/66667) (50000/66667) (50000/66667)) "X"],
  GrowState.mk [Vec3i.mk 2 1 (-1), Vec3i.mk 0 1 1, Vec3i.mk 2 2 1, Vec3i.mk 0 2 (-1), Vec3i.mk 2 0 (-1), Vec3i.mk 1 1 1, Vec3i.mk 0 2 1, Vec3i.mk 0 1 2, Vec3i.mk (-1) 1 1, Vec3i.mk 1 2 1, Vec3i.mk 1 0 1, Vec3i.mk (-1) 2 1, Vec3i.mk 0 2 2, Vec3i.mk 0 2 0, Vec3i.mk 0 0 2, Vec3i.mk 1 1 2, Vec3i.mk (-1) 1 2, Vec3i.mk 1 2 2, Vec3i.mk (-1) 0 2, Vec3i.mk (-1) 2 0, Vec3i.mk 2 0 1, Vec3i.mk 1 1 1, Vec3i.mk 1 0 2, Vec3i.mk 1 (-1) 1, Vec3i.mk 2 1 1, Vec3i.mk 2 (-1) 1, Vec3i.mk 1 1 2, Vec3i.mk 1 (-1) 2, Vec3i.mk 2 0 2, Vec3i.mk 2 0 0, Vec3i.mk 0 0 2, Vec3i.mk 2 1 2, Vec3i.mk 0 (-1) 2, Vec3i.mk 2 (-1) 0, Vec3i.mk 2 1 1, Vec3i.mk 1 2 1, Vec3i.mk 1 1 2, Vec3i.mk 2 2 1, Vec3i.mk 2 0 1, Vec3i.mk 0 2 1, Vec3i.mk 1 2 2, Vec3i.mk 1 2 0, Vec3i.mk 1 0 2, Vec3i.mk 2 1 2, Vec3i.mk 2 1 0, Vec3i.mk 0 1 2, Vec3i.mk 2 2 2, Vec3i.mk 0 0 2, Vec3i.mk 0 2 0, Vec3i.mk 2 0 0] [Vec3i.mk 1 2 (-1), Vec3i.mk 2 2 0, Vec3i.mk (-1) (-1) 2, Vec3i.mk (-1) (-1) 0, Vec3i.mk 1 1 2, Vec3i.mk (-1) 0 2, Vec3i.mk 1 0 2, Vec3i.mk 0 (-1) 2, Vec3i.mk 0 1 2, Vec3i.mk 0 0 2, Vec3i.mk (-1) 2 (-1), Vec3i.mk (-1) 0 (-1), Vec3i.mk 1 2 1, Vec3i.mk (-1) 1 1, Vec3i.mk 0 2 (-1), Vec3i.mk 0 2 1, Vec3i.mk (-1) 2 0, Vec3i.mk 1 2 0, Vec3i.mk 0 2 0, Vec3i.mk 2 (-1) (-1), Vec3i.mk 0 (-1) (-1), Vec3i.mk 2 1 1, Vec3i.mk 2 0 (-1), Vec3i.mk 2 0 1, Vec3i.mk 1 (-1) 1, Vec3i.mk 1 1 (-1), Vec3i.mk 2 (-1) 0, Vec3i.mk 2 1 0, Vec3i.mk 2 0 0, Vec3i.mk 1 (-1) (-1), Vec3i.mk (-1) 1 (-1), Vec3i.mk (-1) (-1) 1, Vec3i.mk (-1) (-1) (-1), Vec3i.mk 1 1 1, Vec3i.mk (-1) 0 1, Vec3i.mk 1 0 (-1), Vec3i.mk 1 0 1, Vec3i.mk 0 (-1) 1, Vec3i.mk 0 1 (-1), Vec3i.mk 0 1 1, Vec3i.mk (-1) 1 0, Vec3i.mk 1 (-1) 0, Vec3i.mk 1 1 0, Vec3i.mk 0 0 (-1), Vec3i.mk 0 (-1) 0, Vec3i.mk (-1) 0 0, Vec3i.mk 0 0 1, Vec3i.mk 0 1 0, Vec3i.mk 1 0 0, Vec3i.mk 0 0 0] [Atom.mk (Vec3.mk (50000/200001) (50000/200001) (50000/200001)) "X", Atom.mk (Vec3.mk (50000/66667) (50000/200001) (50000/200001)) "X", Atom.mk (Vec3.mk (50000/200001) (50000/66667) (50000/200001)) "X", Atom.mk (Vec3.mk (50000/200001) (50000/200001) (50000/66667)) "X", Atom.mk (Vec3.mk (50000/66667) (50000/66667) (50000/200001)) "X", Atom.mk (Vec3.mk (50000/200001) (50000/66667) (50000/66667)) "X", Atom.mk (Vec3.mk (50000/66667) (50000/200001) (50000/66667)) "X", Atom.mk (Vec3.mk (50000/66667) (50000/66667) (50000/66667)) "X"],
  GrowState.mk [Vec3i.mk 0 1 1, Vec3i.mk 2 2 1, Vec3i.mk 0 2 (-1), Vec3i.mk 2 0 (-1), Vec3i.mk 1 1 1, Vec3i.mk 0 2 1, Vec3i.mk 0 1 2, Vec3i.mk (-1) 1 1, Vec3i.mk 1 2 1, Vec3i.mk 1 0 1, Vec3i.mk (-1) 2 1, Vec3i.mk 0 2 2, Vec3i.mk 0 2 0, Vec3i.mk 0 0 2, Vec3i.mk 1 1 2, Vec3i.mk (-1) 1 2, Vec3i.mk 1 2 2, Vec3i.mk (-1) 0 2, Vec3i.mk (-1) 2 0, Vec3i.mk 2 0 1, Vec3i.mk 1 1 1, Vec3i.mk 1 0 2, Vec3i.mk 1 (-1) 1, Vec3i.mk 2 1 1, Vec3i.mk 2 (-1) 1, Vec3i.mk 1 1 2, Vec3i.mk 1 (-1) 2, Vec3i.mk 2 0 2, Vec3i.mk 2 0 0, Vec3i.mk 0 0 2, Vec3i.mk 2 1 2, Vec3i.mk 0 (-1) 2, Vec3i.mk 2 (-1) 0, Vec3i.mk 2 1 1, Vec3i.mk 1 2 1, Vec3i.mk 1 1 2, Vec3i.mk 2 2 1, Vec3i.mk 2 0 1, Vec3i.mk 0 2 1, Vec3i.mk 1 2 2, Vec3i.mk 1 2 0, Vec3i.mk 1 0 2, Vec3i.mk 2 1 2, Vec3i.mk 2 1 0, Vec3i.mk 0 1 2, Vec3i.mk 2 2 2, Vec3i.mk 0 0 2, Vec3i.mk 0 2 0, Vec3i.mk 2 0 0] [Vec3i.mk 2 1 (-1), Vec3i.mk 1 2 (-1), Vec3i.mk 2 2 0, Vec3i.mk (-1) (-1) 2, Vec3i.mk (-1) (-1) 0, Vec3i.mk 1 1 2, Vec3i.mk (-1) 0 2, Vec3i.mk 1 0 2, Vec3i.mk 0 (-1) 2, Vec3i.mk 0 1 2, Vec3i.mk 0 0 2, Vec3i.mk (-1) 2 (-1), Vec3i.mk (-1) 0 (-1), Vec3i.mk 1 2 1, Vec3i.mk (-1) 1 1, Vec3i.mk 0 2 (-1), Vec3i.mk 0 2 1, Vec3i.mk (-1) 2 0, Vec3i.mk 1 2 0, Vec3i.mk 0 2 0, Vec3i.mk 2 (-1) (-1), Vec3i.mk 0 (-1) (-1), Vec3i.mk 2 1 1, Vec3i.mk 2 0 (-1), Vec3i.mk 2 0 1, Vec3i.mk 1 (-1) 1, Vec3i.mk 1 1 (-1), Vec3i.mk 2 (-1) 0, Vec3i.mk 2 1 0, Vec3i.mk 2 0 0, Vec3i.mk 1 (-1) (-1), Vec3i.mk (-1) 1 (-1), Vec3i.mk (-1) (-1) 1, Vec3i.mk (-1) (-1) (-1), Vec3i.mk 1 1 1, Vec3i.mk (-1) 0 1, Vec3i.mk 1 0 (-1), Vec3i.mk 1 0 1, Vec3i.mk 0 (-1) 1, Vec3i.mk 0 1 (-1), Vec3i.mk 0 1 1, Vec3i.mk (-1) 1 0, Vec3i.mk 1 (-1) 0, Vec3i.mk 1 1 0, Vec3i.mk 0 0 (-1), Vec3i.mk 0 (-1) 0, Vec3i.mk (-1) 0 0, Vec3i.mk 0 0 1, Vec3i.mk 0 1 0, Vec3i.mk 1 0 0, Vec3i.mk 0 0 0] [Atom.mk (Vec3.mk (50000/200001) (50000/200001) (50000/200001)) "X", Atom.mk (Vec3.mk (50000/66667) (50000/200001) (50000/200001)) "X", Atom.mk (Vec3.mk (50000/200001) (50000/66667) (50000/200001)) "X", Atom.mk (Vec3.mk (50000/200001) (50000/200001) (50000/66667)) "X", Atom.mk (Vec3.mk (50000/66667) (50000/66667) (50000/200001)) "X", Atom.mk (Vec3.mk (50000/200001) (50000/66667) (50000/66667)) "X", Atom.mk (Vec3.mk (50000/66667) (50000/200001) (50000/66667)) "X", Atom.mk (Vec3.mk (50000/66667) (50000/66667) (50000/66667)) "X"],
  GrowState.mk [Vec3i.mk 2 2 1, Vec3i.mk 0 2 (-1), Vec3i.mk 2 0 (-1), Vec3i.mk 1 1 1, Vec3i.mk 0 2 1, Vec3i.mk 0 1 2, Vec3i.mk (-1) 1 1, Vec3i.mk 1 2 1, Vec3i.mk 1 0 1, Vec3i.mk (-1) 2 1, Vec3i.mk 0 2 2, Vec3i.mk 0 2 0, Vec3i.mk 0 0 2, Vec3i.mk 1 1 2, Vec3i.mk (-1) 1 2, Vec3i.mk 1 2 2, Vec3i.mk (-1) 0 2, Vec3i.mk (-1) 2 0, Vec3i.mk 2 0 1, Vec3i.mk 1 1 1, Vec3i.mk 1 0 2, Vec3i.mk 1 (-1) 1, Vec3i.mk 2 1 1, Vec3i.mk 2 (-1) 1, Vec3i.mk 1 1 2, Vec3i.mk 1 (-1) 2, Vec3i.mk 2 0 2, Vec3i.mk 2 0 0, Vec3i.mk 0 0 2, Vec3i.mk 2 1 2, Vec3i.mk 0 (-1) 2, Vec3i.mk 2 (-1) 0, Vec3i.mk 2 1 1, Vec3i.mk 1 2 1, Vec3i.mk 1 1 2, Vec3i.mk 2 2 1, Vec3i.mk 2 0 1, Vec3i.mk 0 2 1, Vec3i.mk 1 2 2, Vec3i.mk 1 2 0, Vec3i.mk 1 0 2, Vec3i.mk 2 1 2, Vec3i.mk 2 1 0, Vec3i.mk 0 1 2, Vec3i.mk 2 2 2, Vec3i.mk 0 0 2, Vec3i.mk 0 2 0, Vec3i.mk 2 0 0] [Vec3i.mk 2 1 (-1), Vec3i.mk 1 2 (-1), Vec3i.mk 2 2 0, Vec3i.mk (-1) (-1) 2, Vec3i.mk (-1) (-1) 0, Vec3i.mk 1 1 2, Vec3i.mk (-1) 0 2, Vec3i.mk 1 0 2, Vec3i.mk 0 (-1) 2, Vec3i.mk 0 1 2, Vec3i.mk 0 0 2, Vec3i.mk (-1) 2 (-1), Vec3i.mk (-1) 0 (-1), Vec3i.mk 1 2 1, Vec3i.mk (-1) 1 1, Vec3i.mk 0 2 (-1), Vec3i.mk 0 2 1, Vec3i.mk (-1) 2 0, Vec3i.mk 1 2 0, Vec3i.mk 0 2 0, Vec3i.mk 2 (-1) (-1), Vec3i.mk 0 (-1) (-1), Vec3i.mk 2 1 1, Vec3i.mk 2 0 (-1), Vec3i.mk 2 0 1, Vec3i.mk 1 (-1) 1, Vec3i.mk 1 1 (-1), Vec3i.mk 2 (-1) 0, Vec3i.mk 2 1 0, Vec3i.mk 2 0 0, Vec3i.mk 1 (-1) (-1), Vec3i.mk (-1) 1 (-1), Vec3i.mk (-1) (-1) 1, Vec3i.mk (-1) (-1) (-1), Vec3i.mk 1 1 1, Vec3i.mk (-1) 0 1, Vec3i.mk 1 0 (-1), Vec3i.mk 1 0 1, Vec3i.mk 0 (-1) 1, Vec3i.mk 0 1 (-1), Vec3i.mk 0 1 1, Vec3i.mk (-1) 1 0, Vec3i.mk 1 (-1) 0, Vec3i.mk 1 1 0, Vec3i.mk 0 0 (-1), Vec3i.mk 0 (-1) 0, Vec3i.mk (-1) 0 0, Vec3i.mk 0 0 1, Vec3i.mk 0 1 0, Vec3i.mk 1 0 0, Vec3i.mk 0 0 0] [Atom.mk (Vec3.mk (50000/200001) (50000/200001) (50000/200001)) "X", Atom.mk (Vec3.mk (50000/66667) (50000/200001) (50000/200001)) "X", Atom.mk (Vec3.mk (50000/200001) (50000/66667) (50000/200001)) "X", Atom.mk (Vec3.mk (50000/200001) (50000/200001) (50000/66667)) "X", Atom.mk (Vec3.mk (50000/66667) (50000/66667) (50000/200001)) "X", Atom.mk (Vec3.mk (50000/200001) (50000/66667) (50000/66667)) "X", Atom.mk (Vec3.mk (50000/66667) (50000/200001) (50000/66667)) "X", Atom.mk (Vec3.mk (50000/66667) (50000/66667) (50000/66667)) "X"],
  GrowState.mk [Vec3i.mk 0 2 (-1), Vec3i.mk 2 0 (-1), Vec3i.mk 1 1 1, Vec3i.mk 0 2 1, Vec3i.mk 0 1 2, Vec3i.mk (-1) 1 1, Vec3i.mk 1 2 1, Vec3i.mk 1 0 1, Vec3i.mk (-1) 2 1, Vec3i.mk 0 2 2, Vec3i.mk 0 2 0, Vec3i.mk 0 0 2, Vec3i.mk 1 1 2, Vec3i.mk (-1) 1 2, Vec3i.mk 1 2 2, Vec3i.mk (-1) 0 2, Vec3i.mk (-1) 2 0, Vec3i.mk 2 0 1, Vec3i.mk 1 1 1, Vec3i.mk 1 0 2, Vec3i.mk 1 (-1) 1, Vec3i.mk 2 1 1, Vec3i.mk 2 (-1) 1, Vec3i.mk 1 1 2, Vec3i.mk 1 (-1) 2, Vec3i.mk 2 0 2, Vec3i.mk 2 0 0, Vec3i.mk 0 0 2, Vec3i.mk 2 1 2, Vec3i.mk 0 (-1) 2, Vec3i.mk 2 (-1) 0, Vec3i.mk 2 1 1, Vec3i.mk 1 2 1, Vec3i.mk 1 1 2, Vec3i.mk 2 2 1, Vec3i.mk 2 0 1, Vec3i.mk 0 2 1, Vec3i.mk 1 2 2, Vec3i.mk 1 2 0, Vec3i.mk 1 0 2, Vec3i.mk 2 1 2, Vec3i.mk 2 1 0, Vec3i.mk 0 1 2, Vec3i.mk 2 2 2, Vec3i.mk 0 0 2, Vec3i.mk 0 2 0, Vec3i.mk 2 0 0] [Vec3i.mk 2 2 1, Vec3i.mk 2 1 (-1), Vec3i.mk 1 2 (-1), Vec3i.mk 2 2 0, Vec3i.mk (-1) (-1) 2, Vec3i.mk (-1) (-1) 0, Vec3i.mk 1 1 2, Vec3i.mk (-1) 0 2, Vec3i.mk 1 0 2, Vec3i.mk 0 (-1) 2, Vec3i.mk 0 1 2, Vec3i.mk 0 0 2, Vec3i.mk (-1) 2 (-1), Vec3i.mk (-1) 0 (-1), Vec3i.mk 1 2 1, Vec3i.mk (-1) 1 1, Vec3i.mk 0 2 (-1), Vec3i.mk 0 2 1, Vec3i.mk (-1) 2 0, Vec3i.mk 1 2 0, Vec3i.mk 0 2 0, Vec3i.mk 2 (-1) (-1), Vec3i.mk 0 (-1) (-1), Vec3i.mk 2 1 1, Vec3i.mk 2 0 (-1), Vec3i.mk 2 0 1, Vec3i.mk 1 (-1) 1, Vec3i.mk 1 1 (-1), Vec3i.mk 2 (-1) 0, Vec3i.mk 2 1 0, Vec3i.mk 2 0 0, Vec3i.mk 1 (-1) (-1), Vec3i.mk (-1) 1 (-1), Vec3i.mk (-1) (-1) 1, Vec3i.mk (-1) (-1) (-1), Vec3i.mk 1 1 1, Vec3i.mk (-1) 0 1, Vec3i.mk 1 0 (-1), Vec3i.mk 1 0 1, Vec3i.mk 0 (-1) 1, Vec3i.mk 0 1 (-1), Vec3i.mk 0 1 1, Vec3i.mk (-1) 1 0, Vec3i.mk 1 (-1) 0, Vec3i.mk 1 1 0, Vec3i.mk 0 0 (-1), Vec3i.mk 0 (-1) 0, Vec3i.mk (-1) 0 0, Vec3i.mk 0 0 1, Vec3i.mk 0 1 0, Vec3i.mk 1 0 0, Vec3i.mk 0 0 0] [Atom.mk (Vec3.mk (50000/200001) (50000/200001) (50000/200001)) "X", Atom.mk (Vec3.mk (50000/66667) (50000/200001) (50000/200001)) "X", Atom.mk (Vec3.mk (50000/200001) (50000/66667) (50000/200001)) "X", Atom.mk (Vec3.mk (50000/200001) (50000/200001) (50000/66667)) "X", Atom.mk (Vec3.mk (50000/66667) (50000/66667) (50000/200001)) "X", Atom.mk (Vec3.mk (50000/200001) (50000/66667) (50000/66667)) "X", Atom.mk (Vec3.mk (50000/66667) (50000/200001) (50000/66667)) "X", Atom.mk (Vec3.mk (50000/66667) (50000/66667) (50000/66667)) "X"],
  GrowState.mk [Vec3i.mk 2 0 (-1), Vec3i.mk 1 1 1, Vec3i.mk 0 2 1, Vec3i.mk 0 1 2, Vec3i.mk (-1) 1 1, Vec3i.mk 1 2 1, Vec3i.mk 1 0 1, Vec3i.mk (-1) 2 1, Vec3i.mk 0 2 2, Vec3i.mk 0 2 0, Vec3i.mk 0 0 2, Vec3i.mk 1 1 2, Vec3i.mk (-1) 1 2, Vec3i.mk 1 2 2, Vec3i.mk (-1) 0 2, Vec3i.mk (-1) 2 0, Vec3i.mk 2 0 1, Vec3i.mk 1 1 1, Vec3i.mk 1 0 2, Vec3i.mk 1 (-1) 1, Vec3i.mk 2 1 1, Vec3i.mk 2 (-1) 1, Vec3i.mk 1 1 2, Vec3i.mk 1 (-1) 2, Vec3i.mk 2 0 2, Vec3i.mk 2 0 0, Vec3i.mk 0 0 2, Vec3i.mk 2 1 2, Vec3i.mk 0 (-1) 2, Vec3i.mk 2 (-1) 0, Vec3i.mk 2 1 1, Vec3i.mk 1 2 1, Vec3i.mk 1 1 2, Vec3i.mk 2 2 1, Vec3i.mk 2 0 1, Vec3i.mk 0 2 1, Vec3i.mk 1 2 2, Vec3i.mk 1 2 0, Vec3i.mk 1 0 2, Vec3i.mk 2 1 2, Vec3i.mk 2 1 0, Vec3i.mk 0 1 2, Vec3i.mk 2 2 2, Vec3i.mk 0 0 2, Vec3i.mk 0 2 0, Vec3i.mk 2 0 0] [Vec3i.mk 2 2 1, Vec3i.mk 2 1 (-1), Vec3i.mk 1 2 (-1), Vec3i.mk 2 2 0, Vec3i.mk (-1) (-1) 2, Vec3i.mk (-1) (-1) 0, Vec3i.mk 1 1 2, Vec3i.mk (-1) 0 2, Vec3i.mk 1 0 2, Vec3i.mk 0 (-1) 2, Vec3i.mk 0 1 2, Vec3i.mk 0 0 2, Vec3i.mk (-1) 2 (-1), Vec3i.mk (-1) 0 (-1), Vec3i.mk 1 2 1, Vec3i.mk (-1) 1 1, Vec3i.mk 0 2 (-1), Vec3i.mk 0 2 1, Vec3i.mk (-1) 2 0, Vec3i.mk 1 2 0, Vec3i.mk 0 2 0, Vec3i.mk 2 (-1) (-1), Vec3i.mk 0 (-1) (-1), Vec3i.mk 2 1 1, Vec3i.mk 2 0 (-1), Vec3i.mk 2 0 1, Vec3i.mk 1 (-1) 1, Vec3i.mk 1 1 (-1), Vec3i.mk 2 (-1) 0, Vec3i.mk 2 1 0, Vec3i.mk 2 0 0, Vec3i.mk 1 (-1) (-1), Vec3i.mk (-1) 1 (-1), Vec3i.mk (-1) (-1) 1, Vec3i.mk (-1) (-1) (-1), Vec3i.mk 1 1 1, Vec3i.mk (-1) 0 1, Vec3i.mk 1 0 (-1), Vec3i.mk 1 0 1, Vec3i.mk 0 (-1) 1, Vec3i.mk 0 1 (-1), Vec3i.mk 0 1 1, Vec3i.mk (-1) 1 0, Vec3i.mk 1 (-1) 0, Vec3i.mk 1 1 0, Vec3i.mk 0 0 (-1), Vec3i.mk 0 (-1) 0, Vec3i.mk (-1) 0 0, Vec3i.mk 0 0 1, Vec3i.mk 0 1 0, Vec3i.mk 1 0 0, Vec3i.mk 0 0 0] [Atom.mk (Vec3.mk (50000/200001) (50000/200001) (50000/200001)) "X", Atom.mk (Vec3.mk (50000/66667) (50000/200001) (50000/200001)) "X", Atom.mk (Vec3.mk (50000/200001) (50000/66667) (50000/200001)) "X", Atom.mk (Vec3.mk (50000/200001) (50000/200001) (50000/66667)) "X", Atom.mk (Vec3.mk (50000/66667) (50000/66667) (50000/200001)) "X", Atom.mk (Vec3.mk (50000/200001) (50000/66667) (50000/66667)) "X", Atom.mk (Vec3.mk (50000/66667) (50000/200001) (50000/66667)) "X", Atom.mk (Vec3.mk (50000/66667) (50000/66667) (50000/66667)) "X"],
  GrowState.mk [Vec3i.mk 1 1 1, Vec3i.mk 0 2 1, Vec3i.mk 0 1 2, Vec3i.mk (-1) 1 1, Vec3i.mk 1 2 1, Vec3i.mk 1 0 1, Vec3i.mk (-1) 2 1, Vec3i.mk 0 2 2, Vec3i.mk 0 2 0, Vec3i.mk 0 0 2, Vec3i.mk 1 1 2, Vec3i.mk (-1) 1 2, Vec3i.mk 1 2 2, Vec3i.mk (-1) 0 2, Vec3i.mk (-1) 2 0, Vec3i.mk 2 0 1, Vec3i.mk 1 1 1, Vec3i.mk 1 0 2, Vec3i.mk 1 (-1) 1, Vec3i.mk 2 1 1, Vec3i.mk 2 (-1) 1, Vec3i.mk 1 1 2, Vec3i.mk 1 (-1) 2, Vec3i.mk 2 0 2, Vec3i.mk 2 0 0, Vec3i.mk 0 0 2, Vec3i.mk 2 1 2, Vec3i.mk 0 (-1) 2, Vec3i.mk 2 (-1) 0, Vec3i.mk 2 1 1, Vec3i.mk 1 2 1, Vec3i.mk 1 1 2, Vec3i.mk 2 2 1, Vec3i.mk 2 0 1, Vec3i.mk 0 2 1, Vec3i.mk 1 2 2, Vec3i.mk 1 2 0, Vec3i.mk 1 0 2, Vec3i.mk 2 1 2, Vec3i.mk 2 1 0, Vec3i.mk 0 1 2, Vec3i.mk 2 2 2, Vec3i.mk 0 0 2, Vec3i.mk 0 2 0, Vec3i.mk 2 0 0] [Vec3i.mk 2 2 1, Vec3i.mk 2 1 (-1), Vec3i.mk 1 2 (-1), Vec3i.mk 2 2 0, Vec3i.mk (-1) (-1) 2, Vec3i.mk (-1) (-1) 0, Vec3i.mk 1 1 2, Vec3i.mk (-1) 0 2, Vec3i.mk 1 0 2, Vec3i.mk 0 (-1) 2, Vec3i.mk 0 1 2, Vec3i.mk 0 0 2, Vec3i.mk (-1) 2 (-1), Vec3i.mk (-1) 0 (-1), Vec3i.mk 1 2 1, Vec3i.mk (-1) 1 1, Vec3i.mk 0 2 (-1), Vec3i.mk 0 2 1, Vec3i.mk (-1) 2 0, Vec3i.mk 1 2 0, Vec3i.mk 0 2 0, Vec3i.mk 2 (-1) (-1), Vec3i.mk 0 (-1) (-1), Vec3i.mk 2 1 1, Vec3i.mk 2 0 (-1), Vec3i.mk 2 0 1, Vec3i.mk 1 (-1) 1, Vec3i.mk 1 1 (-1), Vec3i.mk 2 (-1) 0, Vec3i.mk 2 1 0, Vec3i.mk 2 0 0, Vec3i.mk 1 (-1) (-1), Vec3i.mk (-1) 1 (-1), Vec3i.mk (-1) (-1) 1, Vec3i.mk (-1) (-1) (-1), Vec3i.mk 1 1 1, Vec3i.mk (-1) 0 1, Vec3i.mk 1 0 (-1), Vec3i.mk 1 0 1, Vec3i.mk 0 (-1) 1, Vec3i.mk 0 1 (-1), Vec3i.mk 0 1 1, Vec3i.mk (-1) 1 0, Vec3i.mk 1 (-1) 0, Vec3i.mk 1 1 0, Vec3i.mk 0 0 (-1), Vec3i.mk 0 (-1) 0, Vec3i.mk (-1) 0 0, Vec3i.mk 0 0 1, Vec3i.mk 0 1 0, Vec3i.mk 1 0 0, Vec3i.mk 0 0 0] [Atom.mk (Vec3.mk (50000/200001) (50000/200001) (50000/200001)) "X", Atom.mk (Vec3.mk (50000/66667) (50000/200001) (50000/200001)) "X", Atom.mk (Vec3.mk (50000/200001) (50000/66667) (50000/200001)) "X", Atom.mk (Vec3.mk (50000/200001) (50000/200001) (50000/66667)) "X", Atom.mk (Vec3.mk (50000/66667) (50000/66667) (50000/200001)) "X", Atom.mk (Vec3.mk (50000/200001) (50000/66667) (50000/66667)) "X", Atom.mk (Vec3.mk (50000/66667) (50000/200001) (50000/66667)) "X", Atom.mk (Vec3.mk (50000/66667) (50000/66667) (50000/66667)) "X"],
  GrowState.mk [Vec3i.mk 0 2 1, Vec3i.mk 0 1 2, Vec3i.mk (-1) 1 1, Vec3i.mk 1 2 1, Vec3i.mk 1 0 1, Vec3i.mk (-1) 2 1, Vec3i.mk 0 2 2, Vec3i.mk 0 2 0, Vec3i.mk 0 0 2, Vec3i.mk 1 1 2, Vec3i.mk (-1) 1 2, Vec3i.mk 1 2 2, Vec3i.mk (-1) 0 2, Vec3i.mk (-1) 2 0, Vec3i.mk 2 0 1, Vec3i.mk 1 1 1, Vec3i.mk 1 0 2, Vec3i.mk 1 (-1) 1, Vec3i.mk 2 1 1, Vec3i.mk 2 (-1) 1, Vec3i.mk 1 1 2, Vec3i.mk 1 (-1) 2, Vec3i.mk 2 0 2, Vec3i.mk 2 0 0, Vec3i.mk 0 0 2, Vec3i.mk 2 1 2, Vec3i.mk 0 (-1) 2, Vec3i.mk 2 (-1) 0, Vec3i.mk 2 1 1, Vec3i.mk 1 2 1, Vec3i.mk 1 1 2, Vec3i.mk 2 2 1, Vec3i.mk 2 0 1, Vec3i.mk 0 2 1, Vec3i.mk 1 2 2, Vec3i.mk 1 2 0, Vec3i.mk 1 0 2, Vec3i.mk 2 1 2, Vec3i.mk 2 1 0, Vec3i.mk 0 1 2, Vec3i.mk 2 2 2, Vec3i.mk 0 0 2, Vec3i.mk 0 2 0, Vec3i.mk 2 0 0] [Vec3i.mk 2 2 1, Vec3i.mk 2 1 (-1), Vec3i.mk 1 2 (-1), Vec3i.mk 2 2 0, Vec3i.mk (-1) (-1) 2, Vec3i.mk (-1) (-1) 0, Vec3i.mk 1 1 2, Vec3i.mk (-1) 0 2, Vec3i.mk 1 0 2, Vec3i.mk 0 (-1) 2, Vec3i.mk 0 1 2, Vec3i.mk 0 0 2, Vec3i.mk (-1) 2 (-1), Vec3i.mk (-1) 0 (-1), Vec3i.mk 1 2 1, Vec3i.mk (-1) 1 1, Vec3i.mk 0 2 (-1), Vec3i.mk 0 2 1, Vec3i.mk (-1) 2 0, Vec3i.mk 1 2 0, Vec3i.mk 0 2 0, Vec3i.mk 2 (-1) (-1), Vec3i.mk 0 (-1) (-1), Vec3i.mk 2 1 1, Vec3i.mk 2 0 (-1), Vec3i.mk 2 0 1, Vec3i.mk 1 (-1) 1, Vec3i.mk 1 1 (-1), Vec3i.mk 2 (-1) 0, Vec3i.mk 2 1 0, Vec3i.mk 2 0 0, Vec3i.mk 1 (-1) (-1), Vec3i.mk (-1) 1 (-1), Vec3i.mk (-1) (-1) 1, Vec3i.mk (-1) (-1) (-1), Vec3i.mk 1 1 1, Vec3i.mk (-1) 0 1, Vec3i.mk 1 0 (-1), Vec3i.mk 1 0 1, Vec3i.mk 0 (-1) 1, Vec3i.mk 0 1 (-1), Vec3i.mk 0 1 1, Vec3i.mk (-1) 1 0, Vec3i.mk 1 (-1) 0, Vec3i.mk 1 1 0, Vec3i.mk 0 0 (-1), Vec3i.mk 0 (-1) 0, Vec3i.mk (-1) 0 0, Vec3i.mk 0 0 1, Vec3i.mk 0 1 0, Vec3i.mk 1 0 0, Vec3i.mk 0 0 0] [Atom.mk (Vec3.mk (50000/200001) (50000/200001) (50000/200001)) "X", Atom.mk (Vec3.mk (50000/66667) (50000/200001) (50000/200001)) "X", Atom.mk (Vec3.mk (50000/200001) (50000/66667) (50000/200001)) "X", Atom.mk (Vec3.mk (50000/200001) (50000/200001) (50000/66667)) "X", Atom.mk (Vec3.mk (50000/66667) (50000/66667) (50000/200001)) "X", Atom.mk (Vec3.mk (50000/200001) (50000/66667) (50000/66667)) "X", Atom.mk (Vec3.mk (50000/66667) (50000/200001) (50000/66667)) "X", Atom.mk (Vec3.mk (50000/66667) (50000/66667) (50000/66667)) "X"],
  GrowState.mk [Vec3i.mk 0 1 2, Vec3i.mk (-1) 1 1, Vec3i.mk 1 2 1, Vec3i.mk 1 0 1, Vec3i.mk (-1) 2 1, Vec3i.mk 0 2 2, Vec3i.mk 0 2 0, Vec3i.mk 0 0 2, Vec3i.mk 1 1 2, Vec3i.mk (-1) 1 2, Vec3i.mk 1 2 2, Vec3i.mk (-1) 0 2, Vec3i.mk (-1) 2 0, Vec3i.mk 2 0 1, Vec3i.mk 1 1 1, Vec3i.mk 1 0 2, Vec3i.mk 1 (-1) 1, Vec3i.mk 2 1 1, Vec3i.mk 2 (-1) 1, Vec3i.mk 1 1 2, Vec3i.mk 1 (-1) 2, Vec3i.mk 2 0 2, Vec3i.mk 2 0 0, Vec3i.mk 0 0 2, Vec3i.mk 2 1 2, Vec3i.mk 0 (-1) 2, Vec3i.mk 2 (-1) 0, Vec3i.mk 2 1 1, Vec3i.mk 1 2 1, Vec3i.mk 1 1 2, Vec3i.mk 2 2 1, Vec3i.mk 2 0 1, Vec3i.mk 0 2 1, Vec3i.mk 1 2 2, Vec3i.mk 1 2 0, Vec3i.mk 1 0 2, Vec3i.mk 2 1 2, Vec3i.mk 2 1 0, Vec3i.mk 0 1 2, Vec3i.mk 2 2 2, Vec3i.mk 0 0 2, Vec3i.mk 0 2 0, Vec3i.mk 2 0 0] [Vec3i.mk 2 2 1, Vec3i.mk 2 1 (-1), Vec3i.mk 1 2 (-1), Vec3i.mk 2 2 0, Vec3i.mk (-1) (-1) 2, Vec3i.mk (-1) (-1) 0, Vec3i.mk 1 1 2, Vec3i.mk (-1) 0 2, Vec3i.mk 1 0 2, Vec3i.mk 0 (-1) 2, Vec3i.mk 0 1 2, Vec3i.mk 0 0 2, Vec3i.mk (-1) 2 (-1), Vec3i.mk (-1) 0 (-1), Vec3i.mk 1 2 1, Vec3i.mk (-1) 1 1, Vec3i.mk 0 2 (-1), Vec3i.mk 0 2 1, Vec3i.mk (-1) 2 0, Vec3i.mk 1 2 0, Vec3i.mk 0 2 0, Vec3i.mk 2 (-1) (-1), Vec3i.mk 0 (-1) (-1), Vec3i.mk 2 1 1, Vec3i.mk 2 0 (-1), Vec3i.mk 2 0 1, Vec3i.mk 1 (-1) 1, Vec3i.mk 1 1 (-1), Vec3i.mk 2 (-1) 0, Vec3i.mk 2 1 0, Vec3i.mk 2 0 0, Vec3i.mk 1 (-1) (-1), Vec3i.mk (-1) 1 (-1), Vec3i.mk (-1) (-1) 1, Vec3i.mk (-1) (-1) (-1), Vec3i.mk 1 1 1, Vec3i.mk (-1) 0 1, Vec3i.mk 1 0 (-1), Vec3i.mk 1 0 1, Vec3i.mk 0 (-1) 1, Vec3i.mk 0 1 (-1), Vec3i.mk 0 1 1, Vec3i.mk (-1) 1 0, Vec3i.mk 1 (-1) 0, Vec3i.mk 1 1 0, Vec3i.mk 0 0 (-1), Vec3i.mk 0 (-1) 0, Vec3i.mk (-1) 0 0, Vec3i.mk 0 0 1, Vec3i.mk 0 1 0, Vec3i.mk 1 0 0, Vec3i.mk 0 0 0] [Atom.mk (Vec3.mk (50000/200001) (50000/200001) (50000/200001)) "X", Atom.mk (Vec3.mk (50000/66667) (50000/200001) (50000/200001)) "X", Atom.mk (Vec3.mk (50000/200001) (50000/66667) (50000/200001)) "X", Atom.mk (Vec3.mk (50000/200001) (50000/200001) (50000/66667)) "X", Atom.mk (Vec3.mk (50000/66667) (50000/66667) (50000/200001)) "X", Atom.mk (Vec3.mk (50000/200001) (50000/66667) (50000/66667)) "X", Atom.mk (Vec3.mk (50000/66667) (50000/200001) (50000/66667)) "X", Atom.mk (Vec3.mk (50000/66667) (50000/66667) (50000/66667)) "X"],
  GrowState.mk [Vec3i.mk (-1) 1 1, Vec3i.mk 1 2 1, Vec3i.mk 1 0 1, Vec3i.mk (-1) 2 1, Vec3i.mk 0 2 2, Vec3i.mk 0 2 0, Vec3i.mk 0 0 2, Vec3i.mk 1 1 2, Vec3i.mk (-1) 1 2, Vec3i.mk 1 2 2, Vec3i.mk (-1) 0 2, Vec3i.mk (-1) 2 0, Vec3i.mk 2 0 1, Vec3i.mk 1 1 1, Vec3i.mk 1 0 2, Vec3i.mk 1 (-1) 1, Vec3i.mk 2 1 1, Vec3i.mk 2 (-1) 1, Vec3i.mk 1 1 2, Vec3i.mk 1 (-1) 2, Vec3i.mk 2 0 2, Vec3i.mk 2 0 0, Vec3i.mk 0 0 2, Vec3i.mk 2 1 2, Vec3i.mk 0 (-1) 2, Vec3i.mk 2 (-1) 0, Vec3i.mk 2 1 1, Vec3i.mk 1 2 1, Vec3i.mk 1 1 2, Vec3i.mk 2 2 1, Vec3i.mk 2 0 1, Vec3i.mk 0 2 1, Vec3i.mk 1 2 2, Vec3i.mk 1 2 0, Vec3i.mk 1 0 2, Vec3i.mk 2 1 2, Vec3i.mk 2 1 0, Vec3i.mk 0 1 2, Vec3i.mk 2 2 2, Vec3i.mk 0 0 2, Vec3i.mk 0 2 0, Vec3i.mk 2 0 0] [Vec3i.mk 2 2 1, Vec3i.mk 2 1 (-1), Vec3i.mk 1 2 (-1), Vec3i.mk 2 2 0, Vec3i.mk (-1) (-1) 2, Vec3i.mk (-1) (-1) 0, Vec3i.mk 1 1 2, Vec3i.mk (-1) 0 2, Vec3i.mk 1 0 2, Vec3i.mk 0 (-1) 2, Vec3i.mk 0 1 2, Vec3i.mk 0 0 2, Vec3i.mk (-1) 2 (-1), Vec3i.mk (-1) 0 (-1), Vec3i.mk 1 2 1, Vec3i.mk (-1) 1 1, Vec3i.mk 0 2 (-1), Vec3i.mk 0 2 1, Vec3i.mk (-1) 2 0, Vec3i.mk 1 2 0, Vec3i.mk 0 2 0, Vec3i.mk 2 (-1) (-1), Vec3i.mk 0 (-1) (-1), Vec3i.mk 2 1 1, Vec3i.mk 2 0 (-1), Vec3i.mk 2 0 1, Vec3i.mk 1 (-1) 1, Vec3i.mk 1 1 (-1), Vec3i.mk 2 (-1) 0, Vec3i.mk 2 1 0, Vec3i.mk 2 0 0, Vec3i.mk 1 (-1) (-1), Vec3i.mk (-1) 1 (-1), Vec3i.mk (-1) (-1) 1, Vec3i.mk (-1) (-1) (-1), Vec3i.mk 1 1 1, Vec3i.mk (-1) 0 1, Vec3i.mk 1 0 (-1), Vec3i.mk 1 0 1, Vec3i.mk 0 (-1) 1, Vec3i.mk 0 1 (-1), Vec3i.mk 0 1 1, Vec3i.mk (-1) 1 0, Vec3i.mk 1 (-1) 0, Vec3i.mk 1 1 0, Vec3i.mk 0 0 (-1), Vec3i.mk 0 (-1) 0, Vec3i.mk (-1) 0 0, Vec3i.mk 0 0 1, Vec3i.mk 0 1 0, Vec3i.mk 1 0 0, Vec3i.mk 0 0 0] [Atom.mk (Vec3.mk (50000/200001) (50000/200001) (50000/200001)) "X", Atom.mk (Vec3.mk (50000/66667) (50000/200001) (50000/200001)) "X", Atom.mk (Vec3.mk (50000/200001) (50000/66667) (50000/200001)) "X", Atom.mk (Vec3.mk (50000/200001) (50000/200001) (50000/66667)) "X", Atom.mk (Vec3.mk (50000/66667) (50000/66667) (50000/200001)) "X", Atom.mk (Vec3.mk (50000/200001) (50000/66667) (50000/66667)) "X", Atom.mk (Vec3.mk (50000/66667) (50000/200001) (50000/66667)) "X", Atom.mk (Vec3.mk (50000/66667) (50000/66667) (50000/66667)) "X"],
  GrowState.mk [Vec3i.mk 1 2 1, Vec3i.mk 1 0 1, Vec3i.mk (-1) 2 1, Vec3i.mk 0 2 2, Vec3i.mk 0 2 0, Vec3i.mk 0 0 2, Vec3i.mk 1 1 2, Vec3i.mk (-1) 1 2, Vec3i.mk 1 2 2, Vec3i.mk (-1) 0 2, Vec3i.mk (-1) 2 0, Vec3i.mk 2 0 1, Vec3i.mk 1 1 1, Vec3i.mk 1 0 2, Vec3i.mk 1 (-1) 1, Vec3i.mk 2 1 1, Vec3i.mk 2 (-1) 1, Vec3i.mk 1 1 2, Vec3i.mk 1 (-1) 2, Vec3i.mk 2 0 2, Vec3i.mk 2 0 0, Vec3i.mk 0 0 2, Vec3i.mk 2 1 2, Vec3i.mk 0 (-1) 2, Vec3i.mk 2 (-1) 0, Vec3i.mk 2 1 1, Vec3i.mk 1 2 1, Vec3i.mk 1 1 2, Vec3i.mk 2 2 1, Vec3i.mk 2 0 1, Vec3i.mk 0 2 1, Vec3i.mk 1 2 2, Vec3i.mk 1 2 0, Vec3i.mk 1 0 2, Vec3i.mk 2 1 2, Vec3i.mk 2 1 0, Vec3i.mk 0 1 2, Vec3i.mk 2 2 2, Vec3i.mk 0 0 2, Vec3i.mk 0 2 0, Vec3i.mk 2 0 0] [Vec3i.mk 2 2 1, Vec3i.mk 2 1 (-1), Vec3i.mk 1 2 (-1), Vec3i.mk 2 2 0, Vec3i.mk (-1) (-1) 2, Vec3i.mk (-1) (-1) 0, Vec3i.mk 1 1 2, Vec3i.mk (-1) 0 2, Vec3i.mk 1 0 2, Vec3i.mk 0 (-1) 2, Vec3i.mk 0 1 2, Vec3i.mk 0 0 2, Vec3i.mk (-1) 2 (-1), Vec3i.mk (-1) 0 (-1), Vec3i.mk 1 2 1, Vec3i.mk (-1) 1 1, Vec3i.mk 0 2 (-1), Vec3i.mk 0 2 1, Vec3i.mk (-1) 2 0, Vec3i.mk 1 2 0, Vec3i.mk 0 2 0, Vec3i.mk 2 (-1) (-1), Vec3i.mk 0 (-1) (-1), Vec3i.mk 2 1 1, Vec3i.mk 2 0 (-1), Vec3i.mk 2 0 1, Vec3i.mk 1 (-1) 1, Vec3i.mk 1 1 (-1), Vec3i.mk 2 (-1) 0, Vec3i.mk 2 1 0, Vec3i.mk 2 0 0, Vec3i.mk 1 (-1) (-1), Vec3i.mk (-1) 1 (-1), Vec3i.mk (-1) (-1) 1, Vec3i.mk (-1) (-1) (-1), Vec3i.mk 1 1 1, Vec3i.mk (-1) 0 1, Vec3i.mk 1 0 (-1), Vec3i.mk 1 0 1, Vec3i.mk 0 (-1) 1, Vec3i.mk 0 1 (-1), Vec3i.mk 0 1 1, Vec3i.mk (-1) 1 0, Vec3i.mk 1 (-1) 0, Vec3i.mk 1 1 0, Vec3i.mk 0 0 (-1), Vec3i.mk 0 (-1) 0, Vec3i.mk (-1) 0 0, Vec3i.mk 0 0 1, Vec3i.mk 0 1 0, Vec3i.mk 1 0 0, Vec3i.mk 0 0 0] [Atom.mk (Vec3.mk (50000/200001) (50000/200001) (50000/200001)) "X", Atom.mk (Vec3.mk (50000/66667) (50000/200001) (50000/200001)) "X", Atom.mk (Vec3.mk (50000/200001) (50000/66667) (50000/200001)) "X", Atom.mk (Vec3.mk (50000/200001) (50000/200001) (50000/66667)) "X", Atom.mk (Vec3.mk (50000/66667) (50000/66667) (50000/200001)) "X", Atom.mk (Vec3.mk (50000/200001) (50000/66667) (50000/66667)) "X", Atom.mk (Vec3.mk (50000/66667) (50000/200001) (50000/66667)) "X", Atom.mk (Vec3.mk (50000/66667) (50000/66667) (50000/66667)) "X"],
  GrowState.mk [Vec3i.mk 1 0 1, Vec3i.mk (-1) 2 1, Vec3i.mk 0 2 2, Vec3i.mk 0 2 0, Vec3i.mk 0 0 2, Vec3i.mk 1 1 2, Vec3i.mk (-1) 1 2, Vec3i.mk 1 2 2, Vec3i.mk (-1) 0 2, Vec3i.mk (-1) 2 0, Vec3i.mk 2 0 1, Vec3i.mk 1 1 1, Vec3i.mk 1 0 2, Vec3i.mk 1 (-1) 1, Vec3i.mk 2 1 1, Vec3i.mk 2 (-1) 1, Vec3i.mk 1 1 2, Vec3i.mk 1 (-1) 2, Vec3i.mk 2 0 2, Vec3i.mk 2 0 0, Vec3i.mk 0 0 2, Vec3i.mk 2 1 2, Vec3i.mk 0 (-1) 2, Vec3i.mk 2 (-1) 0, Vec3i.mk 2 1 1, Vec3i.mk 1 2 1, Vec3i.mk 1 1 2, Vec3i.mk 2 2 1, Vec3i.mk 2 0 1, Vec3i.mk 0 2 1, Vec3i.mk 1 2 2, Vec3i.mk 1 2 0, Vec3i.mk 1 0 2, Vec3i.mk 2 1 2, Vec3i.mk 2 1 0, Vec3i.mk 0 1 2, Vec3i.mk 2 2 2, Vec3i.mk 0 0 2, Vec3i.mk 0 2 0, Vec3i.mk 2 0 0] [Vec3i.mk 2 2 1, Vec3i.mk 2 1 (-1), Vec3i.mk 1 2 (-1), Vec3i.mk 2 2 0, Vec3i.mk (-1) (-1) 2, Vec3i.mk (-1) (-1) 0, Vec3i.mk 1 1 2, Vec3i.mk (-1) 0 2, Vec3i.mk 1 0 2, Vec3i.mk 0 (-1) 2, Vec3i.mk 0 1 2, Vec3i.mk 0 0 2, Vec3i.mk (-1) 2 (-1), Vec3i.mk (-1) 0 (-1), Vec3i.mk 1 2 1, Vec3i.mk (-1) 1 1, Vec3i.mk 0 2 (-1), Vec3i.mk 0 2 1, Vec3i.mk (-1) 2 0, Vec3i.mk 1 2 0, Vec3i.mk 0 2 0, Vec3i.mk 2 (-1) (-1), Vec3i.mk 0 (-1) (-1), Vec3i.mk 2 1 1, Vec3i.mk 2 0 (-1), Vec3i.mk 2 0 1, Vec3i.mk 1 (-1) 1, Vec3i.mk 1 1 (-1), Vec3i.mk 2 (-1) 0, Vec3i.mk 2 1 0, Vec3i.mk 2 0 0, Vec3i.mk 1 (-1) (-1), Vec3i.mk (-1) 1 (-1), Vec3i.mk (-1) (-1) 1, Vec3i.mk (-1) (-1) (-1), Vec3i.mk 1 1 1, Vec3i.mk (-1) 0 1, Vec3i.mk 1 0 (-1), Vec3i.mk 1 0 1, Vec3i.mk 0 (-1) 1, Vec3i.mk 0 1 (-1), Vec3i.mk 0 1 1, Vec3i.mk (-1) 1 0, Vec3i.mk 1 (-1) 0, Vec3i.mk 1 1 0, Vec3i.mk 0 0 (-1), Vec3i.mk 0 (-1) 0, Vec3i.mk (-1) 0 0, Vec3i.mk 0 0 1, Vec3i.mk 0 1 0, Vec3i.mk 1 0 0, Vec3i.mk 0 0 0] [Atom.mk (Vec3.mk (50000/200001) (50000/200001) (50000/200001)) "X", Atom.mk (Vec3.mk (50000/66667) (50000/200001) (50000/200001)) "X", Atom.mk (Vec3.mk (50000/200001) (50000/66667) (50000/200001)) "X", Atom.mk (Vec3.mk (50000/200001) (50000/200001) (50000/66667)) "X", Atom.mk (Vec3.mk (50000/66667) (50000/66667) (50000/200001)) "X", Atom.mk (Vec3.mk (50000/200001) (50000/66667) (50000/66667)) "X", Atom.mk (Vec3.mk (50000/66667) (50000/200001) (50000/66667)) "X", Atom.mk (Vec3.mk (50000/66667) (50000/66667) (50000/66667)) "X"],
  GrowState.mk [Vec3i.mk (-1) 2 1, Vec3i.mk 0 2 2, Vec3i.mk 0 2 0, Vec3i.mk 0 0 2, Vec3i.mk 1 1 2, Vec3i.mk (-1) 1 2, Vec3i.mk 1 2 2, Vec3i.mk (-1) 0 2, Vec3i.mk (-1) 2 0, Vec3i.mk 2 0 1, Vec3i.mk 1 1 1, Vec3i.mk 1 0 2, Vec3i.mk 1 (-1) 1, Vec3i.mk 2 1 1, Vec3i.mk 2 (-1) 1, Vec3i.mk 1 1 2, Vec3i.mk 1 (-1) 2, Vec3i.mk 2 0 2, Vec3i.mk 2 0 0, Vec3i.mk 0 0 2, Vec3i.mk 2 1 2, Vec3i.mk 0 (-1) 2, Vec3i.mk 2 (-1) 0, Vec3i.mk 2 1 1, Vec3i.mk 1 2 1, Vec3i.mk 1 1 2, Vec3i.mk 2 2 1, Vec3i.mk 2 0 1, Vec3i.mk 0 2 1, Vec3i.mk 1 2 2, Vec3i.mk 1 2 0, Vec3i.mk 1 0 2, Vec3i.mk 2 1 2, Vec3i.mk 2 1 0, Vec3i.mk 0 1 2, Vec3i.mk 2 2 2, Vec3i.mk 0 0 2, Vec3i.mk 0 2 0, Vec3i.mk 2 0 0] [Vec3i.mk 2 2 1, Vec3i.mk 2 1 (-1), Vec3i.mk 1 2 (-1), Vec3i.mk 2 2 0, Vec3i.mk (-1) (-1) 2, Vec3i.mk (-1) (-1) 0, Vec3i.mk 1 1 2, Vec3i.mk (-1) 0 2, Vec3i.mk 1 0 2, Vec3i.mk 0 (-1) 2, Vec3i.mk 0 1 2, Vec3i.mk 0 0 2, Vec3i.mk (-1) 2 (-1), Vec3i.mk (-1) 0 (-1), Vec3i.mk 1 2 1, Vec3i.mk (-1) 1 1, Vec3i.mk 0 2 (-1), Vec3i.mk 0 2 1, Vec3i.mk (-1) 2 0, Vec3i.mk 1 2 0, Vec3i.mk 0 2 0, Vec3i.mk 2 (-1) (-1), Vec3i.mk 0 (-1) (-1), Vec3i.mk 2 1 1, Vec3i.mk 2 0 (-1), Vec3i.mk 2 0 1, Vec3i.mk 1 (-1) 1, Vec3i.mk 1 1 (-1), Vec3i.mk 2 (-1) 0, Vec3i.mk 2 1 0, Vec3i.mk 2 0 0, Vec3i.mk 1 (-1) (-1), Vec3i.mk (-1) 1 (-1), Vec3i.mk (-1) (-1) 1, Vec3i.mk (-1) (-1) (-1), Vec3i.mk 1 1 1, Vec3i.mk (-1) 0 1, Vec3i.mk 1 0 (-1), Vec3i.mk 1 0 1, Vec3i.mk 0 (-1) 1, Vec3i.mk 0 1 (-1), Vec3i.mk 0 1 1, Vec3i.mk (-1) 1 0, Vec3i.mk 1 (-1) 0, Vec3i.mk 1 1 0, Vec3i.mk 0 0 (-1), Vec3i.mk 0 (-1) 0, Vec3i.mk (-1) 0 0, Vec3i.mk 0 0 1, Vec3i.mk 0 1 0, Vec3i.mk 1 0 0, Vec3i.mk 0 0 0] [Atom.mk (Vec3.mk (50000/200001) (50000/200001) (50000/200001)) "X", Atom.mk (Vec3.mk (50000/66667) (50000/200001) (50000/200001)) "X", Atom.mk (Vec3.mk (50000/200001) (50000/66667) (50000/200001)) "X", Atom.mk (Vec3.mk (50000/200001) (50000/200001) (50000/66667)) "X", Atom.mk (Vec3.mk (50000/66667) (50000/66667) (50000/200001)) "X", Atom.mk (Vec3.mk (50000/200001) (50000/66667) (50000/66667)) "X", Atom.mk (Vec3.mk (50000/66667) (50000/200001) (50000/66667)) "X", Atom.mk (Vec3.mk (50000/66667) (50000/66667) (50000/66667)) "X"],
  GrowState.mk [Vec3i.mk 0 2 2, Vec3i.mk 0 2 0, Vec3i.mk 0 0 2, Vec3i.mk 1 1 2, Vec3i.mk (-1) 1 2, Vec3i.mk 1 2 2, Vec3i.mk (-1) 0 2, Vec3i.mk (-1) 2 0, Vec3i.mk 2 0 1, Vec3i.mk 1 1 1, Vec3i.mk 1 0 2, Vec3i.mk 1 (-1) 1, Vec3i.mk 2 1 1, Vec3i.mk 2 (-1) 1, Vec3i.mk 1 1 2, Vec3i.mk 1 (-1) 2, Vec3i.mk 2 0 2, Vec3i.mk 2 0 0, Vec3i.mk 0 0 2, Vec3i.mk 2 1 2, Vec3i.mk 0 (-1) 2, Vec3i.mk 2 (-1) 0, Vec3i.mk 2 1 1, Vec3i.mk 1 2 1, Vec3i.mk 1 1 2, Vec3i.mk 2 2 1, Vec3i.mk 2 0 1, Vec3i.mk 0 2 1, Vec3i.mk 1 2 2, Vec3i.mk 1 2 0, Vec3i.mk 1 0 2, Vec3i.mk 2 1 2, Vec3i.mk 2 1 0, Vec3i.mk 0 1 2, Vec3i.mk 2 2 2, Vec3i.mk 0 0 2, Vec3i.mk 0 2 0, Vec3i.mk 2 0 0] [Vec3i.mk (-1) 2 1, Vec3i.mk 2 2 1, Vec3i.mk 2 1 (-1), Vec3i.mk 1 2 (-1), Vec3i.mk 2 2 0, Vec3i.mk (-1) (-1) 2, Vec3i.mk (-1) (-1) 0, Vec3i.mk 1 1 2, Vec3i.mk (-1) 0 2, Vec3i.mk 1 0 2, Vec3i.mk 0 (-1) 2, Vec3i.mk 0 1 2, Vec3i.mk 0 0 2, Vec3i.mk (-1) 2 (-1), Vec3i.mk (-1) 0 (-1), Vec3i.mk 1 2 1, Vec3i.mk (-1) 1 1, Vec3i.mk 0 2 (-1), Vec3i.mk 0 2 1, Vec3i.mk (-1) 2 0, Vec3i.mk 1 2 0, Vec3i.mk 0 2 0, Vec3i.mk 2 (-1) (-1), Vec3i.mk 0 (-1) (-1), Vec3i.mk 2 1 1, Vec3i.mk 2 0 (-1), Vec3i.mk 2 0 1, Vec3i.mk 1 (-1) 1, Vec3i.mk 1 1 (-1), Vec3i.mk 2 (-1) 0, Vec3i.mk 2 1 0, Vec3i.mk 2 0 0, Vec3i.mk 1 (-1) (-1), Vec3i.mk (-1) 1 (-1), Vec3i.mk (-1) (-1) 1, Vec3i.mk (-1) (-1) (-1), Vec3i.mk 1 1 1, Vec3i.mk (-1) 0 1, Vec3i.mk 1 0 (-1), Vec3i.mk 1 0 1, Vec3i.mk 0 (-1) 1, Vec3i.mk 0 1 (-1), Vec3i.mk 0 1 1, Vec3i.mk (-1) 1 0, Vec3i.mk 1 (-1) 0, Vec3i.mk 1 1 0, Vec3i.mk 0 0 (-1), Vec3i.mk 0 (-1) 0, Vec3i.mk (-1) 0 0, Vec3i.mk 0 0 1, Vec3i.mk 0 1 0, Vec3i.mk 1 0 0, Vec3i.mk 0 0 0] [Atom.mk (Vec3.mk (50000/200001) (50000/200001) (50000/200001)) "X", Atom.mk (Vec3.mk (50000/66667) (50000/200001) (50000/200001)) "X", Atom.mk (Vec3.mk (50000/200001) (50000/66667) (50000/200001)) "X", Atom.mk (Vec3.mk (50000/200001) (50000/200001) (50000/66667)) "X", Atom.mk (Vec3.mk (50000/66667) (50000/66667) (50000/200001)) "X", Atom.mk (Vec3.mk (50000/200001) (50000/66667) (50000/66667)) "X", Atom.mk (Vec3.mk (50000/66667) (50000/200001) (50000/66667)) "X", Atom.mk (Vec3.mk (50000/66667) (50000/66667) (50000/66667)) "X"],
  GrowState.mk [Vec3i.mk 0 2 0, Vec3i.mk 0 0 2, Vec3i.mk 1 1 2, Vec3i.mk (-1) 1 2, Vec3i.mk 1 2 2, Vec3i.mk (-1) 0 2, Vec3i.mk (-1) 2 0, Vec3i.mk 2 0 1, Vec3i.mk 1 1 1, Vec3i.mk 1 0 2, Vec3i.mk 1 (-1) 1, Vec3i.mk 2 1 1, Vec3i.mk 2 (-1) 1, Vec3i.mk 1 1 2, Vec3i.mk 1 (-1) 2, Vec3i.mk 2 0 2, Vec3i.mk 2 0 0, Vec3i.mk 0 0 2, Vec3i.mk 2 1 2, Vec3i.mk 0 (-1) 2, Vec3i.mk 2 (-1) 0, Vec3i.mk 2 1 1, Vec3i.mk 1 2 1, Vec3i.mk 1 1 2, Vec3i.mk 2 2 1, Vec3i.mk 2 0 1, Vec3i.mk 0 2 1, Vec3i.mk 1 2 2, Vec3i.mk 1 2 0, Vec3i.mk 1 0 2, Vec3i.mk 2 1 2, Vec3i.mk 2 1 0, Vec3i.mk 0 1 2, Vec3i.mk 2 2 2, Vec3i.mk 0 0 2, Vec3i.mk 0 2 0, Vec3i.mk 2 0 0] [Vec3i.mk 0 2 2, Vec3i.mk (-1) 2 1, Vec3i.mk 2 2 1, Vec3i.mk 2 1 (-1), Vec3i.mk 1 2 (-1), Vec3i.mk 2 2 0, Vec3i.mk (-1) (-1) 2, Vec3i.mk (-1) (-1) 0, Vec3i.mk 1 1 2, Vec3i.mk (-1) 0 2, Vec3i.mk 1 0 2, Vec3i.mk 0 (-1) 2, Vec3i.mk 0 1 2, Vec3i.mk 0 0 2, Vec3i.mk (-1) 2 (-1), Vec3i.mk (-1) 0 (-1), Vec3i.mk 1 2 1, Vec3i.mk (-1) 1 1, Vec3i.mk 0 2 (-1), Vec3i.mk 0 2 1, Vec3i.mk (-1) 2 0, Vec3i.mk 1 2 0, Vec3i.mk 0 2 0, Vec3i.mk 2 (-1) (-1), Vec3i.mk 0 (-1) (-1), Vec3i.mk 2 1 1, Vec3i.mk 2 0 (-1), Vec3i.mk 2 0 1, Vec3i.mk 1 (-1) 1, Vec3i.mk 1 1 (-1), Vec3i.mk 2 (-1) 0, Vec3i.mk 2 1 0, Vec3i.mk 2 0 0, Vec3i.mk 1 (-1) (-1), Vec3i.mk (-1) 1 (-1), Vec3i.mk (-1) (-1) 1, Vec3i.mk (-1) (-1) (-1), Vec3i.mk 1 1 1, Vec3i.mk (-1) 0 1, Vec3i.mk 1 0 (-1), Vec3i.mk 1 0 1, Vec3i.mk 0 (-1) 1, Vec3i.mk 0 1 (-1), Vec3i.mk 0 1 1, Vec3i.mk (-1) 1 0, Vec3i.mk 1 (-1) 0, Vec3i.mk 1 1 0, Vec3i.mk 0 0 (-1), Vec3i.mk 0 (-1) 0, Vec3i.mk (-1) 0 0, Vec3i.mk 0 0 1, Vec3i.mk 0 1 0, Vec3i.mk 1 0 0, Vec3i.mk 0 0 0] [Atom.mk (Vec3.mk (50000/200001) (50000/200001) (50000/200001)) "X", Atom.mk (Vec3.mk (50000/66667) (50000/200001) (50000/200001)) "X", Atom.mk (Vec3.mk (50000/200001) (50000/66667) (50000/200001)) "X", Atom.mk (Vec3.mk (50000/200001) (50000/200001) (50000/66667)) "X", Atom.mk (Vec3.mk (50000/66667) (50000/66667) (50000/200001)) "X", Atom.mk (Vec3.mk (50000/200001) (50000/66667) (50000/66667)) "X", Atom.mk (Vec3.mk (50000/66667) (50000/200001) (50000/66667)) "X", Atom.mk (Vec3.mk (50000/66667) (50000/66667) (50000/66667)) "X"],
  GrowState.mk [Vec3i.mk 0 0 2, Vec3i.mk 1 1 2, Vec3i.mk (-1) 1 2, Vec3i.mk 1 2 2, Vec3i.mk (-1) 0 2, Vec3i.mk (-1) 2 0, Vec3i.mk 2 0 1, Vec3i.mk 1 1 1, Vec3i.mk 1 0 2, Vec3i.mk 1 (-1) 1, Vec3i.mk 2 1 1, Vec3i.mk 2 (-1) 1, Vec3i.mk 1 1 2, Vec3i.mk 1 (-1) 2, Vec3i.mk 2 0 2, Vec3i.mk 2 0 0, Vec3i.mk 0 0 2, Vec3i.mk 2 1 2, Vec3i.mk 0 (-1) 2, Vec3i.mk 2 (-1) 0, Vec3i.mk 2 1 1, Vec3i.mk 1 2 1, Vec3i.mk 1 1 2, Vec3i.mk 2 2 1, Vec3i.mk 2 0 1, Vec3i.mk 0 2 1, Vec3i.mk 1 2 2, Vec3i.mk 1 2 0, Vec3i.mk 1 0 2, Vec3i.mk 2 1 2, Vec3i.mk 2 1 0, Vec3i.mk 0 1 2, Vec3i.mk 2 2 2, Vec3i.mk 0 0 2, Vec3i.mk 0 2 0, Vec3i.mk 2 0 0] [Vec3i.mk 0 2 2, Vec3i.mk (-1) 2 1, Vec3i.mk 2 2 1, Vec3i.mk 2 1 (-1), Vec3i.mk 1 2 (-1), Vec3i.mk 2 2 0, Vec3i.mk (-1) (-1) 2, Vec3i.mk (-1) (-1) 0, Vec3i.mk 1 1 2, Vec3i.mk (-1) 0 2, Vec3i.mk 1 0 2, Vec3i.mk 0 (-1) 2, Vec3i.mk 0 1 2, Vec3i.mk 0 0 2, Vec3i.mk (-1) 2 (-1), Vec3i.mk (-1) 0 (-1), Vec3i.mk 1 2 1, Vec3i.mk (-1) 1 1, Vec3i.mk 0 2 (-1), Vec3i.mk 0 2 1, Vec3i.mk (-1) 2 0, Vec3i.mk 1 2 0, Vec3i.mk 0 2 0, Vec3i.mk 2 (-1) (-1), Vec3i.mk 0 (-1) (-1), Vec3i.mk 2 1 1, Vec3i.mk 2 0 (-1), Vec3i.mk 2 0 1, Vec3i.mk 1 (-1) 1, Vec3i.mk 1 1 (-1), Vec3i.mk 2 (-1) 0, Vec3i.mk 2 1 0, Vec3i.mk 2 0 0, Vec3i.mk 1 (-1) (-1), Vec3i.mk (-1) 1 (-1), Vec3i.mk (-1) (-1) 1, Vec3i.mk (-1) (-1) (-1), Vec3i.mk 1 1 1, Vec3i.mk (-1) 0 1, Vec3i.mk 1 0 (-1), Vec3i.mk 1 0 1, Vec3i.mk 0 (-1) 1, Vec3i.mk 0 1 (-1), Vec3i.mk 0 1 1, Vec3i.mk (-1) 1 0, Vec3i.mk 1 (-1) 0, Vec3i.mk 1 1 0, Vec3i.mk 0 0 (-1), Vec3i.mk 0 (-1) 0, Vec3i.mk (-1) 0 0, Vec3i.mk 0 0 1, Vec3i.mk 0 1 0, Vec3i.mk 1 0 0, Vec3i.mk 0 0 0] [Atom.mk (Vec3.mk (50000/200001) (50000/200001) (50000/200001)) "X", Atom.mk (Vec3.mk (50000/66667) (50000/200001) (50000/200001)) "X", Atom.mk (Vec3.mk (50000/200001) (50000/66667) (50000/200001)) "X", Atom.mk (Vec3.mk (50000/200001) (50000/200001) (50000/66667)) "X", Atom.mk (Vec3.mk (50000/66667) (50000/66667) (50000/200001)) "X", Atom.mk (Vec3.mk (50000/200001) (50000/66667) (50000/66667)) "X", Atom.mk (Vec3.mk (50000/66667) (50000/200001) (50000/66667)) "X", Atom.mk (Vec3.mk (50000/66667) (50000/66667) (50000/66667)) "X"],
  GrowState.mk [Vec3i.mk 1 1 2, Vec3i.mk (-1) 1 2, Vec3i.mk 1 2 2, Vec3i.mk (-1) 0 2, Vec3i.mk (-1) 2 0, Vec3i.mk 2 0 1, Vec3i.mk 1 1 1, Vec3i.mk 1 0 2, Vec3i.mk 1 (-1) 1, Vec3i.mk 2 1 1, Vec3i.mk 2 (-1) 1, Vec3i.mk 1 1 2, Vec3i.mk 1 (-1) 2, Vec3i.mk 2 0 2, Vec3i.mk 2 0 0, Vec3i.mk 0 0 2, Vec3i.mk 2 1 2, Vec3i.mk 0 (-1) 2, Vec3i.mk 2 (-1) 0, Vec3i.mk 2 1 1, Vec3i.mk 1 2 1, Vec3i.mk 1 1 2, Vec3i.mk 2 2 1, Vec3i.mk 2 0 1, Vec3i.mk 0 2 1, Vec3i.mk 1 2 2, Vec3i.mk 1 2 0, Vec3i.mk 1 0 2, Vec3i.mk 2 1 2, Vec3i.mk 2 1 0, Vec3i.mk 0 1 2, Vec3i.mk 2 2 2, Vec3i.mk 0 0 2, Vec3i.mk 0 2 0, Vec3i.mk 2 0 0] [Vec3i.mk 0 2 2, Vec3i.mk (-1) 2 1, Vec3i.mk 2 2 1, Vec3i.mk 2 1 (-1), Vec3i.mk 1 2 (-1), Vec3i.mk 2 2 0, Vec3i.mk (-1) (-1) 2, Vec3i.mk (-1) (-1) 0, Vec3i.mk 1 1 2, Vec3i.mk (-1) 0 2, Vec3i.mk 1 0 2, Vec3i.mk 0 (-1) 2, Vec3i.mk 0 1 2, Vec3i.mk 0 0 2, Vec3i.mk (-1) 2 (-1), Vec3i.mk (-1) 0 (-1), Vec3i.mk 1 2 1, Vec3i.mk (-1) 1 1, Vec3i.mk 0 2 (-1), Vec3i.mk 0 2 1, Vec3i.mk (-1) 2 0, Vec3i.mk 1 2 0, Vec3i.mk 0 2 0, Vec3i.mk 2 (-1) (-1), Vec3i.mk 0 (-1) (-1), Vec3i.mk 2 1 1, Vec3i.mk 2 0 (-1), Vec3i.mk 2 0 1, Vec3i.mk 1 (-1) 1, Vec3i.mk 1 1 (-1), Vec3i.mk 2 (-1) 0, Vec3i.mk 2 1 0, Vec3i.mk 2 0 0, Vec3i.mk 1 (-1) (-1), Vec3i.mk (-1) 1 (-1), Vec3i.mk (-1) (-1) 1, Vec3i.mk (-1) (-1) (-1), Vec3i.mk 1 1 1, Vec3i.mk (-1) 0 1, Vec3i.mk 1 0 (-1), Vec3i.mk 1 0 1, Vec3i.mk 0 (-1) 1, Vec3i.mk 0 1 (-1), Vec3i.mk 0 1 1, Vec3i.mk (-1) 1 0, Vec3i.mk 1 (-1) 0, Vec3i.mk 1 1 0, Vec3i.mk 0 0 (-1), Vec3i.mk 0 (-1) 0, Vec3i.mk (-1) 0 0, Vec3i.mk 0 0 1, Vec3i.mk 0 1 0, Vec3i.mk 1 0 0, Vec3i.mk 0 0 0] [Atom.mk (Vec3.mk (50000/200001) (50000/200001) (50000/200001)) "X", Atom.mk (Vec3.mk (50000/66667) (50000/200001) (50000/200001)) "X", Atom.mk (Vec3.mk (50000/200001) (50000/66667) (50000/200001)) "X", Atom.mk (Vec3.mk (50000/200001) (50000/200001) (50000/66667)) "X", Atom.mk (Vec3.mk (50000/66667) (50000/66667) (50000/200001)) "X", Atom.mk (Vec3.mk (50000/200001) (50000/66667) (50000/66667)) "X", Atom.mk (Vec3.mk (50000/66667) (50000/200001) (50000/66667)) "X", Atom.mk (Vec3.mk (50000/66667) (50000/66667) (50000/66667)) "X"],
  GrowState.mk [Vec3i.mk (-1) 1 2, Vec3i.mk 1 2 2, Vec3i.mk (-1) 0 2, Vec3i.mk (-1) 2 0, Vec3i.mk 2 0 1, Vec3i.mk 1 1 1, Vec3i.mk 1 0 2, Vec3i.mk 1 (-1) 1, Vec3i.mk 2 1 1, Vec3i.mk 2 (-1) 1, Vec3i.mk 1 1 2, Vec3i.mk 1 (-1) 2, Vec3i.mk 2 0 2, Vec3i.mk 2 0 0, Vec3i.mk 0 0 2, Vec3i.mk 2 1 2, Vec3i.mk 0 (-1) 2, Vec3i.mk 2 (-1) 0, Vec3i.mk 2 1 1, Vec3i.mk 1 2 1, Vec3i.mk 1 1 2, Vec3i.mk 2 2 1, Vec3i.mk 2 0 1, Vec3i.mk 0 2 1, Vec3i.mk 1 2 2, Vec3i.mk 1 2 0, Vec3i.mk 1 0 2, Vec3i.mk 2 1 2, Vec3i.mk 2 1 0, Vec3i.mk 0 1 2, Vec3i.mk 2 2 2, Vec3i.mk 0 0 2, Vec3i.mk 0 2 0, Vec3i.mk 2 0 0] [Vec3i.mk 0 2 2, Vec3i.mk (-1) 2 1, Vec3i.mk 2 2 1, Vec3i.mk 2 1 (-1), Vec3i.mk 1 2 (-1), Vec3i.mk 2 2 0, Vec3i.mk (-1) (-1) 2, Vec3i.mk (-1) (-1) 0, Vec3i.mk 1 1 2, Vec3i.mk (-1) 0 2, Vec3i.mk 1 0 2, Vec3i.mk 0 (-1) 2, Vec3i.mk 0 1 2, Vec3i.mk 0 0 2, Vec3i.mk (-1) 2 (-1), Vec3i.mk (-1) 0 (-1), Vec3i.mk 1 2 1, Vec3i.mk (-1) 1 1, Vec3i.mk 0 2 (-1), Vec3i.mk 0 2 1, Vec3i.mk (-1) 2 0, Vec3i.mk 1 2 0, Vec3i.mk 0 2 0, Vec3i.mk 2 (-1) (-1), Vec3i.mk 0 (-1) (-1), Vec3i.mk 2 1 1, Vec3i.mk 2 0 (-1), Vec3i.mk 2 0 1, Vec3i.mk 1 (-1) 1, Vec3i.mk 1 1 (-1), Vec3i.mk 2 (-1) 0, Vec3i.mk 2 1 0, Vec3i.mk 2 0 0, Vec3i.mk 1 (-1) (-1), Vec3i.mk (-1) 1 (-1), Vec3i.mk (-1) (-1) 1, Vec3i.mk (-1) (-1) (-1), Vec3i.mk 1 1 1, Vec3i.mk (-1) 0 1, Vec3i.mk 1 0 (-1), Vec3i.mk 1 0 1, Vec3i.mk 0 (-1) 1, Vec3i.mk 0 1 (-1), Vec3i.mk 0 1 1, Vec3i.mk (-1) 1 0, Vec3i.mk 1 (-1) 0, Vec3i.mk 1 1 0, Vec3i.mk 0 0 (-1), Vec3i.mk 0 (-1) 0, Vec3i.mk (-1) 0 0, Vec3i.mk 0 0 1, Vec3i.mk 0 1 0, Vec3i.mk 1 0 0, Vec3i.mk 0 0 0] [Atom.mk (Vec3.mk (50000/200001) (50000/200001) (50000/200001)) "X", Atom.mk (Vec3.mk (50000/66667) (50000/200001) (50000/200001)) "X", Atom.mk (Vec3.mk (50000/200001) (50000/66667) (50000/200001)) "X", Atom.mk (Vec3.mk (50000/200001) (50000/200001) (50000/66667)) "X", Atom.mk (Vec3.mk (50000/66667) (50000/66667) (50000/200001)) "X", Atom.mk (Vec3.mk (50000/200001) (50000/66667) (50000/66667)) "X", Atom.mk (Vec3.mk (50000/66667) (50000/200001) (50000/66667)) "X", Atom.mk (Vec3.mk (50000/66667) (50000/66667) (50000/66667)) "X"],
  GrowState.mk [Vec3i.mk 1 2 2, Vec3i.mk (-1) 0 2, Vec3i.mk (-1) 2 0, Vec3i.mk 2 0 1, Vec3i.mk 1 1 1, Vec3i.mk 1 0 2, Vec3i.mk 1 (-1) 1, Vec3i.mk 2 1 1, Vec3i.mk 2 (-1) 1, Vec3i.mk 1 1 2, Vec3i.mk 1 (-1) 2, Vec3i.mk 2 0 2, Vec3i.mk 2 0 0, Vec3i.mk 0 0 2, Vec3i.mk 2 1 2, Vec3i.mk 0 (-1) 2, Vec3i.mk 2 (-1) 0, Vec3i.mk 2 1 1, Vec3i.mk 1 2 1, Vec3i.mk 1 1 2, Vec3i.mk 2 2 1, Vec3i.mk 2 0 1, Vec3i.mk 0 2 1, Vec3i.mk 1 2 2, Vec3i.mk 1 2 0, Vec3i.mk 1 0 2, Vec3i.mk 2 1 2, Vec3i.mk 2 1 0, Vec3i.mk 0 1 2, Vec3i.mk 2 2 2, Vec3i.mk 0 0 2, Vec3i.mk 0 2 0, Vec3i.mk 2 0 0] [Vec3i.mk (-1) 1 2, Vec3i.mk 0 2 2, Vec3i.mk (-1) 2 1, Vec3i.mk 2 2 1, Vec3i.mk 2 1 (-1), Vec3i.mk 1 2 (-1), Vec3i.mk 2 2 0, Vec3i.mk (-1) (-1) 2, Vec3i.mk (-1) (-1) 0, Vec3i.mk 1 1 2, Vec3i.mk (-1) 0 2, Vec3i.mk 1 0 2, Vec3i.mk 0 (-1) 2, Vec3i.mk 0 1 2, Vec3i.mk 0 0 2, Vec3i.mk (-1) 2 (-1), Vec3i.mk (-1) 0 (-1), Vec3i.mk 1 2 1, Vec3i.mk (-1) 1 1, Vec3i.mk 0 2 (-1), Vec3i.mk 0 2 1, Vec3i.mk (-1) 2 0, Vec3i.mk 1 2 0, Vec3i.mk 0 2 0, Vec3i.mk 2 (-1) (-1), Vec3i.mk 0 (-1) (-1), Vec3i.mk 2 1 1, Vec3i.mk 2 0 (-1), Vec3i.mk 2 0 1, Vec3i.mk 1 (-1) 1, Vec3i.mk 1 1 (-1), Vec3i.mk 2 (-1) 0, Vec3i.mk 2 1 0, Vec3i.mk 2 0 0, Vec3i.mk 1 (-1) (-1), Vec3i.mk (-1) 1 (-1), Vec3i.mk (-1) (-1) 1, Vec3i.mk (-1) (-1) (-1), Vec3i.mk 1 1 1, Vec3i.mk (-1) 0 1, Vec3i.mk 1 0 (-1), Vec3i.mk 1 0 1, Vec3i.mk 0 (-1) 1, Vec3i.mk 0 1 (-1), Vec3i.mk 0 1 1, Vec3i.mk (-1) 1 0, Vec3i.mk 1 (-1) 0, Vec3i.mk 1 1 0, Vec3i.mk 0 0 (-1), Vec3i.mk 0 (-1) 0, Vec3i.mk (-1) 0 0, Vec3i.mk 0 0 1, Vec3i.mk 0 1 0, Vec3i.mk 1 0 0, Vec3i.mk 0 0 0] [Atom.mk (Vec3.mk (50000/200001) (50000/200001) (50000/200001)) "X", Atom.mk (Vec3.mk (50000/66667) (50000/200001) (50000/200001)) "X", Atom.mk (Vec3.mk (50000/200001) (50000/66667) (50000/200001)) "X", Atom.mk (Vec3.mk (50000/200001) (50000/200001) (50000/66667)) "X", Atom.mk (Vec3.mk (50000/66667) (50000/66667) (50000/200001)) "X", Atom.mk (Vec3.mk (50000/200001) (50000/66667) (50000/66667)) "X", Atom.mk (Vec3.mk (50000/66667) (50000/200001) (50000/66667)) "X", Atom.mk (Vec3.mk (50000/66667) (50000/66667) (50000/66667)) "X"],
  GrowState.mk [Vec3i.mk (-1) 0 2, Vec3i.mk (-1) 2 0, Vec3i.mk 2 0 1, Vec3i.mk 1 1 1, Vec3i.mk 1 0 2, Vec3i.mk 1 (-1) 1, Vec3i.mk 2 1 1, Vec3i.mk 2 (-1) 1, Vec3i.mk 1 1 2, Vec3i.mk 1 (-1) 2, Vec3i.mk 2 0 2, Vec3i.mk 2 0 0, Vec3i.mk 0 0 2, Vec3i.mk 2 1 2, Vec3i.mk 0 (-1) 2, Vec3i.mk 2 (-1) 0, Vec3i.mk 2 1 1, Vec3i.mk 1 2 1, Vec3i.mk 1 1 2, Vec3i.mk 2 2 1, Vec3i.mk 2 0 1, Vec3i.mk 0 2 1, Vec3i.mk 1 2 2, Vec3i.mk 1 2 0, Vec3i.mk 1 0 2, Vec3i.mk 2 1 2, Vec3i.mk 2 1 0, Vec3i.mk 0 1 2, Vec3i.mk 2 2 2, Vec3i.mk 0 0 2, Vec3i.mk 0 2 0, Vec3i.mk 2 0 0] [Vec3i.mk 1 2 2, Vec3i.mk (-1) 1 2, Vec3i.mk 0 2 2, Vec3i.mk (-1) 2 1, Vec3i.mk 2 2 1, Vec3i.mk 2 1 (-1), Vec3i.mk 1 2 (-1), Vec3i.mk 2 2 0, Vec3i.mk (-1) (-1) 2, Vec3i.mk (-1) (-1) 0, Vec3i.mk 1 1 2, Vec3i.mk (-1) 0 2, Vec3i.mk 1 0 2, Vec3i.mk 0 (-1) 2, Vec3i.mk 0 1 2, Vec3i.mk 0 0 2, Vec3i.mk (-1) 2 (-1), Vec3i.mk (-1) 0 (-1), Vec3i.mk 1 2 1, Vec3i.mk (-1) 1 1, Vec3i.mk 0 2 (-1), Vec3i.mk 0 2 1, Vec3i.mk (-1) 2 0, Vec3i.mk 1 2 0, Vec3i.mk 0 2 0, Vec3i.mk 2 (-1) (-1), Vec3i.mk 0 (-1) (-1), Vec3i.mk 2 1 1, Vec3i.mk 2 0 (-1), Vec3i.mk 2 0 1, Vec3i.mk 1 (-1) 1, Vec3i.mk 1 1 (-1), Vec3i.mk 2 (-1) 0, Vec3i.mk 2 1 0, Vec3i.mk 2 0 0, Vec3i.mk 1 (-1) (-1), Vec3i.mk (-1) 1 (-1), Vec3i.mk (-1) (-1) 1, Vec3i.mk (-1) (-1) (-1), Vec3i.mk 1 1 1, Vec3i.mk (-1) 0 1, Vec3i.mk 1 0 (-1), Vec3i.mk 1 0 1, Vec3i.mk 0 (-1) 1, Vec3i.mk 0 1 (-1), Vec3i.mk 0 1 1, Vec3i.mk (-1) 1 0, Vec3i.mk 1 (-1) 0, Vec3i.mk 1 1 0, Vec3i.mk 0 0 (-1), Vec3i.mk 0 (-1) 0, Vec3i.mk (-1) 0 0, Vec3i.mk 0 0 1, Vec3i.mk 0 1 0, Vec3i.mk 1 0 0, Vec3i.mk 0 0 0] [Atom.mk (Vec3.mk (50000/200001) (50000/200001) (50000/200001)) "X", Atom.mk (Vec3.mk (50000/66667) (50000/200001) (50000/200001)) "X", Atom.mk (Vec3.mk (50000/200001) (50000/66667) (50000/200001)) "X", Atom.mk (Vec3.mk (50000/200001) (50000/200001) (50000/66667)) "X", Atom.mk (Vec3.mk (50000/66667) (50000/66667) (50000/200001)) "X", Atom.mk (Vec3.mk (50000/200001) (50000/66667) (50000/66667)) "X", Atom.mk (Vec3.mk (50000/66667) (50000/200001) (50000/66667)) "X", Atom.mk (Vec3.mk (50000/66667) (50000/66667) (50000/66667)) "X"],
  GrowState.mk [Vec3i.mk (-1) 2 0, Vec3i.mk 2 0 1, Vec3i.mk 1 1 1, Vec3i.mk 1 0 2, Vec3i.mk 1 (-1) 1, Vec3i.mk 2 1 1, Vec3i.mk 2 (-1) 1, Vec3i.mk 1 1 2, Vec3i.mk 1 (-1) 2, Vec3i.mk 2 0 2, Vec3i.mk 2 0 0, Vec3i.mk 0 0 2, Vec3i.mk 2 1 2, Vec3i.mk 0 (-1) 2, Vec3i.mk 2 (-1) 0, Vec3i.mk 2 1 1, Vec3i.mk 1 2 1, Vec3i.mk 1 1 2, Vec3i.mk 2 2 1, Vec3i.mk 2 0 1, Vec3i.mk 0 2 1, Vec3i.mk 1 2 2, Vec3i.mk 1 2 0, Vec3i.mk 1 0 2, Vec3i.mk 2 1 2, Vec3i.mk 2 1 0, Vec3i.mk 0 1 2, Vec3i.mk 2 2 2, Vec3i.mk 0 0 2, Vec3i.mk 0 2 0, Vec3i.mk 2 0 0] [Vec3i.mk 1 2 2, Vec3i.mk (-1) 1 2, Vec3i.mk 0 2 2, Vec3i.mk (-1) 2 1, Vec3i.mk 2 2 1, Vec3i.mk 2 1 (-1), Vec3i.mk 1 2 (-1), Vec3i.mk 2 2 0, Vec3i.mk (-1) (-1) 2, Vec3i.mk (-1) (-1) 0, Vec3i.mk 1 1 2, Vec3i.mk (-1) 0 2, Vec3i.mk 1 0 2, Vec3i.mk 0 (-1) 2, Vec3i.mk 0 1 2, Vec3i.mk 0 0 2, Vec3i.mk (-1) 2 (-1), Vec3i.mk (-1) 0 (-1), Vec3i.mk 1 2 1, Vec3i.mk (-1) 1 1, Vec3i.mk 0 2 (-1), Vec3i.mk 0 2 1, Vec3i.mk (-1) 2 0, Vec3i.mk 1 2 0, Vec3i.mk 0 2 0, Vec3i.mk 2 (-1) (-1), Vec3i.mk 0 (-1) (-1), Vec3i.mk 2 1 1, Vec3i.mk 2 0 (-1), Vec3i.mk 2 0 1, Vec3i.mk 1 (-1) 1, Vec3i.mk 1 1 (-1), Vec3i.mk 2 (-1) 0, Vec3i.mk 2 1 0, Vec3i.mk 2 0 0, Vec3i.mk 1 (-1) (-1), Vec3i.mk (-1) 1 (-1), Vec3i.mk (-1) (-1) 1, Vec3i.mk (-1) (-1) (-1), Vec3i.mk 1 1 1, Vec3i.mk (-1) 0 1, Vec3i.mk 1 0 (-1), Vec3i.mk 1 0 1, Vec3i.mk 0 (-1) 1, Vec3i.mk 0 1 (-1), Vec3i.mk 0 1 1, Vec3i.mk (-1) 1 0, Vec3i.mk 1 (-1) 0, Vec3i.mk 1 1 0, Vec3i.mk 0 0 (-1), Vec3i.mk 0 (-1) 0, Vec3i.mk (-1) 0 0, Vec3i.mk 0 0 1, Vec3i.mk 0 1 0, Vec3i.mk 1 0 0, Vec3i.mk 0 0 0] [Atom.mk (Vec3.mk (50000/200001) (50000/200001) (50000/200001)) "X", Atom.mk (Vec3.mk (50000/66667) (50000/200001) (50000/200001)) "X", Atom.mk (Vec3.mk (50000/200001) (50000/66667) (50000/200001)) "X", Atom.mk (Vec3.mk (50000/200001) (50000/200001) (50000/66667)) "X", Atom.mk (Vec3.mk (50000/66667) (50000/66667) (50000/200001)) "X", Atom.mk (Vec3.mk (50000/200001) (50000/66667) (50000/66667)) "X", Atom.mk (Vec3.mk (50000/66667) (50000/200001) (50000/66667)) "X", Atom.mk (Vec3.mk (50000/66667) (50000/66667) (50000/66667)) "X"],
  GrowState.mk [Vec3i.mk 2 0 1, Vec3i.mk 1 1 1, Vec3i.mk 1 0 2, Vec3i.mk 1 (-1) 1, Vec3i.mk 2 1 1, Vec3i.mk 2 (-1) 1, Vec3i.mk 1 1 2, Vec3i.mk 1 (-1) 2, Vec3i.mk 2 0 2, Vec3i.mk 2 0 0, Vec3i.mk 0 0 2, Vec3i.mk 2 1 2, Vec3i.mk 0 (-1) 2, Vec3i.mk 2 (-1) 0, Vec3i.mk 2 1 1, Vec3i.mk 1 2 1, Vec3i.mk 1 1 2, Vec3i.mk 2 2 1, Vec3i.mk 2 0 1, Vec3i.mk 0 2 1, Vec3i.mk 1 2 2, Vec3i.mk 1 2 0, Vec3i.mk 1 0 2, Vec3i.mk 2 1 2, Vec3i.mk 2 1 0, Vec3i.mk 0 1 2, Vec3i.mk 2 2 2, Vec3i.mk 0 0 2, Vec3i.mk 0 2 0, Vec3i.mk 2 0 0] [Vec3i.mk 1 2 2, Vec3i.mk (-1) 1 2, Vec3i.mk 0 2 2, Vec3i.mk (-1) 2 1, Vec3i.mk 2 2 1, Vec3i.mk 2 1 (-1), Vec3i.mk 1 2 (-1), Vec3i.mk 2 2 0, Vec3i.mk (-1) (-1) 2, Vec3i.mk (-1) (-1) 0, Vec3i.mk 1 1 2, Vec3i.mk (-1) 0 2, Vec3i.mk 1 0 2, Vec3i.mk 0 (-1) 2, Vec3i.mk 0 1 2, Vec3i.mk 0 0 2, Vec3i.mk (-1) 2 (-1), Vec3i.mk (-1) 0 (-1), Vec3i.mk 1 2 1, Vec3i.mk (-1) 1 1, Vec3i.mk 0 2 (-1), Vec3i.mk 0 2 1, Vec3i.mk (-1) 2 0, Vec3i.mk 1 2 0, Vec3i.mk 0 2 0, Vec3i.mk 2 (-1) (-1), Vec3i.mk 0 (-1) (-1), Vec3i.mk 2 1 1, Vec3i.mk 2 0 (-1), Vec3i.mk 2 0 1, Vec3i.mk 1 (-1) 1, Vec3i.mk 1 1 (-1), Vec3i.mk 2 (-1) 0, Vec3i.mk 2 1 0, Vec3i.mk 2 0 0, Vec3i.mk 1 (-1) (-1), Vec3i.mk (-1) 1 (-1), Vec3i.mk (-1) (-1) 1, Vec3i.mk (-1) (-1) (-1), Vec3i.mk 1 1 1, Vec3i.mk (-1) 0 1, Vec3i.mk 1 0 (-1), Vec3i.mk 1 0 1, Vec3i.mk 0 (-1) 1, Vec3i.mk 0 1 (-1), Vec3i.mk 0 1 1, Vec3i.mk (-1) 1 0, Vec3i.mk 1 (-1) 0, Vec3i.mk 1 1 0, Vec3i.mk 0 0 (-1), Vec3i.mk 0 (-1) 0, Vec3i.mk (-1) 0 0, Vec3i.mk 0 0 1, Vec3i.mk 0 1 0, Vec3i.mk 1 0 0, Vec3i.mk 0 0 0] [Atom.mk (Vec3.mk (50000/200001) (50000/200001) (50000/200001)) "X", Atom.mk (Vec3.mk (50000/66667) (50000/200001) (50000/200001)) "X", Atom.mk (Vec3.mk (50000/200001) (50000/66667) (50000/200001)) "X", Atom.mk (Vec3.mk (50000/200001) (50000/200001) (50000/66667)) "X", Atom.mk (Vec3.mk (50000/66667) (50000/66667) (50000/200001)) "X", Atom.mk (Vec3.mk (50000/200001) (50000/66667) (50000/66667)) "X", Atom.mk (Vec3.mk (50000/66667) (50000/200001) (50000/66667)) "X", Atom.mk (Vec3.mk (50000/66667) (50000/66667) (50000/66667)) "X"],
  GrowState.mk [Vec3i.mk 1 1 1, Vec3i.mk 1 0 2, Vec3i.mk 1 (-1) 1, Vec3i.mk 2 1 1, Vec3i.mk 2 (-1) 1, Vec3i.mk 1 1 2, Vec3i.mk 1 (-1) 2, Vec3i.mk 2 0 2, Vec3i.mk 2 0 0, Vec3i.mk 0 0 2, Vec3i.mk 2 1 2, Vec3i.mk 0 (-1) 2, Vec3i.mk 2 (-1) 0, Vec3i.mk 2 1 1, Vec3i.mk 1 2 1, Vec3i.mk 1 1 2, Vec3i.mk 2 2 1, Vec3i.mk 2 0 1, Vec3i.mk 0 2 1, Vec3i.mk 1 2 2, Vec3i.mk 1 2 0, Vec3i.mk 1 0 2, Vec3i.mk 2 1 2, Vec3i.mk 2 1 0, Vec3i.mk 0 1 2, Vec3i.mk 2 2 2, Vec3i.mk 0 0 2, Vec3i.mk 0 2 0, Vec3i.mk 2 0 0] [Vec3i.mk 1 2 2, Vec3i.mk (-1) 1 2, Vec3i.mk 0 2 2, Vec3i.mk (-1) 2 1, Vec3i.mk 2 2 1, Vec3i.mk 2 1 (-1), Vec3i.mk 1 2 (-1), Vec3i.mk 2 2 0, Vec3i.mk (-1) (-1) 2, Vec3i.mk (-1) (-1) 0, Vec3i.mk 1 1 2, Vec3i.mk (-1) 0 2, Vec3i.mk 1 0 2, Vec3i.mk 0 (-1) 2, Vec3i.mk 0 1 2, Vec3i.mk 0 0 2, Vec3i.mk (-1) 2 (-1), Vec3i.mk (-1) 0 (-1), Vec3i.mk 1 2 1, Vec3i.mk (-1) 1 1, Vec3i.mk 0 2 (-1), Vec3i.mk 0 2 1, Vec3i.mk (-1) 2 0, Vec3i.mk 1 2 0, Vec3i.mk 0 2 0, Vec3i.mk 2 (-1) (-1), Vec3i.mk 0 (-1) (-1), Vec3i.mk 2 1 1, Vec3i.mk 2 0 (-1), Vec3i.mk 2 0 1, Vec3i.mk 1 (-1) 1, Vec3i.mk 1 1 (-1), Vec3i.mk 2 (-1) 0, Vec3i.mk 2 1 0, Vec3i.mk 2 0 0, Vec3i.mk 1 (-1) (-1), Vec3i.mk (-1) 1 (-1), Vec3i.mk (-1) (-1) 1, Vec3i.mk (-1) (-1) (-1), Vec3i.mk 1 1 1, Vec3i.mk (-1) 0 1, Vec3i.mk 1 0 (-1), Vec3i.mk 1 0 1, Vec3i.mk 0 (-1) 1, Vec3i.mk 0 1 (-1), Vec3i.mk 0 1 1, Vec3i.mk (-1) 1 0, Vec3i.mk 1 (-1) 0, Vec3i.mk 1 1 0, Vec3i.mk 0 0 (-1), Vec3i.mk 0 (-1) 0, Vec3i.mk (-1) 0 0, Vec3i.mk 0 0 1, Vec3i.mk 0 1 0, Vec3i.mk 1 0 0, Vec3i.mk 0 0 0] [Atom.mk (Vec3.mk (50000/200001) (50000/200001) (50000/200001)) "X", Atom.mk (Vec3.mk (50000/66667) (50000/200001) (50000/200001)) "X", Atom.mk (Vec3.mk (50000/200001) (50000/66667) (50000/200001)) "X", Atom.mk (Vec3.mk (50000/200001) (50000/200001) (50000/66667)) "X", Atom.mk (Vec3.mk (50000/66667) (50000/66667) (50000/200001)) "X", Atom.mk (Vec3.mk (50000/200001) (50000/66667) (50000/66667)) "X", Atom.mk (Vec3.mk (50000/66667) (50000/200001) (50000/66667)) "X", Atom.mk (Vec3.mk (50000/66667) (50000/66667) (50000/66667)) "X"],
  GrowState.mk [Vec3i.mk 1 0 2, Vec3i.mk 1 (-1) 1, Vec3i.mk 2 1 1, Vec3i.mk 2 (-1) 1, Vec3i.mk 1 1 2, Vec3i.mk 1 (-1) 2, Vec3i.mk 2 0 2, Vec3i.mk 2 0 0, Vec3i.mk 0 0 2, Vec3i.mk 2 1 2, Vec3i.mk 0 (-1) 2, Vec3i.mk 2 (-1) 0, Vec3i.mk 2 1 1, Vec3i.mk 1 2 1, Vec3i.mk 1 1 2, Vec3i.mk 2 2 1, Vec3i.mk 2 0 1, Vec3i.mk 0 2 1, Vec3i.mk 1 2 2, Vec3i.mk 1 2 0, Vec3i.mk 1 0 2, Vec3i.mk 2 1 2, Vec3i.mk 2 1 0, Vec3i.mk 0 1 2, Vec3i.mk 2 2 2, Vec3i.mk 0 0 2, Vec3i.mk 0 2 0, Vec3i.mk 2 0 0] [Vec3i.mk 1 2 2, Vec3i.mk (-1) 1 2, Vec3i.mk 0 2 2, Vec3i.mk (-1) 2 1, Vec3i.mk 2 2 1, Vec3i.mk 2 1 (-1), Vec3i.mk 1 2 (-1), Vec3i.mk 2 2 0, Vec3i.mk (-1) (-1) 2, Vec3i.mk (-1) (-1) 0, Vec3i.mk 1 1 2, Vec3i.mk (-1) 0 2, Vec3i.mk 1 0 2, Vec3i.mk 0 (-1) 2, Vec3i.mk 0 1 2, Vec3i.mk 0 0 2, Vec3i.mk (-1) 2 (-1), Vec3i.mk (-1) 0 (-1), Vec3i.mk 1 2 1, Vec3i.mk (-1) 1 1, Vec3i.mk 0 2 (-1), Vec3i.mk 0 2 1, Vec3i.mk (-1) 2 0, Vec3i.mk 1 2 0, Vec3i.mk 0 2 0, Vec3i.mk 2 (-1) (-1), Vec3i.mk 0 (-1) (-1), Vec3i.mk 2 1 1, Vec3i.mk 2 0 (-1), Vec3i.mk 2 0 1, Vec3i.mk 1 (-1) 1, Vec3i.mk 1 1 (-1), Vec3i.mk 2 (-1) 0, Vec3i.mk 2 1 0, Vec3i.mk 2 0 0, Vec3i.mk 1 (-1) (-1), Vec3i.mk (-1) 1 (-1), Vec3i.mk (-1) (-1) 1, Vec3i.mk (-1) (-1) (-1), Vec3i.mk 1 1 1, Vec3i.mk (-1) 0 1, Vec3i.mk 1 0 (-1), Vec3i.mk 1 0 1, Vec3i.mk 0 (-1) 1, Vec3i.mk 0 1 (-1), Vec3i.mk 0 1 1, Vec3i.mk (-1) 1 0, Vec3i.mk 1 (-1) 0, Vec3i.mk 1 1 0, Vec3i.mk 0 0 (-1), Vec3i.mk 0 (-1) 0, Vec3i.mk (-1) 0 0, Vec3i.mk 0 0 1, Vec3i.mk 0 1 0, Vec3i.mk 1 0 0, Vec3i.mk 0 0 0] [Atom.mk (Vec3.mk (50000/200001) (50000/200001) (50000/200001)) "X", Atom.mk (Vec3.mk (50000/66667) (50000/200001) (50000/200001)) "X", Atom.mk (Vec3.mk (50000/200001) (50000/66667) (50000/200001)) "X", Atom.mk (Vec3.mk (50000/200001) (50000/200001) (50000/66667)) "X", Atom.mk (Vec3.mk (50000/66667) (50000/66667) (50000/200001)) "X", Atom.mk (Vec3.mk (50000/200001) (50000/66667) (50000/66667)) "X", Atom.mk (Vec3.mk (50000/66667) (50000/200001) (50000/66667)) "X", Atom.mk (Vec3.mk (50000/66667) (50000/66667) (50000/66667)) "X"],
  GrowState.mk [Vec3i.mk 1 (-1) 1, Vec3i.mk 2 1 1, Vec3i.mk 2 (-1) 1, Vec3i.mk 1 1 2, Vec3i.mk 1 (-1) 2, Vec3i.mk 2 0 2, Vec3i.mk 2 0 0, Vec3i.mk 0 0 2, Vec3i.mk 2 1 2, Vec3i.mk 0 (-1) 2, Vec3i.mk 2 (-1) 0, Vec3i.mk 2 1 1, Vec3i.mk 1 2 1, Vec3i.mk 1 1 2, Vec3i.mk 2 2 1, Vec3i.mk 2 0 1, Vec3i.mk 0 2 1, Vec3i.mk 1 2 2, Vec3i.mk 1 2 0, Vec3i.mk 1 0 2, Vec3i.mk 2 1 2, Vec3i.mk 2 1 0, Vec3i.mk 0 1 2, Vec3i.mk 2 2 2, Vec3i.mk 0 0 2, Vec3i.mk 0 2 0, Vec3i.mk 2 0 0] [Vec3i.mk 1 2 2, Vec3i.mk (-1) 1 2, Vec3i.mk 0 2 2, Vec3i.mk (-1) 2 1, Vec3i.mk 2 2 1, Vec3i.mk 2 1 (-1), Vec3i.mk 1 2 (-1), Vec3i.mk 2 2 0, Vec3i.mk (-1) (-1) 2, Vec3i.mk (-1) (-1) 0, Vec3i.mk 1 1 2, Vec3i.mk (-1) 0 2, Vec3i.mk 1 0 2, Vec3i.mk 0 (-1) 2, Vec3i.mk 0 1 2, Vec3i.mk 0 0 2, Vec3i.mk (-1) 2 (-1), Vec3i.mk (-1) 0 (-1), Vec3i.mk 1 2 1, Vec3i.mk (-1) 1 1, Vec3i.mk 0 2 (-1), Vec3i.mk 0 2 1, Vec3i.mk (-1) 2 0, Vec3i.mk 1 2 0, Vec3i.mk 0 2 0, Vec3i.mk 2 (-1) (-1), Vec3i.mk 0 (-1) (-1), Vec3i.mk 2 1 1, Vec3i.mk 2 0 (-1), Vec3i.mk 2 0 1, Vec3i.mk 1 (-1) 1, Vec3i.mk 1 1 (-1), Vec3i.mk 2 (-1) 0, Vec3i.mk 2 1 0, Vec3i.mk 2 0 0, Vec3i.mk 1 (-1) (-1), Vec3i.mk (-1) 1 (-1), Vec3i.mk (-1) (-1) 1, Vec3i.mk (-1) (-1) (-1), Vec3i.mk 1 1 1, Vec3i.mk (-1) 0 1, Vec3i.mk 1 0 (-1), Vec3i.mk 1 0 1, Vec3i.mk 0 (-1) 1, Vec3i.mk 0 1 (-1), Vec3i.mk 0 1 1, Vec3i.mk (-1) 1 0, Vec3i.mk 1 (-1) 0, Vec3i.mk 1 1 0, Vec3i.mk 0 0 (-1), Vec3i.mk 0 (-1) 0, Vec3i.mk (-1) 0 0, Vec3i.mk 0 0 1, Vec3i.mk 0 1 0, Vec3i.mk 1 0 0, Vec3i.mk 0 0 0] [Atom.mk (Vec3.mk (50000/200001) (50000/200001) (50000/200001)) "X", Atom.mk (Vec3.mk (50000/66667) (50000/200001) (50000/200001)) "X", Atom.mk (Vec3.mk (50000/200001) (50000/66667) (50000/200001)) "X", Atom.mk (Vec3.mk (50000/200001) (50000/200001) (50000/66667)) "X", Atom.mk (Vec3.mk (50000/66667) (50000/66667) (50000/200001)) "X", Atom.mk (Vec3.mk (50000/200001) (50000/66667) (50000/66667)) "X", Atom.mk (Vec3.mk (50000/66667) (50000/200001) (50000/66667)) "X", Atom.mk (Vec3.mk (50000/66667) (50000/66667) (50000/66667)) "X"],
  GrowState.mk [Vec3i.mk 2 1 1, Vec3i.mk 2 (-1) 1, Vec3i.mk 1 1 2, Vec3i.mk 1 (-1) 2, Vec3i.mk 2 0 2, Vec3i.mk 2 0 0, Vec3i.mk 0 0 2, Vec3i.mk 2 1 2, Vec3i.mk 0 (-1) 2, Vec3i.mk 2 (-1) 0, Vec3i.mk 2 1 1, Vec3i.mk 1 2 1, Vec3i.mk 1 1 2, Vec3i.mk 2 2 1, Vec3i.mk 2 0 1, Vec3i.mk 0 2 1, Vec3i.mk 1 2 2, Vec3i.mk 1 2 0, Vec3i.mk 1 0 2, Vec3i.mk 2 1 2, Vec3i.mk 2 1 0, Vec3i.mk 0 1 2, Vec3i.mk 2 2 2, Vec3i.mk 0 0 2, Vec3i.mk 0 2 0, Vec3i.mk 2 0 0] [Vec3i.mk 1 2 2, Vec3i.mk (-1) 1 2, Vec3i.mk 0 2 2, Vec3i.mk (-1) 2 1, Vec3i.mk 2 2 1, Vec3i.mk 2 1 (-1), Vec3i.mk 1 2 (-1), Vec3i.mk 2 2 0, Vec3i.mk (-1) (-1) 2, Vec3i.mk (-1) (-1) 0, Vec3i.mk 1 1 2, Vec3i.mk (-1) 0 2, Vec3i.mk 1 0 2, Vec3i.mk 0 (-1) 2, Vec3i.mk 0 1 2, Vec3i.mk 0 0 2, Vec3i.mk (-1) 2 (-1), Vec3i.mk (-1) 0 (-1), Vec3i.mk 1 2 1, Vec3i.mk (-1) 1 1, Vec3i.mk 0 2 (-1), Vec3i.mk 0 2 1, Vec3i.mk (-1) 2 0, Vec3i.mk 1 2 0, Vec3i.mk 0 2 0, Vec3i.mk 2 (-1) (-1), Vec3i.mk 0 (-1) (-1), Vec3i.mk 2 1 1, Vec3i.mk 2 0 (-1), Vec3i.mk 2 0 1, Vec3i.mk 1 (-1) 1, Vec3i.mk 1 1 (-1), Vec3i.mk 2 (-1) 0, Vec3i.mk 2 1 0, Vec3i.mk 2 0 0, Vec3i.mk 1 (-1) (-1), Vec3i.mk (-1) 1 (-1), Vec3i.mk (-1) (-1) 1, Vec3i.mk (-1) (-1) (-1), Vec3i.mk 1 1 1, Vec3i.mk (-1) 0 1, Vec3i.mk 1 0 (-1), Vec3i.mk 1 0 1, Vec3i.mk 0 (-1) 1, Vec3i.mk 0 1 (-1), Vec3i.mk 0 1 1, Vec3i.mk (-1) 1 0, Vec3i.mk 1 (-1) 0, Vec3i.mk 1 1 0, Vec3i.mk 0 0 (-1), Vec3i.mk 0 (-1) 0, Vec3i.mk (-1) 0 0, Vec3i.mk 0 0 1, Vec3i.mk 0 1 0, Vec3i.mk 1 0 0, Vec3i.mk 0 0 0] [Atom.mk (Vec3.mk (50000/200001) (50000/200001) (50000/200001)) "X", Atom.mk (Vec3.mk (50000/66667) (50000/200001) (50000/200001)) "X", Atom.mk (Vec3.mk (50000/200001) (50000/66667) (50000/200001)) "X", Atom.mk (Vec3.mk (50000/200001) (50000/200001) (50000/66667)) "X", Atom.mk (Vec3.mk (50000/66667) (50000/66667) (50000/200001)) "X", Atom.mk (Vec3.mk (50000/200001) (50000/66667) (50000/66667)) "X", Atom.mk (Vec3.mk (50000/66667) (50000/200001) (50000/66667)) "X", Atom.mk (Vec3.mk (50000/66667) (50000/66667) (50000/66667)) "X"],
  GrowState.mk [Vec3i.mk 2 (-1) 1, Vec3i.mk 1 1 2, Vec3i.mk 1 (-1) 2, Vec3i.mk 2 0 2, Vec3i.mk 2 0 0, Vec3i.mk 0 0 2, Vec3i.mk 2 1 2, Vec3i.mk 0 (-1) 2, Vec3i.mk 2 (-1) 0, Vec3i.mk 2 1 1, Vec3i.mk 1 2 1, Vec3i.mk 1 1 2, Vec3i.mk 2 2 1, Vec3i.mk 2 0 1, Vec3i.mk 0 2 1, Vec3i.mk 1 2 2, Vec3i.mk 1 2 0, Vec3i.mk 1 0 2, Vec3i.mk 2 1 2, Vec3i.mk 2 1 0, Vec3i.mk 0 1 2, Vec3i.mk 2 2 2, Vec3i.mk 0 0 2, Vec3i.mk 0 2 0, Vec3i.mk 2 0 0] [Vec3i.mk 1 2 2, Vec3i.mk (-1) 1 2, Vec3i.mk 0 2 2, Vec3i.mk (-1) 2 1, Vec3i.mk 2 2 1, Vec3i.mk 2 1 (-1), Vec3i.mk 1 2 (-1), Vec3i.mk 2 2 0, Vec3i.mk (-1) (-1) 2, Vec3i.mk (-1) (-1) 0, Vec3i.mk 1 1 2, Vec3i.mk (-1) 0 2, Vec3i.mk 1 0 2, Vec3i.mk 0 (-1) 2, Vec3i.mk 0 1 2, Vec3i.mk 0 0 2, Vec3i.mk (-1) 2 (-1), Vec3i.mk (-1) 0 (-1), Vec3i.mk 1 2 1, Vec3i.mk (-1) 1 1, Vec3i.mk 0 2 (-1), Vec3i.mk 0 2 1, Vec3i.mk (-1) 2 0, Vec3i.mk 1 2 0, Vec3i.mk 0 2 0, Vec3i.mk 2 (-1) (-1), Vec3i.mk 0 (-1) (-1), Vec3i.mk 2 1 1, Vec3i.mk 2 0 (-1), Vec3i.mk 2 0 1, Vec3i.mk 1 (-1) 1, Vec3i.mk 1 1 (-1), Vec3i.mk 2 (-1) 0, Vec3i.mk 2 1 0, Vec3i.mk 2 0 0, Vec3i.mk 1 (-1) (-1), Vec3i.mk (-1) 1 (-1), Vec3i.mk (-1) (-1) 1, Vec3i.mk (-1) (-1) (-1), Vec3i.mk 1 1 1, Vec3i.mk (-1) 0 1, Vec3i.mk 1 0 (-1), Vec3i.mk 1 0 1, Vec3i.mk 0 (-1) 1, Vec3i.mk 0 1 (-1), Vec3i.mk 0 1 1, Vec3i.mk (-1) 1 0, Vec3i.mk 1 (-1) 0, Vec3i.mk 1 1 0, Vec3i.mk 0 0 (-1), Vec3i.mk 0 (-1) 0, Vec3i.mk (-1) 0 0, Vec3i.mk 0 0 1, Vec3i.mk 0 1 0, Vec3i.mk 1 0 0, Vec3i.mk 0 0 0] [Atom.mk (Vec3.mk (50000/200001) (50000/200001) (50000/200001)) "X", Atom.mk (Vec3.mk (50000/66667) (50000/200001) (50000/200001)) "X", Atom.mk (Vec3.mk (50000/200001) (50000/66667) (50000/200001)) "X", Atom.mk (Vec3.mk (50000/200001) (50000/200001) (50000/66667)) "X", Atom.mk (Vec3.mk (50000/66667) (50000/66667) (50000/200001)) "X", Atom.mk (Vec3.mk (50000/200001) (50000/66667) (50000/66667)) "X", Atom.mk (Vec3.mk (50000/66667) (50000/200001) (50000/66667)) "X", Atom.mk (Vec3.mk (50000/66667) (50000/66667) (50000/66667)) "X"],
  GrowState.mk [Vec3i.mk 1 1 2, Vec3i.mk 1 (-1) 2, Vec3i.mk 2 0 2, Vec3i.mk 2 0 0, Vec3i.mk 0 0 2, Vec3i.mk 2 1 2, Vec3i.mk 0 (-1) 2, Vec3i.mk 2 (-1) 0, Vec3i.mk 2 1 1, Vec3i.mk 1 2 1, Vec3i.mk 1 1 2, Vec3i.mk 2 2 1, Vec3i.mk 2 0 1, Vec3i.mk 0 2 1, Vec3i.mk 1 2 2, Vec3i.mk 1 2 0, Vec3i.mk 1 0 2, Vec3i.mk 2 1 2, Vec3i.mk 2 1 0, Vec3i.mk 0 1 2, Vec3i.mk 2 2 2, Vec3i.mk 0 0 2, Vec3i.mk 0 2 0, Vec3i.mk 2 0 0] [Vec3i.mk 2 (-1) 1, Vec3i.mk 1 2 2, Vec3i.mk (-1) 1 2, Vec3i.mk 0 2 2, Vec3i.mk (-1) 2 1, Vec3i.mk 2 2 1, Vec3i.mk 2 1 (-1), Vec3i.mk 1 2 (-1), Vec3i.mk 2 2 0, Vec3i.mk (-1) (-1) 2, Vec3i.mk (-1) (-1) 0, Vec3i.mk 1 1 2, Vec3i.mk (-1) 0 2, Vec3i.mk 1 0 2, Vec3i.mk 0 (-1) 2, Vec3i.mk 0 1 2, Vec3i.mk 0 0 2, Vec3i.mk (-1) 2 (-1), Vec3i.mk (-1) 0 (-1), Vec3i.mk 1 2 1, Vec3i.mk (-1) 1 1, Vec3i.mk 0 2 (-1), Vec3i.mk 0 2 1, Vec3i.mk (-1) 2 0, Vec3i.mk 1 2 0, Vec3i.mk 0 2 0, Vec3i.mk 2 (-1) (-1), Vec3i.mk 0 (-1) (-1), Vec3i.mk 2 1 1, Vec3i.mk 2 0 (-1), Vec3i.mk 2 0 1, Vec3i.mk 1 (-1) 1, Vec3i.mk 1 1 (-1), Vec3i.mk 2 (-1) 0, Vec3i.mk 2 1 0, Vec3i.mk 2 0 0, Vec3i.mk 1 (-1) (-1), Vec3i.mk (-1) 1 (-1), Vec3i.mk (-1) (-1) 1, Vec3i.mk (-1) (-1) (-1), Vec3i.mk 1 1 1, Vec3i.mk (-1) 0 1, Vec3i.mk 1 0 (-1), Vec3i.mk 1 0 1, Vec3i.mk 0 (-1) 1, Vec3i.mk 0 1 (-1), Vec3i.mk 0 1 1, Vec3i.mk (-1) 1 0, Vec3i.mk 1 (-1) 0, Vec3i.mk 1 1 0, Vec3i.mk 0 0 (-1), Vec3i.mk 0 (-1) 0, Vec3i.mk (-1) 0 0, Vec3i.mk 0 0 1, Vec3i.mk 0 1 0, Vec3i.mk 1 0 0, Vec3i.mk 0 0 0] [Atom.mk (Vec3.mk (50000/200001) (50000/200001) (50000/200001)) "X", Atom.mk (Vec3.mk (50000/66667) (50000/200001) (50000/200001)) "X", Atom.mk (Vec3.mk (50000/200001) (50000/66667) (50000/200001)) "X", Atom.mk (Vec3.mk (50000/200001) (50000/200001) (50000/66667)) "X", Atom.mk (Vec3.mk (50000/66667) (50000/66667) (50000/200001)) "X", Atom.mk (Vec3.mk (50000/200001) (50000/66667) (50000/66667)) "X", Atom.mk (Vec3.mk (50000/66667) (50000/200001) (50000/66667)) "X", Atom.mk (Vec3.mk (50000/66667) (50000/66667) (50000/66667)) "X"],
  GrowState.mk [Vec3i.mk 1 (-1) 2, Vec3i.mk 2 0 2, Vec3i.mk 2 0 0, Vec3i.mk 0 0 2, Vec3i.mk 2 1 2, Vec3i.mk 0 (-1) 2, Vec3i.mk 2 (-1) 0, Vec3i.mk 2 1 1, Vec3i.mk 1 2 1, Vec3i.mk 1 1 2, Vec3i.mk 2 2 1, Vec3i.mk 2 0 1, Vec3i.mk 0 2 1, Vec3i.mk 1 2 2, Vec3i.mk 1 2 0, Vec3i.mk 1 0 2, Vec3i.mk 2 1 2, Vec3i.mk 2 1 0, Vec3i.mk 0 1 2, Vec3i.mk 2 2 2, Vec3i.mk 0 0 2, Vec3i.mk 0 2 0, Vec3i.mk 2 0 0] [Vec3i.mk 2 (-1) 1, Vec3i.mk 1 2 2, Vec3i.mk (-1) 1 2, Vec3i.mk 0 2 2, Vec3i.mk (-1) 2 1, Vec3i.mk 2 2 1, Vec3i.mk 2 1 (-1), Vec3i.mk 1 2 (-1), Vec3i.mk 2 2 0, Vec3i.mk (-1) (-1) 2, Vec3i.mk (-1) (-1) 0, Vec3i.mk 1 1 2, Vec3i.mk (-1) 0 2, Vec3i.mk 1 0 2, Vec3i.mk 0 (-1) 2, Vec3i.mk 0 1 2, Vec3i.mk 0 0 2, Vec3i.mk (-1) 2 (-1), Vec3i.mk (-1) 0 (-1), Vec3i.mk 1 2 1, Vec3i.mk (-1) 1 1, Vec3i.mk 0 2 (-1), Vec3i.mk 0 2 1, Vec3i.mk (-1) 2 0, Vec3i.mk 1 2 0, Vec3i.mk 0 2 0, Vec3i.mk 2 (-1) (-1), Vec3i.mk 0 (-1) (-1), Vec3i.mk 2 1 1, Vec3i.mk 2 0 (-1), Vec3i.mk 2 0 1, Vec3i.mk 1 (-1) 1, Vec3i.mk 1 1 (-1), Vec3i.mk 2 (-1) 0, Vec3i.mk 2 1 0, Vec3i.mk 2 0 0, Vec3i.mk 1 (-1) (-1), Vec3i.mk (-1) 1 (-1), Vec3i.mk (-1) (-1) 1, Vec3i.mk (-1) (-1) (-1), Vec3i.mk 1 1 1, Vec3i.mk (-1) 0 1, Vec3i.mk 1 0 (-1), Vec3i.mk 1 0 1, Vec3i.mk 0 (-1) 1, Vec3i.mk 0 1 (-1), Vec3i.mk 0 1 1, Vec3i.mk (-1) 1 0, Vec3i.mk 1 (-1) 0, Vec3i.mk 1 1 0, Vec3i.mk 0 0 (-1), Vec3i.mk 0 (-1) 0, Vec3i.mk (-1) 0 0, Vec3i.mk 0 0 1, Vec3i.mk 0 1 0, Vec3i.mk 1 0 0, Vec3i.mk 0 0 0] [Atom.mk (Vec3.mk (50000/200001) (50000/200001) (50000/200001)) "X", Atom.mk (Vec3.mk (50000/66667) (50000/200001) (50000/200001)) "X", Atom.mk (Vec3.mk (50000/200001) (50000/66667) (50000/200001)) "X", Atom.mk (Vec3.mk (50000/200001) (50000/200001) (50000/66667)) "X", Atom.mk (Vec3.mk (50000/66667) (50000/66667) (50000/200001)) "X", Atom.mk (Vec3.mk (50000/200001) (50000/66667) (50000/66667)) "X", Atom.mk (Vec3.mk (50000/66667) (50000/200001) (50000/66667)) "X", Atom.mk (Vec3.mk (50000/66667) (50000/66667) (50000/66667)) "X"],
  GrowState.mk [Vec3i.mk 2 0 2, Vec3i.mk 2 0 0, Vec3i.mk 0 0 2, Vec3i.mk 2 1 2, Vec3i.mk 0 (-1) 2, Vec3i.mk 2 (-1) 0, Vec3i.mk 2 1 1, Vec3i.mk 1 2 1, Vec3i.mk 1 1 2, Vec3i.mk 2 2 1, Vec3i.mk 2 0 1, Vec3i.mk 0 2 1, Vec3i.mk 1 2 2, Vec3i.mk 1 2 0, Vec3i.mk 1 0 2, Vec3i.mk 2 1 2, Vec3i.mk 2 1 0, Vec3i.mk 0 1 2, Vec3i.mk 2 2 2, Vec3i.mk 0 0 2, Vec3i.mk 0 2 0, Vec3i.mk 2 0 0] [Vec3i.mk 1 (-1) 2, Vec3i.mk 2 (-1) 1, Vec3i.mk 1 2 2, Vec3i.mk (-1) 1 2, Vec3i.mk 0 2 2, Vec3i.mk (-1) 2 1, Vec3i.mk 2 2 1, Vec3i.mk 2 1 (-1), Vec3i.mk 1 2 (-1), Vec3i.mk 2 2 0, Vec3i.mk (-1) (-1) 2, Vec3i.mk (-1) (-1) 0, Vec3i.mk 1 1 2, Vec3i.mk (-1) 0 2, Vec3i.mk 1 0 2, Vec3i.mk 0 (-1) 2, Vec3i.mk 0 1 2, Vec3i.mk 0 0 2, Vec3i.mk (-1) 2 (-1), Vec3i.mk (-1) 0 (-1), Vec3i.mk 1 2 1, Vec3i.mk (-1) 1 1, Vec3i.mk 0 2 (-1), Vec3i.mk 0 2 1, Vec3i.mk (-1) 2 0, Vec3i.mk 1 2 0, Vec3i.mk 0 2 0, Vec3i.mk 2 (-1) (-1), Vec3i.mk 0 (-1) (-1), Vec3i.mk 2 1 1, Vec3i.mk 2 0 (-1), Vec3i.mk 2 0 1, Vec3i.mk 1 (-1) 1, Vec3i.mk 1 1 (-1), Vec3i.mk 2 (-1) 0, Vec3i.mk 2 1 0, Vec3i.mk 2 0 0, Vec3i.mk 1 (-1) (-1), Vec3i.mk (-1) 1 (-1), Vec3i.mk (-1) (-1) 1, Vec3i.mk (-1) (-1) (-1), Vec3i.mk 1 1 1, Vec3i.mk (-1) 0 1, Vec3i.mk 1 0 (-1), Vec3i.mk 1 0 1, Vec3i.mk 0 (-1) 1, Vec3i.mk 0 1 (-1), Vec3i.mk 0 1 1, Vec3i.mk (-1) 1 0, Vec3i.mk 1 (-1) 0, Vec3i.mk 1 1 0, Vec3i.mk 0 0 (-1), Vec3i.mk 0 (-1) 0, Vec3i.mk (-1) 0 0, Vec3i.mk 0 0 1, Vec3i.mk 0 1 0, Vec3i.mk 1 0 0, Vec3i.mk 0 0 0] [Atom.mk (Vec3.mk (50000/200001) (50000/200001) (50000/200001)) "X", Atom.mk (Vec3.mk (50000/66667) (50000/200001) (50000/200001)) "X", Atom.mk (Vec3.mk (50000/200001) (50000/66667) (50000/200001)) "X", Atom.mk (Vec3.mk (50000/200001) (50000/200001) (50000/66667)) "X", Atom.mk (Vec3.mk (50000/66667) (50000/66667) (50000/200001)) "X", Atom.mk (Vec3.mk (50000/200001) (50000/66667) (50000/66667)) "X", Atom.mk (Vec3.mk (50000/66667) (50000/200001) (50000/66667)) "X", Atom.mk (Vec3.mk (50000/66667) (50000/66667) (50000/66667)) "X"],
  GrowState.mk [Vec3i.mk 2 0 0, Vec3i.mk 0 0 2, Vec3i.mk 2 1 2, Vec3i.mk 0 (-1) 2, Vec3i.mk 2 (-1) 0, Vec3i.mk 2 1 1, Vec3i.mk 1 2 1, Vec3i.mk 1 1 2, Vec3i.mk 2 2 1, Vec3i.mk 2 0 1, Vec3i.mk 0 2 1, Vec3i.mk 1 2 2, Vec3i.mk 1 2 0, Vec3i.mk 1 0 2, Vec3i.mk 2 1 2, Vec3i.mk 2 1 0, Vec3i.mk 0 1 2, Vec3i.mk 2 2 2, Vec3i.mk 0 0 2, Vec3i.mk 0 2 0, Vec3i.mk 2 0 0] [Vec3i.mk 2 0 2, Vec3i.mk 1 (-1) 2, Vec3i.mk 2 (-1) 1, Vec3i.mk 1 2 2, Vec3i.mk (-1) 1 2, Vec3i.mk 0 2 2, Vec3i.mk (-1) 2 1, Vec3i.mk 2 2 1, Vec3i.mk 2 1 (-1), Vec3i.mk 1 2 (-1), Vec3i.mk 2 2 0, Vec3i.mk (-1) (-1) 2, Vec3i.mk (-1) (-1) 0, Vec3i.mk 1 1 2, Vec3i.mk (-1) 0 2, Vec3i.mk 1 0 2, Vec3i.mk 0 (-1) 2, Vec3i.mk 0 1 2, Vec3i.mk 0 0 2, Vec3i.mk (-1) 2 (-1), Vec3i.mk (-1) 0 (-1), Vec3i.mk 1 2 1, Vec3i.mk (-1) 1 1, Vec3i.mk 0 2 (-1), Vec3i.mk 0 2 1, Vec3i.mk (-1) 2 0, Vec3i.mk 1 2 0, Vec3i.mk 0 2 0, Vec3i.mk 2 (-1) (-1), Vec3i.mk 0 (-1) (-1), Vec3i.mk 2 1 1, Vec3i.mk 2 0 (-1), Vec3i.mk 2 0 1, Vec3i.mk 1 (-1) 1, Vec3i.mk 1 1 (-1), Vec3i.mk 2 (-1) 0, Vec3i.mk 2 1 0, Vec3i.mk 2 0 0, Vec3i.mk 1 (-1) (-1), Vec3i.mk (-1) 1 (-1), Vec3i.mk (-1) (-1) 1, Vec3i.mk (-1) (-1) (-1), Vec3i.mk 1 1 1, Vec3i.mk (-1) 0 1, Vec3i.mk 1 0 (-1), Vec3i.mk 1 0 1, Vec3i.mk 0 (-1) 1, Vec3i.mk 0 1 (-1), Vec3i.mk 0 1 1, Vec3i.mk (-1) 1 0, Vec3i.mk 1 (-1) 0, Vec3i.mk 1 1 0, Vec3i.mk 0 0 (-1), Vec3i.mk 0 (-1) 0, Vec3i.mk (-1) 0 0, Vec3i.mk 0 0 1, Vec3i.mk 0 1 0, Vec3i.mk 1 0 0, Vec3i.mk 0 0 0] [Atom.mk (Vec3.mk (50000/200001) (50000/200001) (50000/200001)) "X", Atom.mk (Vec3.mk (50000/66667) (50000/200001) (50000/200001)) "X", Atom.mk (Vec3.mk (50000/200001) (50000/66667) (50000/200001)) "X", Atom.mk (Vec3.mk (50000/200001) (50000/200001) (50000/66667)) "X", Atom.mk (Vec3.mk (50000/66667) (50000/66667) (50000/200001)) "X", Atom.mk (Vec3.mk (50000/200001) (50000/66667) (50000/66667)) "X", Atom.mk (Vec3.mk (50000/66667) (50000/200001) (50000/66667)) "X", Atom.mk (Vec3.mk (50000/66667) (50000/66667) (50000/66667)) "X"],
  GrowState.mk [Vec3i.mk 0 0 2, Vec3i.mk 2 1 2, Vec3i.mk 0 (-1) 2, Vec3i.mk 2 (-1) 0, Vec3i.mk 2 1 1, Vec3i.mk 1 2 1, Vec3i.mk 1 1 2, Vec3i.mk 2 2 1, Vec3i.mk 2 0 1, Vec3i.mk 0 2 1, Vec3i.mk 1 2 2, Vec3i.mk 1 2 0, Vec3i.mk 1 0 2, Vec3i.mk 2 1 2, Vec3i.mk 2 1 0, Vec3i.mk 0 1 2, Vec3i.mk 2 2 2, Vec3i.mk 0 0 2, Vec3i.mk 0 2 0, Vec3i.mk 2 0 0] [Vec3i.mk 2 0 2, Vec3i.mk 1 (-1) 2, Vec3i.mk 2 (-1) 1, Vec3i.mk 1 2 2, Vec3i.mk (-1) 1 2, Vec3i.mk 0 2 2, Vec3i.mk (-1) 2 1, Vec3i.mk 2 2 1, Vec3i.mk 2 1 (-1), Vec3i.mk 1 2 (-1), Vec3i.mk 2 2 0, Vec3i.mk (-1) (-1) 2, Vec3i.mk (-1) (-1) 0, Vec3i.mk 1 1 2, Vec3i.mk (-1) 0 2, Vec3i.mk 1 0 2, Vec3i.mk 0 (-1) 2, Vec3i.mk 0 1 2, Vec3i.mk 0 0 2, Vec3i.mk (-1) 2 (-1), Vec3i.mk (-1) 0 (-1), Vec3i.mk 1 2 1, Vec3i.mk (-1) 1 1, Vec3i.mk 0 2 (-1), Vec3i.mk 0 2 1, Vec3i.mk (-1) 2 0, Vec3i.mk 1 2 0, Vec3i.mk 0 2 0, Vec3i.mk 2 (-1) (-1), Vec3i.mk 0 (-1) (-1), Vec3i.mk 2 1 1, Vec3i.mk 2 0 (-1), Vec3i.mk 2 0 1, Vec3i.mk 1 (-1) 1, Vec3i.mk 1 1 (-1), Vec3i.mk 2 (-1) 0, Vec3i.mk 2 1 0, Vec3i.mk 2 0 0, Vec3i.mk 1 (-1) (-1), Vec3i.mk (-1) 1 (-1), Vec3i.mk (-1) (-1) 1, Vec3i.mk (-1) (-1) (-1), Vec3i.mk 1 1 1, Vec3i.mk (-1) 0 1, Vec3i.mk 1 0 (-1), Vec3i.mk 1 0 1, Vec3i.mk 0 (-1) 1, Vec3i.mk 0 1 (-1), Vec3i.mk 0 1 1, Vec3i.mk (-1) 1 0, Vec3i.mk 1 (-1) 0, Vec3i.mk 1 1 0, Vec3i.mk 0 0 (-1), Vec3i.mk 0 (-1) 0, Vec3i.mk (-1) 0 0, Vec3i.mk 0 0 1, Vec3i.mk 0 1 0, Vec3i.mk 1 0 0, Vec3i.mk 0 0 0] [Atom.mk (Vec3.mk (50000/200001) (50000/200001) (50000/200001)) "X", Atom.mk (Vec3.mk (50000/66667) (50000/200001) (50000/200001)) "X", Atom.mk (Vec3.mk (50000/200001) (50000/66667) (50000/200001)) "X", Atom.mk (Vec3.mk (50000/200001) (50000/200001) (50000/66667)) "X", Atom.mk (Vec3.mk (50000/66667) (50000/66667) (50000/200001)) "X", Atom.mk (Vec3.mk (50000/200001) (50000/66667) (50000/66667)) "X", Atom.mk (Vec3.mk (50000/66667) (50000/200001) (50000/66667)) "X", Atom.mk (Vec3.mk (50000/66667) (50000/66667) (50000/66667)) "X"],
  GrowState.mk [Vec3i.mk 2 1 2, Vec3i.mk 0 (-1) 2, Vec3i.mk 2 (-1) 0, Vec3i.mk 2 1 1, Vec3i.mk 1 2 1, Vec3i.mk 1 1 2, Vec3i.mk 2 2 1, Vec3i.mk 2 0 1, Vec3i.mk 0 2 1, Vec3i.mk 1 2 2, Vec3i.mk 1 2 0, Vec3i.mk 1 0 2, Vec3i.mk 2 1 2, Vec3i.mk 2 1 0, Vec3i.mk 0 1 2, Vec3i.mk 2 2 2, Vec3i.mk 0 0 2, Vec3i.mk 0 2 0, Vec3i.mk 2 0 0] [Vec3i.mk 2 0 2, Vec3i.mk 1 (-1) 2, Vec3i.mk 2 (-1) 1, Vec3i.mk 1 2 2, Vec3i.mk (-1) 1 2, Vec3i.mk 0 2 2, Vec3i.mk (-1) 2 1, Vec3i.mk 2 2 1, Vec3i.mk 2 1 (-1), Vec3i.mk 1 2 (-1), Vec3i.mk 2 2 0, Vec3i.mk (-1) (-1) 2, Vec3i.mk (-1) (-1) 0, Vec3i.mk 1 1 2, Vec3i.mk (-1) 0 2, Vec3i.mk 1 0 2, Vec3i.mk 0 (-1) 2, Vec3i.mk 0 1 2, Vec3i.mk 0 0 2, Vec3i.mk (-1) 2 (-1), Vec3i.mk (-1) 0 (-1), Vec3i.mk 1 2 1, Vec3i.mk (-1) 1 1, Vec3i.mk 0 2 (-1), Vec3i.mk 0 2 1, Vec3i.mk (-1) 2 0, Vec3i.mk 1 2 0, Vec3i.mk 0 2 0, Vec3i.mk 2 (-1) (-1), Vec3i.mk 0 (-1) (-1), Vec3i.mk 2 1 1, Vec3i.mk 2 0 (-1), Vec3i.mk 2 0 1, Vec3i.mk 1 (-1) 1, Vec3i.mk 1 1 (-1), Vec3i.mk 2 (-1) 0, Vec3i.mk 2 1 0, Vec3i.mk 2 0 0, Vec3i.mk 1 (-1) (-1), Vec3i.mk (-1) 1 (-1), Vec3i.mk (-1) (-1) 1, Vec3i.mk (-1) (-1) (-1), Vec3i.mk 1 1 1, Vec3i.mk (-1) 0 1, Vec3i.mk 1 0 (-1), Vec3i.mk 1 0 1, Vec3i.mk 0 (-1) 1, Vec3i.mk 0 1 (-1), Vec3i.mk 0 1 1, Vec3i.mk (-1) 1 0, Vec3i.mk 1 (-1) 0, Vec3i.mk 1 1 0, Vec3i.mk 0 0 (-1), Vec3i.mk 0 (-1) 0, Vec3i.mk (-1) 0 0, Vec3i.mk 0 0 1, Vec3i.mk 0 1 0, Vec3i.mk 1 0 0, Vec3i.mk 0 0 0] [Atom.mk (Vec3.mk (50000/200001) (50000/200001) (50000/200001)) "X", Atom.mk (Vec3.mk (50000/66667) (50000/200001) (50000/200001)) "X", Atom.mk (Vec3.mk (50000/200001) (50000/66667) (50000/200001)) "X", Atom.mk (Vec3.mk (50000/200001) (50000/200001) (50000/66667)) "X", Atom.mk (Vec3.mk (50000/66667) (50000/66667) (50000/200001)) "X", Atom.mk (Vec3.mk (50000/200001) (50000/66667) (50000/66667)) "X", Atom.mk (Vec3.mk (50000/66667) (50000/200001) (50000/66667)) "X", Atom.mk (Vec3.mk (50000/66667) (50000/66667) (50000/66667)) "X"],
  GrowState.mk [Vec3i.mk 0 (-1) 2, Vec3i.mk 2 (-1) 0, Vec3i.mk 2 1 1, Vec3i.mk 1 2 1, Vec3i.mk 1 1 2, Vec3i.mk 2 2 1, Vec3i.mk 2 0 1, Vec3i.mk 0 2 1, Vec3i.mk 1 2 2, Vec3i.mk 1 2 0, Vec3i.mk 1 0 2, Vec3i.mk 2 1 2, Vec3i.mk 2 1 0, Vec3i.mk 0 1 2, Vec3i.mk 2 2 2, Vec3i.mk 0 0 2, Vec3i.mk 0 2 0, Vec3i.mk 2 0 0] [Vec3i.mk 2 1 2, Vec3i.mk 2 0 2, Vec3i.mk 1 (-1) 2, Vec3i.mk 2 (-1) 1, Vec3i.mk 1 2 2, Vec3i.mk (-1) 1 2, Vec3i.mk 0 2 2, Vec3i.mk (-1) 2 1, Vec3i.mk 2 2 1, Vec3i.mk 2 1 (-1), Vec3i.mk 1 2 (-1), Vec3i.mk 2 2 0, Vec3i.mk (-1) (-1) 2, Vec3i.mk (-1) (-1) 0, Vec3i.mk 1 1 2, Vec3i.mk (-1) 0 2, Vec3i.mk 1 0 2, Vec3i.mk 0 (-1) 2, Vec3i.mk 0 1 2, Vec3i.mk 0 0 2, Vec3i.mk (-1) 2 (-1), Vec3i.mk (-1) 0 (-1), Vec3i.mk 1 2 1, Vec3i.mk (-1) 1 1, Vec3i.mk 0 2 (-1), Vec3i.mk 0 2 1, Vec3i.mk (-1) 2 0, Vec3i.mk 1 2 0, Vec3i.mk 0 2 0, Vec3i.mk 2 (-1) (-1), Vec3i.mk 0 (-1) (-1), Vec3i.mk 2 1 1, Vec3i.mk 2 0 (-1), Vec3i.mk 2 0 1, Vec3i.mk 1 (-1) 1, Vec3i.mk 1 1 (-1), Vec3i.mk 2 (-1) 0, Vec3i.mk 2 1 0, Vec3i.mk 2 0 0, Vec3i.mk 1 (-1) (-1), Vec3i.mk (-1) 1 (-1), Vec3i.mk (-1) (-1) 1, Vec3i.mk (-1) (-1) (-1), Vec3i.mk 1 1 1, Vec3i.mk (-1) 0 1, Vec3i.mk 1 0 (-1), Vec3i.mk 1 0 1, Vec3i.mk 0 (-1) 1, Vec3i.mk 0 1 (-1), Vec3i.mk 0 1 1, Vec3i.mk (-1) 1 0, Vec3i.mk 1 (-1) 0, Vec3i.mk 1 1 0, Vec3i.mk 0 0 (-1), Vec3i.mk 0 (-1) 0, Vec3i.mk (-1) 0 0, Vec3i.mk 0 0 1, Vec3i.mk 0 1 0, Vec3i.mk 1 0 0, Vec3i.mk 0 0 0] [Atom.mk (Vec3.mk (50000/200001) (50000/200001) (50000/200001)) "X", Atom.mk (Vec3.mk (50000/66667) (50000/200001) (50000/200001)) "X", Atom.mk (Vec3.mk (50000/200001) (50000/66667) (50000/200001)) "X", Atom.mk (Vec3.mk (50000/200001) (50000/200001) (50000/66667)) "X", Atom.mk (Vec3.mk (50000/66667) (50000/66667) (50000/200001)) "X", Atom.mk (Vec3.mk (50000/200001) (50000/66667) (50000/66667)) "X", Atom.mk (Vec3.mk (50000/66667) (50000/200001) (50000/66667)) "X", Atom.mk (Vec3.mk (50000/66667) (50000/66667) (50000/66667)) "X"],
  GrowState.mk [Vec3i.mk 2 (-1) 0, Vec3i.mk 2 1 1, Vec3i.mk 1 2 1, Vec3i.mk 1 1 2, Vec3i.mk 2 2 1, Vec3i.mk 2 0 1, Vec3i.mk 0 2 1, Vec3i.mk 1 2 2, Vec3i.mk 1 2 0, Vec3i.mk 1 0 2, Vec3i.mk 2 1 2, Vec3i.mk 2 1 0, Vec3i.mk 0 1 2, Vec3i.mk 2 2 2, Vec3i.mk 0 0 2, Vec3i.mk 0 2 0, Vec3i.mk 2 0 0] [Vec3i.mk 2 1 2, Vec3i.mk 2 0 2, Vec3i.mk 1 (-1) 2, Vec3i.mk 2 (-1) 1, Vec3i.mk 1 2 2, Vec3i.mk (-1) 1 2, Vec3i.mk 0 2 2, Vec3i.mk (-1) 2 1, Vec3i.mk 2 2 1, Vec3i.mk 2 1 (-1), Vec3i.mk 1 2 (-1), Vec3i.mk 2 2 0, Vec3i.mk (-1) (-1) 2, Vec3i.mk (-1) (-1) 0, Vec3i.mk 1 1 2, Vec3i.mk (-1) 0 2, Vec3i.mk 1 0 2, Vec3i.mk 0 (-1) 2, Vec3i.mk 0 1 2, Vec3i.mk 0 0 2, Vec3i.mk (-1) 2 (-1), Vec3i.mk (-1) 0 (-1), Vec3i.mk 1 2 1, Vec3i.mk (-1) 1 1, Vec3i.mk 0 2 (-1), Vec3i.mk 0 2 1, Vec3i.mk (-1) 2 0, Vec3i.mk 1 2 0, Vec3i.mk 0 2 0, Vec3i.mk 2 (-1) (-1), Vec3i.mk 0 (-1) (-1), Vec3i.mk 2 1 1, Vec3i.mk 2 0 (-1), Vec3i.mk 2 0 1, Vec3i.mk 1 (-1) 1, Vec3i.mk 1 1 (-1), Vec3i.mk 2 (-1) 0, Vec3i.mk 2 1 0, Vec3i.mk 2 0 0, Vec3i.mk 1 (-1) (-1), Vec3i.mk (-1) 1 (-1), Vec3i.mk (-1) (-1) 1, Vec3i.mk (-1) (-1) (-1), Vec3i.mk 1 1 1, Vec3i.mk (-1) 0 1, Vec3i.mk 1 0 (-1), Vec3i.mk 1 0 1, Vec3i.mk 0 (-1) 1, Vec3i.mk 0 1 (-1), Vec3i.mk 0 1 1, Vec3i.mk (-1) 1 0, Vec3i.mk 1 (-1) 0, Vec3i.mk 1 1 0, Vec3i.mk 0 0 (-1), Vec3i.mk 0 (-1) 0, Vec3i.mk (-1) 0 0, Vec3i.mk 0 0 1, Vec3i.mk 0 1 0, Vec3i.mk 1 0 0, Vec3i.mk 0 0 0] [Atom.mk (Vec3.mk (50000/200001) (50000/200001) (50000/200001)) "X", Atom.mk (Vec3.mk (50000/66667) (50000/200001) (50000/200001)) "X", Atom.mk (Vec3.mk (50000/200001) (50000/66667) (50000/200001)) "X", Atom.mk (Vec3.mk (50000/200001) (50000/200001) (50000/66667)) "X", Atom.mk (Vec3.mk (50000/66667) (50000/66667) (50000/200001)) "X", Atom.mk (Vec3.mk (50000/200001) (50000/66667) (50000/66667)) "X", Atom.mk (Vec3.mk (50000/66667) (50000/200001) (50000/66667)) "X", Atom.mk (Vec3.mk (50000/66667) (50000/66667) (50000/66667)) "X"],
  GrowState.mk [Vec3i.mk 2 1 1, Vec3i.mk 1 2 1, Vec3i.mk 1 1 2, Vec3i.mk 2 2 1, Vec3i.mk 2 0 1, Vec3i.mk 0 2 1, Vec3i.mk 1 2 2, Vec3i.mk 1 2 0, Vec3i.mk 1 0 2, Vec3i.mk 2 1 2, Vec3i.mk 2 1 0, Vec3i.mk 0 1 2, Vec3i.mk 2 2 2, Vec3i.mk 0 0 2, Vec3i.mk 0 2 0, Vec3i.mk 2 0 0] [Vec3i.mk 2 1 2, Vec3i.mk 2 0 2, Vec3i.mk 1 (-1) 2, Vec3i.mk 2 (-1) 1, Vec3i.mk 1 2 2, Vec3i.mk (-1) 1 2, Vec3i.mk 0 2 2, Vec3i.mk (-1) 2 1, Vec3i.mk 2 2 1, Vec3i.mk 2 1 (-1), Vec3i.mk 1 2 (-1), Vec3i.mk 2 2 0, Vec3i.mk (-1) (-1) 2, Vec3i.mk (-1) (-1) 0, Vec3i.mk 1 1 2, Vec3i.mk (-1) 0 2, Vec3i.mk 1 0 2, Vec3i.mk 0 (-1) 2, Vec3i.mk 0 1 2, Vec3i.mk 0 0 2, Vec3i.mk (-1) 2 (-1), Vec3i.mk (-1) 0 (-1), Vec3i.mk 1 2 1, Vec3i.mk (-1) 1 1, Vec3i.mk 0 2 (-1), Vec3i.mk 0 2 1, Vec3i.mk (-1) 2 0, Vec3i.mk 1 2 0, Vec3i.mk 0 2 0, Vec3i.mk 2 (-1) (-1), Vec3i.mk 0 (-1) (-1), Vec3i.mk 2 1 1, Vec3i.mk 2 0 (-1), Vec3i.mk 2 0 1, Vec3i.mk 1 (-1) 1, Vec3i.mk 1 1 (-1), Vec3i.mk 2 (-1) 0, Vec3i.mk 2 1 0, Vec3i.mk 2 0 0, Vec3i.mk 1 (-1) (-1), Vec3i.mk (-1) 1 (-1), Vec3i.mk (-1) (-1) 1, Vec3i.mk (-1) (-1) (-1), Vec3i.mk 1 1 1, Vec3i.mk (-1) 0 1, Vec3i.mk 1 0 (-1), Vec3i.mk 1 0 1, Vec3i.mk 0 (-1) 1, Vec3i.mk 0 1 (-1), Vec3i.mk 0 1 1, Vec3i.mk (-1) 1 0, Vec3i.mk 1 (-1) 0, Vec3i.mk 1 1 0, Vec3i.mk 0 0 (-1), Vec3i.mk 0 (-1) 0, Vec3i.mk (-1) 0 0, Vec3i.mk 0 0 1, Vec3i.mk 0 1 0, Vec3i.mk 1 0 0, Vec3i.mk 0 0 0] [Atom.mk (Vec3.mk (50000/200001) (50000/200001) (50000/200001)) "X", Atom.mk (Vec3.mk (50000/66667) (50000/200001) (50000/200001)) "X", Atom.mk (Vec3.mk (50000/200001) (50000/66667) (50000/200001)) "X", Atom.mk (Vec3.mk (50000/200001) (50000/200001) (50000/66667)) "X", Atom.mk (Vec3.mk (50000/66667) (50000/66667) (50000/200001)) "X", Atom.mk (Vec3.mk (50000/200001) (50000/66667) (50000/66667)) "X", Atom.mk (Vec3.mk (50000/66667) (50000/200001) (50000/66667)) "X", Atom.mk (Vec3.mk (50000/66667) (50000/66667) (50000/66667)) "X"],
  GrowState.mk [Vec3i.mk 1 2 1, Vec3i.mk 1 1 2, Vec3i.mk 2 2 1, Vec3i.mk 2 0 1, Vec3i.mk 0 2 1, Vec3i.mk 1 2 2, Vec3i.mk 1 2 0, Vec3i.mk 1 0 2, Vec3i.mk 2 1 2, Vec3i.mk 2 1 0, Vec3i.mk 0 1 2, Vec3i.mk 2 2 2, Vec3i.mk 0 0 2, Vec3i.mk 0 2 0, Vec3i.mk 2 0 0] [Vec3i.mk 2 1 2, Vec3i.mk 2 0 2, Vec3i.mk 1 (-1) 2, Vec3i.mk 2 (-1) 1, Vec3i.mk 1 2 2, Vec3i.mk (-1) 1 2, Vec3i.mk 0 2 2, Vec3i.mk (-1) 2 1, Vec3i.mk 2 2 1, Vec3i.mk 2 1 (-1), Vec3i.mk 1 2 (-1), Vec3i.mk 2 2 0, Vec3i.mk (-1) (-1) 2, Vec3i.mk (-1) (-1) 0, Vec3i.mk 1 1 2, Vec3i.mk (-1) 0 2, Vec3i.mk 1 0 2, Vec3i.mk 0 (-1) 2, Vec3i.mk 0 1 2, Vec3i.mk 0 0 2, Vec3i.mk (-1) 2 (-1), Vec3i.mk (-1) 0 (-1), Vec3i.mk 1 2 1, Vec3i.mk (-1) 1 1, Vec3i.mk 0 2 (-1), Vec3i.mk 0 2 1, Vec3i.mk (-1) 2 0, Vec3i.mk 1 2 0, Vec3i.mk 0 2 0, Vec3i.mk 2 (-1) (-1), Vec3i.mk 0 (-1) (-1), Vec3i.mk 2 1 1, Vec3i.mk 2 0 (-1), Vec3i.mk 2 0 1, Vec3i.mk 1 (-1) 1, Vec3i.mk 1 1 (-1), Vec3i.mk 2 (-1) 0, Vec3i.mk 2 1 0, Vec3i.mk 2 0 0, Vec3i.mk 1 (-1) (-1), Vec3i.mk (-1) 1 (-1), Vec3i.mk (-1) (-1) 1, Vec3i.mk (-1) (-1) (-1), Vec3i.mk 1 1 1, Vec3i.mk (-1) 0 1, Vec3i.mk 1 0 (-1), Vec3i.mk 1 0 1, Vec3i.mk 0 (-1) 1, Vec3i.mk 0 1 (-1), Vec3i.mk 0 1 1, Vec3i.mk (-1) 1 0, Vec3i.mk 1 (-1) 0, Vec3i.mk 1 1 0, Vec3i.mk 0 0 (-1), Vec3i.mk 0 (-1) 0, Vec3i.mk (-1) 0 0, Vec3i.mk 0 0 1, Vec3i.mk 0 1 0, Vec3i.mk 1 0 0, Vec3i.mk 0 0 0] [Atom.mk (Vec3.mk (50000/200001) (50000/200001) (50000/200001)) "X", Atom.mk (Vec3.mk (50000/66667) (50000/200001) (50000/200001)) "X", Atom.mk (Vec3.mk (50000/200001) (50000/66667) (50000/200001)) "X", Atom.mk (Vec3.mk (50000/200001) (50000/200001) (50000/66667)) "X", Atom.mk (Vec3.mk (50000/66667) (50000/66667) (50000/200001)) "X", Atom.mk (Vec3.mk (50000/200001) (50000/66667) (50000/66667)) "X", Atom.mk (Vec3.mk (50000/66667) (50000/200001) (50000/66667)) "X", Atom.mk (Vec3.mk (50000/66667) (50000/66667) (50000/66667)) "X"],
  GrowState.mk [Vec3i.mk 1 1 2, Vec3i.mk 2 2 1, Vec3i.mk 2 0 1, Vec3i.mk 0 2 1, Vec3i.mk 1 2 2, Vec3i.mk 1 2 0, Vec3i.mk 1 0 2, Vec3i.mk 2 1 2, Vec3i.mk 2 1 0, Vec3i.mk 0 1 2, Vec3i.mk 2 2 2, Vec3i.mk 0 0 2, Vec3i.mk 0 2 0, Vec3i.mk 2 0 0] [Vec3i.mk 2 1 2, Vec3i.mk 2 0 2, Vec3i.mk 1 (-1) 2, Vec3i.mk 2 (-1) 1, Vec3i.mk 1 2 2, Vec3i.mk (-1) 1 2, Vec3i.mk 0 2 2, Vec3i.mk (-1) 2 1, Vec3i.mk 2 2 1, Vec3i.mk 2 1 (-1), Vec3i.mk 1 2 (-1), Vec3i.mk 2 2 0, Vec3i.mk (-1) (-1) 2, Vec3i.mk (-1) (-1) 0, Vec3i.mk 1 1 2, Vec3i.mk (-1) 0 2, Vec3i.mk 1 0 2, Vec3i.mk 0 (-1) 2, Vec3i.mk 0 1 2, Vec3i.mk 0 0 2, Vec3i.mk (-1) 2 (-1), Vec3i.mk (-1) 0 (-1), Vec3i.mk 1 2 1, Vec3i.mk (-1) 1 1, Vec3i.mk 0 2 (-1), Vec3i.mk 0 2 1, Vec3i.mk (-1) 2 0, Vec3i.mk 1 2 0, Vec3i.mk 0 2 0, Vec3i.mk 2 (-1) (-1), Vec3i.mk 0 (-1) (-1), Vec3i.mk 2 1 1, Vec3i.mk 2 0 (-1), Vec3i.mk 2 0 1, Vec3i.mk 1 (-1) 1, Vec3i.mk 1 1 (-1), Vec3i.mk 2 (-1) 0, Vec3i.mk 2 1 0, Vec3i.mk 2 0 0, Vec3i.mk 1 (-1) (-1), Vec3i.mk (-1) 1 (-1), Vec3i.mk (-1) (-1) 1, Vec3i.mk (-1) (-1) (-1), Vec3i.mk 1 1 1, Vec3i.mk (-1) 0 1, Vec3i.mk 1 0 (-1), Vec3i.mk 1 0 1, Vec3i.mk 0 (-1) 1, Vec3i.mk 0 1 (-1), Vec3i.mk 0 1 1, Vec3i.mk (-1) 1 0, Vec3i.mk 1 (-1) 0, Vec3i.mk 1 1 0, Vec3i.mk 0 0 (-1), Vec3i.mk 0 (-1) 0, Vec3i.mk (-1) 0 0, Vec3i.mk 0 0 1, Vec3i.mk 0 1 0, Vec3i.mk 1 0 0, Vec3i.mk 0 0 0] [Atom.mk (Vec3.mk (50000/200001) (50000/200001) (50000/200001)) "X", Atom.mk (Vec3.mk (50000/66667) (50000/200001) (50000/200001)) "X", Atom.mk (Vec3.mk (50000/200001) (50000/66667) (50000/200001)) "X", Atom.mk (Vec3.mk (50000/200001) (50000/200001) (50000/66667)) "X", Atom.mk (Vec3.mk (50000/66667) (50000/66667) (50000/200001)) "X", Atom.mk (Vec3.mk (50000/200001) (50000/66667) (50000/66667)) "X", Atom.mk (Vec3.mk (50000/66667) (50000/200001) (50000/66667)) "X", Atom.mk (Vec3.mk (50000/66667) (50000/66667) (50000/66667)) "X"],
  GrowState.mk [Vec3i.mk 2 2 1, Vec3i.mk 2 0 1, Vec3i.mk 0 2 1, Vec3i.mk 1 2 2, Vec3i.mk 1 2 0, Vec3i.mk 1 0 2, Vec3i.mk 2 1 2, Vec3i.mk 2 1 0, Vec3i.mk 0 1 2, Vec3i.mk 2 2 2, Vec3i.mk 0 0 2, Vec3i.mk 0 2 0, Vec3i.mk 2 0 0] [Vec3i.mk 2 1 2, Vec3i.mk 2 0 2, Vec3i.mk 1 (-1) 2, Vec3i.mk 2 (-1) 1, Vec3i.mk 1 2 2, Vec3i.mk (-1) 1 2, Vec3i.mk 0 2 2, Vec3i.mk (-1) 2 1, Vec3i.mk 2 2 1, Vec3i.mk 2 1 (-1), Vec3i.mk 1 2 (-1), Vec3i.mk 2 2 0, Vec3i.mk (-1) (-1) 2, Vec3i.mk (-1) (-1) 0, Vec3i.mk 1 1 2, Vec3i.mk (-1) 0 2, Vec3i.mk 1 0 2, Vec3i.mk 0 (-1) 2, Vec3i.mk 0 1 2, Vec3i.mk 0 0 2, Vec3i.mk (-1) 2 (-1), Vec3i.mk (-1) 0 (-1), Vec3i.mk 1 2 1, Vec3i.mk (-1) 1 1, Vec3i.mk 0 2 (-1), Vec3i.mk 0 2 1, Vec3i.mk (-1) 2 0, Vec3i.mk 1 2 0, Vec3i.mk 0 2 0, Vec3i.mk 2 (-1) (-1), Vec3i.mk 0 (-1) (-1), Vec3i.mk 2 1 1, Vec3i.mk 2 0 (-1), Vec3i.mk 2 0 1, Vec3i.mk 1 (-1) 1, Vec3i.mk 1 1 (-1), Vec3i.mk 2 (-1) 0, Vec3i.mk 2 1 0, Vec3i.mk 2 0 0, Vec3i.mk 1 (-1) (-1), Vec3i.mk (-1) 1 (-1), Vec3i.mk (-1) (-1) 1, Vec3i.mk (-1) (-1) (-1), Vec3i.mk 1 1 1, Vec3i.mk (-1) 0 1, Vec3i.mk 1 0 (-1), Vec3i.mk 1 0 1, Vec3i.mk 0 (-1) 1, Vec3i.mk 0 1 (-1), Vec3i.mk 0 1 1, Vec3i.mk (-1) 1 0, Vec3i.mk 1 (-1) 0, Vec3i.mk 1 1 0, Vec3i.mk 0 0 (-1), Vec3i.mk 0 (-1) 0, Vec3i.mk (-1) 0 0, Vec3i.mk 0 0 1, Vec3i.mk 0 1 0, Vec3i.mk 1 0 0, Vec3i.mk 0 0 0] [Atom.mk (Vec3.mk (50000/200001) (50000/200001) (50000/200001)) "X", Atom.mk (Vec3.mk (50000/66667) (50000/200001) (50000/200001)) "X", Atom.mk (Vec3.mk (50000/200001) (50000/66667) (50000/200001)) "X", Atom.mk (Vec3.mk (50000/200001) (50000/200001) (50000/66667)) "X", Atom.mk (Vec3.mk (50000/66667) (50000/66667) (50000/200001)) "X", Atom.mk (Vec3.mk (50000/200001) (50000/66667) (50000/66667)) "X", Atom.mk (Vec3.mk (50000/66667) (50000/200001) (50000/66667)) "X", Atom.mk (Vec3.mk (50000/66667) (50000/66667) (50000/66667)) "X"],
  GrowState.mk [Vec3i.mk 2 0 1, Vec3i.mk 0 2 1, Vec3i.mk 1 2 2, Vec3i.mk 1 2 0, Vec3i.mk 1 0 2, Vec3i.mk 2 1 2, Vec3i.mk 2 1 0, Vec3i.mk 0 1 2, Vec3i.mk 2 2 2, Vec3i.mk 0 0 2, Vec3i.mk 0 2 0, Vec3i.mk 2 0 0] [Vec3i.mk 2 1 2, Vec3i.mk 2 0 2, Vec3i.mk 1 (-1) 2, Vec3i.mk 2 (-1) 1, Vec3i.mk 1 2 2, Vec3i.mk (-1) 1 2, Vec3i.mk 0 2 2, Vec3i.mk (-1) 2 1, Vec3i.mk 2 2 1, Vec3i.mk 2 1 (-1), Vec3i.mk 1 2 (-1), Vec3i.mk 2 2 0, Vec3i.mk (-1) (-1) 2, Vec3i.mk (-1) (-1) 0, Vec3i.mk 1 1 2, Vec3i.mk (-1) 0 2, Vec3i.mk 1 0 2, Vec3i.mk 0 (-1) 2, Vec3i.mk 0 1 2, Vec3i.mk 0 0 2, Vec3i.mk (-1) 2 (-1), Vec3i.mk (-1) 0 (-1), Vec3i.mk 1 2 1, Vec3i.mk (-1) 1 1, Vec3i.mk 0 2 (-1), Vec3i.mk 0 2 1, Vec3i.mk (-1) 2 0, Vec3i.mk 1 2 0, Vec3i.mk 0 2 0, Vec3i.mk 2 (-1) (-1), Vec3i.mk 0 (-1) (-1), Vec3i.mk 2 1 1, Vec3i.mk 2 0 (-1), Vec3i.mk 2 0 1, Vec3i.mk 1 (-1) 1, Vec3i.mk 1 1 (-1), Vec3i.mk 2 (-1) 0, Vec3i.mk 2 1 0, Vec3i.mk 2 0 0, Vec3i.mk 1 (-1) (-1), Vec3i.mk (-1) 1 (-1), Vec3i.mk (-1) (-1) 1, Vec3i.mk (-1) (-1) (-1), Vec3i.mk 1 1 1, Vec3i.mk (-1) 0 1, Vec3i.mk 1 0 (-1), Vec3i.mk 1 0 1, Vec3i.mk 0 (-1) 1, Vec3i.mk 0 1 (-1), Vec3i.mk 0 1 1, Vec3i.mk (-1) 1 0, Vec3i.mk 1 (-1) 0, Vec3i.mk 1 1 0, Vec3i.mk 0 0 (-1), Vec3i.mk 0 (-1) 0, Vec3i.mk (-1) 0 0, Vec3i.mk 0 0 1, Vec3i.mk 0 1 0, Vec3i.mk 1 0 0, Vec3i.mk 0 0 0] [Atom.mk (Vec3.mk (50000/200001) (50000/200001) (50000/200001)) "X", Atom.mk (Vec3.mk (50000/66667) (50000/200001) (50000/200001)) "X", Atom.mk (Vec3.mk (50000/200001) (50000/66667) (50000/200001)) "X", Atom.mk (Vec3.mk (50000/200001) (50000/200001) (50000/66667)) "X", Atom.mk (Vec3.mk (50000/66667) (50000/66667) (50000/200001)) "X", Atom.mk (Vec3.mk (50000/200001) (50000/66667) (50000/66667)) "X", Atom.mk (Vec3.mk (50000/66667) (50000/200001) (50000/66667)) "X", Atom.mk (Vec3.mk (50000/66667) (50000/66667) (50000/66667)) "X"],
  GrowState.mk [Vec3i.mk 0 2 1, Vec3i.mk 1 2 2, Vec3i.mk 1 2 0, Vec3i.mk 1 0 2, Vec3i.mk 2 1 2, Vec3i.mk 2 1 0, Vec3i.mk 0 1 2, Vec3i.mk 2 2 2, Vec3i.mk 0 0 2, Vec3i.mk 0 2 0, Vec3i.mk 2 0 0] [Vec3i.mk 2 1 2, Vec3i.mk 2 0 2, Vec3i.mk 1 (-1) 2, Vec3i.mk 2 (-1) 1, Vec3i.mk 1 2 2, Vec3i.mk (-1) 1 2, Vec3i.mk 0 2 2, Vec3i.mk (-1) 2 1, Vec3i.mk 2 2 1, Vec3i.mk 2 1 (-1), Vec3i.mk 1 2 (-1), Vec3i.mk 2 2 0, Vec3i.mk (-1) (-1) 2, Vec3i.mk (-1) (-1) 0, Vec3i.mk 1 1 2, Vec3i.mk (-1) 0 2, Vec3i.mk 1 0 2, Vec3i.mk 0 (-1) 2, Vec3i.mk 0 1 2, Vec3i.mk 0 0 2, Vec3i.mk (-1) 2 (-1), Vec3i.mk (-1) 0 (-1), Vec3i.mk 1 2 1, Vec3i.mk (-1) 1 1, Vec3i.mk 0 2 (-1), Vec3i.mk 0 2 1, Vec3i.mk (-1) 2 0, Vec3i.mk 1 2 0, Vec3i.mk 0 2 0, Vec3i.mk 2 (-1) (-1), Vec3i.mk 0 (-1) (-1), Vec3i.mk 2 1 1, Vec3i.mk 2 0 (-1), Vec3i.mk 2 0 1, Vec3i.mk 1 (-1) 1, Vec3i.mk 1 1 (-1), Vec3i.mk 2 (-1) 0, Vec3i.mk 2 1 0, Vec3i.mk 2 0 0, Vec3i.mk 1 (-1) (-1), Vec3i.mk (-1) 1 (-1), Vec3i.mk (-1) (-1) 1, Vec3i.mk (-1) (-1) (-1), Vec3i.mk 1 1 1, Vec3i.mk (-1) 0 1, Vec3i.mk 1 0 (-1), Vec3i.mk 1 0 1, Vec3i.mk 0 (-1) 1, Vec3i.mk 0 1 (-1), Vec3i.mk 0 1 1, Vec3i.mk (-1) 1 0, Vec3i.mk 1 (-1) 0, Vec3i.mk 1 1 0, Vec3i.mk 0 0 (-1), Vec3i.mk 0 (-1) 0, Vec3i.mk (-1) 0 0, Vec3i.mk 0 0 1, Vec3i.mk 0 1 0, Vec3i.mk 1 0 0, Vec3i.mk 0 0 0] [Atom.mk (Vec3.mk (50000/200001) (50000/200001) (50000/200001)) "X", Atom.mk (Vec3.mk (50000/66667) (50000/200001) (50000/200001)) "X", Atom.mk (Vec3.mk (50000/200001) (50000/66667) (50000/200001)) "X", Atom.mk (Vec3.mk (50000/200001) (50000/200001) (50000/66667)) "X", Atom.mk (Vec3.mk (50000/66667) (50000/66667) (50000/200001)) "X", Atom.mk (Vec3.mk (50000/200001) (50000/66667) (50000/66667)) "X", Atom.mk (Vec3.mk (50000/66667) (50000/200001) (50000/66667)) "X", Atom.mk (Vec3.mk (50000/66667) (50000/66667) (50000/66667)) "X"],
  GrowState.mk [Vec3i.mk 1 2 2, Vec3i.mk 1 2 0, Vec3i.mk 1 0 2, Vec3i.mk 2 1 2, Vec3i.mk 2 1 0, Vec3i.mk 0 1 2, Vec3i.mk 2 2 2, Vec3i.mk 0 0 2, Vec3i.mk 0 2 0, Vec3i.mk 2 0 0] [Vec3i.mk 2 1 2, Vec3i.mk 2 0 2, Vec3i.mk 1 (-1) 2, Vec3i.mk 2 (-1) 1, Vec3i.mk 1 2 2, Vec3i.mk (-1) 1 2, Vec3i.mk 0 2 2, Vec3i.mk (-1) 2 1, Vec3i.mk 2 2 1, Vec3i.mk 2 1 (-1), Vec3i.mk 1 2 (-1), Vec3i.mk 2 2 0, Vec3i.mk (-1) (-1) 2, Vec3i.mk (-1) (-1) 0, Vec3i.mk 1 1 2, Vec3i.mk (-1) 0 2, Vec3i.mk 1 0 2, Vec3i.mk 0 (-1) 2, Vec3i.mk 0 1 2, Vec3i.mk 0 0 2, Vec3i.mk (-1) 2 (-1), Vec3i.mk (-1) 0 (-1), Vec3i.mk 1 2 1, Vec3i.mk (-1) 1 1, Vec3i.mk 0 2 (-1), Vec3i.mk 0 2 1, Vec3i.mk (-1) 2 0, Vec3i.mk 1 2 0, Vec3i.mk 0 2 0, Vec3i.mk 2 (-1) (-1), Vec3i.mk 0 (-1) (-1), Vec3i.mk 2 1 1, Vec3i.mk 2 0 (-1), Vec3i.mk 2 0 1, Vec3i.mk 1 (-1) 1, Vec3i.mk 1 1 (-1), Vec3i.mk 2 (-1) 0, Vec3i.mk 2 1 0, Vec3i.mk 2 0 0, Vec3i.mk 1 (-1) (-1), Vec3i.mk (-1) 1 (-1), Vec3i.mk (-1) (-1) 1, Vec3i.mk (-1) (-1) (-1), Vec3i.mk 1 1 1, Vec3i.mk (-1) 0 1, Vec3i.mk 1 0 (-1), Vec3i.mk 1 0 1, Vec3i.mk 0 (-1) 1, Vec3i.mk 0 1 (-1), Vec3i.mk 0 1 1, Vec3i.mk (-1) 1 0, Vec3i.mk 1 (-1) 0, Vec3i.mk 1 1 0, Vec3i.mk 0 0 (-1), Vec3i.mk 0 (-1) 0, Vec3i.mk (-1) 0 0, Vec3i.mk 0 0 1, Vec3i.mk 0 1 0, Vec3i.mk 1 0 0, Vec3i.mk 0 0 0] [Atom.mk (Vec3.mk (50000/200001) (50000/200001) (50000/200001)) "X", Atom.mk (Vec3.mk (50000/66667) (50000/200001) (50000/200001)) "X", Atom.mk (Vec3.mk (50000/200001) (50000/66667) (50000/200001)) "X", Atom.mk (Vec3.mk (50000/200001) (50000/200001) (50000/66667)) "X", Atom.mk (Vec3.mk (50000/66667) (50000/66667) (50000/200001)) "X", Atom.mk (Vec3.mk (50000/200001) (50000/66667) (50000/66667)) "X", Atom.mk (Vec3.mk (50000/66667) (50000/200001) (50000/66667)) "X", Atom.mk (Vec3.mk (50000/66667) (50000/66667) (50000/66667)) "X"],
  GrowState.mk [Vec3i.mk 1 2 0, Vec3i.mk 1 0 2, Vec3i.mk 2 1 2, Vec3i.mk 2 1 0, Vec3i.mk 0 1 2, Vec3i.mk 2 2 2, Vec3i.mk 0 0 2, Vec3i.mk 0 2 0, Vec3i.mk 2 0 0] [Vec3i.mk 2 1 2, Vec3i.mk 2 0 2, Vec3i.mk 1 (-1) 2, Vec3i.mk 2 (-1) 1, Vec3i.mk 1 2 2, Vec3i.mk (-1) 1 2, Vec3i.mk 0 2 2, Vec3i.mk (-1) 2 1, Vec3i.mk 2 2 1, Vec3i.mk 2 1 (-1), Vec3i.mk 1 2 (-1), Vec3i.mk 2 2 0, Vec3i.mk (-1) (-1) 2, Vec3i.mk (-1) (-1) 0, Vec3i.mk 1 1 2, Vec3i.mk (-1) 0 2, Vec3i.mk 1 0 2, Vec3i.mk 0 (-1) 2, Vec3i.mk 0 1 2, Vec3i.mk 0 0 2, Vec3i.mk (-1) 2 (-1), Vec3i.mk (-1) 0 (-1), Vec3i.mk 1 2 1, Vec3i.mk (-1) 1 1, Vec3i.mk 0 2 (-1), Vec3i.mk 0 2 1, Vec3i.mk (-1) 2 0, Vec3i.mk 1 2 0, Vec3i.mk 0 2 0, Vec3i.mk 2 (-1) (-1), Vec3i.mk 0 (-1) (-1), Vec3i.mk 2 1 1, Vec3i.mk 2 0 (-1), Vec3i.mk 2 0 1, Vec3i.mk 1 (-1) 1, Vec3i.mk 1 1 (-1), Vec3i.mk 2 (-1) 0, Vec3i.mk 2 1 0, Vec3i.mk 2 0 0, Vec3i.mk 1 (-1) (-1), Vec3i.mk (-1) 1 (-1), Vec3i.mk (-1) (-1) 1, Vec3i.mk (-1) (-1) (-1), Vec3i.mk 1 1 1, Vec3i.mk (-1) 0 1, Vec3i.mk 1 0 (-1), Vec3i.mk 1 0 1, Vec3i.mk 0 (-1) 1, Vec3i.mk 0 1 (-1), Vec3i.mk 0 1 1, Vec3i.mk (-1) 1 0, Vec3i.mk 1 (-1) 0, Vec3i.mk 1 1 0, Vec3i.mk 0 0 (-1), Vec3i.mk 0 (-1) 0, Vec3i.mk (-1) 0 0, Vec3i.mk 0 0 1, Vec3i.mk 0 1 0, Vec3i.mk 1 0 0, Vec3i.mk 0 0 0] [Atom.mk (Vec3.mk (50000/200001) (50000/200001) (50000/200001)) "X", Atom.mk (Vec3.mk (50000/66667) (50000/200001) (50000/200001)) "X", Atom.mk (Vec3.mk (50000/200001) (50000/66667) (50000/200001)) "X", Atom.mk (Vec3.mk (50000/200001) (50000/200001) (50000/66667)) "X", Atom.mk (Vec3.mk (50000/66667) (50000/66667) (50000/200001)) "X", Atom.mk (Vec3.mk (50000/200001) (50000/66667) (50000/66667)) "X", Atom.mk (Vec3.mk (50000/66667) (50000/200001) (50000/66667)) "X", Atom.mk (Vec3.mk (50000/66667) (50000/66667) (50000/66667)) "X"],
  GrowState.mk [Vec3i.mk 1 0 2, Vec3i.mk 2 1 2, Vec3i.mk 2 1 0, Vec3i.mk 0 1 2, Vec3i.mk 2 2 2, Vec3i.mk 0 0 2, Vec3i.mk 0 2 0, Vec3i.mk 2 0 0] [Vec3i.mk 2 1 2, Vec3i.mk 2 0 2, Vec3i.mk 1 (-1) 2, Vec3i.mk 2 (-1) 1, Vec3i.mk 1 2 2, Vec3i.mk (-1) 1 2, Vec3i.mk 0 2 2, Vec3i.mk (-1) 2 1, Vec3i.mk 2 2 1, Vec3i.mk 2 1 (-1), Vec3i.mk 1 2 (-1), Vec3i.mk 2 2 0, Vec3i.mk (-1) (-1) 2, Vec3i.mk (-1) (-1) 0, Vec3i.mk 1 1 2, Vec3i.mk (-1) 0 2, Vec3i.mk 1 0 2, Vec3i.mk 0 (-1) 2, Vec3i.mk 0 1 2, Vec3i.mk 0 0 2, Vec3i.mk (-1) 2 (-1), Vec3i.mk (-1) 0 (-1), Vec3i.mk 1 2 1, Vec3i.mk (-1) 1 1, Vec3i.mk 0 2 (-1), Vec3i.mk 0 2 1, Vec3i.mk (-1) 2 0, Vec3i.mk 1 2 0, Vec3i.mk 0 2 0, Vec3i.mk 2 (-1) (-1), Vec3i.mk 0 (-1) (-1), Vec3i.mk 2 1 1, Vec3i.mk 2 0 (-1), Vec3i.mk 2 0 1, Vec3i.mk 1 (-1) 1, Vec3i.mk 1 1 (-1), Vec3i.mk 2 (-1) 0, Vec3i.mk 2 1 0, Vec3i.mk 2 0 0, Vec3i.mk 1 (-1) (-1), Vec3i.mk (-1) 1 (-1), Vec3i.mk (-1) (-1) 1, Vec3i.mk (-1) (-1) (-1), Vec3i.mk 1 1 1, Vec3i.mk (-1) 0 1, Vec3i.mk 1 0 (-1), Vec3i.mk 1 0 1, Vec3i.mk 0 (-1) 1, Vec3i.mk 0 1 (-1), Vec3i.mk 0 1 1, Vec3i.mk (-1) 1 0, Vec3i.mk 1 (-1) 0, Vec3i.mk 1 1 0, Vec3i.mk 0 0 (-1), Vec3i.mk 0 (-1) 0, Vec3i.mk (-1) 0 0, Vec3i.mk 0 0 1, Vec3i.mk 0 1 0, Vec3i.mk 1 0 0, Vec3i.mk 0 0 0] [Atom.mk (Vec3.mk (50000/200001) (50000/200001) (50000/200001)) "X", Atom.mk (Vec3.mk (50000/66667) (50000/200001) (50000/200001)) "X", Atom.mk (Vec3.mk (50000/200001) (50000/66667) (50000/200001)) "X", Atom.mk (Vec3.mk (50000/200001) (50000/200001) (50000/66667)) "X", Atom.mk (Vec3.mk (50000/66667) (50000/66667) (50000/200001)) "X", Atom.mk (Vec3.mk (50000/200001) (50000/66667) (50000/66667)) "X", Atom.mk (Vec3.mk (50000/66667) (50000/200001) (50000/66667)) "X", Atom.mk (Vec3.mk (50000/66667) (50000/66667) (50000/66667)) "X"],
  GrowState.mk [Vec3i.mk 2 1 2, Vec3i.mk 2 1 0, Vec3i.mk 0 1 2, Vec3i.mk 2 2 2, Vec3i.mk 0 0 2, Vec3i.mk 0 2 0, Vec3i.mk 2 0 0] [Vec3i.mk 2 1 2, Vec3i.mk 2 0 2, Vec3i.mk 1 (-1) 2, Vec3i.mk 2 (-1) 1, Vec3i.mk 1 2 2, Vec3i.mk (-1) 1 2, Vec3i.mk 0 2 2, Vec3i.mk (-1) 2 1, Vec3i.mk 2 2 1, Vec3i.mk 2 1 (-1), Vec3i.mk 1 2 (-1), Vec3i.mk 2 2 0, Vec3i.mk (-1) (-1) 2, Vec3i.mk (-1) (-1) 0, Vec3i.mk 1 1 2, Vec3i.mk (-1) 0 2, Vec3i.mk 1 0 2, Vec3i.mk 0 (-1) 2, Vec3i.mk 0 1 2, Vec3i.mk 0 0 2, Vec3i.mk (-1) 2 (-1), Vec3i.mk (-1) 0 (-1), Vec3i.mk 1 2 1, Vec3i.mk (-1) 1 1, Vec3i.mk 0 2 (-1), Vec3i.mk 0 2 1, Vec3i.mk (-1) 2 0, Vec3i.mk 1 2 0, Vec3i.mk 0 2 0, Vec3i.mk 2 (-1) (-1), Vec3i.mk 0 (-1) (-1), Vec3i.mk 2 1 1, Vec3i.mk 2 0 (-1), Vec3i.mk 2 0 1, Vec3i.mk 1 (-1) 1, Vec3i.mk 1 1 (-1), Vec3i.mk 2 (-1) 0, Vec3i.mk 2 1 0, Vec3i.mk 2 0 0, Vec3i.mk 1 (-1) (-1), Vec3i.mk (-1) 1 (-1), Vec3i.mk (-1) (-1) 1, Vec3i.mk (-1) (-1) (-1), Vec3i.mk 1 1 1, Vec3i.mk (-1) 0 1, Vec3i.mk 1 0 (-1), Vec3i.mk 1 0 1, Vec3i.mk 0 (-1) 1, Vec3i.mk 0 1 (-1), Vec3i.mk 0 1 1, Vec3i.mk (-1) 1 0, Vec3i.mk 1 (-1) 0, Vec3i.mk 1 1 0, Vec3i.mk 0 0 (-1), Vec3i.mk 0 (-1) 0, Vec3i.mk (-1) 0 0, Vec3i.mk 0 0 1, Vec3i.mk 0 1 0, Vec3i.mk 1 0 0, Vec3i.mk 0 0 0] [Atom.mk (Vec3.mk (50000/200001) (50000/200001) (50000/200001)) "X", Atom.mk (Vec3.mk (50000/66667) (50000/200001) (50000/200001)) "X", Atom.mk (Vec3.mk (50000/200001) (50000/66667) (50000/200001)) "X", Atom.mk (Vec3.mk (50000/200001) (50000/200001) (50000/66667)) "X", Atom.mk (Vec3.mk (50000/66667) (50000/66667) (50000/200001)) "X", Atom.mk (Vec3.mk (50000/200001) (50000/66667) (50000/66667)) "X", Atom.mk (Vec3.mk (50000/66667) (50000/200001) (50000/66667)) "X", Atom.mk (Vec3.mk (50000/66667) (50000/66667) (50000/66667)) "X"],
  GrowState.mk [Vec3i.mk 2 1 0, Vec3i.mk 0 1 2, Vec3i.mk 2 2 2, Vec3i.mk 0 0 2, Vec3i.mk 0 2 0, Vec3i.mk 2 0 0] [Vec3i.mk 2 1 2, Vec3i.mk 2 0 2, Vec3i.mk 1 (-1) 2, Vec3i.mk 2 (-1) 1, Vec3i.mk 1 2 2, Vec3i.mk (-1) 1 2, Vec3i.mk 0 2 2, Vec3i.mk (-1) 2 1, Vec3i.mk 2 2 1, Vec3i.mk 2 1 (-1), Vec3i.mk 1 2 (-1), Vec3i.mk 2 2 0, Vec3i.mk (-1) (-1) 2, Vec3i.mk (-1) (-1) 0, Vec3i.mk 1 1 2, Vec3i.mk (-1) 0 2, Vec3i.mk 1 0 2, Vec3i.mk 0 (-1) 2, Vec3i.mk 0 1 2, Vec3i.mk 0 0 2, Vec3i.mk (-1) 2 (-1), Vec3i.mk (-1) 0 (-1), Vec3i.mk 1 2 1, Vec3i.mk (-1) 1 1, Vec3i.mk 0 2 (-1), Vec3i.mk 0 2 1, Vec3i.mk (-1) 2 0, Vec3i.mk 1 2 0, Vec3i.mk 0 2 0, Vec3i.mk 2 (-1) (-1), Vec3i.mk 0 (-1) (-1), Vec3i.mk 2 1 1, Vec3i.mk 2 0 (-1), Vec3i.mk 2 0 1, Vec3i.mk 1 (-1) 1, Vec3i.mk 1 1 (-1), Vec3i.mk 2 (-1) 0, Vec3i.mk 2 1 0, Vec3i.mk 2 0 0, Vec3i.mk 1 (-1) (-1), Vec3i.mk (-1) 1 (-1), Vec3i.mk (-1) (-1) 1, Vec3i.mk (-1) (-1) (-1), Vec3i.mk 1 1 1, Vec3i.mk (-1) 0 1, Vec3i.mk 1 0 (-1), Vec3i.mk 1 0 1, Vec3i.mk 0 (-1) 1, Vec3i.mk 0 1 (-1), Vec3i.mk 0 1 1, Vec3i.mk (-1) 1 0, Vec3i.mk 1 (-1) 0, Vec3i.mk 1 1 0, Vec3i.mk 0 0 (-1), Vec3i.mk 0 (-1) 0, Vec3i.mk (-1) 0 0, Vec3i.mk 0 0 1, Vec3i.mk 0 1 0, Vec3i.mk 1 0 0, Vec3i.mk 0 0 0] [Atom.mk (Vec3.mk (50000/200001) (50000/200001) (50000/200001)) "X", Atom.mk (Vec3.mk (50000/66667) (50000/200001) (50000/200001)) "X", Atom.mk (Vec3.mk (50000/200001) (50000/66667) (50000/200001)) "X", Atom.mk (Vec3.mk (50000/200001) (50000/200001) (50000/66667)) "X", Atom.mk (Vec3.mk (50000/66667) (50000/66667) (50000/200001)) "X", Atom.mk (Vec3.mk (50000/200001) (50000/66667) (50000/66667)) "X", Atom.mk (Vec3.mk (50000/66667) (50000/200001) (50000/66667)) "X", Atom.mk (Vec3.mk (50000/66667) (50000/66667) (50000/66667)) "X"],
  GrowState.mk [Vec3i.mk 0 1 2, Vec3i.mk 2 2 2, Vec3i.mk 0 0 2, Vec3i.mk 0 2 0, Vec3i.mk 2 0 0] [Vec3i.mk 2 1 2, Vec3i.mk 2 0 2, Vec3i.mk 1 (-1) 2, Vec3i.mk 2 (-1) 1, Vec3i.mk 1 2 2, Vec3i.mk (-1) 1 2, Vec3i.mk 0 2 2, Vec3i.mk (-1) 2 1, Vec3i.mk 2 2 1, Vec3i.mk 2 1 (-1), Vec3i.mk 1 2 (-1), Vec3i.mk 2 2 0, Vec3i.mk (-1) (-1) 2, Vec3i.mk (-1) (-1) 0, Vec3i.mk 1 1 2, Vec3i.mk (-1) 0 2, Vec3i.mk 1 0 2, Vec3i.mk 0 (-1) 2, Vec3i.mk 0 1 2, Vec3i.mk 0 0 2, Vec3i.mk (-1) 2 (-1), Vec3i.mk (-1) 0 (-1), Vec3i.mk 1 2 1, Vec3i.mk (-1) 1 1, Vec3i.mk 0 2 (-1), Vec3i.mk 0 2 1, Vec3i.mk (-1) 2 0, Vec3i.mk 1 2 0, Vec3i.mk 0 2 0, Vec3i.mk 2 (-1) (-1), Vec3i.mk 0 (-1) (-1), Vec3i.mk 2 1 1, Vec3i.mk 2 0 (-1), Vec3i.mk 2 0 1, Vec3i.mk 1 (-1) 1, Vec3i.mk 1 1 (-1), Vec3i.mk 2 (-1) 0, Vec3i.mk 2 1 0, Vec3i.mk 2 0 0, Vec3i.mk 1 (-1) (-1), Vec3i.mk (-1) 1 (-1), Vec3i.mk (-1) (-1) 1, Vec3i.mk (-1) (-1) (-1), Vec3i.mk 1 1 1, Vec3i.mk (-1) 0 1, Vec3i.mk 1 0 (-1), Vec3i.mk 1 0 1, Vec3i.mk 0 (-1) 1, Vec3i.mk 0 1 (-1), Vec3i.mk 0 1 1, Vec3i.mk (-1) 1 0, Vec3i.mk 1 (-1) 0, Vec3i.mk 1 1 0, Vec3i.mk 0 0 (-1), Vec3i.mk 0 (-1) 0, Vec3i.mk (-1) 0 0, Vec3i.mk 0 0 1, Vec3i.mk 0 1 0, Vec3i.mk 1 0 0, Vec3i.mk 0 0 0] [Atom.mk (Vec3.mk (50000/200001) (50000/200001) (50000/200001)) "X", Atom.mk (Vec3.mk (50000/66667) (50000/200001) (50000/200001)) "X", Atom.mk (Vec3.mk (50000/200001) (50000/66667) (50000/200001)) "X", Atom.mk (Vec3.mk (50000/200001) (50000/200001) (50000/66667)) "X", Atom.mk (Vec3.mk (50000/66667) (50000/66667) (50000/200001)) "X", Atom.mk (Vec3.mk (50000/200001) (50000/66667) (50000/66667)) "X", Atom.mk (Vec3.mk (50000/66667) (50000/200001) (50000/66667)) "X", Atom.mk (Vec3.mk (50000/66667) (50000/66667) (50000/66667)) "X"],
  GrowState.mk [Vec3i.mk 2 2 2, Vec3i.mk 0 0 2, Vec3i.mk 0 2 0, Vec3i.mk 2 0 0] [Vec3i.mk 2 1 2, Vec3i.mk 2 0 2, Vec3i.mk 1 (-1) 2, Vec3i.mk 2 (-1) 1, Vec3i.mk 1 2 2, Vec3i.mk (-1) 1 2, Vec3i.mk 0 2 2, Vec3i.mk (-1) 2 1, Vec3i.mk 2 2 1, Vec3i.mk 2 1 (-1), Vec3i.mk 1 2 (-1), Vec3i.mk 2 2 0, Vec3i.mk (-1) (-1) 2, Vec3i.mk (-1) (-1) 0, Vec3i.mk 1 1 2, Vec3i.mk (-1) 0 2, Vec3i.mk 1 0 2, Vec3i.mk 0 (-1) 2, Vec3i.mk 0 1 2, Vec3i.mk 0 0 2, Vec3i.mk (-1) 2 (-1), Vec3i.mk (-1) 0 (-1), Vec3i.mk 1 2 1, Vec3i.mk (-1) 1 1, Vec3i.mk 0 2 (-1), Vec3i.mk 0 2 1, Vec3i.mk (-1) 2 0, Vec3i.mk 1 2 0, Vec3i.mk 0 2 0, Vec3i.mk 2 (-1) (-1), Vec3i.mk 0 (-1) (-1), Vec3i.mk 2 1 1, Vec3i.mk 2 0 (-1), Vec3i.mk 2 0 1, Vec3i.mk 1 (-1) 1, Vec3i.mk 1 1 (-1), Vec3i.mk 2 (-1) 0, Vec3i.mk 2 1 0, Vec3i.mk 2 0 0, Vec3i.mk 1 (-1) (-1), Vec3i.mk (-1) 1 (-1), Vec3i.mk (-1) (-1) 1, Vec3i.mk (-1) (-1) (-1), Vec3i.mk 1 1 1, Vec3i.mk (-1) 0 1, Vec3i.mk 1 0 (-1), Vec3i.mk 1 0 1, Vec3i.mk 0 (-1) 1, Vec3i.mk 0 1 (-1), Vec3i.mk 0 1 1, Vec3i.mk (-1) 1 0, Vec3i.mk 1 (-1) 0, Vec3i.mk 1 1 0, Vec3i.mk 0 0 (-1), Vec3i.mk 0 (-1) 0, Vec3i.mk (-1) 0 0, Vec3i.mk 0 0 1, Vec3i.mk 0 1 0, Vec3i.mk 1 0 0, Vec3i.mk 0 0 0] [Atom.mk (Vec3.mk (50000/200001) (50000/200001) (50000/200001)) "X", Atom.mk (Vec3.mk (50000/66667) (50000/200001) (50000/200001)) "X", Atom.mk (Vec3.mk (50000/200001) (50000/66667) (50000/200001)) "X", Atom.mk (Vec3.mk (50000/200001) (50000/200001) (50000/66667)) "X", Atom.mk (Vec3.mk (50000/66667) (50000/66667) (50000/200001)) "X", Atom.mk (Vec3.mk (50000/200001) (50000/66667) (50000/66667)) "X", Atom.mk (Vec3.mk (50000/66667) (50000/200001) (50000/66667)) "X", Atom.mk (Vec3.mk (50000/66667) (50000/66667) (50000/66667)) "X"],
  GrowState.mk [Vec3i.mk 0 0 2, Vec3i.mk 0 2 0, Vec3i.mk 2 0 0] [Vec3i.mk 2 2 2, Vec3i.mk 2 1 2, Vec3i.mk 2 0 2, Vec3i.mk 1 (-1) 2, Vec3i.mk 2 (-1) 1, Vec3i.mk 1 2 2, Vec3i.mk (-1) 1 2, Vec3i.mk 0 2 2, Vec3i.mk (-1) 2 1, Vec3i.mk 2 2 1, Vec3i.mk 2 1 (-1), Vec3i.mk 1 2 (-1), Vec3i.mk 2 2 0, Vec3i.mk (-1) (-1) 2, Vec3i.mk (-1) (-1) 0, Vec3i.mk 1 1 2, Vec3i.mk (-1) 0 2, Vec3i.mk 1 0 2, Vec3i.mk 0 (-1) 2, Vec3i.mk 0 1 2, Vec3i.mk 0 0 2, Vec3i.mk (-1) 2 (-1), Vec3i.mk (-1) 0 (-1), Vec3i.mk 1 2 1, Vec3i.mk (-1) 1 1, Vec3i.mk 0 2 (-1), Vec3i.mk 0 2 1, Vec3i.mk (-1) 2 0, Vec3i.mk 1 2 0, Vec3i.mk 0 2 0, Vec3i.mk 2 (-1) (-1), Vec3i.mk 0 (-1) (-1), Vec3i.mk 2 1 1, Vec3i.mk 2 0 (-1), Vec3i.mk 2 0 1, Vec3i.mk 1 (-1) 1, Vec3i.mk 1 1 (-1), Vec3i.mk 2 (-1) 0, Vec3i.mk 2 1 0, Vec3i.mk 2 0 0, Vec3i.mk 1 (-1) (-1), Vec3i.mk (-1) 1 (-1), Vec3i.mk (-1) (-1) 1, Vec3i.mk (-1) (-1) (-1), Vec3i.mk 1 1 1, Vec3i.mk (-1) 0 1, Vec3i.mk 1 0 (-1), Vec3i.mk 1 0 1, Vec3i.mk 0 (-1) 1, Vec3i.mk 0 1 (-1), Vec3i.mk 0 1 1, Vec3i.mk (-1) 1 0, Vec3i.mk 1 (-1) 0, Vec3i.mk 1 1 0, Vec3i.mk 0 0 (-1), Vec3i.mk 0 (-1) 0, Vec3i.mk (-1) 0 0, Vec3i.mk 0 0 1, Vec3i.mk 0 1 0, Vec3i.mk 1 0 0, Vec3i.mk 0 0 0] [Atom.mk (Vec3.mk (50000/200001) (50000/200001) (50000/200001)) "X", Atom.mk (Vec3.mk (50000/66667) (50000/200001) (50000/200001)) "X", Atom.mk (Vec3.mk (50000/200001) (50000/66667) (50000/200001)) "X", Atom.mk (Vec3.mk (50000/200001) (50000/200001) (50000/66667)) "X", Atom.mk (Vec3.mk (50000/66667) (50000/66667) (50000/200001)) "X", Atom.mk (Vec3.mk (50000/200001) (50000/66667) (50000/66667)) "X", Atom.mk (Vec3.mk (50000/66667) (50000/200001) (50000/66667)) "X", Atom.mk (Vec3.mk (50000/66667) (50000/66667) (50000/66667)) "X"],
  GrowState.mk [Vec3i.mk 0 2 0, Vec3i.mk 2 0 0] [Vec3i.mk 2 2 2, Vec3i.mk 2 1 2, Vec3i.mk 2 0 2, Vec3i.mk 1 (-1) 2, Vec3i.mk 2 (-1) 1, Vec3i.mk 1 2 2, Vec3i.mk (-1) 1 2, Vec3i.mk 0 2 2, Vec3i.mk (-1) 2 1, Vec3i.mk 2 2 1, Vec3i.mk 2 1 (-1), Vec3i.mk 1 2 (-1), Vec3i.mk 2 2 0, Vec3i.mk (-1) (-1) 2, Vec3i.mk (-1) (-1) 0, Vec3i.mk 1 1 2, Vec3i.mk (-1) 0 2, Vec3i.mk 1 0 2, Vec3i.mk 0 (-1) 2, Vec3i.mk 0 1 2, Vec3i.mk 0 0 2, Vec3i.mk (-1) 2 (-1), Vec3i.mk (-1) 0 (-1), Vec3i.mk 1 2 1, Vec3i.mk (-1) 1 1, Vec3i.mk 0 2 (-1), Vec3i.mk 0 2 1, Vec3i.mk (-1) 2 0, Vec3i.mk 1 2 0, Vec3i.mk 0 2 0, Vec3i.mk 2 (-1) (-1), Vec3i.mk 0 (-1) (-1), Vec3i.mk 2 1 1, Vec3i.mk 2 0 (-1), Vec3i.mk 2 0 1, Vec3i.mk 1 (-1) 1, Vec3i.mk 1 1 (-1), Vec3i.mk 2 (-1) 0, Vec3i.mk 2 1 0, Vec3i.mk 2 0 0, Vec3i.mk 1 (-1) (-1), Vec3i.mk (-1) 1 (-1), Vec3i.mk (-1) (-1) 1, Vec3i.mk (-1) (-1) (-1), Vec3i.mk 1 1 1, Vec3i.mk (-1) 0 1, Vec3i.mk 1 0 (-1), Vec3i.mk 1 0 1, Vec3i.mk 0 (-1) 1, Vec3i.mk 0 1 (-1), Vec3i.mk 0 1 1, Vec3i.mk (-1) 1 0, Vec3i.mk 1 (-1) 0, Vec3i.mk 1 1 0, Vec3i.mk 0 0 (-1), Vec3i.mk 0 (-1) 0, Vec3i.mk (-1) 0 0, Vec3i.mk 0 0 1, Vec3i.mk 0 1 0, Vec3i.mk 1 0 0, Vec3i.mk 0 0 0] [Atom.mk (Vec3.mk (50000/200001) (50000/200001) (50000/200001)) "X", Atom.mk (Vec3.mk (50000/66667) (50000/200001) (50000/200001)) "X", Atom.mk (Vec3.mk (50000/200001) (50000/66667) (50000/200001)) "X", Atom.mk (Vec3.mk (50000/200001) (50000/200001) (50000/66667)) "X", Atom.mk (Vec3.mk (50000/66667) (50000/66667) (50000/200001)) "X", Atom.mk (Vec3.mk (50000/200001) (50000/66667) (50000/66667)) "X", Atom.mk (Vec3.mk (50000/66667) (50000/200001) (50000/66667)) "X", Atom.mk (Vec3.mk (50000/66667) (50000/66667) (50000/66667)) "X"],
  GrowState.mk [Vec3i.mk 2 0 0] [Vec3i.mk 2 2 2, Vec3i.mk 2 1 2, Vec3i.mk 2 0 2, Vec3i.mk 1 (-1) 2, Vec3i.mk 2 (-1) 1, Vec3i.mk 1 2 2, Vec3i.mk (-1) 1 2, Vec3i.mk 0 2 2, Vec3i.mk (-1) 2 1, Vec3i.mk 2 2 1, Vec3i.mk 2 1 (-1), Vec3i.mk 1 2 (-1), Vec3i.mk 2 2 0, Vec3i.mk (-1) (-1) 2, Vec3i.mk (-1) (-1) 0, Vec3i.mk 1 1 2, Vec3i.mk (-1) 0 2, Vec3i.mk 1 0 2, Vec3i.mk 0 (-1) 2, Vec3i.mk 0 1 2, Vec3i.mk 0 0 2, Vec3i.mk (-1) 2 (-1), Vec3i.mk (-1) 0 (-1), Vec3i.mk 1 2 1, Vec3i.mk (-1) 1 1, Vec3i.mk 0 2 (-1), Vec3i.mk 0 2 1, Vec3i.mk (-1) 2 0, Vec3i.mk 1 2 0, Vec3i.mk 0 2 0, Vec3i.mk 2 (-1) (-1), Vec3i.mk 0 (-1) (-1), Vec3i.mk 2 1 1, Vec3i.mk 2 0 (-1), Vec3i.mk 2 0 1, Vec3i.mk 1 (-1) 1, Vec3i.mk 1 1 (-1), Vec3i.mk 2 (-1) 0, Vec3i.mk 2 1 0, Vec3i.mk 2 0 0, Vec3i.mk 1 (-1) (-1), Vec3i.mk (-1) 1 (-1), Vec3i.mk (-1) (-1) 1, Vec3i.mk (-1) (-1) (-1), Vec3i.mk 1 1 1, Vec3i.mk (-1) 0 1, Vec3i.mk 1 0 (-1), Vec3i.mk 1 0 1, Vec3i.mk 0 (-1) 1, Vec3i.mk 0 1 (-1), Vec3i.mk 0 1 1, Vec3i.mk (-1) 1 0, Vec3i.mk 1 (-1) 0, Vec3i.mk 1 1 0, Vec3i.mk 0 0 (-1), Vec3i.mk 0 (-1) 0, Vec3i.mk (-1) 0 0, Vec3i.mk 0 0 1, Vec3i.mk 0 1 0, Vec3i.mk 1 0 0, Vec3i.mk 0 0 0] [Atom.mk (Vec3.mk (50000/200001) (50000/200001) (50000/200001)) "X", Atom.mk (Vec3.mk (50000/66667) (50000/200001) (50000/200001)) "X", Atom.mk (Vec3.mk (50000/200001) (50000/66667) (50000/200001)) "X", Atom.mk (Vec3.mk (50000/200001) (50000/200001) (50000/66667)) "X", Atom.mk (Vec3.mk (50000/66667) (50000/66667) (50000/200001)) "X", Atom.mk (Vec3.mk (50000/200001) (50000/66667) (50000/66667)) "X", Atom.mk (Vec3.mk (50000/66667) (50000/200001) (50000/66667)) "X", Atom.mk (Vec3.mk (50000/66667) (50000/66667) (50000/66667)) "X"],
  GrowState.mk [] [Vec3i.mk 2 2 2, Vec3i.mk 2 1 2, Vec3i.mk 2 0 2, Vec3i.mk 1 (-1) 2, Vec3i.mk 2 (-1) 1, Vec3i.mk 1 2 2, Vec3i.mk (-1) 1 2, Vec3i.mk 0 2 2, Vec3i.mk (-1) 2 1, Vec3i.mk 2 2 1, Vec3i.mk 2 1 (-1), Vec3i.mk 1 2 (-1), Vec3i.mk 2 2 0, Vec3i.mk (-1) (-1) 2, Vec3i.mk (-1) (-1) 0, Vec3i.mk 1 1 2, Vec3i.mk (-1) 0 2, Vec3i.mk 1 0 2, Vec3i.mk 0 (-1) 2, Vec3i.mk 0 1 2, Vec3i.mk 0 0 2, Vec3i.mk (-1) 2 (-1), Vec3i.mk (-1) 0 (-1), Vec3i.mk 1 2 1, Vec3i.mk (-1) 1 1, Vec3i.mk 0 2 (-1), Vec3i.mk 0 2 1, Vec3i.mk (-1) 2 0, Vec3i.mk 1 2 0, Vec3i.mk 0 2 0, Vec3i.mk 2 (-1) (-1), Vec3i.mk 0 (-1) (-1), Vec3i.mk 2 1 1, Vec3i.mk 2 0 (-1), Vec3i.mk 2 0 1, Vec3i.mk 1 (-1) 1, Vec3i.mk 1 1 (-1), Vec3i.mk 2 (-1) 0, Vec3i.mk 2 1 0, Vec3i.mk 2 0 0, Vec3i.mk 1 (-1) (-1), Vec3i.mk (-1) 1 (-1), Vec3i.mk (-1) (-1) 1, Vec3i.mk (-1) (-1) (-1), Vec3i.mk 1 1 1, Vec3i.mk (-1) 0 1, Vec3i.mk 1 0 (-1), Vec3i.mk 1 0 1, Vec3i.mk 0 (-1) 1, Vec3i.mk 0 1 (-1), Vec3i.mk 0 1 1, Vec3i.mk (-1) 1 0, Vec3i.mk 1 (-1) 0, Vec3i.mk 1 1 0, Vec3i.mk 0 0 (-1), Vec3i.mk 0 (-1) 0, Vec3i.mk (-1) 0 0, Vec3i.mk 0 0 1, Vec3i.mk 0 1 0, Vec3i.mk 1 0 0, Vec3i.mk 0 0 0] [Atom.mk (Vec3.mk (50000/200001) (50000/200001) (50000/200001)) "X", Atom.mk (Vec3.mk (50000/66667) (50000/200001) (50000/200001)) "X", Atom.mk (Vec3.mk (50000/200001) (50000/66667) (50000/200001)) "X", Atom.mk (Vec3.mk (50000/200001) (50000/200001) (50000/66667)) "X", Atom.mk (Vec3.mk (50000/66667) (50000/66667) (50000/200001)) "X", Atom.mk (Vec3.mk (50000/200001) (50000/66667) (50000/66667)) "X", Atom.mk (Vec3.mk (50000/66667) (50000/200001) (50000/66667)) "X", Atom.mk (Vec3.mk (50000/66667) (50000/66667) (50000/66667)) "X"]
]

/-- The final state of `growTrace8`: queue exhausted, 8 atoms. -/
def growFinal8 : GrowState := GrowState.mk [] [Vec3i.mk 2 2 2, Vec3i.mk 2 1 2, Vec3i.mk 2 0 2, Vec3i.mk 1 (-1) 2, Vec3i.mk 2 (-1) 1, Vec3i.mk 1 2 2, Vec3i.mk (-1) 1 2, Vec3i.mk 0 2 2, Vec3i.mk (-1) 2 1, Vec3i.mk 2 2 1, Vec3i.mk 2 1 (-1), Vec3i.mk 1 2 (-1), Vec3i.mk 2 2 0, Vec3i.mk (-1) (-1) 2, Vec3i.mk (-1) (-1) 0, Vec3i.mk 1 1 2, Vec3i.mk (-1) 0 2, Vec3i.mk 1 0 2, Vec3i.mk 0 (-1) 2, Vec3i.mk 0 1 2, Vec3i.mk 0 0 2, Vec3i.mk (-1) 2 (-1), Vec3i.mk (-1) 0 (-1), Vec3i.mk 1 2 1, Vec3i.mk (-1) 1 1, Vec3i.mk 0 2 (-1), Vec3i.mk 0 2 1, Vec3i.mk (-1) 2 0, Vec3i.mk 1 2 0, Vec3i.mk 0 2 0, Vec3i.mk 2 (-1) (-1), Vec3i.mk 0 (-1) (-1), Vec3i.mk 2 1 1, Vec3i.mk 2 0 (-1), Vec3i.mk 2 0 1, Vec3i.mk 1 (-1) 1, Vec3i.mk 1 1 (-1), Vec3i.mk 2 (-1) 0, Vec3i.mk 2 1 0, Vec3i.mk 2 0 0, Vec3i.mk 1 (-1) (-1), Vec3i.mk (-1) 1 (-1), Vec3i.mk (-1) (-1) 1, Vec3i.mk (-1) (-1) (-1), Vec3i.mk 1 1 1, Vec3i.mk (-1) 0 1, Vec3i.mk 1 0 (-1), Vec3i.mk 1 0 1, Vec3i.mk 0 (-1) 1, Vec3i.mk 0 1 (-1), Vec3i.mk 0 1 1, Vec3i.mk (-1) 1 0, Vec3i.mk 1 (-1) 0, Vec3i.mk 1 1 0, Vec3i.mk 0 0 (-1), Vec3i.mk 0 (-1) 0, Vec3i.mk (-1) 0 0, Vec3i.mk 0 0 1, Vec3i.mk 0 1 0, Vec3i.mk 1 0 0, Vec3i.mk 0 0 0] [Atom.mk (Vec3.mk (50000/200001) (50000/200001) (50000/200001)) "X", Atom.mk (Vec3.mk (50000/66667) (50000/200001) (50000/200001)) "X", Atom.mk (Vec3.mk (50000/200001) (50000/66667) (50000/200001)) "X", Atom.mk (Vec3.mk (50000/200001) (50000/200001) (50000/66667)) "X", Atom.mk (Vec3.mk (50000/66667) (50000/66667) (50000/200001)) "X", Atom.mk (Vec3.mk (50000/200001) (50000/66667) (50000/66667)) "X", Atom.mk (Vec3.mk (50000/66667) (50000/200001) (50000/66667)) "X", Atom.mk (Vec3.mk (50000/66667) (50000/66667) (50000/66667)) "X"]

set_option maxHeartbeats 400000000 in
set_option maxRecDepth 4000000 in
theorem growChain8_ok :
    growChainOk [Atom.mk (Vec3.mk (1/2) (1/2) (1/2)) "X"] mat3Id invLit2 100 (GrowState.mk supercellPos [] []) growTrace8 = true := by
  decide

set_option maxHeartbeats 4000000 in
set_option maxRecDepth 1000000 in
theorem growLoop8_result :
    growLoopF [Atom.mk (Vec3.mk (1/2) (1/2) (1/2)) "X"] mat3Id invLit2 100 2128 (GrowState.mk supercellPos [] []) = some growFinal8 := by
  have h2 := growLoopF_chain_seg [Atom.mk (Vec3.mk (1/2) (1/2) (1/2)) "X"] mat3Id invLit2 100 growTrace8 (GrowState.mk supercellPos [] []) 1986 growChain8_ok
  have hl : growTrace8.getLastD (GrowState.mk supercellPos [] []) = growFinal8 := by decide
  have ha : growTrace8.length + 1986 = 2128 := by decide
  rw [hl, ha] at h2
  rw [h2]
  exact growLoopF_exit [Atom.mk (Vec3.mk (1/2) (1/2) (1/2)) "X"] mat3Id invLit2 100 1986 growFinal8 (by decide)

set_option maxHeartbeats 4000000 in
set_option maxRecDepth 1000000 in
/-- Claim C3 (amended): with its single atom at the interior fractional
position (1/2, 1/2, 1/2), growing the side-1 cube into the side-2 target
with `max_atoms = 100` succeeds with exactly the 8 atoms of the 2×2×2
tiling — one image per integer-offset translation, all positions
distinct. -/
theorem growToSupercell_interior_atom_8 :
    (growToSupercell (unitCubeStruct ⟨1/2, 1/2, 1/2⟩) targetCube2 100).2 = none ∧
      (growToSupercell (unitCubeStruct ⟨1/2, 1/2, 1/2⟩) targetCube2 100).1.direct =
        offsets2x2x2.map (fun p =>
          ⟨vecMulMat (Vec3.add ⟨1/2, 1/2, 1/2⟩ (vecMulMat p.toVec3 mat3Id))
            (Mat3.inv (Mat3.add targetCube2 (Mat3.smul (1/100000) mat3Id))), "X"⟩) ∧
      ((growToSupercell (unitCubeStruct ⟨1/2, 1/2, 1/2⟩) targetCube2 100).1.direct.map
        Atom.position).Nodup := by
  have hfuel : growFuel 100 (GrowState.mk supercellPos [] []) = 2128 := by decide
  have hinv : Mat3.inv (Mat3.add targetCube2 (Mat3.smul (1/100000) mat3Id)) = invLit2 := by
    decide
  refine ⟨?_, ?_, ?_⟩ <;>
  · simp only [growToSupercell, unitCubeStruct, hfuel, hinv]
    rw [growLoop8_result]
    decide

/-- Modelled from the spec: `geometry.cartesian_product(np.array([0., 1.]), 3)`
of §4.1 — the 8 corner direction indicators of the cube, listed in a fixed
enumeration order (`geometry.py` is not among the sources; no claim proved
here depends on which fixed order is used). -/
def cornerDirVecs : List Vec3 :=
  [⟨0, 0, 0⟩, ⟨0, 0, 1⟩, ⟨0, 1, 0⟩, ⟨0, 1, 1⟩, ⟨1, 0, 0⟩, ⟨1, 0, 1⟩, ⟨1, 1, 0⟩, ⟨1, 1, 1⟩]

/-- Corner candidate selection of `remove_collision_at_corners`: every
fractional coordinate strictly within `boundary_radius` of the corner
indicator `dv` (`direct < dv + r` and `direct > dv - r`, componentwise). -/
def inCorner (radius : ℚ) (dv : Vec3) (p : Vec3) : Bool :=
  decide (p.x < dv.x + radius ∧ p.x > dv.x - radius ∧
    p.y < dv.y + radius ∧ p.y > dv.y - radius ∧
    p.z < dv.z + radius ∧ p.z > dv.z - radius)

/-- One corner candidate's safety test: against every previously accepted
corner atom (stored with its own corner indicator), translate the stored
atom to the current corner's periodic image by `(dv − indic) · coordinates`
— the source shifts and immediately unshifts the stored record, which in a
pure embedding is testing against a shifted copy — and require a safe
distance. -/
def cornerQualify (tbl : MinDistTable) (coords : Mat3) (dv : Vec3)
    (acc : List (Atom × Vec3)) (atm : Atom) : Bool :=
  acc.all (fun ci =>
    apartBySafeDistance tbl
      { ci.1 with position := Vec3.add ci.1.position (vecMulMat (Vec3.sub dv ci.2) coords) }
      atm)

/-- The `for atm in candidate_atoms` loop: a qualifying candidate joins the
corner pool together with the current corner indicator; a failing one is
dropped permanently. -/
def cornerAccept (tbl : MinDistTable) (coords : Mat3) (dv : Vec3) :
    List (Atom × Vec3) → List Atom → List (Atom × Vec3)
  | acc, [] => acc
  | acc, atm :: rest =>
    if cornerQualify tbl coords dv acc atm then
      cornerAccept tbl coords dv (acc ++ [(atm, dv)]) rest
    else cornerAccept tbl coords dv acc rest

/-- The `for dv in dir_vecs` loop of `remove_collision_at_corners`: select
the candidates at this corner (mask computed on `direct`, applied to
`cartesian`, embedded by zipping the two collections), remove them from
the structure, run the candidate loop, reconcile from cartesian, and move
on to the next corner. -/
def cornerPass (tbl : MinDistTable) (radius : ℚ) :
    Structure → List (Atom × Vec3) → List Vec3 → Structure × List (Atom × Vec3)
  | s, acc, [] => (s, acc)
  | s, acc, dv :: rest =>
    cornerPass tbl radius
      (reconcileC { s with cartesian :=
        ((s.direct.zip s.cartesian).filter
          (fun pc => ! inCorner radius dv pc.1.position)).map Prod.snd })
      (cornerAccept tbl s.coordinates dv acc
        (((s.direct.zip s.cartesian).filter
          (fun pc => inCorner radius dv pc.1.position)).map Prod.snd))
      rest

/-- `remove_collision_at_corners(struct, boundary_radius, min_dist_dict,
random_delete=False)` from `collision_removal.py`: run the 8 corner passes,
re-insert the accepted corner atoms, reconcile from cartesian, and return
the final structure with the removed-atom count.  The `random_delete`
parameter is accepted but — exactly as in the source body — never read. -/
def removeCollisionAtCorners (s : Structure) (radius : ℚ) (tbl : MinDistTable)
    (randomDelete : Bool) : Structure × ℤ :=
  let res := cornerPass tbl radius s [] cornerDirVecs
  let s2 := reconcileC { res.1 with cartesian := res.1.cartesian ++ res.2.map Prod.fst }
  (s2, (s.cartesian.length : ℤ) - (s2.cartesian.length : ℤ))

/-- Claim C9: `remove_collision_at_corners` is independent of its
`random_delete` argument — the parameter is ignored by the body (the
corner pass never shuffles its candidates), so for every structure,
boundary radius and table the two runs return the same final structure
and the same removed-atom count. -/
theorem removeCollisionAtCorners_ignores_random_delete
    (s : Structure) (radius : ℚ) (tbl : MinDistTable) :
    removeCollisionAtCorners s radius tbl true =
      removeCollisionAtCorners s radius tbl false := rfl
